import Mathlib

/-!
# SDP server (stack/sdp/sdp_server.c): request dispatcher, the three query
handlers and the per-connection continuation state

Shallow embedding of `sdp_server.c`.

* Pointers into the request are byte offsets into a list of bytes; the list
  holds the memory starting at the pointer, including whatever lies behind
  `p_req_end`, so a read behind the end of the request sees that memory.
* Machine integers are `Nat`/`Int` with explicit wrap-around (`UINT16`,
  `INT16`, `UINT8`).
* The build configuration is the one with `SDP_SERVER_ENABLED`,
  `SDP_AVRCP_1_6` and `AVCT_BROWSE_INCLUDED` all `TRUE` (all four
  attribute rewrites are compiled in).
* Constants the file takes from headers are the fields of `Config`;
  functions of other files are either fields of `Env` or are modelled from
  the specification (their doc comment says so).
-/

namespace SdpServer

/-! ## Machine integers and big-endian streams -/

/-- Conversion to `UINT8`. -/
def UINT8 (n : Nat) : Nat := n % 256

/-- Conversion of a C `int` to `UINT16`. -/
def UINT16 (n : Int) : Nat := (n % 65536).toNat

/-- Conversion of a C `int` to `INT16` (two's complement wrap). -/
def INT16 (n : Int) : Int := (n + 32768) % 65536 - 32768

/-- Byte at offset `i` of the memory `p` points to. -/
def rd (p : List Nat) (i : Nat) : Nat := p.getD i 0 % 256

/-- The value read by `BE_STREAM_TO_UINT16` at offset `i`. -/
def BE_STREAM_TO_UINT16 (p : List Nat) (i : Nat) : Nat := rd p i * 256 + rd p (i + 1)

/-- The value read by `BE_STREAM_TO_UINT32` at offset `i`. -/
def BE_STREAM_TO_UINT32 (p : List Nat) (i : Nat) : Nat :=
  ((rd p i * 256 + rd p (i + 1)) * 256 + rd p (i + 2)) * 256 + rd p (i + 3)

/-- The byte written by `UINT8_TO_BE_STREAM`. -/
def UINT8_TO_BE_STREAM (v : Nat) : List Nat := [v % 256]

/-- The two bytes written by `UINT16_TO_BE_STREAM`. -/
def UINT16_TO_BE_STREAM (v : Nat) : List Nat := [v / 256 % 256, v % 256]

/-- The four bytes written by `UINT32_TO_BE_STREAM`. -/
def UINT32_TO_BE_STREAM (v : Nat) : List Nat :=
  [v / 16777216 % 256, v / 65536 % 256, v / 256 % 256, v % 256]

/-! ## Constants and collaborators that are not part of sdp_server.c -/

/-- Error codes passed to `sdpu_build_n_send_error`.
Modelled from the spec: the numeric values are declared in `sdp_api.h`, which
is not part of the sources; the taxonomy of section 7 names them. -/
inductive tSDP_STATUS where
  | SDP_INVALID_SERV_REC_HDL
  | SDP_INVALID_REQ_SYNTAX
  | SDP_INVALID_PDU_SIZE
  | SDP_INVALID_CONT_STATE
  | SDP_NO_RESOURCES
  deriving DecidableEq, Repr

/-- Interoperability workarounds looked up by `interop_match_addr` and friends. -/
inductive interop_feature_t where
  | INTEROP_ADV_AVRCP_VER_1_3
  | INTEROP_ADV_PBAP_VER_1_1
  | INTEROP_HFP_1_7_BLACKLIST
  deriving DecidableEq, Repr

/-- Constants that `sdp_server.c` takes from its headers. -/
structure Config where
  SDP_MAX_RECORDS : Nat
  SDP_MAX_ATTR_LEN : Nat
  SDP_CONTINUATION_LEN : Nat
  SDP_PDU_SERVICE_SEARCH_REQ : Nat
  SDP_PDU_SERVICE_SEARCH_RSP : Nat
  SDP_PDU_SERVICE_ATTR_REQ : Nat
  SDP_PDU_SERVICE_ATTR_RSP : Nat
  SDP_PDU_SERVICE_SEARCH_ATTR_REQ : Nat
  SDP_PDU_SERVICE_SEARCH_ATTR_RSP : Nat
  DATA_ELE_SEQ_DESC_TYPE : Nat
  SIZE_IN_NEXT_BYTE : Nat
  SIZE_IN_NEXT_WORD : Nat
  UINT_DESC_TYPE : Nat
  ATTR_ID_SERVICE_CLASS_ID_LIST : Nat
  ATTR_ID_BT_PROFILE_DESC_LIST : Nat
  ATTR_ID_SUPPORTED_FEATURES : Nat
  ATTR_ID_GOEP_L2CAP_PSM : Nat
  ATTR_ID_PBAP_SUPPORTED_FEATURES : Nat
  ATTR_ID_SUPPORTED_REPOSITORIES : Nat
  UUID_SERVCLASS_AV_REMOTE_CONTROL : Nat
  UUID_SERVCLASS_AV_REM_CTRL_TARGET : Nat
  UUID_SERVCLASS_HF_HANDSFREE : Nat
  UUID_SERVCLASS_PBAP_PSE : Nat
  UUID_SERVCLASS_PHONE_ACCESS : Nat
  AVRC_REV_INVALID : Int
  AVRC_REV_1_4 : Int
  AVRC_REV_1_6 : Int

/-- Maximum number of bytes to reserve out of SDP MTU for response data. -/
def SDP_MAX_SERVICE_RSPHDR_LEN : Nat := 12
def SDP_MAX_SERVATTR_RSPHDR_LEN : Nat := 10
def SDP_MAX_ATTR_RSPHDR_LEN : Nat := 10
def PROFILE_VERSION_POSITION : Nat := 7
def SDP_PROFILE_DESC_LENGTH : Nat := 8
def AVRCP_SUPPORTED_FEATURES_POSITION : Nat := 1
def AVRCP_BROWSE_SUPPORT_BITMASK : Nat := 0x40
def AVRCP_CA_SUPPORT_BITMASK : Nat := 0x01
def PBAP_SKIP_GOEP_L2CAP_PSM_LEN : Nat := 0x06
def PBAP_SKIP_SUPP_FEA_LEN : Nat := 0x08

/-- A Bluetooth device address. -/
abbrev BD_ADDR := List Nat

/-- One attribute of a record; `value_ptr` is the memory the pointer refers to. -/
structure tSDP_ATTRIBUTE where
  len : Nat
  value_ptr : List Nat
  id : Nat
  type : Nat
  deriving DecidableEq, Repr

/-- A service record; `num_attributes` is the length of `attributes`. -/
structure tSDP_RECORD where
  record_handle : Nat
  attributes : List tSDP_ATTRIBUTE
  deriving DecidableEq, Repr

/-- The all-zero attribute slot of a record array. -/
def tSDP_ATTRIBUTE.zero : tSDP_ATTRIBUTE := ⟨0, [], 0, 0⟩

/-- The entry `p_rec->attribute[i]` of the fixed-size attribute array. -/
def tSDP_RECORD.attr (r : tSDP_RECORD) (i : Nat) : tSDP_ATTRIBUTE :=
  r.attributes.getD i tSDP_ATTRIBUTE.zero

/-- One UUID of a UUID sequence. -/
structure tUID_ENT where
  len : Nat
  value : List Nat
  deriving DecidableEq, Repr

/-- The UUID sequence of a request; `num_uids` is the length. -/
abbrev tSDP_UUID_SEQ := List tUID_ENT

/-- One entry of the attribute filter: a range of 16-bit attribute ids. -/
structure tSDP_ATTR_ENTRY where
  start : Nat
  «end» : Nat
  deriving DecidableEq, Repr

/-- The attribute filter of a request; `num_attr` is the length. -/
abbrev tSDP_ATTR_SEQ := List tSDP_ATTR_ENTRY

/-- One entry of the AVRCP peer version file. -/
structure blacklist_entry where
  ver : Int
  addr : List Nat
  deriving DecidableEq, Repr

/-- Functions of other files and of the platform that `sdp_server.c` calls. -/
structure Env where
  /-- Parser of the UUID list: bytes consumed and the sequence, or NULL. -/
  sdpu_extract_uid_seq : List Nat → Nat → Option (Nat × tSDP_UUID_SEQ)
  /-- Parser of the attribute list: bytes consumed and the sequence, or NULL. -/
  sdpu_extract_attr_seq : List Nat → Nat → Option (Nat × tSDP_ATTR_SEQ)
  /-- Whether a record advertises one of the UUIDs of the set. -/
  record_matches : tSDP_RECORD → tSDP_UUID_SEQ → Bool
  /-- The complete wire encoding of one attribute. -/
  sdpu_build_attrib_entry : tSDP_ATTRIBUTE → List Nat
  interop_match_addr : interop_feature_t → BD_ADDR → Bool
  interop_match_name : interop_feature_t → List Nat → Bool
  interop_database_match_addr : interop_feature_t → BD_ADDR → Bool
  /-- The stored name of a remote device, `none` when the lookup fails. -/
  btif_storage_get_remote_device_property : BD_ADDR → Option (List Nat)
  /-- The value of a system property, given its name and default. -/
  property_get : String → String → String
  /-- The entries of `AVRC_PEER_VERSION_CONF_FILE`, `none` when it cannot be opened. -/
  avrc_peer_version_conf : Option (List blacklist_entry)
  SDP_AddAttributetoRecord :
    tSDP_RECORD → Nat → Nat → Nat → List Nat → Bool × tSDP_RECORD
  SDP_DeleteAttributefromRecord : tSDP_RECORD → Nat → Bool × tSDP_RECORD
  SDP_AddProfileDescriptorListtoRecord : tSDP_RECORD → Nat → Nat → Bool × tSDP_RECORD

/-! ## Connection and server state -/

/-- A record pointer: a slot of the record database or the static PBAP copy. -/
inductive RecPtr where
  | db (i : Nat)
  | pbap_temp_sdp_rec
  deriving DecidableEq, Repr

/-- The continuation information of a connection (`tSDP_CONT_INFO`). -/
structure tSDP_CONT_INFO where
  next_attr_index : Nat
  next_attr_start_id : Nat
  prev_sdp_rec : Option RecPtr
  curr_sdp_rec : Option RecPtr
  last_attr_seq_desc_sent : Bool
  attr_offset : Nat
  deriving DecidableEq, Repr

/-- The connection control block (`tCONN_CB`), the fields the server uses.
`rsp_list` holds the bytes written through the scratch pointer so far and
`rsp_list_size` the size it was allocated with. -/
structure tCONN_CB where
  device_address : BD_ADDR
  rem_mtu_size : Nat
  cont_offset : Nat
  list_len : Nat
  cont_info : tSDP_CONT_INFO
  rsp_list : List Nat
  rsp_list_size : Nat
  sdp_conn_timer : Nat
  deriving DecidableEq, Repr

/-- The record database, the two statics of
`sdp_update_pbap_record_if_blacklisted`, and the connection. -/
structure State where
  db : List tSDP_RECORD
  pbap_temp_sdp_rec : tSDP_RECORD
  is_blacklisted_rec_created : Bool
  ccb : tCONN_CB
  deriving DecidableEq, Repr

/-- What a handler hands to the transport. -/
inductive Outcome where
  /-- The call `sdpu_build_n_send_error (p_ccb, trans_num, code, text)`. -/
  | error (trans_num : Nat) (code : tSDP_STATUS)
  /-- The call `L2CA_DataWrite` with the bytes of the response buffer. -/
  | response (p_buf : List Nat)
  deriving DecidableEq, Repr

/-- The record a pointer refers to. -/
def State.deref (st : State) : RecPtr → tSDP_RECORD
  | .db i => st.db.getD i ⟨0, []⟩
  | .pbap_temp_sdp_rec => st.pbap_temp_sdp_rec

/-- Write a record through a pointer. -/
def State.store (st : State) (p : RecPtr) (r : tSDP_RECORD) : State :=
  match p with
  | .db i => { st with db := st.db.set i r }
  | .pbap_temp_sdp_rec => { st with pbap_temp_sdp_rec := r }

/-! ## Record store and attribute codec -/

/-- First index at or after `i` whose record satisfies `m`. -/
def db_search_from (m : tSDP_RECORD → Bool) : List tSDP_RECORD → Nat → Option Nat
  | [], _ => none
  | r :: rs, i => if m r then some i else db_search_from m rs (i + 1)

/-- Modelled from the spec: `sdp_db_service_search` (sdp_db.c) is
`iterate_matching(cursor, uuid_set) -> Option<Record>`, a stateless restart
from a given record reference: the first matching record after the cursor,
in store order, or the first one of the store for a null cursor. -/
def sdp_db_service_search (env : Env) (db : List tSDP_RECORD) (p_rec : Option RecPtr)
    (p_seq : tSDP_UUID_SEQ) : Option Nat :=
  let start := match p_rec with
    | none => 0
    | some (.db i) => i + 1
    | some .pbap_temp_sdp_rec => db.length
  db_search_from (fun r => env.record_matches r p_seq) (db.drop start) start

/-- Modelled from the spec: `sdp_db_find_record` (sdp_db.c) is
`find(handle) -> Option<Record>`: the record of the store with that handle. -/
def sdp_db_find_record (db : List tSDP_RECORD) (handle : Nat) : Option Nat :=
  db_search_from (fun r => decide (r.record_handle = handle)) db 0

/-- First index at or after `i` of an attribute with `start ≤ id ≤ end`. -/
def attr_search_from (start_attr end_attr : Nat) : List tSDP_ATTRIBUTE → Nat → Option Nat
  | [], _ => none
  | a :: as, i =>
    if start_attr ≤ a.id ∧ a.id ≤ end_attr then some i
    else attr_search_from start_attr end_attr as (i + 1)

/-- Modelled from the spec: `sdp_db_find_attr_in_rec` (sdp_db.c) is
`attribute_in_range(record, start_id, end_id) -> Option<Attribute>`: the first
attribute of the record, in its order, whose id lies in the range. The result
is the index of the attribute in the record. -/
def sdp_db_find_attr_in_rec (p_rec : tSDP_RECORD) (start_attr end_attr : Nat) : Option Nat :=
  attr_search_from start_attr end_attr p_rec.attributes 0

/-- Modelled from the spec: `sdpu_get_attrib_entry_len` (sdp_utils.c) is
`encoded_len(attribute) -> u16`, the wire-encoded length of one attribute. -/
def sdpu_get_attrib_entry_len (env : Env) (p_attr : tSDP_ATTRIBUTE) : Nat :=
  UINT16 (env.sdpu_build_attrib_entry p_attr).length

/-- Modelled from the spec: `sdpu_build_partial_attrib_entry` (sdp_utils.c) is
`encode_partial(attribute, budget, &mut offset) -> bytes`: the bytes of the
encoding from `offset` on, at most `len` of them; the offset advances by the
number of bytes produced. Returns the bytes and the new offset. -/
def sdpu_build_partial_attrib_entry (env : Env) (p_attr : tSDP_ATTRIBUTE) (len : Nat)
    (offset : Nat) : List Nat × Nat :=
  let attr_len := sdpu_get_attrib_entry_len env p_attr
  let len_to_copy := min (attr_len - offset) len
  (((env.sdpu_build_attrib_entry p_attr).drop offset).take len_to_copy,
    UINT16 (offset + len_to_copy))

/-- The attributes of a record selected by an attribute filter, entry by entry. -/
def matched_attrs (p_rec : tSDP_RECORD) (attr_seq : tSDP_ATTR_SEQ) : List tSDP_ATTRIBUTE :=
  attr_seq.flatMap fun e =>
    p_rec.attributes.filter fun a => decide (e.start ≤ a.id ∧ a.id ≤ e.end)

/-- Modelled from the spec: `sdpu_get_attrib_seq_len` (sdp_utils.c) is
`sequence_len(record, ranges) -> u16`, the wire-encoded length of the
attribute sequence of a record: the sum of the encoded lengths of the
attributes the ranges select. -/
def sdpu_get_attrib_seq_len (env : Env) (p_rec : tSDP_RECORD) (attr_seq : tSDP_ATTR_SEQ) :
    Nat :=
  UINT16 ((matched_attrs p_rec attr_seq).map (sdpu_get_attrib_entry_len env)).sum

/-- The records of the store that match, from the front. -/
def matching_records (env : Env) (db : List tSDP_RECORD) (uid_seq : tSDP_UUID_SEQ) :
    List tSDP_RECORD :=
  db.filter fun r => env.record_matches r uid_seq

/-- Modelled from the spec: `sdpu_get_list_len` (sdp_utils.c) is the overall
logical response length of a Search-Attribute-Fetch, computed from the
original UUID set and attribute ranges: for every matching record with a
non-empty attribute sequence, its 3-byte sequence header plus that sequence. -/
def sdpu_get_list_len (env : Env) (db : List tSDP_RECORD) (uid_seq : tSDP_UUID_SEQ)
    (attr_seq : tSDP_ATTR_SEQ) : Nat :=
  UINT16 (((matching_records env db uid_seq).map fun r =>
    let len1 := sdpu_get_attrib_seq_len env r attr_seq
    if len1 ≠ 0 then len1 + 3 else 0).sum)

/-! ## Peer-specific attribute rewrites -/

/-- The byte `p_attr->value_ptr[i]`. -/
def tSDP_ATTRIBUTE.rdv (a : tSDP_ATTRIBUTE) (i : Nat) : Nat := a.value_ptr.getD i 0

/-- The assignment `p_attr->value_ptr[i] = v`. -/
def tSDP_ATTRIBUTE.setv (a : tSDP_ATTRIBUTE) (i v : Nat) : tSDP_ATTRIBUTE :=
  { a with value_ptr := a.value_ptr.set i v }

/-- The comparison `strncmp (a, b, n) == 0` of two strings without NUL. -/
def strncmp_eq (a b : String) (n : Nat) : Bool := a.toList.take n == b.toList.take n

/-- Stored AVRCP target version of a peer, from the version file. -/
def sdp_get_stored_avrc_tg_version (cfg : Config) (env : Env) (addr : BD_ADDR) : Int :=
  match env.avrc_peer_version_conf with
  | none => cfg.AVRC_REV_INVALID
  | some entries =>
    match entries.find? (fun data => decide (addr.take 3 = data.addr.take 3)) with
    | some data => data.ver
    | none => cfg.AVRC_REV_INVALID

/-- Whether the remote device is blacklisted for the AVRCP version. -/
def sdp_dev_blacklisted_for_avrcp15 (env : Env) (addr : BD_ADDR) : Bool :=
  if env.interop_match_addr .INTEROP_ADV_AVRCP_VER_1_3 addr then
    match env.btif_storage_get_remote_device_property addr with
    | none => false
    | some name =>
      if name.length ≠ 0 ∧ env.interop_match_name .INTEROP_ADV_AVRCP_VER_1_3 name = true
      then true else false
  else false

/-- Checks if UUID is AV Remote Control, attribute id is Profile descriptor
list and remote BD address matches device blacklist, change Avrcp version to
1.3. Returns the attribute after the call and the BOOLEAN result. -/
def sdp_fallback_avrcp_version (cfg : Config) (env : Env) (p_attr : tSDP_ATTRIBUTE)
    (remote_address : BD_ADDR) : tSDP_ATTRIBUTE × Bool :=
  if p_attr.id = cfg.ATTR_ID_BT_PROFILE_DESC_LIST ∧ p_attr.len ≥ SDP_PROFILE_DESC_LENGTH then
    if ((p_attr.rdv 3 <<< 8) ||| p_attr.rdv 4) = cfg.UUID_SERVCLASS_AV_REMOTE_CONTROL then
      if sdp_dev_blacklisted_for_avrcp15 env remote_address then
        (p_attr.setv PROFILE_VERSION_POSITION 0x03, true)
      else if strncmp_eq "false" (env.property_get "persist.service.bt.a2dp.sink" "false") 5
      then
        let ver := sdp_get_stored_avrc_tg_version cfg env remote_address
        if ver ≠ cfg.AVRC_REV_INVALID then
          (p_attr.setv PROFILE_VERSION_POSITION (ver % 256).toNat,
            decide (ver ≠ cfg.AVRC_REV_1_6))
        else
          (p_attr.setv PROFILE_VERSION_POSITION 0x03, true)
      else (p_attr, false)
    else (p_attr, false)
  else (p_attr, false)

/-- Checks if Service Class ID is AV Remote Control TG, attribute id is
Supported features and remote BD address matches device blacklist, reset
Browsing Bit. -/
def sdp_reset_avrcp_browsing_bit (cfg : Config) (env : Env) (attr p_attr : tSDP_ATTRIBUTE)
    (remote_address : BD_ADDR) : tSDP_ATTRIBUTE × Bool :=
  if p_attr.id = cfg.ATTR_ID_SUPPORTED_FEATURES ∧ attr.id = cfg.ATTR_ID_SERVICE_CLASS_ID_LIST ∧
      ((attr.rdv 1 <<< 8) ||| attr.rdv 2) = cfg.UUID_SERVCLASS_AV_REM_CTRL_TARGET then
    if sdp_dev_blacklisted_for_avrcp15 env remote_address then
      (p_attr.setv AVRCP_SUPPORTED_FEATURES_POSITION
        (p_attr.rdv AVRCP_SUPPORTED_FEATURES_POSITION &&& (255 - AVRCP_BROWSE_SUPPORT_BITMASK)),
        true)
    else
      let ver := sdp_get_stored_avrc_tg_version cfg env remote_address
      if ver < cfg.AVRC_REV_1_4 ∨ ver = cfg.AVRC_REV_INVALID then
        (p_attr.setv AVRCP_SUPPORTED_FEATURES_POSITION
          (p_attr.rdv AVRCP_SUPPORTED_FEATURES_POSITION &&&
            (255 - AVRCP_BROWSE_SUPPORT_BITMASK)), true)
      else (p_attr, false)
  else (p_attr, false)

/-- Checks if UUID is AG_HANDSFREE, attribute id is Profile descriptor list
and remote BD address matches device blacklist, change hfp version to 1.7. -/
def sdp_change_hfp_version (cfg : Config) (env : Env) (p_attr : tSDP_ATTRIBUTE)
    (remote_address : BD_ADDR) : tSDP_ATTRIBUTE × Bool :=
  if p_attr.id = cfg.ATTR_ID_BT_PROFILE_DESC_LIST ∧ p_attr.len ≥ SDP_PROFILE_DESC_LENGTH then
    if ((p_attr.rdv 3 <<< 8) ||| p_attr.rdv 4) = cfg.UUID_SERVCLASS_HF_HANDSFREE then
      let is_blacklisted :=
        env.interop_database_match_addr .INTEROP_HFP_1_7_BLACKLIST remote_address
      let value := env.property_get "bt.pts.certification" "false"
      if is_blacklisted = true ∨ (value.length ≠ 0 ∧ value = "true") then
        (p_attr.setv PROFILE_VERSION_POSITION 0x07, true)
      else (p_attr, false)
    else (p_attr, false)
  else (p_attr, false)

/-- Checks if Service Class ID is AV Remote Control TG, attribute id is
Supported features and remote BD address matches device blacklist, reset
Cover Art Bit. -/
def sdp_reset_avrcp_cover_art_bit (cfg : Config) (env : Env) (attr p_attr : tSDP_ATTRIBUTE)
    (remote_address : BD_ADDR) : tSDP_ATTRIBUTE × Bool :=
  if p_attr.id = cfg.ATTR_ID_SUPPORTED_FEATURES ∧ attr.id = cfg.ATTR_ID_SERVICE_CLASS_ID_LIST ∧
      ((attr.rdv 1 <<< 8) ||| attr.rdv 2) = cfg.UUID_SERVCLASS_AV_REM_CTRL_TARGET then
    let ver := sdp_get_stored_avrc_tg_version cfg env remote_address
    if ver < cfg.AVRC_REV_1_6 ∨ ver = cfg.AVRC_REV_INVALID then
      (p_attr.setv (AVRCP_SUPPORTED_FEATURES_POSITION - 1)
        (p_attr.rdv (AVRCP_SUPPORTED_FEATURES_POSITION - 1) &&&
          (255 - AVRCP_CA_SUPPORT_BITMASK)), true)
    else (p_attr, false)
  else (p_attr, false)

/-- Checks if given PBAP record is for PBAP PSE and blacklisted. -/
def is_pbap_record_blacklisted (cfg : Config) (env : Env) (attr : tSDP_ATTRIBUTE)
    (remote_address : BD_ADDR) : Bool :=
  if attr.id = cfg.ATTR_ID_SERVICE_CLASS_ID_LIST ∧
      ((attr.rdv 1 <<< 8) ||| attr.rdv 2) = cfg.UUID_SERVCLASS_PBAP_PSE then
    let bdname := (env.btif_storage_get_remote_device_property remote_address).getD []
    if env.interop_match_addr .INTEROP_ADV_PBAP_VER_1_1 remote_address = true ∨
        (bdname.length ≠ 0 ∧ env.interop_match_name .INTEROP_ADV_PBAP_VER_1_1 bdname = true)
    then true else false
  else false

/-- Updates pbap record after checking if blacklisted; returns the address of
the updated record. The two statics live in the state. -/
def sdp_update_pbap_record_if_blacklisted (cfg : Config) (env : Env) (st : State)
    (p_rec : RecPtr) (remote_address : BD_ADDR) : State × RecPtr :=
  if is_pbap_record_blacklisted cfg env ((st.deref p_rec).attr 1) remote_address then
    if st.is_blacklisted_rec_created then (st, .pbap_temp_sdp_rec)
    else
      let supported_repositories := 0x03
      let legacy_version := 0x0101
      let t0 : tSDP_RECORD := ⟨0, []⟩
      let t1 := (st.deref p_rec).attributes.foldl
        (fun t p_attr =>
          (env.SDP_AddAttributetoRecord t p_attr.id p_attr.type p_attr.len p_attr.value_ptr).2)
        t0
      let r2 := env.SDP_DeleteAttributefromRecord t1 cfg.ATTR_ID_PBAP_SUPPORTED_FEATURES
      let r3 := env.SDP_DeleteAttributefromRecord r2.2 cfg.ATTR_ID_GOEP_L2CAP_PSM
      let r4 := env.SDP_AddAttributetoRecord r3.2 cfg.ATTR_ID_SUPPORTED_REPOSITORIES
        cfg.UINT_DESC_TYPE 1 [supported_repositories]
      let r5 := env.SDP_AddProfileDescriptorListtoRecord r4.2 cfg.UUID_SERVCLASS_PHONE_ACCESS
        legacy_version
      let status := r2.1 && r3.1 && r4.1 && r5.1
      if !status then ({ st with pbap_temp_sdp_rec := r5.2 }, p_rec)
      else
        ({ st with pbap_temp_sdp_rec := r5.2, is_blacklisted_rec_created := true },
          .pbap_temp_sdp_rec)
  else (st, p_rec)

/-! ## The attribute walk shared by Attribute-Fetch and Search-Attribute-Fetch

The loops at lines 693-802 (`process_service_attr_req`) and 1070-1184
(`process_service_search_attr_req`) are the same code; the second one also
sets the local `maxxed_out` at each `break`, which the first handler does not
have and does not read. -/

/-- The local variables of a handler that the attribute loop reads or writes,
the record `p_rec` points to, and the continuation information. `p_rsp` holds
the bytes of the scratch buffer from `rsp_list[0]` up to the pointer `p_rsp`. -/
structure Walk where
  xx : Nat
  attr_seq : tSDP_ATTR_SEQ
  p_rsp : List Nat
  cont_info : tSDP_CONT_INFO
  p_rec : tSDP_RECORD
  p_attr : Option Nat
  is_avrcp_fallback : Bool
  is_avrcp_browse_bit_reset : Bool
  is_hfp_fallback : Bool
  is_avrcp_ca_bit_reset : Bool
  maxxed_out : Bool
  deriving DecidableEq, Repr

/-- How one pass through the loop body ends. -/
inductive BodyExit where
  /-- The end of the body is reached; the loop goes on with `xx++`. -/
  | next (w : Walk)
  /-- The statement `break`. -/
  | brk (w : Walk)
  /-- The statement `return` after `SDP_NO_RESOURCES` was sent. -/
  | ret (w : Walk)
  deriving DecidableEq, Repr

/-- How the loop ends. -/
inductive WalkExit where
  /-- The loop was left, by its condition or by `break`. -/
  | done (w : Walk)
  /-- The handler returned from inside the loop after sending `SDP_NO_RESOURCES`. -/
  | no_resources (w : Walk)
  deriving DecidableEq, Repr

/-- Apply `f` to the attribute `p_attr` points to. -/
def Walk.update_attr (w : Walk) (f : tSDP_ATTRIBUTE → tSDP_ATTRIBUTE) : Walk :=
  match w.p_attr with
  | none => w
  | some j =>
    { w with p_rec := { w.p_rec with attributes := w.p_rec.attributes.modify f j } }

/-- The four restore blocks `if (is_avrcp_fallback) ... if (is_avrcp_ca_bit_reset) ...`
(lines 765-800, 803-838, 1147-1182, 1185-1220). -/
def restore_attr (w : Walk) : Walk :=
  let w1 := if w.is_avrcp_fallback then
      { w.update_attr fun a => a.setv PROFILE_VERSION_POSITION 0x06 with
        is_avrcp_fallback := false }
    else w
  let w2 := if w1.is_avrcp_browse_bit_reset then
      { w1.update_attr fun a => a.setv AVRCP_SUPPORTED_FEATURES_POSITION
          (a.rdv AVRCP_SUPPORTED_FEATURES_POSITION ||| AVRCP_BROWSE_SUPPORT_BITMASK) with
        is_avrcp_browse_bit_reset := false }
    else w1
  let w3 := if w2.is_hfp_fallback then
      { w2.update_attr fun a => a.setv PROFILE_VERSION_POSITION 0x06 with
        is_hfp_fallback := false }
    else w2
  if w3.is_avrcp_ca_bit_reset then
    { w3.update_attr fun a => a.setv (AVRCP_SUPPORTED_FEATURES_POSITION - 1)
        (a.rdv (AVRCP_SUPPORTED_FEATURES_POSITION - 1) ||| AVRCP_CA_SUPPORT_BITMASK) with
      is_avrcp_ca_bit_reset := false }
  else w3

/-- The four rewrite calls at the head of the loop body (lines 702-712,
1079-1089), applied to the attribute at index `j` of the record. -/
def apply_rewrites (cfg : Config) (env : Env) (remote_address : BD_ADDR) (w : Walk)
    (j : Nat) : Walk :=
  let w0 := { w with p_attr := some j }
  let r1 := sdp_fallback_avrcp_version cfg env (w0.p_rec.attr j) remote_address
  let w1 := { w0.update_attr fun _ => r1.1 with is_avrcp_fallback := r1.2 }
  let r2 := sdp_reset_avrcp_browsing_bit cfg env (w1.p_rec.attr 1) (w1.p_rec.attr j)
    remote_address
  let w2 := { w1.update_attr fun _ => r2.1 with is_avrcp_browse_bit_reset := r2.2 }
  let r3 := sdp_reset_avrcp_cover_art_bit cfg env (w2.p_rec.attr 1) (w2.p_rec.attr j)
    remote_address
  let w3 := { w2.update_attr fun _ => r3.1 with is_avrcp_ca_bit_reset := r3.2 }
  let r4 := sdp_change_hfp_version cfg env (w3.p_rec.attr j) remote_address
  { w3.update_attr fun _ => r4.1 with is_hfp_fallback := r4.2 }

/-- The remaining budget `rem_len = max_list_len - (INT16) (p_rsp - &p_ccb->rsp_list[0])`,
an `INT16`. -/
def rem_len_of (max_list_len : Nat) (p_rsp : List Nat) : Int :=
  INT16 ((max_list_len : Int) - INT16 (p_rsp.length : Int))

/-- The end of the loop body after an attribute was added in full: re-arm a
range, then restore the rewritten bytes (lines 757-800). -/
def body_tail (w : Walk) (id : Nat) : Walk :=
  let e := w.attr_seq.getD w.xx ⟨0, 0⟩
  let w1 := if e.start ≠ e.end then
      { w with
        attr_seq := w.attr_seq.set w.xx { e with start := UINT16 ((id : Int) + 1) }
        xx := UINT16 ((w.xx : Int) - 1) }
    else w
  restore_attr w1

/-- One pass through the body of the attribute loop. -/
def attr_walk_body (cfg : Config) (env : Env) (remote_address : BD_ADDR)
    (max_list_len : Nat) (w : Walk) : BodyExit :=
  let e := w.attr_seq.getD w.xx ⟨0, 0⟩
  match sdp_db_find_attr_in_rec w.p_rec e.start e.end with
  | none => .next w
  | some j =>
    let w1 := apply_rewrites cfg env remote_address w j
    let p_attr := w1.p_rec.attr j
    let rem_len := rem_len_of max_list_len w1.p_rsp
    if rem_len ≤ 0 then
      .brk { w1 with
        cont_info := { w1.cont_info with
          next_attr_index := w1.xx, next_attr_start_id := p_attr.id }
        maxxed_out := true }
    else
      let attr_len := sdpu_get_attrib_entry_len env p_attr
      if w1.cont_info.attr_offset ≠ 0 then
        let r := sdpu_build_partial_attrib_entry env p_attr (UINT16 rem_len)
          w1.cont_info.attr_offset
        let w2 := { w1 with
          p_rsp := w1.p_rsp ++ r.1
          cont_info := { w1.cont_info with attr_offset := r.2 } }
        if r.2 ≠ attr_len then .brk { w2 with maxxed_out := true }
        else
          .next (body_tail { w2 with cont_info := { w2.cont_info with attr_offset := 0 } }
            p_attr.id)
      else if rem_len < (attr_len : Int) then
        if attr_len ≥ cfg.SDP_MAX_ATTR_LEN then .ret w1
        else
          let r := sdpu_build_partial_attrib_entry env p_attr (UINT16 rem_len)
            w1.cont_info.attr_offset
          .brk { w1 with
            p_rsp := w1.p_rsp ++ r.1
            cont_info := { w1.cont_info with
              attr_offset := r.2, next_attr_index := w1.xx, next_attr_start_id := p_attr.id }
            maxxed_out := true }
      else
        .next (body_tail { w1 with p_rsp := w1.p_rsp ++ env.sdpu_build_attrib_entry p_attr }
          p_attr.id)

/-- The loop `for (xx = ...; xx < attr_seq.num_attr; xx++)`; `none` when the
fuel does not suffice. -/
def attr_walk (cfg : Config) (env : Env) (remote_address : BD_ADDR) (max_list_len : Nat) :
    Nat → Walk → Option WalkExit
  | fuel, w =>
    if w.xx < w.attr_seq.length then
      match fuel with
      | 0 => none
      | fuel + 1 =>
        match attr_walk_body cfg env remote_address max_list_len w with
        | .next w1 =>
          attr_walk cfg env remote_address max_list_len fuel
            { w1 with xx := UINT16 ((w1.xx : Int) + 1) }
        | .brk w1 => some (.done w1)
        | .ret w1 => some (.no_resources w1)
    else some (.done w)

/-- The sequence header written into `rsp_list[0..2]` for a first response
(lines 851-866, 1297-1312): the new scratch bytes, `cont_offset`, `list_len`
and `len_to_send`. -/
def put_sequence_header (cfg : Config) (rsp_list : List Nat) (list_len len_to_send : Nat) :
    List Nat × Nat × Nat × Nat :=
  if list_len > 255 then
    (((rsp_list.set 0 (UINT8 ((cfg.DATA_ELE_SEQ_DESC_TYPE <<< 3) ||| cfg.SIZE_IN_NEXT_WORD))).set 1
        (UINT16 (((list_len : Int) - 3) / 256) % 256)).set 2
        (UINT16 (((list_len : Int) - 3)) % 256),
      0, list_len, len_to_send)
  else
    ((rsp_list.set 1 (UINT8 ((cfg.DATA_ELE_SEQ_DESC_TYPE <<< 3) ||| cfg.SIZE_IN_NEXT_BYTE))).set 2
        (UINT16 (((list_len : Int) - 3)) % 256),
      1, UINT16 ((list_len : Int) - 1), UINT16 ((len_to_send : Int) - 1))

/-- The response buffer built at the end of Attribute-Fetch and
Search-Attribute-Fetch (lines 869-909, 1315-1365), given the new value of
`p_ccb->cont_offset` and the final `list_len`. -/
def build_attr_response (cfg : Config) (pdu trans_num : Nat) (rsp_list : List Nat)
    (cont_offset len_to_send new_cont_offset list_len : Nat) : List Nat :=
  let tail := if new_cont_offset < list_len then
      UINT8_TO_BE_STREAM cfg.SDP_CONTINUATION_LEN ++ UINT16_TO_BE_STREAM new_cont_offset
    else UINT8_TO_BE_STREAM 0
  let params := UINT16_TO_BE_STREAM len_to_send ++
    (rsp_list.drop cont_offset).take len_to_send ++ tail
  UINT8_TO_BE_STREAM pdu ++ UINT16_TO_BE_STREAM trans_num ++
    UINT16_TO_BE_STREAM (UINT16 params.length) ++ params

/-! ## process_service_search -/

/-- The loop that fills `rsp_handles` (lines 479-487): at most `max_replies`
handles of matching records, in store order, starting behind `p_rec`. -/
def collect_handles (env : Env) (db : List tSDP_RECORD) (uid_seq : tSDP_UUID_SEQ) :
    Nat → Option RecPtr → List Nat
  | 0, _ => []
  | n + 1, p_rec =>
    match sdp_db_service_search env db p_rec uid_seq with
    | some i => (db.getD i ⟨0, []⟩).record_handle :: collect_handles env db uid_seq n (some (.db i))
    | none => []

/-- The response of `process_service_search` (lines 526-577), once the
request is accepted; `none` when the copy loop over the 16-bit `xx` cannot
end, because its bound `cont_offset + cur_handles` is above 65535. The array
`rsp_handles` is zero-initialised; an entry behind the collected handles
reads as 0. -/
def build_search_response (cfg : Config) (st : State) (trans_num : Nat)
    (rsp_handles : List Nat) (rem_handles cont_offset : Nat) : Option (State × Outcome) :=
  let num_rsp_handles := rsp_handles.length
  let cur_handles0 :=
    UINT16 (Int.tdiv ((st.ccb.rem_mtu_size : Int) - (SDP_MAX_SERVICE_RSPHDR_LEN : Int)) 4)
  let is_cont := decide (¬ rem_handles ≤ cur_handles0)
  let cur_handles := if rem_handles ≤ cur_handles0 then rem_handles else cur_handles0
  let new_cont_offset :=
    if is_cont then UINT16 ((st.ccb.cont_offset : Int) + cur_handles) else st.ccb.cont_offset
  if cur_handles ≠ 0 ∧ cont_offset + cur_handles > 65535 then none
  else
    let window := (List.range cur_handles).map fun k => rsp_handles.getD (cont_offset + k) 0
    let tail := if is_cont then
        UINT8_TO_BE_STREAM cfg.SDP_CONTINUATION_LEN ++ UINT16_TO_BE_STREAM new_cont_offset
      else UINT8_TO_BE_STREAM 0
    let params := UINT16_TO_BE_STREAM num_rsp_handles ++ UINT16_TO_BE_STREAM cur_handles ++
      window.flatMap UINT32_TO_BE_STREAM ++ tail
    some ({ st with ccb := { st.ccb with cont_offset := new_cont_offset } },
      .response (UINT8_TO_BE_STREAM cfg.SDP_PDU_SERVICE_SEARCH_RSP ++
        UINT16_TO_BE_STREAM trans_num ++ UINT16_TO_BE_STREAM (UINT16 params.length) ++ params))

/-- This function handles a service search request from the client. It builds
a reply message with info from the database, and sends the reply back to the
client. -/
def process_service_search (cfg : Config) (env : Env) (st : State) (trans_num param_len : Nat)
    (p_req : List Nat) (p_req_end : Nat) : Option (State × Outcome) :=
  match env.sdpu_extract_uid_seq p_req param_len with
  | none => some (st, .error trans_num .SDP_INVALID_REQ_SYNTAX)
  | some (p1, uid_seq) =>
    if uid_seq.length = 0 then some (st, .error trans_num .SDP_INVALID_REQ_SYNTAX)
    else
      let max_replies0 := BE_STREAM_TO_UINT16 p_req p1
      let p2 := p1 + 2
      let max_replies :=
        if max_replies0 > cfg.SDP_MAX_RECORDS then cfg.SDP_MAX_RECORDS else max_replies0
      if p2 > p_req_end then some (st, .error trans_num .SDP_INVALID_REQ_SYNTAX)
      else
        let rsp_handles := collect_handles env st.db uid_seq max_replies none
        let num_rsp_handles := rsp_handles.length
        if rd p_req p2 ≠ 0 then
          if rd p_req p2 ≠ cfg.SDP_CONTINUATION_LEN ∨ p2 + 1 ≥ p_req_end then
            some (st, .error trans_num .SDP_INVALID_CONT_STATE)
          else
            let cont_offset := BE_STREAM_TO_UINT16 p_req (p2 + 1)
            if cont_offset ≠ st.ccb.cont_offset then
              some (st, .error trans_num .SDP_INVALID_CONT_STATE)
            else if p2 + 3 ≠ p_req_end then
              some (st, .error trans_num .SDP_INVALID_PDU_SIZE)
            else
              build_search_response cfg st trans_num rsp_handles
                (UINT16 ((num_rsp_handles : Int) - cont_offset)) cont_offset
        else
          if p2 + 1 ≠ p_req_end then some (st, .error trans_num .SDP_INVALID_PDU_SIZE)
          else
            build_search_response cfg { st with ccb := { st.ccb with cont_offset := 0 } }
              trans_num rsp_handles num_rsp_handles 0

/-! ## process_service_attr_req -/

/-- The cap of the client maximum at the MTU minus the response overhead
(lines 623-624, 962-963). -/
def cap_max_list_len (max_list_len rem_mtu_size hdr : Nat) : Nat :=
  if (max_list_len : Int) > (rem_mtu_size : Int) - hdr then
    UINT16 ((rem_mtu_size : Int) - hdr)
  else max_list_len

/-- The state after the attribute loop ended: the record is written back
through `p_rec`, and the continuation information and scratch bytes are those
of the loop. -/
def State.after_walk (st : State) (p_rec : RecPtr) (w : Walk) : State :=
  let st1 := st.store p_rec w.p_rec
  { st1 with ccb := { st1.ccb with cont_info := w.cont_info, rsp_list := w.p_rsp } }

/-- The end of `process_service_attr_req` (lines 803-909), after the loop was
left. -/
def finish_attr_req (cfg : Config) (env : Env) (st : State) (trans_num : Nat)
    (p_rec : RecPtr) (attr_seq_sav : tSDP_ATTR_SEQ) (is_cont : Bool) (w0 : Walk) :
    State × Outcome :=
  let w1 := restore_attr w0
  let w := if w1.xx = w1.attr_seq.length then
      { w1 with cont_info := { w1.cont_info with next_attr_index := 0 } }
    else w1
  let st1 := st.after_walk p_rec w
  let len_to_send0 := UINT16 (w.p_rsp.length : Int)
  let hdr :=
    if !is_cont then
      put_sequence_header cfg w.p_rsp
        (UINT16 ((sdpu_get_attrib_seq_len env w.p_rec attr_seq_sav : Int) + 3)) len_to_send0
    else (w.p_rsp, 0, st1.ccb.list_len, len_to_send0)
  let rsp_list := hdr.1
  let cont_offset := hdr.2.1
  let list_len := hdr.2.2.1
  let len_to_send := hdr.2.2.2
  let new_cont_offset := UINT16 ((st1.ccb.cont_offset : Int) + len_to_send)
  ({ st1 with ccb := { st1.ccb with
      rsp_list := rsp_list, list_len := list_len, cont_offset := new_cont_offset } },
    .response (build_attr_response cfg cfg.SDP_PDU_SERVICE_ATTR_RSP trans_num rsp_list
      cont_offset len_to_send new_cont_offset list_len))

/-- The initial loop state of a handler. -/
def Walk.init (st : State) (p_rec : RecPtr) (attr_seq : tSDP_ATTR_SEQ) (p_rsp : List Nat) :
    Walk :=
  { xx := st.ccb.cont_info.next_attr_index, attr_seq := attr_seq, p_rsp := p_rsp,
    cont_info := st.ccb.cont_info, p_rec := st.deref p_rec, p_attr := none,
    is_avrcp_fallback := false, is_avrcp_browse_bit_reset := false,
    is_hfp_fallback := false, is_avrcp_ca_bit_reset := false, maxxed_out := false }

/-- The loop and the end of `process_service_attr_req` (lines 692-909). -/
def run_attr_req (cfg : Config) (env : Env) (fuel : Nat) (st : State) (trans_num : Nat)
    (max_list_len : Nat) (p_rec : RecPtr) (attr_seq attr_seq_sav : tSDP_ATTR_SEQ)
    (is_cont : Bool) (p_rsp : List Nat) : Option (State × Outcome) :=
  match attr_walk cfg env st.ccb.device_address max_list_len fuel
      (Walk.init st p_rec attr_seq p_rsp) with
  | none => none
  | some (.no_resources w) =>
    some (st.after_walk p_rec w, .error trans_num .SDP_NO_RESOURCES)
  | some (.done w) =>
    some (finish_attr_req cfg env st trans_num p_rec attr_seq_sav is_cont w)

/-- The test for a continuation request and the initialisation that follows
(lines 651-690, 979-1019). The result is the error sent, or the state, the
attribute filter to walk, `is_cont` and the initial `p_rsp`. -/
def check_continuation (cfg : Config) (st : State) (p_req : List Nat) (p p_req_end : Nat)
    (attr_seq : tSDP_ATTR_SEQ) (search_attr : Bool) :
    Except tSDP_STATUS (State × tSDP_ATTR_SEQ × Bool × List Nat) :=
  if rd p_req p ≠ 0 then
    if rd p_req p ≠ cfg.SDP_CONTINUATION_LEN then .error .SDP_INVALID_CONT_STATE
    else
      let cont_offset := BE_STREAM_TO_UINT16 p_req (p + 1)
      if cont_offset ≠ st.ccb.cont_offset then .error .SDP_INVALID_CONT_STATE
      else if p + 3 ≠ p_req_end then .error .SDP_INVALID_PDU_SIZE
      else
        let e := attr_seq.getD st.ccb.cont_info.next_attr_index ⟨0, 0⟩
        .ok (st,
          attr_seq.set st.ccb.cont_info.next_attr_index
            { e with start := st.ccb.cont_info.next_attr_start_id },
          true, [])
  else
    if p + 1 ≠ p_req_end then .error .SDP_INVALID_PDU_SIZE
    else
      .ok ({ st with ccb := { st.ccb with
          cont_offset := 0
          cont_info := { st.ccb.cont_info with
            prev_sdp_rec := none, curr_sdp_rec := none, next_attr_index := 0,
            last_attr_seq_desc_sent :=
              if search_attr then false else st.ccb.cont_info.last_attr_seq_desc_sent,
            attr_offset := 0 } } },
        attr_seq, false, [0, 0, 0])

/-- This function handles an attribute request from the client. It builds a
reply message with info from the database, and sends the reply back to the
client. -/
def process_service_attr_req (cfg : Config) (env : Env) (fuel : Nat) (st : State)
    (trans_num param_len : Nat) (p_req : List Nat) (p_req_end : Nat) :
    Option (State × Outcome) :=
  let rec_handle := BE_STREAM_TO_UINT32 p_req 0
  if 4 > p_req_end then some (st, .error trans_num .SDP_INVALID_SERV_REC_HDL)
  else
    let max_list_len := cap_max_list_len (BE_STREAM_TO_UINT16 p_req 4) st.ccb.rem_mtu_size
      SDP_MAX_ATTR_RSPHDR_LEN
    match env.sdpu_extract_attr_seq (p_req.drop 6) param_len with
    | none => some (st, .error trans_num .SDP_INVALID_REQ_SYNTAX)
    | some (n, attr_seq) =>
      let p := 6 + n
      if attr_seq.length = 0 ∨ p > p_req_end then
        some (st, .error trans_num .SDP_INVALID_REQ_SYNTAX)
      else
        let attr_seq_sav := attr_seq
        match sdp_db_find_record st.db rec_handle with
        | none => some (st, .error trans_num .SDP_INVALID_SERV_REC_HDL)
        | some i =>
          let r := sdp_update_pbap_record_if_blacklisted cfg env st (.db i)
            st.ccb.device_address
          let p_rec := r.2
          let st1 := { r.1 with ccb := { r.1.ccb with
            rsp_list := [], rsp_list_size := max_list_len } }
          match check_continuation cfg st1 p_req p p_req_end attr_seq false with
          | .error code => some (st1, .error trans_num code)
          | .ok (st2, attr_seq1, is_cont, p_rsp) =>
            run_attr_req cfg env fuel st2 trans_num max_list_len p_rec attr_seq1 attr_seq_sav
              is_cont p_rsp

/-! ## process_service_search_attr_req -/

/-- The length reduction for a blacklisted PBAP record (lines 1030-1051),
over the entries of `attr_seq_sav` from `next_attr_index` on. -/
def blacklist_skip (cfg : Config) (entries : List tSDP_ATTR_ENTRY) (blacklist_skip_len : Nat) :
    Nat :=
  entries.foldl
    (fun skip e =>
      if e.start = e.end then
        if e.start = cfg.ATTR_ID_GOEP_L2CAP_PSM then
          UINT16 ((skip : Int) + PBAP_SKIP_GOEP_L2CAP_PSM_LEN)
        else if e.start = cfg.ATTR_ID_PBAP_SUPPORTED_FEATURES then
          UINT16 ((skip : Int) + PBAP_SKIP_SUPP_FEA_LEN)
        else skip
      else PBAP_SKIP_GOEP_L2CAP_PSM_LEN + PBAP_SKIP_SUPP_FEA_LEN)
    blacklist_skip_len

/-- The locals of `process_service_search_attr_req` that live across the
record loop, and the state. -/
structure RecLoop where
  st : State
  attr_seq : tSDP_ATTR_SEQ
  p_rsp : List Nat
  blacklist_skip_len : Nat
  deriving DecidableEq, Repr

/-- How the record loop ends. -/
inductive RecLoopExit where
  /-- The loop was left, by its condition or by `break`. -/
  | done (l : RecLoop)
  /-- The handler returned from inside the loop after sending `SDP_NO_RESOURCES`. -/
  | no_resources (st : State)
  deriving DecidableEq, Repr

/-- The sequence header of one record put at `p_seq_start` (lines 1230-1231). -/
def put_record_header (cfg : Config) (p_rsp : List Nat) (p_seq_start seq_len : Nat) :
    List Nat :=
  p_rsp.take p_seq_start ++
    (UINT8_TO_BE_STREAM ((cfg.DATA_ELE_SEQ_DESC_TYPE <<< 3) ||| cfg.SIZE_IN_NEXT_WORD) ++
      UINT16_TO_BE_STREAM seq_len) ++
    p_rsp.drop (p_seq_start + 3)

/-- The head of the body of the record loop (lines 1024-1027): the record
found becomes `curr_sdp_rec`, and `p_rec` is what
`sdp_update_pbap_record_if_blacklisted` returns for it. -/
def enter_record (cfg : Config) (env : Env) (st : State) (i : Nat) : State × RecPtr :=
  let st0 := { st with ccb := { st.ccb with
    cont_info := { st.ccb.cont_info with curr_sdp_rec := some (.db i) } } }
  sdp_update_pbap_record_if_blacklisted cfg env st0 (.db i) st0.ccb.device_address

/-- The record loop (lines 1022-1257), entered with the result `p_rec` of the
last `sdp_db_service_search`; `none` when the fuel does not suffice. -/
def search_attr_records (cfg : Config) (env : Env) (max_list_len : Nat)
    (uid_seq : tSDP_UUID_SEQ) (attr_seq_sav : tSDP_ATTR_SEQ) (walk_fuel : Nat) :
    Nat → RecLoop → Option Nat → Option RecLoopExit
  | _, l, none => some (.done l)
  | 0, _, some _ => none
  | fuel + 1, l, some i =>
    let p_prev_rec := RecPtr.db i
    let r := enter_record cfg env l.st i
    let st1 := r.1
    let p_rec := r.2
    let blacklist_skip_len :=
      if p_rec ≠ p_prev_rec then
        blacklist_skip cfg (attr_seq_sav.drop st1.ccb.cont_info.next_attr_index)
          l.blacklist_skip_len
      else l.blacklist_skip_len
    let p_seq_start := l.p_rsp.length
    if st1.ccb.cont_info.last_attr_seq_desc_sent = false ∧ rem_len_of max_list_len l.p_rsp < 3
    then
      some (.done { l with
        st := { st1 with ccb := { st1.ccb with
          cont_info := { st1.ccb.cont_info with
            next_attr_index := 0
            next_attr_start_id := (l.attr_seq.getD 0 ⟨0, 0⟩).start } } }
        blacklist_skip_len := blacklist_skip_len })
    else
      let p_rsp := if st1.ccb.cont_info.last_attr_seq_desc_sent = false
        then l.p_rsp ++ [0, 0, 0] else l.p_rsp
      match attr_walk cfg env st1.ccb.device_address max_list_len walk_fuel
          (Walk.init st1 p_rec l.attr_seq p_rsp) with
      | none => none
      | some (.no_resources w) => some (.no_resources (st1.after_walk p_rec w))
      | some (.done w0) =>
        let w := restore_attr w0
        let st2 := st1.after_walk p_rec w
        let seq_len := sdpu_get_attrib_seq_len env w.p_rec attr_seq_sav
        let p_rsp1 :=
          if st2.ccb.cont_info.last_attr_seq_desc_sent = false then
            if seq_len ≠ 0 then put_record_header cfg w.p_rsp p_seq_start seq_len
            else w.p_rsp.take p_seq_start
          else w.p_rsp
        let sent :=
          if st2.ccb.cont_info.last_attr_seq_desc_sent = false ∧ seq_len ≠ 0 ∧
              w.maxxed_out = true then true
          else st2.ccb.cont_info.last_attr_seq_desc_sent
        let st3 := { st2 with ccb := { st2.ccb with
          rsp_list := p_rsp1
          cont_info := { st2.ccb.cont_info with last_attr_seq_desc_sent := sent } } }
        if w.maxxed_out then
          some (.done { st := st3, attr_seq := w.attr_seq, p_rsp := p_rsp1,
                        blacklist_skip_len := blacklist_skip_len })
        else
          let st4 := { st3 with ccb := { st3.ccb with
            cont_info := { st3.ccb.cont_info with
              next_attr_index := 0
              prev_sdp_rec := some p_prev_rec
              last_attr_seq_desc_sent := false } } }
          search_attr_records cfg env max_list_len uid_seq attr_seq_sav walk_fuel fuel
            { st := st4, attr_seq := attr_seq_sav, p_rsp := p_rsp1,
              blacklist_skip_len := blacklist_skip_len }
            (sdp_db_service_search env st4.db (some p_prev_rec) uid_seq)

/-- The end of `process_service_search_attr_req` (lines 1259-1365), after the
record loop was left. -/
def finish_search_attr_req (cfg : Config) (env : Env) (trans_num : Nat)
    (uid_seq : tSDP_UUID_SEQ) (attr_seq_sav : tSDP_ATTR_SEQ) (is_cont : Bool) (l : RecLoop) :
    State × Outcome :=
  let st := l.st
  let len_to_send0 := UINT16 (l.p_rsp.length : Int)
  if is_cont = true ∧ len_to_send0 = 0 then
    (st, .error trans_num .SDP_INVALID_CONT_STATE)
  else
    let list_len0 :=
      if !is_cont then UINT16 ((sdpu_get_list_len env st.db uid_seq attr_seq_sav : Int) + 3)
      else st.ccb.list_len
    let reduce1 := decide (!is_cont ∧ l.blacklist_skip_len ≠ 0 ∧ list_len0 > l.blacklist_skip_len)
    let list_len1 := if reduce1 then list_len0 - l.blacklist_skip_len else list_len0
    let skip1 := if reduce1 then 0 else l.blacklist_skip_len
    let hdr :=
      if !is_cont then put_sequence_header cfg l.p_rsp list_len1 len_to_send0
      else (l.p_rsp, 0, list_len1, len_to_send0)
    let rsp_list := hdr.1
    let cont_offset := hdr.2.1
    let list_len2 := hdr.2.2.1
    let len_to_send := hdr.2.2.2
    let new_cont_offset := UINT16 ((st.ccb.cont_offset : Int) + len_to_send)
    let list_len :=
      if skip1 ≠ 0 ∧ list_len2 > skip1 then list_len2 - skip1 else list_len2
    ({ st with ccb := { st.ccb with
        rsp_list := rsp_list, list_len := list_len, cont_offset := new_cont_offset } },
      .response (build_attr_response cfg cfg.SDP_PDU_SERVICE_SEARCH_ATTR_RSP trans_num rsp_list
        cont_offset len_to_send new_cont_offset list_len))

/-- This function handles a combined service search and attribute read
request from the client. It builds a reply message with info from the
database, and sends the reply back to the client. -/
def process_service_search_attr_req (cfg : Config) (env : Env) (fuel : Nat) (st : State)
    (trans_num param_len : Nat) (p_req : List Nat) (p_req_end : Nat) :
    Option (State × Outcome) :=
  match env.sdpu_extract_uid_seq p_req param_len with
  | none => some (st, .error trans_num .SDP_INVALID_REQ_SYNTAX)
  | some (p1, uid_seq) =>
    if uid_seq.length = 0 then some (st, .error trans_num .SDP_INVALID_REQ_SYNTAX)
    else
      let max_list_len := cap_max_list_len (BE_STREAM_TO_UINT16 p_req p1) st.ccb.rem_mtu_size
        SDP_MAX_SERVATTR_RSPHDR_LEN
      match env.sdpu_extract_attr_seq (p_req.drop (p1 + 2)) param_len with
      | none => some (st, .error trans_num .SDP_INVALID_REQ_SYNTAX)
      | some (n, attr_seq) =>
        let p := p1 + 2 + n
        if attr_seq.length = 0 then some (st, .error trans_num .SDP_INVALID_REQ_SYNTAX)
        else
          let attr_seq_sav := attr_seq
          let st1 := { st with ccb := { st.ccb with
            rsp_list := [], rsp_list_size := max_list_len } }
          match check_continuation cfg st1 p_req p p_req_end attr_seq true with
          | .error code => some (st1, .error trans_num code)
          | .ok (st2, attr_seq1, is_cont, p_rsp) =>
            match search_attr_records cfg env max_list_len uid_seq attr_seq_sav fuel fuel
                { st := st2, attr_seq := attr_seq1, p_rsp := p_rsp, blacklist_skip_len := 0 }
                (sdp_db_service_search env st2.db st2.ccb.cont_info.prev_sdp_rec uid_seq) with
            | none => none
            | some (.no_resources st3) => some (st3, .error trans_num .SDP_NO_RESOURCES)
            | some (.done l) =>
              some (finish_search_attr_req cfg env trans_num uid_seq attr_seq_sav is_cont l)

/-! ## sdp_server_handle_client_req -/

/-- A message buffer: `data` is the memory at `(UINT8 *) (p_msg + 1) + p_msg->offset`,
`len` the length field. -/
structure BT_HDR where
  len : Nat
  data : List Nat
  deriving DecidableEq, Repr

/-- What the dispatcher does with a request: the error it sends itself, or the
handler it calls and the arguments `trans_num`, `param_len`, `p_req`,
`p_req_end` (an offset from `p_req`) of the call. -/
inductive Dispatch where
  | send_error (trans_num : Nat) (code : tSDP_STATUS)
  | call_process_service_search (trans_num param_len : Nat) (p_req : List Nat) (p_req_end : Nat)
  | call_process_service_attr_req (trans_num param_len : Nat) (p_req : List Nat)
      (p_req_end : Nat)
  | call_process_service_search_attr_req (trans_num param_len : Nat) (p_req : List Nat)
      (p_req_end : Nat)
  deriving DecidableEq, Repr

/-- The decision of the dispatcher (lines 396-427). -/
def dispatch (cfg : Config) (p_msg : BT_HDR) : Dispatch :=
  let pdu_id := rd p_msg.data 0
  let trans_num := BE_STREAM_TO_UINT16 p_msg.data 1
  let param_len := BE_STREAM_TO_UINT16 p_msg.data 3
  if 5 + param_len ≠ p_msg.len then .send_error trans_num .SDP_INVALID_PDU_SIZE
  else if pdu_id = cfg.SDP_PDU_SERVICE_SEARCH_REQ then
    .call_process_service_search trans_num param_len (p_msg.data.drop 5) (p_msg.len - 5)
  else if pdu_id = cfg.SDP_PDU_SERVICE_ATTR_REQ then
    .call_process_service_attr_req trans_num param_len (p_msg.data.drop 5) (p_msg.len - 5)
  else if pdu_id = cfg.SDP_PDU_SERVICE_SEARCH_ATTR_REQ then
    .call_process_service_search_attr_req trans_num param_len (p_msg.data.drop 5)
      (p_msg.len - 5)
  else .send_error trans_num .SDP_INVALID_REQ_SYNTAX

/-- This is the main dispatcher of the SDP server. It is called when any data
is received from L2CAP, and dispatches the request to the appropriate
handler. -/
def sdp_server_handle_client_req (cfg : Config) (env : Env) (fuel : Nat) (st : State)
    (p_msg : BT_HDR) : Option (State × Outcome) :=
  let st1 := { st with ccb := { st.ccb with sdp_conn_timer := st.ccb.sdp_conn_timer + 1 } }
  match dispatch cfg p_msg with
  | .send_error trans_num code => some (st1, .error trans_num code)
  | .call_process_service_search trans_num param_len p_req p_req_end =>
    process_service_search cfg env st1 trans_num param_len p_req p_req_end
  | .call_process_service_attr_req trans_num param_len p_req p_req_end =>
    process_service_attr_req cfg env fuel st1 trans_num param_len p_req p_req_end
  | .call_process_service_search_attr_req trans_num param_len p_req p_req_end =>
    process_service_search_attr_req cfg env fuel st1 trans_num param_len p_req p_req_end

/-! ## A concrete configuration and environment

The values of the Bluetooth headers, and collaborators that parse the usual
data-element encodings; the examples below are evaluated against them. -/

/-- The constants as the Bluetooth headers define them. -/
def bt_config : Config :=
  { SDP_MAX_RECORDS := 30, SDP_MAX_ATTR_LEN := 400, SDP_CONTINUATION_LEN := 2,
    SDP_PDU_SERVICE_SEARCH_REQ := 2, SDP_PDU_SERVICE_SEARCH_RSP := 3,
    SDP_PDU_SERVICE_ATTR_REQ := 4, SDP_PDU_SERVICE_ATTR_RSP := 5,
    SDP_PDU_SERVICE_SEARCH_ATTR_REQ := 6, SDP_PDU_SERVICE_SEARCH_ATTR_RSP := 7,
    DATA_ELE_SEQ_DESC_TYPE := 6, SIZE_IN_NEXT_BYTE := 5, SIZE_IN_NEXT_WORD := 6,
    UINT_DESC_TYPE := 1,
    ATTR_ID_SERVICE_CLASS_ID_LIST := 0x0001, ATTR_ID_BT_PROFILE_DESC_LIST := 0x0009,
    ATTR_ID_SUPPORTED_FEATURES := 0x0311, ATTR_ID_GOEP_L2CAP_PSM := 0x0200,
    ATTR_ID_PBAP_SUPPORTED_FEATURES := 0x0317, ATTR_ID_SUPPORTED_REPOSITORIES := 0x0314,
    UUID_SERVCLASS_AV_REMOTE_CONTROL := 0x110E, UUID_SERVCLASS_AV_REM_CTRL_TARGET := 0x110C,
    UUID_SERVCLASS_HF_HANDSFREE := 0x111E, UUID_SERVCLASS_PBAP_PSE := 0x112F,
    UUID_SERVCLASS_PHONE_ACCESS := 0x1130,
    AVRC_REV_INVALID := 0x0000, AVRC_REV_1_4 := 0x0104, AVRC_REV_1_6 := 0x0106 }

/-- The 16-bit UUID elements `19 hi lo` of a UUID list. -/
def parse_uuid_elems : List Nat → Option tSDP_UUID_SEQ
  | [] => some []
  | 0x19 :: hi :: lo :: rest => (parse_uuid_elems rest).map fun l => ⟨2, [hi, lo]⟩ :: l
  | _ => none

/-- The elements of an attribute list: `09 hi lo` is one id, `0A sh sl eh el`
a range. -/
def parse_attr_elems : List Nat → Option tSDP_ATTR_SEQ
  | [] => some []
  | 0x09 :: hi :: lo :: rest =>
    (parse_attr_elems rest).map fun l => ⟨hi * 256 + lo, hi * 256 + lo⟩ :: l
  | 0x0A :: sh :: sl :: eh :: el :: rest =>
    (parse_attr_elems rest).map fun l => ⟨sh * 256 + sl, eh * 256 + el⟩ :: l
  | _ => none

/-- A data element sequence `35 len elems` that fits in `param_len` bytes. -/
def parse_sequence {α : Type} (elems : List Nat → Option α) (p : List Nat) (param_len : Nat) :
    Option (Nat × α) :=
  match p with
  | 0x35 :: len :: rest =>
    if 2 + len ≤ param_len ∧ len ≤ rest.length then
      (elems (rest.take len)).map fun l => (2 + len, l)
    else none
  | _ => none

/-- An environment with the usual encodings, a peer `AA:..` that is on the
AVRCP blacklist, and record functions that work on the attribute list. -/
def bt_env : Env :=
  { sdpu_extract_uid_seq := parse_sequence parse_uuid_elems
    sdpu_extract_attr_seq := parse_sequence parse_attr_elems
    record_matches := fun r uids =>
      uids.any fun u => r.attributes.any fun a =>
        decide (a.id = 0x0001) && ((a.value_ptr.drop 1).take 2 == u.value)
    sdpu_build_attrib_entry := fun a =>
      [0x09, a.id / 256 % 256, a.id % 256, ((a.type <<< 3) ||| 5) % 256, a.len % 256] ++
        a.value_ptr
    interop_match_addr := fun _ addr => addr.head? == some 0xAA
    interop_match_name := fun _ _ => true
    interop_database_match_addr := fun _ _ => false
    btif_storage_get_remote_device_property := fun _ => some [0x43, 0x61, 0x72]
    property_get := fun _ d => d
    avrc_peer_version_conf := none
    SDP_AddAttributetoRecord := fun r id type len v =>
      (true, { r with attributes := r.attributes ++ [⟨len, v, id, type⟩] })
    SDP_DeleteAttributefromRecord := fun r id =>
      (r.attributes.any (fun a => a.id == id),
        { r with attributes := r.attributes.filter fun a => a.id != id })
    SDP_AddProfileDescriptorListtoRecord := fun r uuid ver =>
      (true, { r with attributes := r.attributes ++
        [⟨8, [0x35, 6, 0x19, uuid / 256 % 256, uuid % 256, 0x09, ver / 256 % 256, ver % 256],
          0x0009, 6⟩] }) }

/-- An idle connection to the peer `addr` with the given MTU. -/
def idle_ccb (addr : BD_ADDR) (mtu : Nat) : tCONN_CB :=
  { device_address := addr, rem_mtu_size := mtu, cont_offset := 0, list_len := 0,
    cont_info := ⟨0, 0, none, none, false, 0⟩, rsp_list := [], rsp_list_size := 0,
    sdp_conn_timer := 0 }

/-- A server state with the given records and an idle connection. -/
def idle_state (db : List tSDP_RECORD) (addr : BD_ADDR) (mtu : Nat) : State :=
  { db := db, pbap_temp_sdp_rec := ⟨0, []⟩, is_blacklisted_rec_created := false,
    ccb := idle_ccb addr mtu }

/-! ## Example requests and records -/

/-- A record with the handle 0x10000 and three empty attributes with the ids
1, 2 and 0xFFFF. -/
def rec_three : tSDP_RECORD :=
  ⟨0x10000, [⟨0, [], 1, 1⟩, ⟨0, [], 2, 1⟩, ⟨0, [], 0xFFFF, 1⟩]⟩

/-- The parameters of a Search request: the UUID 0x1101, at most `max`
handles, and the continuation bytes `tail`. -/
def search_req (max : Nat) (tail : List Nat) : List Nat :=
  [0x35, 3, 0x19, 0x11, 0x01, max / 256, max % 256] ++ tail

/-- The parameters of an Attribute-Fetch request: the handle `0x100hh`, the
maximum length `max`, the range 0x0000-0xFFFF, and the continuation bytes. -/
def attr_req (hh max : Nat) (tail : List Nat) : List Nat :=
  [0, 1, 0, hh, max / 256, max % 256, 0x35, 5, 0x0A, 0, 0, 0xFF, 0xFF] ++ tail

/-- The parameters of a Search-Attribute-Fetch request: the UUID 0x1101, the
maximum length `max`, the range 0x0000-0xFFFF, and the continuation bytes. -/
def search_attr_req (max : Nat) (tail : List Nat) : List Nat :=
  [0x35, 3, 0x19, 0x11, 0x01, max / 256, max % 256, 0x35, 5, 0x0A, 0, 0, 0xFF, 0xFF] ++ tail

/-- A connection in the middle of a streamed response: 9 bytes of 40 were
delivered. -/
def streaming_state (db : List tSDP_RECORD) : State :=
  { idle_state db [] 672 with
    ccb := { idle_ccb [] 672 with cont_offset := 9, list_len := 40 } }

/-- The state at the head of the attribute loop after `k` complete passes
through its body, if the loop gets that far. -/
def attr_walk_passes (cfg : Config) (env : Env) (remote_address : BD_ADDR) (max_list_len : Nat) :
    Nat → Walk → Option Walk
  | 0, w => some w
  | k + 1, w =>
    if w.xx < w.attr_seq.length then
      match attr_walk_body cfg env remote_address max_list_len w with
      | .next w1 =>
        attr_walk_passes cfg env remote_address max_list_len k
          { w1 with xx := UINT16 ((w1.xx : Int) + 1) }
      | _ => none
    else none

/-- A record whose single attribute 0x0100 has an encoding of 401 bytes. -/
def rec_big : tSDP_RECORD := ⟨0x10000, [⟨396, List.replicate 396 0x41, 0x0100, 4⟩]⟩

/-- An AVRCP record: the record handle, the service class list, and a profile
descriptor list (attribute 0x0009, version byte 0x06 at position 7) whose
encoding has 405 bytes. -/
def rec_avrcp : tSDP_RECORD :=
  ⟨0x10000,
    [⟨4, [0, 1, 0, 0], 0x0000, 1⟩,
     ⟨5, [0x35, 3, 0x19, 0x11, 0x0E], 0x0001, 6⟩,
     ⟨400, [0x35, 6, 0x19, 0x11, 0x0E, 0x09, 0x01, 0x06] ++ List.replicate 392 0, 0x0009, 6⟩]⟩

/-- The address of a peer that `bt_env` has on the AVRCP blacklist. -/
def peer_blacklisted : BD_ADDR := [0xAA, 0x01, 0x02, 0x03, 0x04, 0x05]

/-- The payload a single unbounded Attribute-Fetch frame carries for
`rec_three` and the range 0x0000-0xFFFF: the sequence header and the
encodings of the three attributes, each once. -/
def full_answer_three : List Nat :=
  [0x35, 15] ++ (matched_attrs rec_three [⟨0, 0xFFFF⟩]).flatMap bt_env.sdpu_build_attrib_entry

/-- The state after the first frame of the Attribute-Fetch of `rec_three`
with a budget of 12 bytes: 11 of 17 bytes were delivered and the attribute 2
was cut after 4 bytes. -/
def state_three_frame1 : State :=
  { idle_state [rec_three] [] 672 with
    ccb := { idle_ccb [] 672 with
      cont_offset := 11, list_len := 17,
      cont_info := ⟨0, 2, none, none, false, 4⟩,
      rsp_list := [0, 0x35, 15, 9, 0, 1, 13, 0, 9, 0, 2, 13], rsp_list_size := 12 } }

/-! ## The client side of a Search -/

/-- What a client reads from a Search response frame: the total match count,
the handles of the window, and the offset of the continuation token (`none`
for the zero terminator). -/
structure SearchFrame where
  total : Nat
  handles : List Nat
  cont : Option Nat
  deriving DecidableEq, Repr

/-- Read `n` 32-bit big-endian handles from the front of the bytes; the
handles and the bytes behind them. -/
def take_handles : Nat → List Nat → List Nat × List Nat
  | 0, l => ([], l)
  | n + 1, a :: b :: c :: d :: rest =>
    ((((a * 256 + b) * 256 + c) * 256 + d) :: (take_handles n rest).1, (take_handles n rest).2)
  | _ + 1, l => ([], l)

/-- The client's reading of a Search response frame (envelope of 5 bytes, two
counts, the handles, the continuation marker). -/
def parse_search_response (p_buf : List Nat) : SearchFrame :=
  let r := take_handles (BE_STREAM_TO_UINT16 p_buf 7) (p_buf.drop 9)
  { total := BE_STREAM_TO_UINT16 p_buf 5
    handles := r.1
    cont := if rd r.2 0 = 0 then none else some (BE_STREAM_TO_UINT16 r.2 1) }

/-- A client that sends the Search request `base` (UUID list and maximum
count) with the continuation bytes `tail` and, as long as the frame it gets
ends with a continuation token, repeats the request with that token. The
result is the list of frames up to the one with the zero terminator; `none`
when an error is returned or the fuel is used up. -/
def search_session (cfg : Config) (env : Env) (trans_num : Nat) (base : List Nat) :
    Nat → State → List Nat → Option (List SearchFrame)
  | 0, _, _ => none
  | fuel + 1, st, tail =>
    match process_service_search cfg env st trans_num (base ++ tail).length (base ++ tail)
        (base ++ tail).length with
    | some (st1, .response p_buf) =>
      match (parse_search_response p_buf).cont with
      | none => some [parse_search_response p_buf]
      | some off =>
        (search_session cfg env trans_num base fuel st1
          (UINT8_TO_BE_STREAM cfg.SDP_CONTINUATION_LEN ++ UINT16_TO_BE_STREAM off)).map
          fun frames => parse_search_response p_buf :: frames
    | _ => none

/-- Three records that advertise the service class 0x1101. -/
def db_serial : List tSDP_RECORD :=
  [⟨0x10000, [⟨4, [0, 1, 0, 0], 0x0000, 1⟩, ⟨3, [0x19, 0x11, 0x01], 0x0001, 6⟩]⟩,
   ⟨0x10001, [⟨4, [0, 1, 0, 1], 0x0000, 1⟩, ⟨3, [0x19, 0x11, 0x0E], 0x0001, 6⟩]⟩,
   ⟨0x10002, [⟨4, [0, 1, 0, 2], 0x0000, 1⟩, ⟨3, [0x19, 0x11, 0x01], 0x0001, 6⟩]⟩,
   ⟨0x10003, [⟨4, [0, 1, 0, 3], 0x0000, 1⟩, ⟨3, [0x19, 0x11, 0x01], 0x0001, 6⟩]⟩]

/-! ## Pieces of the handlers named for the statements below -/

/-- The scratch buffer after `osi_free` and `osi_malloc (max_list_len)`
(lines 647-648, 975-976). -/
def State.realloc_rsp_list (st : State) (max_list_len : Nat) : State :=
  { st with ccb := { st.ccb with rsp_list := [], rsp_list_size := max_list_len } }

/-- The record loop and the end of `process_service_search_attr_req`
(lines 1021-1365), entered with the state, the attribute filter, `is_cont`
and `p_rsp` that the continuation test left. -/
def run_search_attr_req (cfg : Config) (env : Env) (fuel : Nat) (st : State) (trans_num : Nat)
    (max_list_len : Nat) (uid_seq : tSDP_UUID_SEQ) (attr_seq attr_seq_sav : tSDP_ATTR_SEQ)
    (is_cont : Bool) (p_rsp : List Nat) : Option (State × Outcome) :=
  match search_attr_records cfg env max_list_len uid_seq attr_seq_sav fuel fuel
      { st := st, attr_seq := attr_seq, p_rsp := p_rsp, blacklist_skip_len := 0 }
      (sdp_db_service_search env st.db st.ccb.cont_info.prev_sdp_rec uid_seq) with
  | none => none
  | some (.no_resources st3) => some (st3, .error trans_num .SDP_NO_RESOURCES)
  | some (.done l) =>
    some (finish_search_attr_req cfg env trans_num uid_seq attr_seq_sav is_cont l)

/-- The continuation state after the reset of a request without continuation
(lines 682-689, 1010-1018); `search_attr` tells whether the handler is
Search-Attribute-Fetch, which also clears `last_attr_seq_desc_sent`. -/
def State.reset_cont (st : State) (search_attr : Bool) : State :=
  { st with ccb := { st.ccb with
      cont_offset := 0
      cont_info := { st.ccb.cont_info with
        prev_sdp_rec := none, curr_sdp_rec := none, next_attr_index := 0,
        last_attr_seq_desc_sent :=
          if search_attr then false else st.ccb.cont_info.last_attr_seq_desc_sent,
        attr_offset := 0 } } }

/-- The state with the scratch buffer replaced: its contents and its size. -/
def State.with_scratch (st : State) (rsp_list : List Nat) (rsp_list_size : Nat) : State :=
  { st with ccb := { st.ccb with rsp_list := rsp_list, rsp_list_size := rsp_list_size } }

/-- The loop state a pass through the body ends with. -/
def BodyExit.walk : BodyExit → Walk
  | .next w => w
  | .brk w => w
  | .ret w => w

/-- The loop state the loop ends with. -/
def WalkExit.walk : WalkExit → Walk
  | .done w => w
  | .no_resources w => w

/-- The state after the first frame of the Search-Attribute-Fetch of the UUID
0x1101 from `db_serial` with a budget of 20 bytes: 19 of 62 bytes were
delivered, the first record is in progress, its sequence header was sent and
its attribute 1 was cut after 5 bytes. -/
def state_serial_frame1 : State :=
  { idle_state db_serial [] 672 with
    ccb := { idle_ccb [] 672 with
      cont_offset := 19, list_len := 62,
      cont_info := ⟨0, 1, none, some (.db 0), true, 5⟩,
      rsp_list := [0, 0x35, 60, 0x36, 0, 17, 9, 0, 0, 13, 4, 0, 1, 0, 0, 9, 0, 1, 0x35, 3],
      rsp_list_size := 20 } }

/-! ## A PBAP record and a store that keeps its attributes in the order of the ids -/

/-- Put an attribute into a record at the place of its id, in place of an
attribute with the same id. -/
def insert_attribute (r : tSDP_RECORD) (a : tSDP_ATTRIBUTE) : tSDP_RECORD :=
  { r with attributes :=
      r.attributes.filter (fun b => decide (b.id < a.id)) ++ [a] ++
        r.attributes.filter (fun b => decide (a.id < b.id)) }

/-- The environment `bt_env` with record functions that keep the attributes of
a record in the order of their ids, one attribute per id, and with the
encoding of an attribute that has no length byte for an unsigned integer of 1,
2 or 4 bytes. -/
def pbap_env : Env :=
  { bt_env with
    sdpu_build_attrib_entry := fun a =>
      [0x09, a.id / 256 % 256, a.id % 256] ++
        (if a.type = 1 ∧ (a.len = 1 ∨ a.len = 2 ∨ a.len = 4) then
          [((a.type <<< 3) ||| (a.len / 2)) % 256]
        else [((a.type <<< 3) ||| 5) % 256, a.len % 256]) ++
        a.value_ptr
    SDP_AddAttributetoRecord := fun r id type len v =>
      (true, insert_attribute r ⟨len, v, id, type⟩)
    SDP_AddProfileDescriptorListtoRecord := fun r uuid ver =>
      (true, insert_attribute r
        ⟨8, [0x35, 6, 0x19, uuid / 256 % 256, uuid % 256, 0x09, ver / 256 % 256, ver % 256],
          0x0009, 6⟩) }

/-- A PBAP server record: the handle, the service class 0x112F, the profile
descriptor list with the version 1.2, the GOEP L2CAP PSM, the supported
repositories and the supported features. -/
def rec_pbap : tSDP_RECORD :=
  ⟨0x10005,
    [⟨4, [0, 1, 0, 5], 0x0000, 1⟩,
     ⟨3, [0x19, 0x11, 0x2F], 0x0001, 6⟩,
     ⟨8, [0x35, 6, 0x19, 0x11, 0x30, 0x09, 0x01, 0x02], 0x0009, 6⟩,
     ⟨2, [0x10, 0x05], 0x0200, 1⟩,
     ⟨1, [0x0F], 0x0314, 1⟩,
     ⟨4, [0, 0, 0, 0x03], 0x0317, 1⟩]⟩

/-- The parameters of a Search-Attribute-Fetch request for the UUID 0x112F:
the maximum length `max`, the range 0x0000-0xFFFF, and the continuation
bytes. -/
def search_attr_req_pbap (max : Nat) (tail : List Nat) : List Nat :=
  [0x35, 3, 0x19, 0x11, 0x2F, max / 256, max % 256, 0x35, 5, 0x0A, 0, 0, 0xFF, 0xFF] ++ tail

/-- The fields of the connection that the record loop and the attribute loop
do not write. -/
def tCONN_CB.outside_loops (c : tCONN_CB) : BD_ADDR × Nat × Nat × Nat × Nat :=
  (c.device_address, c.rem_mtu_size, c.cont_offset, c.list_len, c.sdp_conn_timer)

/-- The state the record loop ends with. -/
def RecLoopExit.state : RecLoopExit → State
  | .done l => l.st
  | .no_resources st => st

/-- The environment `bt_env` without any entry in the interoperability
database of device names: a peer whose address does not start with 0xAA is on
no blacklist. -/
def plain_env : Env := { bt_env with interop_match_name := fun _ _ => false }

/-- The state after the first frame of the Search-Attribute-Fetch of the UUID
0x112F from `rec_pbap` for a peer on the PBAP blacklist, with a budget of 30
bytes: the PBAP rewrite has made its copy of the record, 29 of 39 bytes were
delivered, and the profile descriptor list was cut after 8 bytes. -/
def state_pbap_frame1 : State :=
  { db := [rec_pbap]
    pbap_temp_sdp_rec :=
      ⟨0, [⟨4, [0, 1, 0, 5], 0x0000, 1⟩,
           ⟨3, [0x19, 0x11, 0x2F], 0x0001, 6⟩,
           ⟨8, [0x35, 6, 0x19, 0x11, 0x30, 0x09, 0x01, 0x01], 0x0009, 6⟩,
           ⟨1, [0x03], 0x0314, 1⟩]⟩
    is_blacklisted_rec_created := true
    ccb := { idle_ccb peer_blacklisted 672 with
      cont_offset := 29, list_len := 39,
      cont_info := ⟨0, 9, none, some (.db 0), true, 8⟩,
      rsp_list := [0, 0x35, 37, 0x36, 0, 34, 9, 0, 0, 10, 0, 1, 0, 5, 9, 0, 1, 0x35, 3, 0x19,
        0x11, 0x2F, 9, 0, 9, 0x35, 8, 0x35, 6, 0x19],
      rsp_list_size := 30 } }

/-- The state after the second frame of the Search-Attribute-Fetch of the UUID
0x1101 from `db_serial` with a budget of 20 bytes: 39 of 62 bytes were
delivered, and the third record is in progress. -/
def state_serial_frame2 : State :=
  { idle_state db_serial [] 672 with
    ccb := { idle_ccb [] 672 with
      cont_offset := 39, list_len := 62,
      cont_info := ⟨0, 1, some (.db 0), some (.db 2), true, 5⟩,
      rsp_list := [0x19, 0x11, 0x01, 0x36, 0, 17, 9, 0, 0, 13, 4, 0, 1, 0, 2, 9, 0, 1, 0x35, 3],
      rsp_list_size := 20 } }

/-- What the length computations see of an attribute: its id and the length
of its encoding. -/
def attr_shape (env : Env) (a : tSDP_ATTRIBUTE) : Nat × Nat :=
  (a.id, (env.sdpu_build_attrib_entry a).length)

/-- The environment `bt_env` with every encoding cut at 65535 bytes, the most
that a 16-bit length describes. -/
def capped_env : Env :=
  { bt_env with
    sdpu_build_attrib_entry := fun a => (bt_env.sdpu_build_attrib_entry a).take 65535 }

/-- The end of a response frame of Attribute-Fetch and Search-Attribute-Fetch
(lines 890-898, 1346-1354): the continuation marker and the stored offset when
something is left to send, the zero byte otherwise. -/
def continuation_tail (cfg : Config) (cont_offset list_len : Nat) : List Nat :=
  if cont_offset < list_len then
    UINT8_TO_BE_STREAM cfg.SDP_CONTINUATION_LEN ++ UINT16_TO_BE_STREAM cont_offset
  else UINT8_TO_BE_STREAM 0

/-! ## A client that streams an attribute response -/

/-- A request for one of the two attribute handlers, with the arguments the
dispatcher passes: `search_attr` tells Search-Attribute-Fetch from
Attribute-Fetch. -/
structure AttrRequest where
  search_attr : Bool
  trans_num : Nat
  param_len : Nat
  p_req : List Nat
  p_req_end : Nat
  deriving DecidableEq, Repr

/-- The call of the handler of a request. -/
def AttrRequest.handle (cfg : Config) (env : Env) (fuel : Nat) (st : State) (r : AttrRequest) :
    Option (State × Outcome) :=
  if r.search_attr then
    process_service_search_attr_req cfg env fuel st r.trans_num r.param_len r.p_req r.p_req_end
  else process_service_attr_req cfg env fuel st r.trans_num r.param_len r.p_req r.p_req_end

/-- The byte that the handler tests for a continuation (`*p_req` at lines 651
and 979), the one behind the parsed lists: zero for a request without
continuation. Zero also when the lists do not parse. -/
def AttrRequest.marker (env : Env) (r : AttrRequest) : Nat :=
  if r.search_attr then
    match env.sdpu_extract_uid_seq r.p_req r.param_len with
    | none => 0
    | some (p1, _) =>
      match env.sdpu_extract_attr_seq (r.p_req.drop (p1 + 2)) r.param_len with
      | none => 0
      | some (n, _) => rd r.p_req (p1 + 2 + n)
  else
    match env.sdpu_extract_attr_seq (r.p_req.drop 6) r.param_len with
    | none => 0
    | some (n, _) => rd r.p_req (6 + n)

/-- The requests are sent one after the other, each to the state the one
before left; the result is the last state and the frames received, `none` if
one of the requests is not answered with a frame. -/
def stream_frames (cfg : Config) (env : Env) (fuel : Nat) :
    State → List AttrRequest → Option (State × List (List Nat))
  | st, [] => some (st, [])
  | st, r :: rs =>
    match r.handle cfg env fuel st with
    | some (st1, .response p_buf) =>
      (stream_frames cfg env fuel st1 rs).map fun x => (x.1, p_buf :: x.2)
    | _ => none

/-! ## The example of two records of 60 and 80 bytes -/

/-- A record that matches the UUID 0x1101 and whose attributes have encodings
of 9, 8 and 40 bytes: 60 bytes with its sequence header. -/
def rec_60 : tSDP_RECORD :=
  ⟨0x10000,
    [⟨4, [0, 1, 0, 0], 0x0000, 1⟩,
     ⟨3, [0x19, 0x11, 0x01], 0x0001, 6⟩,
     ⟨35, (List.range 35).map (fun k => 0x41 + k % 26), 0x0100, 4⟩]⟩

/-- A record that matches the UUID 0x1101 and whose attributes have encodings
of 9, 8, 15 and 45 bytes: 80 bytes with its sequence header. -/
def rec_80 : tSDP_RECORD :=
  ⟨0x10001,
    [⟨4, [0, 1, 0, 1], 0x0000, 1⟩,
     ⟨3, [0x19, 0x11, 0x01], 0x0001, 6⟩,
     ⟨10, [0x35, 3, 0x19, 0x01, 0x00, 0x35, 3, 0x19, 0x00, 0x03], 0x0004, 6⟩,
     ⟨40, (List.range 40).map (fun k => 0x61 + k % 26), 0x0100, 4⟩]⟩

/-- A record like `rec_80` with encodings of 9, 8, 7 and 53 bytes. -/
def rec_80b : tSDP_RECORD :=
  ⟨0x10001,
    [⟨4, [0, 1, 0, 1], 0x0000, 1⟩,
     ⟨3, [0x19, 0x11, 0x01], 0x0001, 6⟩,
     ⟨2, [0x01, 0x00], 0x0002, 1⟩,
     ⟨48, (List.range 48).map (fun k => 0x61 + k % 26), 0x0100, 4⟩]⟩

/-- A record of the store that does not match the UUID 0x1101. -/
def rec_other : tSDP_RECORD :=
  ⟨0x10002, [⟨4, [0, 1, 0, 2], 0x0000, 1⟩, ⟨3, [0x19, 0x11, 0x0E], 0x0001, 6⟩]⟩

/-- The full encoding of a record under the range 0x0000-0xFFFF: its sequence
header with the two-byte length, and the encodings of its attributes. -/
def record_encoding (cfg : Config) (env : Env) (r : tSDP_RECORD) : List Nat :=
  UINT8_TO_BE_STREAM ((cfg.DATA_ELE_SEQ_DESC_TYPE <<< 3) ||| cfg.SIZE_IN_NEXT_WORD) ++
    UINT16_TO_BE_STREAM (r.attributes.flatMap env.sdpu_build_attrib_entry).length ++
    r.attributes.flatMap env.sdpu_build_attrib_entry

/-- The store of the example: the records of 60 and of 80 bytes, with a
record between them that does not match. -/
def db_example (r2 : tSDP_RECORD) : List tSDP_RECORD := [rec_60, rec_other, r2]

/-- The connection after the first frame of the example: 89 of the 142
bytes are sent, the first record is done and the second one is cut at the
attribute `next_id`, `offset` bytes into its encoding. -/
def state_example_frame1 (r2 : tSDP_RECORD) (next_id offset : Nat) : State :=
  { idle_state (db_example r2) [] 672 with
    ccb := { idle_ccb [] 672 with
      cont_offset := 89, list_len := 142,
      cont_info := ⟨0, next_id, some (.db 0), some (.db 2), true, offset⟩,
      rsp_list := [0, 0x35, 140] ++ record_encoding bt_config bt_env rec_60 ++
        (record_encoding bt_config bt_env r2).take 27,
      rsp_list_size := 90 } }

/-! ## A walk over a whole record, without rewrites -/

/-- No rewrite applies to the record for the peer with the address `addr`:
the record is not replaced by the PBAP copy, and each of the four calls at
the head of the attribute loop leaves each attribute as it is. -/
def rewrites_idle (cfg : Config) (env : Env) (addr : BD_ADDR) (r : tSDP_RECORD) : Prop :=
  is_pbap_record_blacklisted cfg env (r.attr 1) addr = false ∧
  ∀ a ∈ r.attributes,
    sdp_fallback_avrcp_version cfg env a addr = (a, false) ∧
    sdp_reset_avrcp_browsing_bit cfg env (r.attr 1) a addr = (a, false) ∧
    sdp_reset_avrcp_cover_art_bit cfg env (r.attr 1) a addr = (a, false) ∧
    sdp_change_hfp_version cfg env a addr = (a, false)

/-- The attribute loop stands in a record with the attributes `pre ++ rest`,
with the one range `s`-0xFFFF, the attributes of `pre` being below the range
and those of `rest` in it, in the order of their ids; no rewritten byte is
pending. -/
def Walk.stands_at (w : Walk) (pre rest : List tSDP_ATTRIBUTE) (s : Nat) : Prop :=
  w.xx = 0 ∧ w.attr_seq = [⟨s, 0xFFFF⟩] ∧ w.p_rec.attributes = pre ++ rest ∧
  (∀ a ∈ pre, a.id < s) ∧ (∀ a ∈ rest, s ≤ a.id ∧ a.id < 0xFFFF) ∧
  rest.Pairwise (fun a b => a.id < b.id) ∧
  w.is_avrcp_fallback = false ∧ w.is_avrcp_browse_bit_reset = false ∧
  w.is_hfp_fallback = false ∧ w.is_avrcp_ca_bit_reset = false

/-! ## The PBAP copy across calls -/

/-- A second PBAP server record, with a service name and another PSM. -/
def rec_pbap_b : tSDP_RECORD :=
  ⟨0x10006,
    [⟨4, [0, 1, 0, 6], 0x0000, 1⟩,
     ⟨3, [0x19, 0x11, 0x2F], 0x0001, 6⟩,
     ⟨8, [0x35, 6, 0x19, 0x11, 0x30, 0x09, 0x01, 0x02], 0x0009, 6⟩,
     ⟨3, [0x53, 0x49, 0x4D], 0x0100, 4⟩,
     ⟨2, [0x10, 0x07], 0x0200, 1⟩,
     ⟨1, [0x02], 0x0314, 1⟩,
     ⟨4, [0, 0, 0, 0x03], 0x0317, 1⟩]⟩

/-- The record that the pointer returned by
`sdp_update_pbap_record_if_blacklisted` refers to after the call. -/
def pbap_returned_record (cfg : Config) (env : Env) (st : State) (p_rec : RecPtr)
    (remote_address : BD_ADDR) : tSDP_RECORD :=
  (sdp_update_pbap_record_if_blacklisted cfg env st p_rec remote_address).1.deref
    (sdp_update_pbap_record_if_blacklisted cfg env st p_rec remote_address).2

/-- The copy that the PBAP rewrite makes of `rec_pbap`. -/
def copy_of_rec_pbap : tSDP_RECORD :=
  ⟨0, [⟨4, [0, 1, 0, 5], 0x0000, 1⟩,
       ⟨3, [0x19, 0x11, 0x2F], 0x0001, 6⟩,
       ⟨8, [0x35, 6, 0x19, 0x11, 0x30, 0x09, 0x01, 0x01], 0x0009, 6⟩,
       ⟨1, [0x03], 0x0314, 1⟩]⟩

/-- The copy that the PBAP rewrite makes of `rec_pbap_b`. -/
def copy_of_rec_pbap_b : tSDP_RECORD :=
  ⟨0, [⟨4, [0, 1, 0, 6], 0x0000, 1⟩,
       ⟨3, [0x19, 0x11, 0x2F], 0x0001, 6⟩,
       ⟨8, [0x35, 6, 0x19, 0x11, 0x30, 0x09, 0x01, 0x01], 0x0009, 6⟩,
       ⟨3, [0x53, 0x49, 0x4D], 0x0100, 4⟩,
       ⟨1, [0x03], 0x0314, 1⟩]⟩

/-- The state after `sdp_update_pbap_record_if_blacklisted` was called once,
for `rec_pbap` and a peer on the PBAP blacklist. -/
def state_pbap_copied (db : List tSDP_RECORD) : State :=
  { idle_state db peer_blacklisted 672 with
    pbap_temp_sdp_rec := copy_of_rec_pbap, is_blacklisted_rec_created := true }

/-- A record with the service class 0x1101 whose attribute 0x0100 has an
encoding of 400 bytes, which is `SDP_MAX_ATTR_LEN`. -/
def rec_at_max : tSDP_RECORD :=
  ⟨0x10000, [⟨3, [0x19, 0x11, 0x01], 0x0001, 6⟩, ⟨395, List.replicate 395 0x41, 0x0100, 4⟩]⟩

/-! ## The bytes of a request that the handlers read -/

/-- The offsets from `p_req` of the bytes that `process_service_search` reads
with `BE_STREAM_TO_UINT16` and `*p_req` (lines 465, 490, 492, 498), in the
order of the reads, up to the point where the request is rejected or accepted.
The reads inside `sdpu_extract_uid_seq` are not listed. -/
def process_service_search_reads (cfg : Config) (env : Env) (param_len : Nat)
    (p_req : List Nat) (p_req_end : Nat) : List Nat :=
  match env.sdpu_extract_uid_seq p_req param_len with
  | none => []
  | some (p1, uid_seq) =>
    if uid_seq.length = 0 then []
    else
      let max_replies_reads := [p1, p1 + 1]
      let p2 := p1 + 2
      if p2 > p_req_end then max_replies_reads
      else
        let test_reads := max_replies_reads ++ [p2]
        if rd p_req p2 ≠ 0 then
          let marker_reads := test_reads ++ [p2]
          if rd p_req p2 ≠ cfg.SDP_CONTINUATION_LEN ∨ p2 + 1 ≥ p_req_end then marker_reads
          else marker_reads ++ [p2 + 1, p2 + 2]
        else test_reads

/-- The offsets from `p_req` of the bytes that the continuation test of
Attribute-Fetch and Search-Attribute-Fetch reads (lines 651-657, 979-985),
entered with `p_req` at the offset `p`. -/
def check_continuation_reads (cfg : Config) (p_req : List Nat) (p : Nat) : List Nat :=
  if rd p_req p ≠ 0 then
    if rd p_req p ≠ cfg.SDP_CONTINUATION_LEN then [p, p]
    else [p, p, p + 1, p + 2]
  else [p]

/-- The offsets from `p_req` of the bytes that `process_service_attr_req`
reads with `BE_STREAM_TO_UINT32`, `BE_STREAM_TO_UINT16` and `*p_req` (lines
612, 621, 651-657), in the order of the reads. The reads inside
`sdpu_extract_attr_seq` are not listed. -/
def process_service_attr_req_reads (cfg : Config) (env : Env) (st : State) (param_len : Nat)
    (p_req : List Nat) (p_req_end : Nat) : List Nat :=
  let handle_reads := [0, 1, 2, 3]
  if 4 > p_req_end then handle_reads
  else
    let max_reads := handle_reads ++ [4, 5]
    match env.sdpu_extract_attr_seq (p_req.drop 6) param_len with
    | none => max_reads
    | some (n, attr_seq) =>
      if attr_seq.length = 0 ∨ 6 + n > p_req_end then max_reads
      else
        match sdp_db_find_record st.db (BE_STREAM_TO_UINT32 p_req 0) with
        | none => max_reads
        | some _ => max_reads ++ check_continuation_reads cfg p_req (6 + n)

/-- The offsets from `p_req` of the bytes that
`process_service_search_attr_req` reads with `BE_STREAM_TO_UINT16` and
`*p_req` (lines 960, 979-985), in the order of the reads. The reads inside
`sdpu_extract_uid_seq` and `sdpu_extract_attr_seq` are not listed. -/
def process_service_search_attr_req_reads (cfg : Config) (env : Env) (param_len : Nat)
    (p_req : List Nat) : List Nat :=
  match env.sdpu_extract_uid_seq p_req param_len with
  | none => []
  | some (p1, uid_seq) =>
    if uid_seq.length = 0 then []
    else
      let max_reads := [p1, p1 + 1]
      match env.sdpu_extract_attr_seq (p_req.drop (p1 + 2)) param_len with
      | none => max_reads
      | some (n, attr_seq) =>
        if attr_seq.length = 0 then max_reads
        else max_reads ++ check_continuation_reads cfg p_req (p1 + 2 + n)

/-- A request message with the envelope of `pdu`, the transaction 7 and the
parameters `params`. -/
def request_msg (pdu : Nat) (params : List Nat) : BT_HDR :=
  ⟨5 + params.length,
    [pdu, 0, 7, params.length / 256 % 256, params.length % 256] ++ params⟩

/-- The loop stands at an attribute that was sent in part: `xx` is the index
of an entry, the entry finds an attribute, the partial offset is inside its
encoding, and the resume index and id of the continuation information
designate it. -/
def Walk.resumes_inside (cfg : Config) (env : Env) (remote_address : BD_ADDR) (w : Walk) :
    Prop :=
  w.xx < w.attr_seq.length ∧
  ∃ j, sdp_db_find_attr_in_rec w.p_rec (w.attr_seq.getD w.xx ⟨0, 0⟩).start
      (w.attr_seq.getD w.xx ⟨0, 0⟩).end = some j ∧
    0 < w.cont_info.attr_offset ∧
    w.cont_info.attr_offset <
      sdpu_get_attrib_entry_len env ((apply_rewrites cfg env remote_address w j).p_rec.attr j) ∧
    w.cont_info.next_attr_index = w.xx ∧
    w.cont_info.next_attr_start_id =
      ((apply_rewrites cfg env remote_address w j).p_rec.attr j).id

/-- The state after the first frame of the Attribute-Fetch of `rec_60` with a
budget of 30 bytes: 29 of 59 bytes were delivered and the attribute 0x0100,
of 40 bytes, was cut after 10 bytes. -/
def state_60_frame1 : State :=
  { idle_state [rec_60] [] 672 with
    ccb := { idle_ccb [] 672 with
      cont_offset := 29, list_len := 59,
      cont_info := ⟨0, 0x0100, none, none, false, 10⟩,
      rsp_list := [0, 0x35, 57] ++ ((rec_60.attributes.flatMap
        bt_env.sdpu_build_attrib_entry).take 27),
      rsp_list_size := 30 } }

/-! ## Pieces of the record loop named for the statements below -/

/-- The fields of the continuation information that the attribute loop does
not write: `prev_sdp_rec`, `curr_sdp_rec` and `last_attr_seq_desc_sent`. -/
def tSDP_CONT_INFO.record_part (c : tSDP_CONT_INFO) : Option RecPtr × Option RecPtr × Bool :=
  (c.prev_sdp_rec, c.curr_sdp_rec, c.last_attr_seq_desc_sent)

/-- The locals and the state of the record loop at `if (maxxed_out) break;`
(line 1245), after the attribute loop over the record `i` was left with the
loop state `w0`: the rewrites are restored (lines 1185-1220), and the header
of the record is put or rolled back (lines 1222-1243). -/
def RecLoop.after_record (cfg : Config) (env : Env) (attr_seq_sav : tSDP_ATTR_SEQ)
    (l : RecLoop) (i : Nat) (w0 : Walk) : RecLoop :=
  let p_prev_rec := RecPtr.db i
  let r := enter_record cfg env l.st i
  let st1 := r.1
  let p_rec := r.2
  let blacklist_skip_len :=
    if p_rec ≠ p_prev_rec then
      blacklist_skip cfg (attr_seq_sav.drop st1.ccb.cont_info.next_attr_index)
        l.blacklist_skip_len
    else l.blacklist_skip_len
  let p_seq_start := l.p_rsp.length
  let w := restore_attr w0
  let st2 := st1.after_walk p_rec w
  let seq_len := sdpu_get_attrib_seq_len env w.p_rec attr_seq_sav
  let p_rsp1 :=
    if st2.ccb.cont_info.last_attr_seq_desc_sent = false then
      if seq_len ≠ 0 then put_record_header cfg w.p_rsp p_seq_start seq_len
      else w.p_rsp.take p_seq_start
    else w.p_rsp
  let sent :=
    if st2.ccb.cont_info.last_attr_seq_desc_sent = false ∧ seq_len ≠ 0 ∧
        w.maxxed_out = true then true
    else st2.ccb.cont_info.last_attr_seq_desc_sent
  let st3 := { st2 with ccb := { st2.ccb with
    rsp_list := p_rsp1
    cont_info := { st2.ccb.cont_info with last_attr_seq_desc_sent := sent } } }
  { st := st3, attr_seq := w.attr_seq, p_rsp := p_rsp1,
    blacklist_skip_len := blacklist_skip_len }

/-- The locals and the state of the record loop at the end of its body (lines
1248-1256), for the record `i` of the store: `attr_seq` is restored from
`attr_seq_sav`, the attribute index is reset, and the record of the store
becomes `prev_sdp_rec`. -/
def RecLoop.next_record (attr_seq_sav : tSDP_ATTR_SEQ) (l : RecLoop) (i : Nat) : RecLoop :=
  { st := { l.st with ccb := { l.st.ccb with
      cont_info := { l.st.ccb.cont_info with
        next_attr_index := 0
        prev_sdp_rec := some (RecPtr.db i)
        last_attr_seq_desc_sent := false } } }
    attr_seq := attr_seq_sav, p_rsp := l.p_rsp, blacklist_skip_len := l.blacklist_skip_len }

/-- The locals and the state with which a first frame of the
Search-Attribute-Fetch of the UUID 0x1101 from `db_serial`, with the range
0x0000-0xFFFF and a budget of `max` bytes, enters the record loop. -/
def loop_serial (max : Nat) : RecLoop :=
  ⟨(((idle_state db_serial [] 672).realloc_rsp_list max).reset_cont true), [⟨0, 0xFFFF⟩],
    [0, 0, 0], 0⟩

/-- The state in which the attribute loop over the first record of
`db_serial` is left, when both attributes fit behind the 6 reserved bytes. -/
def walk_serial_0 : Walk :=
  { xx := 1, attr_seq := [⟨2, 0xFFFF⟩],
    p_rsp := [0, 0, 0, 0, 0, 0, 9, 0, 0, 13, 4, 0, 1, 0, 0, 9, 0, 1, 0x35, 3, 0x19, 0x11, 0x01],
    cont_info := ⟨0, 0, none, some (.db 0), false, 0⟩,
    p_rec := ⟨0x10000, [⟨4, [0, 1, 0, 0], 0x0000, 1⟩, ⟨3, [0x19, 0x11, 0x01], 0x0001, 6⟩]⟩,
    p_attr := some 1, is_avrcp_fallback := false, is_avrcp_browse_bit_reset := false,
    is_hfp_fallback := false, is_avrcp_ca_bit_reset := false, maxxed_out := false }

/-- The locals and the state of the record loop of `loop_serial max` when it
comes to the next record behind the first one. -/
def loop_serial_1 (max : Nat) : RecLoop :=
  ((loop_serial max).after_record bt_config bt_env [⟨0, 0xFFFF⟩] 0 walk_serial_0).next_record
    [⟨0, 0xFFFF⟩] 0

/-- The state in which the attribute loop over the record 2 of `db_serial`
is left in the first frame with a budget of 30 bytes: the attribute 0 was cut
after 4 bytes. -/
def walk_serial_2 : Walk :=
  { xx := 0, attr_seq := [⟨0, 0xFFFF⟩],
    p_rsp := [0, 0, 0, 0x36, 0, 17, 9, 0, 0, 13, 4, 0, 1, 0, 0, 9, 0, 1, 0x35, 3, 0x19, 0x11,
      0x01, 0, 0, 0, 9, 0, 0, 13],
    cont_info := ⟨0, 0, some (.db 0), some (.db 2), false, 4⟩,
    p_rec := ⟨0x10002, [⟨4, [0, 1, 0, 2], 0x0000, 1⟩, ⟨3, [0x19, 0x11, 0x01], 0x0001, 6⟩]⟩,
    p_attr := some 0, is_avrcp_fallback := false, is_avrcp_browse_bit_reset := false,
    is_hfp_fallback := false, is_avrcp_ca_bit_reset := false, maxxed_out := true }

/-- The locals and the state with which the continuation frame that follows
`state_serial_frame1`, with a budget of 20 bytes, enters the record loop: the
range is re-armed with the start id 1. -/
def loop_serial_resumed : RecLoop :=
  ⟨state_serial_frame1.realloc_rsp_list 20, [⟨1, 0xFFFF⟩], [], 0⟩

/-- The state in which the attribute loop over the first record of
`db_serial` is left in that continuation frame: the last 3 bytes of the
attribute 1 were appended. -/
def walk_serial_resumed : Walk :=
  { xx := 1, attr_seq := [⟨2, 0xFFFF⟩], p_rsp := [0x19, 0x11, 0x01],
    cont_info := ⟨0, 1, none, some (.db 0), true, 0⟩,
    p_rec := ⟨0x10000, [⟨4, [0, 1, 0, 0], 0x0000, 1⟩, ⟨3, [0x19, 0x11, 0x01], 0x0001, 6⟩]⟩,
    p_attr := some 1, is_avrcp_fallback := false, is_avrcp_browse_bit_reset := false,
    is_hfp_fallback := false, is_avrcp_ca_bit_reset := false, maxxed_out := false }

/-! ## The entries of `rsp_handles` that a Search frame copies -/

/-- The indices `xx` at which the copy loop of `process_service_search`
(line 557) reads `rsp_handles[xx]`, for the `rem_handles` and `cont_offset`
the handler computed. The array has `SDP_MAX_RECORDS` entries. -/
def build_search_response_reads (st : State) (rem_handles cont_offset : Nat) : List Nat :=
  let cur_handles0 :=
    UINT16 (Int.tdiv ((st.ccb.rem_mtu_size : Int) - (SDP_MAX_SERVICE_RSPHDR_LEN : Int)) 4)
  let cur_handles := if rem_handles ≤ cur_handles0 then rem_handles else cur_handles0
  (List.range cur_handles).map fun k => cont_offset + k

/-- The indices at which `process_service_search` reads `rsp_handles` in its
copy loop; empty when the request is answered with an error. -/
def process_service_search_handle_reads (cfg : Config) (env : Env) (st : State)
    (param_len : Nat) (p_req : List Nat) (p_req_end : Nat) : List Nat :=
  match env.sdpu_extract_uid_seq p_req param_len with
  | none => []
  | some (p1, uid_seq) =>
    if uid_seq.length = 0 then []
    else
      let max_replies0 := BE_STREAM_TO_UINT16 p_req p1
      let p2 := p1 + 2
      let max_replies :=
        if max_replies0 > cfg.SDP_MAX_RECORDS then cfg.SDP_MAX_RECORDS else max_replies0
      if p2 > p_req_end then []
      else
        let rsp_handles := collect_handles env st.db uid_seq max_replies none
        let num_rsp_handles := rsp_handles.length
        if rd p_req p2 ≠ 0 then
          if rd p_req p2 ≠ cfg.SDP_CONTINUATION_LEN ∨ p2 + 1 ≥ p_req_end then []
          else
            let cont_offset := BE_STREAM_TO_UINT16 p_req (p2 + 1)
            if cont_offset ≠ st.ccb.cont_offset then []
            else if p2 + 3 ≠ p_req_end then []
            else
              build_search_response_reads st (UINT16 ((num_rsp_handles : Int) - cont_offset))
                cont_offset
        else
          if p2 + 1 ≠ p_req_end then []
          else
            build_search_response_reads { st with ccb := { st.ccb with cont_offset := 0 } }
              num_rsp_handles 0

/-- A client that repeats the Search request `base` `n` times, each time with
the continuation token for the offset the server has stored; the result is the
state after the last frame, `none` when a request is not answered with a
frame. -/
def search_replays (cfg : Config) (env : Env) (trans_num : Nat) (base : List Nat) :
    Nat → State → Option State
  | 0, st => some st
  | n + 1, st =>
    match process_service_search cfg env st trans_num (base.length + 3)
        (base ++ UINT8_TO_BE_STREAM cfg.SDP_CONTINUATION_LEN ++
          UINT16_TO_BE_STREAM st.ccb.cont_offset) (base.length + 3) with
    | some (st1, .response _) => search_replays cfg env trans_num base n st1
    | _ => none

/-- The connection of `idle_state db_serial [] 20` after the first frame of a
Search for the UUID 0x1101: two of three handles were sent. The store is
`db`. -/
def state_search_frame1 (db : List tSDP_RECORD) : State :=
  { idle_state db [] 20 with ccb := { idle_ccb [] 20 with cont_offset := 2 } }

/-! ## The bytes of a message that the dispatcher reads -/

/-- The offsets from `p_req` at which `sdp_server_handle_client_req` reads
the message (lines 396-400): the pdu type, the transaction number and the
parameter length. The reads come before the only test of the length (line
402) and do not depend on `p_msg->len`. -/
def sdp_server_handle_client_req_reads (_p_msg : BT_HDR) : List Nat := [0, 1, 2, 3, 4]

/-! ## States and requests of the examples for continuations -/

/-- A record with the handle 0x10000 and the single attribute 1: `rec_three`
after its attributes 2 and 0xFFFF were deleted. -/
def rec_one : tSDP_RECORD := ⟨0x10000, [⟨0, [], 1, 1⟩]⟩

/-- The state after the first frame of the Attribute-Fetch of `rec_three`
with a maximum length of 40000 bytes on a connection with the MTU 65535: the
2 bytes of the sequence header were delivered. -/
def state_wide_frame1 : State :=
  { idle_state [rec_three] [] 65535 with
    ccb := { idle_ccb [] 65535 with
      cont_offset := 2, list_len := 17,
      cont_info := ⟨0, 1, none, none, false, 0⟩,
      rsp_list := [0, 0x35, 15], rsp_list_size := 40000 } }

/-- Whether the handler sent a response frame. -/
def Outcome.is_response : Outcome → Bool
  | .response _ => true
  | .error _ _ => false

/-- The parameters of a Search-Attribute-Fetch request for the UUID 0x112F
with the maximum length 600, the elements `attrs` (8 bytes) of the attribute
list, and the continuation bytes. -/
def search_attr_req_pbap_list (attrs : List Nat) (tail : List Nat) : List Nat :=
  [0x35, 3, 0x19, 0x11, 0x2F, 2, 88, 0x35, 8] ++ attrs ++ tail

/-- An AVRCP target record: the record handle, the service class list with the
UUID 0x110C, and the supported features 0x0141 (attribute 0x0311), cover-art
bit in byte 0 and browsing bit in byte 1. -/
def rec_avrcp_target : tSDP_RECORD :=
  ⟨0x10001,
    [⟨4, [0, 1, 0, 1], 0x0000, 1⟩,
     ⟨3, [0x19, 0x11, 0x0C], 0x0001, 6⟩,
     ⟨2, [0x01, 0x41], 0x0311, 1⟩]⟩

/-- The loop state of a handler that starts on the record `r` for a peer with
the address `addr`. -/
def walk_on (r : tSDP_RECORD) (addr : BD_ADDR) : Walk :=
  Walk.init (idle_state [r] addr 672) (.db 0) [⟨0, 0xFFFF⟩] [0, 0, 0]

/-! ## Continuation requests that differ from the request they continue -/

/-- A record with the handle 0x10001 whose attribute 0x0100 has an encoding of
6 bytes. -/
def rec_brief : tSDP_RECORD :=
  ⟨0x10001, [⟨4, [0, 1, 0, 1], 0x0000, 1⟩, ⟨1, [0x07], 0x0100, 1⟩]⟩

/-- The state `state_60_frame1` with the record `rec_brief` in the store behind
`rec_60`: the first frame of the Attribute-Fetch of `rec_60` was sent, and the
attribute 0x0100 of `rec_60` was cut after 10 of 40 bytes. -/
def state_60_brief_frame1 : State :=
  { state_60_frame1 with db := [rec_60, rec_brief] }

/-- The parameters of a Search-Attribute-Fetch request: the UUID 0x1101, the
maximum length `max`, the attribute list of the single id 0x0000 and the range
0x0000-0xFFFF, and the continuation bytes. -/
def search_attr_req_two (max : Nat) (tail : List Nat) : List Nat :=
  [0x35, 3, 0x19, 0x11, 0x01, max / 256, max % 256,
    0x35, 8, 0x09, 0, 0, 0x0A, 0, 0, 0xFF, 0xFF] ++ tail

/-- The state after the first frame of the Search-Attribute-Fetch of the UUID
0x112F from `rec_pbap` for a peer on the PBAP blacklist, with a budget of 15
bytes: the PBAP rewrite has made its copy of the record, 14 of 39 bytes were
delivered, and the attribute 1 was cut after 1 byte. -/
def state_pbap_15_frame1 : State :=
  { state_pbap_frame1 with
    ccb := { idle_ccb peer_blacklisted 672 with
      cont_offset := 14, list_len := 39,
      cont_info := ⟨0, 1, none, some (.db 0), true, 1⟩,
      rsp_list := [0, 0x35, 37, 0x36, 0, 34, 9, 0, 0, 10, 0, 1, 0, 5, 9],
      rsp_list_size := 15 } }

/-! ## Basic facts -/

theorem db_search_from_eq_none (m : tSDP_RECORD → Bool) (l : List tSDP_RECORD) (i : Nat)
    (h : ∀ r ∈ l, m r = false) : db_search_from m l i = none := by
  induction l generalizing i with
  | nil => rfl
  | cons r rs ih =>
    simp only [db_search_from]
    rw [h r (List.mem_cons_self _ _)]
    simp only [Bool.false_eq_true, ↓reduceIte]
    exact ih _ (fun r1 hr1 => h r1 (List.mem_cons_of_mem _ hr1))

theorem sdp_db_find_record_eq_none (db : List tSDP_RECORD) (handle : Nat)
    (h : ∀ r ∈ db, r.record_handle ≠ handle) : sdp_db_find_record db handle = none := by
  unfold sdp_db_find_record
  apply db_search_from_eq_none
  intro r hr
  simpa using h r hr

/-! ## The dispatcher -/

/-- C7: a request buffer of at least 5 bytes whose parameter-length field
(bytes 3..4, big-endian) differs from the buffer length minus 5 is answered by
the dispatcher itself with `SDP_INVALID_PDU_SIZE`, carrying the transaction id
of bytes 1..2; no handler is called, whatever the kind byte, and only the
inactivity timer of the connection changes. -/
theorem C7_bad_envelope (cfg : Config) (env : Env) (fuel : Nat) (st : State)
    (p_msg : BT_HDR) (hlen : 5 ≤ p_msg.len)
    (hbad : BE_STREAM_TO_UINT16 p_msg.data 3 ≠ p_msg.len - 5) :
    dispatch cfg p_msg =
        .send_error (BE_STREAM_TO_UINT16 p_msg.data 1) .SDP_INVALID_PDU_SIZE ∧
      sdp_server_handle_client_req cfg env fuel st p_msg =
        some ({ st with ccb := { st.ccb with sdp_conn_timer := st.ccb.sdp_conn_timer + 1 } },
          .error (BE_STREAM_TO_UINT16 p_msg.data 1) .SDP_INVALID_PDU_SIZE) := by
  have h : 5 + BE_STREAM_TO_UINT16 p_msg.data 3 ≠ p_msg.len := by omega
  have hd : dispatch cfg p_msg =
      .send_error (BE_STREAM_TO_UINT16 p_msg.data 1) .SDP_INVALID_PDU_SIZE := by
    simp only [dispatch, h, ne_eq, not_false_eq_true, ↓reduceIte]
  refine ⟨hd, ?_⟩
  simp only [sdp_server_handle_client_req, hd]

/-- C7, at a Search request of 6 bytes that announces 9 parameter bytes. -/
theorem C7_bad_envelope_witness :
    dispatch bt_config ⟨6, [2, 0, 7, 0, 9, 0]⟩ = .send_error 7 .SDP_INVALID_PDU_SIZE :=
  (C7_bad_envelope bt_config bt_env 0 (idle_state [] [] 672) ⟨6, [2, 0, 7, 0, 9, 0]⟩
    (by decide) (by decide)).1

/-- C8: for a request with a valid envelope (the parameter length equals the
bytes present) the dispatcher calls exactly the handler of the kind byte, with
the decoded transaction id, the parameter length and the parameter bytes, and
the result of the request is the result of that handler; for every other kind
byte it calls no handler and sends one error, `SDP_INVALID_REQ_SYNTAX`. The
three request kinds are distinct constants. -/
theorem C8_dispatch_routes (cfg : Config) (env : Env) (fuel : Nat) (st : State)
    (p_msg : BT_HDR)
    (henv : 5 + BE_STREAM_TO_UINT16 p_msg.data 3 = p_msg.len)
    (h12 : cfg.SDP_PDU_SERVICE_SEARCH_REQ ≠ cfg.SDP_PDU_SERVICE_ATTR_REQ)
    (h13 : cfg.SDP_PDU_SERVICE_SEARCH_REQ ≠ cfg.SDP_PDU_SERVICE_SEARCH_ATTR_REQ)
    (h23 : cfg.SDP_PDU_SERVICE_ATTR_REQ ≠ cfg.SDP_PDU_SERVICE_SEARCH_ATTR_REQ) :
    (rd p_msg.data 0 = cfg.SDP_PDU_SERVICE_SEARCH_REQ →
      dispatch cfg p_msg = .call_process_service_search (BE_STREAM_TO_UINT16 p_msg.data 1)
          (BE_STREAM_TO_UINT16 p_msg.data 3) (p_msg.data.drop 5)
          (BE_STREAM_TO_UINT16 p_msg.data 3) ∧
        sdp_server_handle_client_req cfg env fuel st p_msg =
          process_service_search cfg env
            { st with ccb := { st.ccb with sdp_conn_timer := st.ccb.sdp_conn_timer + 1 } }
            (BE_STREAM_TO_UINT16 p_msg.data 1) (BE_STREAM_TO_UINT16 p_msg.data 3)
            (p_msg.data.drop 5) (BE_STREAM_TO_UINT16 p_msg.data 3)) ∧
    (rd p_msg.data 0 = cfg.SDP_PDU_SERVICE_ATTR_REQ →
      dispatch cfg p_msg = .call_process_service_attr_req (BE_STREAM_TO_UINT16 p_msg.data 1)
          (BE_STREAM_TO_UINT16 p_msg.data 3) (p_msg.data.drop 5)
          (BE_STREAM_TO_UINT16 p_msg.data 3) ∧
        sdp_server_handle_client_req cfg env fuel st p_msg =
          process_service_attr_req cfg env fuel
            { st with ccb := { st.ccb with sdp_conn_timer := st.ccb.sdp_conn_timer + 1 } }
            (BE_STREAM_TO_UINT16 p_msg.data 1) (BE_STREAM_TO_UINT16 p_msg.data 3)
            (p_msg.data.drop 5) (BE_STREAM_TO_UINT16 p_msg.data 3)) ∧
    (rd p_msg.data 0 = cfg.SDP_PDU_SERVICE_SEARCH_ATTR_REQ →
      dispatch cfg p_msg =
          .call_process_service_search_attr_req (BE_STREAM_TO_UINT16 p_msg.data 1)
            (BE_STREAM_TO_UINT16 p_msg.data 3) (p_msg.data.drop 5)
            (BE_STREAM_TO_UINT16 p_msg.data 3) ∧
        sdp_server_handle_client_req cfg env fuel st p_msg =
          process_service_search_attr_req cfg env fuel
            { st with ccb := { st.ccb with sdp_conn_timer := st.ccb.sdp_conn_timer + 1 } }
            (BE_STREAM_TO_UINT16 p_msg.data 1) (BE_STREAM_TO_UINT16 p_msg.data 3)
            (p_msg.data.drop 5) (BE_STREAM_TO_UINT16 p_msg.data 3)) ∧
    (rd p_msg.data 0 ≠ cfg.SDP_PDU_SERVICE_SEARCH_REQ →
      rd p_msg.data 0 ≠ cfg.SDP_PDU_SERVICE_ATTR_REQ →
      rd p_msg.data 0 ≠ cfg.SDP_PDU_SERVICE_SEARCH_ATTR_REQ →
      dispatch cfg p_msg =
          .send_error (BE_STREAM_TO_UINT16 p_msg.data 1) .SDP_INVALID_REQ_SYNTAX ∧
        sdp_server_handle_client_req cfg env fuel st p_msg =
          some ({ st with ccb := { st.ccb with sdp_conn_timer := st.ccb.sdp_conn_timer + 1 } },
            .error (BE_STREAM_TO_UINT16 p_msg.data 1) .SDP_INVALID_REQ_SYNTAX)) := by
  have hlen : p_msg.len - 5 = BE_STREAM_TO_UINT16 p_msg.data 3 := by omega
  refine ⟨fun h => ?_, fun h => ?_, fun h => ?_, fun h1 h2 h3 => ?_⟩
  · have hd : dispatch cfg p_msg = .call_process_service_search
        (BE_STREAM_TO_UINT16 p_msg.data 1) (BE_STREAM_TO_UINT16 p_msg.data 3)
        (p_msg.data.drop 5) (BE_STREAM_TO_UINT16 p_msg.data 3) := by
      simp only [dispatch, henv, h, hlen, ne_eq, not_true_eq_false, ↓reduceIte]
    exact ⟨hd, by simp only [sdp_server_handle_client_req, hd]⟩
  · have hd : dispatch cfg p_msg = .call_process_service_attr_req
        (BE_STREAM_TO_UINT16 p_msg.data 1) (BE_STREAM_TO_UINT16 p_msg.data 3)
        (p_msg.data.drop 5) (BE_STREAM_TO_UINT16 p_msg.data 3) := by
      simp only [dispatch, henv, h, hlen, ne_eq, not_true_eq_false, ↓reduceIte,
        Ne.symm h12]
    exact ⟨hd, by simp only [sdp_server_handle_client_req, hd]⟩
  · have hd : dispatch cfg p_msg = .call_process_service_search_attr_req
        (BE_STREAM_TO_UINT16 p_msg.data 1) (BE_STREAM_TO_UINT16 p_msg.data 3)
        (p_msg.data.drop 5) (BE_STREAM_TO_UINT16 p_msg.data 3) := by
      simp only [dispatch, henv, h, hlen, ne_eq, not_true_eq_false, ↓reduceIte,
        Ne.symm h13, Ne.symm h23]
    exact ⟨hd, by simp only [sdp_server_handle_client_req, hd]⟩
  · have hd : dispatch cfg p_msg =
        .send_error (BE_STREAM_TO_UINT16 p_msg.data 1) .SDP_INVALID_REQ_SYNTAX := by
      simp only [dispatch, henv, h1, h2, h3, ne_eq, not_true_eq_false, ↓reduceIte]
    exact ⟨hd, by simp only [sdp_server_handle_client_req, hd]⟩

/-- C8, at a well-framed request of the unknown kind 9. -/
theorem C8_dispatch_routes_witness :
    dispatch bt_config ⟨6, [9, 0, 7, 0, 1, 0]⟩ = .send_error 7 .SDP_INVALID_REQ_SYNTAX :=
  ((C8_dispatch_routes bt_config bt_env 0 (idle_state [] [] 672) ⟨6, [9, 0, 7, 0, 1, 0]⟩
    (by decide) (by decide) (by decide) (by decide)).2.2.2
    (by decide) (by decide) (by decide)).1

theorem UINT16_lt (n : Int) : UINT16 n < 65536 := by
  unfold UINT16
  omega

theorem UINT16_of_lt (n : Nat) (h : n < 65536) : UINT16 (n : Int) = n := by
  unfold UINT16
  omega

theorem payload_len_build_attr_response (cfg : Config) (pdu trans_num : Nat)
    (rsp_list : List Nat) (cont_offset len_to_send new_cont_offset list_len : Nat)
    (h : len_to_send < 65536) :
    BE_STREAM_TO_UINT16
      (build_attr_response cfg pdu trans_num rsp_list cont_offset len_to_send new_cont_offset
        list_len) 5 = len_to_send := by
  simp only [build_attr_response, UINT8_TO_BE_STREAM, UINT16_TO_BE_STREAM, BE_STREAM_TO_UINT16,
    rd, List.cons_append, List.nil_append, List.getD_cons_succ, List.getD_cons_zero]
  omega

theorem update_pbap_ccb (cfg : Config) (env : Env) (st : State) (p : RecPtr) (addr : BD_ADDR) :
    (sdp_update_pbap_record_if_blacklisted cfg env st p addr).1.ccb = st.ccb := by
  unfold sdp_update_pbap_record_if_blacklisted
  dsimp only
  split_ifs <;> rfl

theorem update_pbap_db (cfg : Config) (env : Env) (st : State) (p : RecPtr) (addr : BD_ADDR) :
    (sdp_update_pbap_record_if_blacklisted cfg env st p addr).1.db = st.db := by
  unfold sdp_update_pbap_record_if_blacklisted
  dsimp only
  split_ifs <;> rfl

theorem db_search_from_isSome (m : tSDP_RECORD → Bool) (l : List tSDP_RECORD) (i : Nat)
    (h : ∃ r ∈ l, m r = true) : ∃ j, db_search_from m l i = some j := by
  induction l generalizing i with
  | nil => simp at h
  | cons r rs ih =>
    simp only [db_search_from]
    by_cases hr : m r = true
    · exact ⟨i, by simp only [hr, ↓reduceIte]⟩
    · simp only [hr, Bool.false_eq_true, ↓reduceIte]
      apply ih
      obtain ⟨r1, hr1, hm⟩ := h
      rcases List.mem_cons.1 hr1 with rfl | hmem
      · exact absurd hm hr
      · exact ⟨r1, hmem, hm⟩

theorem sdp_db_find_record_isSome (db : List tSDP_RECORD) (handle : Nat)
    (h : ∃ r ∈ db, r.record_handle = handle) : ∃ i, sdp_db_find_record db handle = some i := by
  unfold sdp_db_find_record
  apply db_search_from_isSome
  obtain ⟨r, hr, hh⟩ := h
  exact ⟨r, hr, by simpa using hh⟩

theorem check_continuation_mismatch (cfg : Config) (st : State) (p_req : List Nat)
    (p p_req_end : Nat) (attr_seq : tSDP_ATTR_SEQ) (b : Bool)
    (hc : cfg.SDP_CONTINUATION_LEN ≠ 0) (hm : rd p_req p = cfg.SDP_CONTINUATION_LEN)
    (hoff : BE_STREAM_TO_UINT16 p_req (p + 1) ≠ st.ccb.cont_offset) :
    check_continuation cfg st p_req p p_req_end attr_seq b = .error .SDP_INVALID_CONT_STATE := by
  simp only [check_continuation, hm, hc, ne_eq, not_false_eq_true, ↓reduceIte,
    not_true_eq_false, hoff]

/-! ## Errors of the handlers -/

/-- C6: an Attribute-Fetch request whose attribute list parses, is not empty
and ends inside the request, and whose record handle is the handle of no
record of the store, is answered with `SDP_INVALID_SERV_REC_HDL`, and the
whole state (the connection with all fields of its continuation state, the
store) is the one before the request. -/
theorem C6_unknown_handle (cfg : Config) (env : Env) (fuel : Nat) (st : State)
    (trans_num param_len : Nat) (p_req : List Nat) (p_req_end n : Nat)
    (attr_seq : tSDP_ATTR_SEQ)
    (hparse : env.sdpu_extract_attr_seq (p_req.drop 6) param_len = some (n, attr_seq))
    (hne : attr_seq ≠ []) (hend : 6 + n ≤ p_req_end)
    (hmiss : ∀ r ∈ st.db, r.record_handle ≠ BE_STREAM_TO_UINT32 p_req 0) :
    process_service_attr_req cfg env fuel st trans_num param_len p_req p_req_end =
      some (st, .error trans_num .SDP_INVALID_SERV_REC_HDL) := by
  have h4 : ¬ 4 > p_req_end := by omega
  have hlen : ¬ (attr_seq.length = 0 ∨ 6 + n > p_req_end) := by
    simp only [List.length_eq_zero, hne, false_or]; omega
  simp only [process_service_attr_req, h4, ↓reduceIte, hparse, hlen,
    sdp_db_find_record_eq_none st.db _ hmiss]

/-- C6, at a request for the handle 0x10001 against a store that only holds
the handle 0x10000. -/
theorem C6_unknown_handle_witness :
    process_service_attr_req bt_config bt_env 0 (idle_state [rec_three] [] 672) 7 14
        (attr_req 1 12 [0]) 14 =
      some (idle_state [rec_three] [] 672, .error 7 .SDP_INVALID_SERV_REC_HDL) :=
  C6_unknown_handle bt_config bt_env 0 (idle_state [rec_three] [] 672) 7 14
    (attr_req 1 12 [0]) 14 7 [⟨0, 0xFFFF⟩] (by decide) (by decide) (by decide) (by decide)

/-- C3: in each of the three handlers, a continuation request that is
well-formed up to its offset (the lists parse and are not empty, the record
exists, the marker byte is `SDP_CONTINUATION_LEN`) and whose 16-bit offset
differs from the stored `cont_offset` is answered with
`SDP_INVALID_CONT_STATE`; the outcome of the call is that error, so no
response frame is sent. -/
theorem C3_offset_mismatch (cfg : Config) (env : Env) (fuel : Nat) (st : State)
    (trans_num param_len : Nat) (p_req : List Nat) (p_req_end : Nat)
    (hc : cfg.SDP_CONTINUATION_LEN ≠ 0) :
    (∀ p1 uid_seq, env.sdpu_extract_uid_seq p_req param_len = some (p1, uid_seq) →
      uid_seq ≠ [] → rd p_req (p1 + 2) = cfg.SDP_CONTINUATION_LEN → p1 + 3 < p_req_end →
      BE_STREAM_TO_UINT16 p_req (p1 + 3) ≠ st.ccb.cont_offset →
      process_service_search cfg env st trans_num param_len p_req p_req_end =
        some (st, .error trans_num .SDP_INVALID_CONT_STATE)) ∧
    (∀ n attr_seq, env.sdpu_extract_attr_seq (p_req.drop 6) param_len = some (n, attr_seq) →
      attr_seq ≠ [] → 6 + n ≤ p_req_end →
      (∃ r ∈ st.db, r.record_handle = BE_STREAM_TO_UINT32 p_req 0) →
      rd p_req (6 + n) = cfg.SDP_CONTINUATION_LEN →
      BE_STREAM_TO_UINT16 p_req (6 + n + 1) ≠ st.ccb.cont_offset →
      (process_service_attr_req cfg env fuel st trans_num param_len p_req p_req_end).map
        Prod.snd = some (.error trans_num .SDP_INVALID_CONT_STATE)) ∧
    (∀ p1 uid_seq n attr_seq, env.sdpu_extract_uid_seq p_req param_len = some (p1, uid_seq) →
      uid_seq ≠ [] →
      env.sdpu_extract_attr_seq (p_req.drop (p1 + 2)) param_len = some (n, attr_seq) →
      attr_seq ≠ [] → rd p_req (p1 + 2 + n) = cfg.SDP_CONTINUATION_LEN →
      BE_STREAM_TO_UINT16 p_req (p1 + 2 + n + 1) ≠ st.ccb.cont_offset →
      (process_service_search_attr_req cfg env fuel st trans_num param_len p_req p_req_end).map
        Prod.snd = some (.error trans_num .SDP_INVALID_CONT_STATE)) := by
  refine ⟨?_, ?_, ?_⟩
  · intro p1 uid_seq hp hu hm hend hoff
    have hu0 : ¬ uid_seq.length = 0 := by simpa using hu
    have h1 : ¬ p1 + 2 > p_req_end := by omega
    simp only [process_service_search, hp, hu0, ↓reduceIte, h1, hm, hc, ne_eq,
      not_false_eq_true, not_true_eq_false, ge_iff_le, false_or]
    simp only [show ¬ p_req_end ≤ p1 + 2 + 1 by omega, ↓reduceIte,
      show p1 + 2 + 1 = p1 + 3 by omega, hoff, not_false_eq_true]
  · intro n attr_seq hp ha hend hrec hm hoff
    have h4 : ¬ 4 > p_req_end := by omega
    have hlen : ¬ (attr_seq.length = 0 ∨ 6 + n > p_req_end) := by
      simp only [List.length_eq_zero, ha, false_or]; omega
    obtain ⟨i, hi⟩ := sdp_db_find_record_isSome st.db _ hrec
    have hcc := check_continuation_mismatch cfg
      { (sdp_update_pbap_record_if_blacklisted cfg env st (.db i) st.ccb.device_address).1 with
        ccb := { (sdp_update_pbap_record_if_blacklisted cfg env st (.db i)
          st.ccb.device_address).1.ccb with
          rsp_list := [],
          rsp_list_size := cap_max_list_len (BE_STREAM_TO_UINT16 p_req 4) st.ccb.rem_mtu_size
            SDP_MAX_ATTR_RSPHDR_LEN } }
      p_req (6 + n) p_req_end attr_seq false hc hm (by simpa [update_pbap_ccb] using hoff)
    simp only [process_service_attr_req, h4, ↓reduceIte, hp, hlen, hi, hcc, Option.map_some']
  · intro p1 uid_seq n attr_seq hp hu hpa ha hm hoff
    have hu0 : ¬ uid_seq.length = 0 := by simpa using hu
    have ha0 : ¬ attr_seq.length = 0 := by simpa using ha
    have hcc := check_continuation_mismatch cfg
      { st with ccb := { st.ccb with
          rsp_list := [],
          rsp_list_size := cap_max_list_len (BE_STREAM_TO_UINT16 p_req p1) st.ccb.rem_mtu_size
            SDP_MAX_SERVATTR_RSPHDR_LEN } }
      p_req (p1 + 2 + n) p_req_end attr_seq true hc hm hoff
    simp only [process_service_search_attr_req, hp, hu0, ↓reduceIte, hpa, ha0, hcc,
      Option.map_some']

/-- C3, at three continuation requests with the offset 9 on an idle connection
(stored offset 0). -/
theorem C3_offset_mismatch_witness :
    process_service_search bt_config bt_env (idle_state [rec_three] [] 672) 7 10
        (search_req 5 [2, 0, 9]) 10 =
      some (idle_state [rec_three] [] 672, .error 7 .SDP_INVALID_CONT_STATE) ∧
    (process_service_attr_req bt_config bt_env 0 (idle_state [rec_three] [] 672) 7 16
        (attr_req 0 12 [2, 0, 9]) 16).map Prod.snd =
      some (.error 7 .SDP_INVALID_CONT_STATE) ∧
    (process_service_search_attr_req bt_config bt_env 0 (idle_state [rec_three] [] 672) 7 17
        (search_attr_req 50 [2, 0, 9]) 17).map Prod.snd =
      some (.error 7 .SDP_INVALID_CONT_STATE) :=
  ⟨(C3_offset_mismatch bt_config bt_env 0 (idle_state [rec_three] [] 672) 7 10
      (search_req 5 [2, 0, 9]) 10 (by decide)).1 5 [⟨2, [0x11, 0x01]⟩]
      (by decide) (by decide) (by decide) (by decide) (by decide),
    (C3_offset_mismatch bt_config bt_env 0 (idle_state [rec_three] [] 672) 7 16
      (attr_req 0 12 [2, 0, 9]) 16 (by decide)).2.1 7 [⟨0, 0xFFFF⟩]
      (by decide) (by decide) (by decide) ⟨rec_three, by decide, by decide⟩
      (by decide) (by decide),
    (C3_offset_mismatch bt_config bt_env 0 (idle_state [rec_three] [] 672) 7 17
      (search_attr_req 50 [2, 0, 9]) 17 (by decide)).2.2 5 [⟨2, [0x11, 0x01]⟩] 7 [⟨0, 0xFFFF⟩]
      (by decide) (by decide) (by decide) (by decide) (by decide) (by decide)⟩

/-- C4: when a Search-Attribute-Fetch request is accepted as a continuation
(`check_continuation` succeeds with `is_cont`) and the record loop is left
with no byte placed in the frame, the handler sends `SDP_INVALID_CONT_STATE`
and no response frame; and no response frame of an accepted continuation
reports a payload length of zero, whatever the loop did. -/
theorem C4_zero_progress (cfg : Config) (env : Env) (fuel : Nat) (st : State)
    (trans_num param_len : Nat) (p_req : List Nat) (p_req_end p1 n : Nat)
    (uid_seq : tSDP_UUID_SEQ) (attr_seq attr_seq1 : tSDP_ATTR_SEQ) (st2 : State)
    (p_rsp : List Nat)
    (hp : env.sdpu_extract_uid_seq p_req param_len = some (p1, uid_seq)) (hu : uid_seq ≠ [])
    (hpa : env.sdpu_extract_attr_seq (p_req.drop (p1 + 2)) param_len = some (n, attr_seq))
    (ha : attr_seq ≠ [])
    (hcont : check_continuation cfg
      { st with ccb := { st.ccb with
          rsp_list := [],
          rsp_list_size := cap_max_list_len (BE_STREAM_TO_UINT16 p_req p1) st.ccb.rem_mtu_size
            SDP_MAX_SERVATTR_RSPHDR_LEN } }
      p_req (p1 + 2 + n) p_req_end attr_seq true = .ok (st2, attr_seq1, true, p_rsp)) :
    (∀ l, search_attr_records cfg env
          (cap_max_list_len (BE_STREAM_TO_UINT16 p_req p1) st.ccb.rem_mtu_size
            SDP_MAX_SERVATTR_RSPHDR_LEN)
          uid_seq attr_seq fuel fuel
          { st := st2, attr_seq := attr_seq1, p_rsp := p_rsp, blacklist_skip_len := 0 }
          (sdp_db_service_search env st2.db st2.ccb.cont_info.prev_sdp_rec uid_seq) =
        some (.done l) →
      l.p_rsp = [] →
      process_service_search_attr_req cfg env fuel st trans_num param_len p_req p_req_end =
        some (l.st, .error trans_num .SDP_INVALID_CONT_STATE)) ∧
    (∀ st3 p_buf,
      process_service_search_attr_req cfg env fuel st trans_num param_len p_req p_req_end =
        some (st3, .response p_buf) →
      BE_STREAM_TO_UINT16 p_buf 5 ≠ 0) := by
  have hu0 : ¬ uid_seq.length = 0 := by simpa using hu
  have ha0 : ¬ attr_seq.length = 0 := by simpa using ha
  refine ⟨?_, ?_⟩
  · intro l hl hz
    simp only [process_service_search_attr_req, hp, hu0, ↓reduceIte, hpa, ha0, hcont, hl,
      finish_search_attr_req, hz, List.length_nil, Nat.cast_zero, UINT16, Int.zero_emod,
      Int.toNat_zero, and_self]
  · intro st3 p_buf h
    simp only [process_service_search_attr_req, hp, hu0, ↓reduceIte, hpa, ha0, hcont] at h
    split at h
    · exact absurd h (by simp)
    · exact absurd h (by simp)
    · rename_i l _
      simp only [finish_search_attr_req, true_and, Bool.not_true, Bool.false_eq_true,
        ↓reduceIte, false_and, decide_False, Option.some.injEq, Prod.mk.injEq] at h
      split at h
      · simp at h
      · rename_i hz
        obtain ⟨-, rfl⟩ := h
        rw [payload_len_build_attr_response _ _ _ _ _ _ _ _ (UINT16_lt _)]
        exact hz

/-- C4, at a continuation request with the stored offset after every record
was deleted from the store. -/
theorem C4_zero_progress_witness :
    process_service_search_attr_req bt_config bt_env 0 (streaming_state []) 7 17
        (search_attr_req 50 [2, 0, 9]) 17 =
      some ({ streaming_state [] with
          ccb := { (streaming_state []).ccb with rsp_list_size := 50 } },
        .error 7 .SDP_INVALID_CONT_STATE) :=
  (C4_zero_progress bt_config bt_env 0 (streaming_state []) 7 17
    (search_attr_req 50 [2, 0, 9]) 17 5 7 [⟨2, [0x11, 0x01]⟩] [⟨0, 0xFFFF⟩] [⟨0, 0xFFFF⟩]
    { streaming_state [] with ccb := { (streaming_state []).ccb with rsp_list_size := 50 } } []
    (by decide) (by decide) (by decide) (by decide) rfl).1
    ⟨{ streaming_state [] with ccb := { (streaming_state []).ccb with rsp_list_size := 50 } },
      [⟨0, 0xFFFF⟩], [], 0⟩ (by decide) rfl

theorem apply_rewrites_p_rsp (cfg : Config) (env : Env) (addr : BD_ADDR) (w : Walk) (j : Nat) :
    (apply_rewrites cfg env addr w j).p_rsp = w.p_rsp := rfl

theorem apply_rewrites_cont_info (cfg : Config) (env : Env) (addr : BD_ADDR) (w : Walk)
    (j : Nat) : (apply_rewrites cfg env addr w j).cont_info = w.cont_info := rfl

theorem apply_rewrites_xx (cfg : Config) (env : Env) (addr : BD_ADDR) (w : Walk) (j : Nat) :
    (apply_rewrites cfg env addr w j).xx = w.xx := rfl

theorem apply_rewrites_attr_seq (cfg : Config) (env : Env) (addr : BD_ADDR) (w : Walk)
    (j : Nat) : (apply_rewrites cfg env addr w j).attr_seq = w.attr_seq := rfl

theorem attr_walk_of_passes (cfg : Config) (env : Env) (addr : BD_ADDR) (max_list_len : Nat)
    (k fuel : Nat) (w0 w : Walk)
    (h : attr_walk_passes cfg env addr max_list_len k w0 = some w) :
    attr_walk cfg env addr max_list_len (k + fuel) w0 =
      attr_walk cfg env addr max_list_len fuel w := by
  induction k generalizing w0 with
  | zero =>
    simp only [attr_walk_passes, Option.some.injEq] at h
    rw [h, Nat.zero_add]
  | succ k ih =>
    rw [attr_walk_passes] at h
    split_ifs at h with hxx
    rw [show k + 1 + fuel = (k + fuel) + 1 by omega, attr_walk]
    simp only [hxx, ↓reduceIte]
    split at h
    · rename_i w1 hb
      simp only [hb]
      exact ih _ h
    · exact absurd h (by simp)

theorem attr_walk_body_oversize (cfg : Config) (env : Env) (addr : BD_ADDR)
    (max_list_len : Nat) (w : Walk) (j : Nat)
    (hfind : sdp_db_find_attr_in_rec w.p_rec (w.attr_seq.getD w.xx ⟨0, 0⟩).start
      (w.attr_seq.getD w.xx ⟨0, 0⟩).end = some j)
    (hbig : cfg.SDP_MAX_ATTR_LEN <
      sdpu_get_attrib_entry_len env ((apply_rewrites cfg env addr w j).p_rec.attr j))
    (hoff : w.cont_info.attr_offset = 0)
    (hrem : 0 < rem_len_of max_list_len w.p_rsp)
    (hfit : rem_len_of max_list_len w.p_rsp <
      (sdpu_get_attrib_entry_len env ((apply_rewrites cfg env addr w j).p_rec.attr j) : Int)) :
    attr_walk_body cfg env addr max_list_len w = .ret (apply_rewrites cfg env addr w j) := by
  simp only [attr_walk_body, hfind, apply_rewrites_p_rsp, apply_rewrites_cont_info, hoff,
    ne_eq, not_true_eq_false, ↓reduceIte, hfit, show ¬ rem_len_of max_list_len w.p_rsp ≤ 0 by omega,
    show sdpu_get_attrib_entry_len env ((apply_rewrites cfg env addr w j).p_rec.attr j) ≥
      cfg.SDP_MAX_ATTR_LEN by omega]

/-- C5 (amended): when the attribute loop of Attribute-Fetch or
Search-Attribute-Fetch reaches a matched attribute with no partial offset
pending whose encoded length exceeds `SDP_MAX_ATTR_LEN` and exceeds the
remaining budget, the remaining budget being positive, the loop sends
`SDP_NO_RESOURCES` and returns without placing a byte of the attribute in the
scratch buffer: Attribute-Fetch ends with that error, and so does the record
loop of Search-Attribute-Fetch. -/
theorem C5_oversize_attr (cfg : Config) (env : Env) (addr : BD_ADDR) (max_list_len : Nat)
    (k fuel : Nat) (w0 w : Walk) (j : Nat)
    (hreach : attr_walk_passes cfg env addr max_list_len k w0 = some w)
    (hxx : w.xx < w.attr_seq.length)
    (hfind : sdp_db_find_attr_in_rec w.p_rec (w.attr_seq.getD w.xx ⟨0, 0⟩).start
      (w.attr_seq.getD w.xx ⟨0, 0⟩).end = some j)
    (hbig : cfg.SDP_MAX_ATTR_LEN <
      sdpu_get_attrib_entry_len env ((apply_rewrites cfg env addr w j).p_rec.attr j))
    (hoff : w.cont_info.attr_offset = 0)
    (hrem : 0 < rem_len_of max_list_len w.p_rsp)
    (hfit : rem_len_of max_list_len w.p_rsp <
      (sdpu_get_attrib_entry_len env ((apply_rewrites cfg env addr w j).p_rec.attr j) : Int)) :
    attr_walk cfg env addr max_list_len (k + (fuel + 1)) w0 =
        some (.no_resources (apply_rewrites cfg env addr w j)) ∧
      (apply_rewrites cfg env addr w j).p_rsp = w.p_rsp ∧
      (∀ st trans_num p_rec attr_seq attr_seq_sav is_cont p_rsp,
        w0 = Walk.init st p_rec attr_seq p_rsp → addr = st.ccb.device_address →
        run_attr_req cfg env (k + (fuel + 1)) st trans_num max_list_len p_rec attr_seq
            attr_seq_sav is_cont p_rsp =
          some (st.after_walk p_rec (apply_rewrites cfg env addr w j),
            .error trans_num .SDP_NO_RESOURCES)) ∧
      (∀ uid_seq attr_seq_sav rfuel l i,
        ¬ ((enter_record cfg env l.st i).1.ccb.cont_info.last_attr_seq_desc_sent = false ∧
          rem_len_of max_list_len l.p_rsp < 3) →
        w0 = Walk.init (enter_record cfg env l.st i).1 (enter_record cfg env l.st i).2
          l.attr_seq
          (if (enter_record cfg env l.st i).1.ccb.cont_info.last_attr_seq_desc_sent = false
            then l.p_rsp ++ [0, 0, 0] else l.p_rsp) →
        addr = (enter_record cfg env l.st i).1.ccb.device_address →
        search_attr_records cfg env max_list_len uid_seq attr_seq_sav (k + (fuel + 1))
            (rfuel + 1) l (some i) =
          some (.no_resources ((enter_record cfg env l.st i).1.after_walk
            (enter_record cfg env l.st i).2 (apply_rewrites cfg env addr w j)))) := by
  have hwalk : attr_walk cfg env addr max_list_len (k + (fuel + 1)) w0 =
      some (.no_resources (apply_rewrites cfg env addr w j)) := by
    rw [attr_walk_of_passes cfg env addr max_list_len k (fuel + 1) w0 w hreach, attr_walk]
    simp only [hxx, ↓reduceIte,
      attr_walk_body_oversize cfg env addr max_list_len w j hfind hbig hoff hrem hfit]
  refine ⟨hwalk, rfl, ?_, ?_⟩
  · intro st trans_num p_rec attr_seq attr_seq_sav is_cont p_rsp hw0 haddr
    subst hw0 haddr
    simp only [run_attr_req, hwalk]
  · intro uid_seq attr_seq_sav rfuel l i hroom hw0 haddr
    subst hw0 haddr
    rw [search_attr_records]
    simp only [hroom, ↓reduceIte, hwalk]

set_option maxRecDepth 100000 in
/-- C5 (amended), at a request with the budget 50 for the 401-byte attribute
of `rec_big`. -/
theorem C5_oversize_attr_witness :
    run_attr_req bt_config bt_env 1 (idle_state [rec_big] [] 672) 7 50 (.db 0)
        [⟨0, 0xFFFF⟩] [⟨0, 0xFFFF⟩] false [0, 0, 0] =
      some ((idle_state [rec_big] [] 672).after_walk (.db 0)
          (apply_rewrites bt_config bt_env []
            (Walk.init (idle_state [rec_big] [] 672) (.db 0) [⟨0, 0xFFFF⟩] [0, 0, 0]) 0),
        .error 7 .SDP_NO_RESOURCES) :=
  (C5_oversize_attr bt_config bt_env [] 50 0 0
    (Walk.init (idle_state [rec_big] [] 672) (.db 0) [⟨0, 0xFFFF⟩] [0, 0, 0])
    (Walk.init (idle_state [rec_big] [] 672) (.db 0) [⟨0, 0xFFFF⟩] [0, 0, 0]) 0
    rfl (by decide) (by decide) (by decide) (by decide) (by decide) (by decide)).2.2.1
    (idle_state [rec_big] [] 672) 7 (.db 0) [⟨0, 0xFFFF⟩] [⟨0, 0xFFFF⟩] false [0, 0, 0] rfl rfl

set_option maxRecDepth 100000 in
/-- C5 as stated fails: with a budget of 600 bytes the 401-byte attribute of
`rec_big`, longer than `SDP_MAX_ATTR_LEN` = 400, is encoded in full into the
response frame of the first request that reaches it, and no
`SDP_NO_RESOURCES` is sent. -/
theorem C5_counterexample :
    bt_config.SDP_MAX_ATTR_LEN < sdpu_get_attrib_entry_len bt_env (rec_big.attr 0) ∧
      (process_service_attr_req bt_config bt_env 2 (idle_state [rec_big] [] 672) 7 14
          (attr_req 0 600 [0]) 14).map Prod.snd =
        some (.response ([5, 0, 7, 0x01, 0x97, 0x01, 0x94, 0x36, 0x01, 0x91] ++
          bt_env.sdpu_build_attrib_entry (rec_big.attr 0) ++ [0])) := by
  decide

/-! ## Evaluations at inputs where the code departs from a claim -/

set_option maxRecDepth 100000 in
/-- C9, the code at a failing input: an Attribute-Fetch with a budget of 50
bytes from a peer on the AVRCP blacklist reaches the 405-byte profile
descriptor list of `rec_avrcp`; `sdp_fallback_avrcp_version` has rewritten
the version byte to 0x03 when the handler sends `SDP_NO_RESOURCES` and
returns (line 743) without the restore that the other exits of the loop
perform, so the record of the store keeps 0x03 in place of 0x06. -/
theorem C9_error_exit_keeps_rewrite :
    (rec_avrcp.attr 2).rdv PROFILE_VERSION_POSITION = 0x06 ∧
      (process_service_attr_req bt_config bt_env 4 (idle_state [rec_avrcp] peer_blacklisted 672)
          7 14 (attr_req 0 50 [0]) 14).map
        (fun r => (r.2, ((r.1.db.getD 0 ⟨0, []⟩).attr 2).rdv PROFILE_VERSION_POSITION)) =
      some (.error 7 .SDP_NO_RESOURCES, 0x03) := by
  decide!

/-- C10, the code at a failing input: for a client maximum of 0 the scratch
buffer is allocated with 0 bytes, yet the first frame of Attribute-Fetch and
of Search-Attribute-Fetch writes the sequence header into `rsp_list[1..2]`
and reports a payload of 2 bytes. -/
theorem C10_header_overruns_scratch :
    (process_service_attr_req bt_config bt_env 2 (idle_state [rec_three] [] 672) 7 14
        (attr_req 0 0 [0]) 14).map
      (fun r => (r.1.ccb.rsp_list_size, r.1.ccb.rsp_list, r.2)) =
      some (0, [0, 0x35, 15], .response [5, 0, 7, 0, 7, 0, 2, 0x35, 15, 2, 0, 2]) ∧
    (process_service_search_attr_req bt_config bt_env 2 (idle_state [rec_three] [] 672) 7 15
        (search_attr_req 0 [0]) 15).map
      (fun r => (r.1.ccb.rsp_list_size, r.1.ccb.rsp_list, r.2)) =
      some (0, [0, 0x35, 0], .response [7, 0, 7, 0, 5, 0, 2, 0x35, 0, 0]) := by
  decide!

/-- C1, the code at a failing input: Attribute-Fetch of the range
0x0000-0xFFFF from `rec_three` (attributes 1, 2 and 0xFFFF, 5 bytes each) with
a budget of 12 bytes. The first frame carries 11 bytes and the token 11; in
the second frame the walk re-arms the range behind the attribute 0xFFFF with
`start = 0xFFFF + 1`, which is 0 in 16 bits, and encodes the attributes 1 and
2 again, so the frame that ends with the zero terminator carries 12 bytes and
the two payloads together differ from the 17 bytes of the full answer. -/
theorem C1_range_wraps_at_FFFF :
    process_service_attr_req bt_config bt_env 9 (idle_state [rec_three] [] 672) 7 14
        (attr_req 0 12 [0]) 14 =
      some (state_three_frame1,
        .response ([5, 0, 7, 0, 16, 0, 11] ++
          [0x35, 15, 9, 0, 1, 13, 0, 9, 0, 2, 13] ++ [2, 0, 11])) ∧
    (process_service_attr_req bt_config bt_env 9 state_three_frame1 8 16
        (attr_req 0 12 [2, 0, 11]) 16).map Prod.snd =
      some (.response ([5, 0, 8, 0, 15, 0, 12] ++
        [0, 9, 0xFF, 0xFF, 13, 0, 9, 0, 1, 13, 0, 9] ++ [0])) ∧
    full_answer_three =
      [0x35, 15, 9, 0, 1, 13, 0, 9, 0, 2, 13, 0, 9, 0xFF, 0xFF, 13, 0] ∧
    [0x35, 15, 9, 0, 1, 13, 0, 9, 0, 2, 13] ++ [0, 9, 0xFF, 0xFF, 13, 0, 9, 0, 1, 13, 0, 9] ≠
      full_answer_three := by
  decide!

/-! ## Search: the handle list and its windows -/

theorem db_search_from_spec (m : tSDP_RECORD → Bool) (l : List tSDP_RECORD) (s : Nat) :
    (db_search_from m l s = none ∧ l.filter m = []) ∨
      ∃ k, db_search_from m l s = some (s + k) ∧ k < l.length ∧
        l.filter m = l.getD k ⟨0, []⟩ :: (l.drop (k + 1)).filter m := by
  induction l generalizing s with
  | nil => exact Or.inl ⟨rfl, rfl⟩
  | cons r rs ih =>
    by_cases hr : m r = true
    · refine Or.inr ⟨0, ?_, by simp, ?_⟩
      · simp only [db_search_from, hr, ↓reduceIte, Nat.add_zero]
      · simp [List.filter_cons, hr]
    · rcases ih (s + 1) with ⟨h1, h2⟩ | ⟨k, h1, h2, h3⟩
      · refine Or.inl ⟨?_, ?_⟩
        · simp only [db_search_from, hr, Bool.false_eq_true, ↓reduceIte, h1]
        · simp [List.filter_cons, hr, h2]
      · refine Or.inr ⟨k + 1, ?_, by simpa using h2, ?_⟩
        · simp only [db_search_from, hr, Bool.false_eq_true, ↓reduceIte, h1]
          congr 1; omega
        · simp [List.filter_cons, hr, h3]

/-- The handles collected behind a cursor are the first `n` handles of the
matching records of the rest of the store; `s` is the position behind the
cursor. -/
theorem collect_handles_from (env : Env) (db : List tSDP_RECORD) (uid_seq : tSDP_UUID_SEQ)
    (n : Nat) (p_rec : Option RecPtr) (s : Nat)
    (hs : (p_rec = none ∧ s = 0) ∨ (∃ i, p_rec = some (.db i) ∧ s = i + 1)) :
    collect_handles env db uid_seq n p_rec =
      (((db.drop s).filter fun r => env.record_matches r uid_seq).map
        fun r => r.record_handle).take n := by
  induction n generalizing p_rec s with
  | zero => simp [collect_handles]
  | succ n ih =>
    have hsearch : sdp_db_service_search env db p_rec uid_seq =
        db_search_from (fun r => env.record_matches r uid_seq) (db.drop s) s := by
      rcases hs with ⟨rfl, rfl⟩ | ⟨i, rfl, rfl⟩ <;> rfl
    rw [collect_handles, hsearch]
    rcases db_search_from_spec (fun r => env.record_matches r uid_seq) (db.drop s) s with
      ⟨h1, h2⟩ | ⟨k, h1, h2, h3⟩
    · simp [h1, h2]
    · simp only [h1]
      rw [ih (some (.db (s + k))) (s + k + 1) (Or.inr ⟨_, rfl, rfl⟩), h3]
      simp only [List.map_cons, List.take_succ_cons, List.drop_drop]
      congr 2
      · rw [List.getD_eq_getElem _ _ h2, List.getElem_drop]
        rw [List.getD_eq_getElem]
theorem rd_append_left (l1 l2 : List Nat) (i : Nat) (h : i < l1.length) :
    rd (l1 ++ l2) i = rd l1 i := by
  unfold rd
  rw [List.getD_append _ _ _ _ h]

theorem rd_append_right (l1 l2 : List Nat) (k : Nat) :
    rd (l1 ++ l2) (l1.length + k) = rd l2 k := by
  unfold rd
  rw [List.getD_append_right _ _ _ _ (by omega)]
  simp

theorem window_eq_take_drop (H : List Nat) (c cur : Nat) (h : c + cur ≤ H.length) :
    ((List.range cur).map fun k => H.getD (c + k) 0) = (H.drop c).take cur := by
  apply List.ext_getElem
  · simp; omega
  · intro i h1 h2
    simp only [List.length_map, List.length_range] at h1
    simp only [List.getElem_map, List.getElem_range, List.getElem_take, List.getElem_drop]
    rw [List.getD_eq_getElem]

theorem take_handles_encode (window tail : List Nat) (h : ∀ x ∈ window, x < 4294967296) :
    take_handles window.length (window.flatMap UINT32_TO_BE_STREAM ++ tail) = (window, tail) := by
  induction window with
  | nil => simp [take_handles]
  | cons x xs ih =>
    have hx : x < 4294967296 := h x (List.mem_cons_self _ _)
    have ih1 := ih (fun y hy => h y (List.mem_cons_of_mem _ hy))
    rw [List.length_cons, List.flatMap_cons, List.append_assoc]
    show take_handles (xs.length + 1)
      (_ :: _ :: _ :: _ :: (xs.flatMap UINT32_TO_BE_STREAM ++ tail)) = _
    rw [take_handles, ih1]
    simp only [Prod.mk.injEq, List.cons.injEq, and_true]
    omega

theorem parse_search_frame (pdu trans_num total cont : Nat) (window tail : List Nat)
    (ht : total < 65536) (hw : window.length < 65536) (hh : ∀ x ∈ window, x < 4294967296) :
    parse_search_response
      (UINT8_TO_BE_STREAM pdu ++ UINT16_TO_BE_STREAM trans_num ++
        UINT16_TO_BE_STREAM cont ++
        (UINT16_TO_BE_STREAM total ++ UINT16_TO_BE_STREAM window.length ++
          window.flatMap UINT32_TO_BE_STREAM ++ tail)) =
      { total := total, handles := window,
        cont := if rd tail 0 = 0 then none else some (BE_STREAM_TO_UINT16 tail 1) } := by
  have h7 : BE_STREAM_TO_UINT16
      (UINT8_TO_BE_STREAM pdu ++ UINT16_TO_BE_STREAM trans_num ++
        UINT16_TO_BE_STREAM cont ++
        (UINT16_TO_BE_STREAM total ++ UINT16_TO_BE_STREAM window.length ++
          window.flatMap UINT32_TO_BE_STREAM ++ tail)) 7 = window.length := by
    simp only [UINT8_TO_BE_STREAM, UINT16_TO_BE_STREAM, BE_STREAM_TO_UINT16,
      rd, List.cons_append, List.nil_append, List.getD_cons_succ, List.getD_cons_zero]
    omega
  have h5 : BE_STREAM_TO_UINT16
      (UINT8_TO_BE_STREAM pdu ++ UINT16_TO_BE_STREAM trans_num ++
        UINT16_TO_BE_STREAM cont ++
        (UINT16_TO_BE_STREAM total ++ UINT16_TO_BE_STREAM window.length ++
          window.flatMap UINT32_TO_BE_STREAM ++ tail)) 5 = total := by
    simp only [UINT8_TO_BE_STREAM, UINT16_TO_BE_STREAM, BE_STREAM_TO_UINT16,
      rd, List.cons_append, List.nil_append, List.getD_cons_succ, List.getD_cons_zero]
    omega
  have hd : (UINT8_TO_BE_STREAM pdu ++ UINT16_TO_BE_STREAM trans_num ++
        UINT16_TO_BE_STREAM cont ++
        (UINT16_TO_BE_STREAM total ++ UINT16_TO_BE_STREAM window.length ++
          window.flatMap UINT32_TO_BE_STREAM ++ tail)).drop 9 =
      window.flatMap UINT32_TO_BE_STREAM ++ tail := by
    simp [UINT8_TO_BE_STREAM, UINT16_TO_BE_STREAM]
  unfold parse_search_response
  simp only [h7, h5, hd, take_handles_encode window tail hh]
theorem BE16_append_left (l1 l2 : List Nat) (i : Nat) (h : i + 1 < l1.length) :
    BE_STREAM_TO_UINT16 (l1 ++ l2) i = BE_STREAM_TO_UINT16 l1 i := by
  unfold BE_STREAM_TO_UINT16
  rw [rd_append_left _ _ _ (by omega), rd_append_left _ _ _ h]

theorem BE16_encode (v : Nat) (rest : List Nat) (h : v < 65536) :
    BE_STREAM_TO_UINT16 (UINT16_TO_BE_STREAM v ++ rest) 0 = v := by
  simp only [UINT16_TO_BE_STREAM, BE_STREAM_TO_UINT16, rd, List.cons_append, List.nil_append,
    List.getD_cons_succ, List.getD_cons_zero]
  omega

theorem collect_handles_length_le (env : Env) (db : List tSDP_RECORD) (uid_seq : tSDP_UUID_SEQ)
    (n : Nat) (p_rec : Option RecPtr) : (collect_handles env db uid_seq n p_rec).length ≤ n := by
  induction n generalizing p_rec with
  | zero => simp [collect_handles]
  | succ n ih =>
    rw [collect_handles]
    split
    · simp only [List.length_cons]
      exact Nat.succ_le_succ (ih _)
    · simp

theorem BE16_lt (p : List Nat) (i : Nat) : BE_STREAM_TO_UINT16 p i < 65536 := by
  unfold BE_STREAM_TO_UINT16 rd
  omega

/-- The first request of a Search: the handler resets the offset and answers
from the start of the handle list. -/
theorem search_first_request (cfg : Config) (env : Env) (st : State) (trans_num : Nat)
    (base : List Nat) (p1 : Nat) (uid_seq : tSDP_UUID_SEQ)
    (hparse : ∀ tail, env.sdpu_extract_uid_seq (base ++ tail) (base ++ tail).length =
      some (p1, uid_seq))
    (hbase : base.length = p1 + 2) (hu : uid_seq ≠ []) :
    process_service_search cfg env st trans_num (base ++ [0]).length (base ++ [0])
        (base ++ [0]).length =
      build_search_response cfg { st with ccb := { st.ccb with cont_offset := 0 } } trans_num
        (collect_handles env st.db uid_seq
          (if BE_STREAM_TO_UINT16 base p1 > cfg.SDP_MAX_RECORDS then cfg.SDP_MAX_RECORDS
            else BE_STREAM_TO_UINT16 base p1) none)
        (collect_handles env st.db uid_seq
          (if BE_STREAM_TO_UINT16 base p1 > cfg.SDP_MAX_RECORDS then cfg.SDP_MAX_RECORDS
            else BE_STREAM_TO_UINT16 base p1) none).length 0 := by
  have hu0 : ¬ uid_seq.length = 0 := by simpa using hu
  have hrd : rd (base ++ [0]) (p1 + 2) = 0 := by
    rw [← hbase, ← Nat.add_zero base.length, rd_append_right]; rfl
  have hmax : BE_STREAM_TO_UINT16 (base ++ [0]) p1 = BE_STREAM_TO_UINT16 base p1 :=
    BE16_append_left _ _ _ (by omega)
  have hlen : (base ++ [0]).length = p1 + 3 := by simp [hbase]
  have hp := hparse [0]
  rw [hlen] at hp
  simp only [process_service_search, hlen, hp, hu0, ↓reduceIte, hrd, ne_eq,
    not_true_eq_false, hmax, hlen, show ¬ p1 + 2 > p1 + 3 by omega,
    show p1 + 2 + 1 = p1 + 3 by omega]

/-- A continuation request of a Search that carries the stored offset: the
handler answers from that offset of the handle list. -/
theorem search_continuation_request (cfg : Config) (env : Env) (st : State) (trans_num : Nat)
    (base : List Nat) (p1 : Nat) (uid_seq : tSDP_UUID_SEQ) (c : Nat)
    (hparse : ∀ tail, env.sdpu_extract_uid_seq (base ++ tail) (base ++ tail).length =
      some (p1, uid_seq))
    (hbase : base.length = p1 + 2) (hu : uid_seq ≠ [])
    (hc0 : cfg.SDP_CONTINUATION_LEN ≠ 0) (hc1 : cfg.SDP_CONTINUATION_LEN < 256)
    (hc : c < 65536) (hst : st.ccb.cont_offset = c) :
    process_service_search cfg env st trans_num
        (base ++ (UINT8_TO_BE_STREAM cfg.SDP_CONTINUATION_LEN ++ UINT16_TO_BE_STREAM c)).length
        (base ++ (UINT8_TO_BE_STREAM cfg.SDP_CONTINUATION_LEN ++ UINT16_TO_BE_STREAM c))
        (base ++ (UINT8_TO_BE_STREAM cfg.SDP_CONTINUATION_LEN ++ UINT16_TO_BE_STREAM c)).length =
      build_search_response cfg st trans_num
        (collect_handles env st.db uid_seq
          (if BE_STREAM_TO_UINT16 base p1 > cfg.SDP_MAX_RECORDS then cfg.SDP_MAX_RECORDS
            else BE_STREAM_TO_UINT16 base p1) none)
        (UINT16 (((collect_handles env st.db uid_seq
          (if BE_STREAM_TO_UINT16 base p1 > cfg.SDP_MAX_RECORDS then cfg.SDP_MAX_RECORDS
            else BE_STREAM_TO_UINT16 base p1) none).length : Int) - c)) c := by
  have hu0 : ¬ uid_seq.length = 0 := by simpa using hu
  have hrd : rd (base ++ (UINT8_TO_BE_STREAM cfg.SDP_CONTINUATION_LEN ++ UINT16_TO_BE_STREAM c))
      (p1 + 2) = cfg.SDP_CONTINUATION_LEN := by
    rw [← hbase, ← Nat.add_zero base.length, rd_append_right]
    simp only [UINT8_TO_BE_STREAM, rd, List.cons_append, List.nil_append, List.getD_cons_zero]
    omega
  have hoff : BE_STREAM_TO_UINT16
      (base ++ (UINT8_TO_BE_STREAM cfg.SDP_CONTINUATION_LEN ++ UINT16_TO_BE_STREAM c))
      (p1 + 2 + 1) = c := by
    unfold BE_STREAM_TO_UINT16
    rw [← hbase, Nat.add_assoc, rd_append_right, rd_append_right]
    simp only [UINT8_TO_BE_STREAM, UINT16_TO_BE_STREAM, rd, List.cons_append, List.nil_append,
      List.getD_cons_succ, List.getD_cons_zero]
    omega
  have hmax : BE_STREAM_TO_UINT16
      (base ++ (UINT8_TO_BE_STREAM cfg.SDP_CONTINUATION_LEN ++ UINT16_TO_BE_STREAM c)) p1 =
      BE_STREAM_TO_UINT16 base p1 := BE16_append_left _ _ _ (by omega)
  have hlen : (base ++ (UINT8_TO_BE_STREAM cfg.SDP_CONTINUATION_LEN ++
      UINT16_TO_BE_STREAM c)).length = p1 + 5 := by
    simp [hbase, UINT8_TO_BE_STREAM, UINT16_TO_BE_STREAM]
  have hp := hparse (UINT8_TO_BE_STREAM cfg.SDP_CONTINUATION_LEN ++ UINT16_TO_BE_STREAM c)
  rw [hlen] at hp
  simp only [process_service_search, hlen, hp, hu0, ↓reduceIte, hrd, ne_eq, hc0,
    not_false_eq_true, not_true_eq_false, hmax, hlen, show ¬ p1 + 2 > p1 + 5 by omega,
    false_or, ge_iff_le, show ¬ p1 + 5 ≤ p1 + 2 + 1 by omega, hoff, hst,
    show p1 + 2 + 3 = p1 + 5 by omega]

/-- What the client reads from the response built for the offset `c`: the
rest of the handle list and the zero terminator if it fits in the frame, else
the next window and the token `c` plus the window size, which is also the new
stored offset. -/
theorem build_search_response_view (cfg : Config) (st : State) (trans_num : Nat)
    (H : List Nat) (c : Nat)
    (hc0 : cfg.SDP_CONTINUATION_LEN ≠ 0) (hc1 : cfg.SDP_CONTINUATION_LEN < 256)
    (hN : H.length < 65536) (hc : c ≤ H.length) (hst : st.ccb.cont_offset = c)
    (hh : ∀ x ∈ H, x < 4294967296) :
    ∃ st1 p_buf,
      build_search_response cfg st trans_num H (H.length - c) c = some (st1, .response p_buf) ∧
      st1.db = st.db ∧ st1.ccb.rem_mtu_size = st.ccb.rem_mtu_size ∧
      (H.length - c ≤ UINT16 (Int.tdiv ((st.ccb.rem_mtu_size : Int) -
          (SDP_MAX_SERVICE_RSPHDR_LEN : Int)) 4) →
        parse_search_response p_buf = ⟨H.length, H.drop c, none⟩) ∧
      (¬ H.length - c ≤ UINT16 (Int.tdiv ((st.ccb.rem_mtu_size : Int) -
          (SDP_MAX_SERVICE_RSPHDR_LEN : Int)) 4) →
        parse_search_response p_buf =
          ⟨H.length, (H.drop c).take (UINT16 (Int.tdiv ((st.ccb.rem_mtu_size : Int) -
            (SDP_MAX_SERVICE_RSPHDR_LEN : Int)) 4)),
            some (c + UINT16 (Int.tdiv ((st.ccb.rem_mtu_size : Int) -
              (SDP_MAX_SERVICE_RSPHDR_LEN : Int)) 4))⟩ ∧
        st1.ccb.cont_offset = c + UINT16 (Int.tdiv ((st.ccb.rem_mtu_size : Int) -
          (SDP_MAX_SERVICE_RSPHDR_LEN : Int)) 4)) := by
  generalize hC : UINT16 (Int.tdiv ((st.ccb.rem_mtu_size : Int) -
    (SDP_MAX_SERVICE_RSPHDR_LEN : Int)) 4) = C
  by_cases hle : H.length - c ≤ C
  · have hwin : ((List.range (H.length - c)).map fun k => H.getD (c + k) 0) = H.drop c := by
      rw [window_eq_take_drop H c (H.length - c) (by omega)]
      exact List.take_of_length_le (by simp)
    have hlen : (H.drop c).length = H.length - c := by simp
    simp only [build_search_response, hC, hle, ↓reduceIte, not_true_eq_false, decide_False,
      Bool.false_eq_true, show ¬ (H.length - c ≠ 0 ∧ c + (H.length - c) > 65535) by omega, hwin]
    refine ⟨_, _, rfl, rfl, rfl, ?_, ?_⟩
    · intro _
      rw [← hlen]
      rw [parse_search_frame _ _ _ _ _ _ hN (by rw [hlen]; omega)
        (fun x hx => hh x (List.mem_of_mem_drop hx))]
      simp [UINT8_TO_BE_STREAM, rd]
    · intro h; exact h.elim
  · have hwin : ((List.range C).map fun k => H.getD (c + k) 0) = (H.drop c).take C :=
      window_eq_take_drop H c C (by omega)
    have hlen : ((H.drop c).take C).length = C := by simp; omega
    have hCL : rd (UINT8_TO_BE_STREAM cfg.SDP_CONTINUATION_LEN ++
        UINT16_TO_BE_STREAM (UINT16 ((c : Int) + (C : Int)))) 0 ≠ 0 := by
      simp only [UINT8_TO_BE_STREAM, rd, List.cons_append, List.nil_append, List.getD_cons_zero]
      omega
    have hU : UINT16 ((c : Int) + (C : Int)) = c + C := by
      unfold UINT16; omega
    simp only [build_search_response, hC, hle, ↓reduceIte, not_false_eq_true, decide_True,
      show ¬ (C ≠ 0 ∧ c + C > 65535) by omega, hwin, hst]
    refine ⟨_, _, rfl, rfl, rfl, ?_, ?_⟩
    · intro h; exact h.elim
    · intro _
      refine ⟨?_, ?_⟩
      · have hp := parse_search_frame cfg.SDP_PDU_SERVICE_SEARCH_RSP trans_num H.length
          (UINT16
            ((UINT16_TO_BE_STREAM H.length ++ UINT16_TO_BE_STREAM C ++
              List.flatMap (List.take C (List.drop c H)) UINT32_TO_BE_STREAM ++
              (UINT8_TO_BE_STREAM cfg.SDP_CONTINUATION_LEN ++
                UINT16_TO_BE_STREAM (UINT16 ((c : Int) + (C : Int))))).length : Int))
          ((H.drop c).take C)
          (UINT8_TO_BE_STREAM cfg.SDP_CONTINUATION_LEN ++
            UINT16_TO_BE_STREAM (UINT16 ((c : Int) + (C : Int)))) hN (by rw [hlen]; omega)
          (fun x hx => hh x (List.mem_of_mem_drop (List.mem_of_mem_take hx)))
        rw [hlen] at hp
        rw [hp]
        simp only [hCL, ↓reduceIte, SearchFrame.mk.injEq, true_and, Option.some.injEq]
        rw [show (1 : Nat) = [cfg.SDP_CONTINUATION_LEN % 256].length + 0 by rfl]
        unfold BE_STREAM_TO_UINT16
        rw [show UINT8_TO_BE_STREAM cfg.SDP_CONTINUATION_LEN =
          [cfg.SDP_CONTINUATION_LEN % 256] by rfl, rd_append_right, Nat.add_assoc,
          rd_append_right, hU]
        simp only [UINT16_TO_BE_STREAM, rd, List.getD_cons_succ, List.getD_cons_zero]
        omega
      · simp only [hU]
theorem collect_handles_bound (env : Env) (db : List tSDP_RECORD) (uid_seq : tSDP_UUID_SEQ)
    (n : Nat) (hdb : ∀ r ∈ db, r.record_handle < 4294967296) :
    ∀ x ∈ collect_handles env db uid_seq n none, x < 4294967296 := by
  intro x hx
  rw [collect_handles_from env db uid_seq n none 0 (Or.inl ⟨rfl, rfl⟩)] at hx
  have hx1 := List.mem_of_mem_take hx
  simp only [List.drop_zero, List.mem_map, List.mem_filter] at hx1
  obtain ⟨r, ⟨hr, -⟩, rfl⟩ := hx1
  exact hdb r hr

/-- One round of the client after the first: the continuation request with
the stored offset `c` is answered with the window of the handle list at `c`. -/
theorem search_session_step (cfg : Config) (env : Env) (trans_num : Nat) (base : List Nat)
    (p1 : Nat) (uid_seq : tSDP_UUID_SEQ) (H : List Nat) (C c fuel : Nat) (st : State)
    (hparse : ∀ tail, env.sdpu_extract_uid_seq (base ++ tail) (base ++ tail).length =
      some (p1, uid_seq))
    (hbase : base.length = p1 + 2) (hu : uid_seq ≠ [])
    (hc0 : cfg.SDP_CONTINUATION_LEN ≠ 0) (hc1 : cfg.SDP_CONTINUATION_LEN < 256)
    (hH : H = collect_handles env st.db uid_seq
      (if BE_STREAM_TO_UINT16 base p1 > cfg.SDP_MAX_RECORDS then cfg.SDP_MAX_RECORDS
        else BE_STREAM_TO_UINT16 base p1) none)
    (hC : C = UINT16 (Int.tdiv ((st.ccb.rem_mtu_size : Int) -
      (SDP_MAX_SERVICE_RSPHDR_LEN : Int)) 4))
    (hdb : ∀ r ∈ st.db, r.record_handle < 4294967296)
    (hst : st.ccb.cont_offset = c) (hc : c ≤ H.length) :
    ∃ st1, st1.db = st.db ∧ st1.ccb.rem_mtu_size = st.ccb.rem_mtu_size ∧
      (¬ H.length - c ≤ C → st1.ccb.cont_offset = c + C) ∧
      search_session cfg env trans_num base (fuel + 1) st
          (UINT8_TO_BE_STREAM cfg.SDP_CONTINUATION_LEN ++ UINT16_TO_BE_STREAM c) =
        if H.length - c ≤ C then some [⟨H.length, H.drop c, none⟩]
        else (search_session cfg env trans_num base fuel st1
            (UINT8_TO_BE_STREAM cfg.SDP_CONTINUATION_LEN ++ UINT16_TO_BE_STREAM (c + C))).map
          fun frames => ⟨H.length, (H.drop c).take C, some (c + C)⟩ :: frames := by
  have hN : H.length < 65536 := by
    have h1 := collect_handles_length_le env st.db uid_seq
      (if BE_STREAM_TO_UINT16 base p1 > cfg.SDP_MAX_RECORDS then cfg.SDP_MAX_RECORDS
        else BE_STREAM_TO_UINT16 base p1) none
    have h2 := BE16_lt base p1
    rw [← hH] at h1
    split_ifs at h1 <;> omega
  have hh : ∀ x ∈ H, x < 4294967296 := by
    rw [hH]; exact collect_handles_bound env st.db uid_seq _ hdb
  have hreq := search_continuation_request cfg env st trans_num base p1 uid_seq c hparse hbase hu
    hc0 hc1 (by omega) hst
  rw [← hH, show UINT16 ((H.length : Int) - (c : Int)) = H.length - c by unfold UINT16; omega]
    at hreq
  obtain ⟨st1, p_buf, hb, h1, h2, h3, h4⟩ :=
    build_search_response_view cfg st trans_num H c hc0 hc1 hN hc hst hh
  rw [← hC] at h3 h4
  refine ⟨st1, h1, h2, fun h => (h4 h).2, ?_⟩
  rw [search_session, hreq, hb]
  by_cases hle : H.length - c ≤ C
  · simp only [h3 hle, hle, ↓reduceIte]
  · simp only [(h4 hle).1, hle, ↓reduceIte]

/-- The first round of the client: the request with the zero byte is answered
with the first window of the handle list. -/
theorem search_session_first (cfg : Config) (env : Env) (trans_num : Nat) (base : List Nat)
    (p1 : Nat) (uid_seq : tSDP_UUID_SEQ) (H : List Nat) (C fuel : Nat) (st : State)
    (hparse : ∀ tail, env.sdpu_extract_uid_seq (base ++ tail) (base ++ tail).length =
      some (p1, uid_seq))
    (hbase : base.length = p1 + 2) (hu : uid_seq ≠ [])
    (hc0 : cfg.SDP_CONTINUATION_LEN ≠ 0) (hc1 : cfg.SDP_CONTINUATION_LEN < 256)
    (hH : H = collect_handles env st.db uid_seq
      (if BE_STREAM_TO_UINT16 base p1 > cfg.SDP_MAX_RECORDS then cfg.SDP_MAX_RECORDS
        else BE_STREAM_TO_UINT16 base p1) none)
    (hC : C = UINT16 (Int.tdiv ((st.ccb.rem_mtu_size : Int) -
      (SDP_MAX_SERVICE_RSPHDR_LEN : Int)) 4))
    (hdb : ∀ r ∈ st.db, r.record_handle < 4294967296) :
    ∃ st1, st1.db = st.db ∧ st1.ccb.rem_mtu_size = st.ccb.rem_mtu_size ∧
      (¬ H.length ≤ C → st1.ccb.cont_offset = C) ∧
      search_session cfg env trans_num base (fuel + 1) st [0] =
        if H.length ≤ C then some [⟨H.length, H, none⟩]
        else (search_session cfg env trans_num base fuel st1
            (UINT8_TO_BE_STREAM cfg.SDP_CONTINUATION_LEN ++ UINT16_TO_BE_STREAM C)).map
          fun frames => ⟨H.length, H.take C, some C⟩ :: frames := by
  have hN : H.length < 65536 := by
    have h1 := collect_handles_length_le env st.db uid_seq
      (if BE_STREAM_TO_UINT16 base p1 > cfg.SDP_MAX_RECORDS then cfg.SDP_MAX_RECORDS
        else BE_STREAM_TO_UINT16 base p1) none
    have h2 := BE16_lt base p1
    rw [← hH] at h1
    split_ifs at h1 <;> omega
  have hh : ∀ x ∈ H, x < 4294967296 := by
    rw [hH]; exact collect_handles_bound env st.db uid_seq _ hdb
  have hreq := search_first_request cfg env st trans_num base p1 uid_seq hparse hbase hu
  rw [← hH] at hreq
  obtain ⟨st1, p_buf, hb, h1, h2, h3, h4⟩ :=
    build_search_response_view cfg { st with ccb := { st.ccb with cont_offset := 0 } }
      trans_num H 0 hc0 hc1 hN (Nat.zero_le _) rfl hh
  simp only [Nat.sub_zero, List.drop_zero, Nat.zero_add] at hb h3 h4
  rw [← hC] at h3 h4
  refine ⟨st1, h1, h2, fun h => (h4 h).2, ?_⟩
  rw [search_session, hreq, hb]
  by_cases hle : H.length ≤ C
  · simp only [h3 hle, hle, ↓reduceIte]
  · simp only [(h4 hle).1, hle, ↓reduceIte]
theorem search_session_tail_correct (cfg : Config) (env : Env) (trans_num : Nat)
    (base : List Nat) (p1 : Nat) (uid_seq : tSDP_UUID_SEQ) (H : List Nat) (C : Nat)
    (hparse : ∀ tail, env.sdpu_extract_uid_seq (base ++ tail) (base ++ tail).length =
      some (p1, uid_seq))
    (hbase : base.length = p1 + 2) (hu : uid_seq ≠ [])
    (hc0 : cfg.SDP_CONTINUATION_LEN ≠ 0) (hc1 : cfg.SDP_CONTINUATION_LEN < 256) :
    ∀ (fuel c : Nat) (st : State),
      H = collect_handles env st.db uid_seq
        (if BE_STREAM_TO_UINT16 base p1 > cfg.SDP_MAX_RECORDS then cfg.SDP_MAX_RECORDS
          else BE_STREAM_TO_UINT16 base p1) none →
      C = UINT16 (Int.tdiv ((st.ccb.rem_mtu_size : Int) -
        (SDP_MAX_SERVICE_RSPHDR_LEN : Int)) 4) →
      (∀ r ∈ st.db, r.record_handle < 4294967296) →
      st.ccb.cont_offset = c → c ≤ H.length →
      ∀ frames, search_session cfg env trans_num base fuel st
          (UINT8_TO_BE_STREAM cfg.SDP_CONTINUATION_LEN ++ UINT16_TO_BE_STREAM c) = some frames →
        frames.flatMap (fun f => f.handles) = H.drop c ∧ ∀ f ∈ frames, f.total = H.length := by
  intro fuel
  induction fuel with
  | zero => intro c st _ _ _ _ _ frames h; simp [search_session] at h
  | succ fuel ih =>
    intro c st hH hC hdb hst hc frames h
    obtain ⟨st1, h1, h2, h3, h4⟩ := search_session_step cfg env trans_num base p1 uid_seq H C c
      fuel st hparse hbase hu hc0 hc1 hH hC hdb hst hc
    rw [h4] at h
    by_cases hle : H.length - c ≤ C
    · simp only [hle, ↓reduceIte, Option.some.injEq] at h
      subst h
      simp
    · simp only [hle, ↓reduceIte, Option.map_eq_some'] at h
      obtain ⟨rest, hrest, rfl⟩ := h
      obtain ⟨ih1, ih2⟩ := ih (c + C) st1 (by rw [h1]; exact hH) (by rw [h2]; exact hC)
        (by rw [h1]; exact hdb) (h3 hle) (by omega) rest hrest
      refine ⟨?_, ?_⟩
      · simp only [List.flatMap_cons, ih1]
        rw [← List.drop_drop, List.take_append_drop]
      · intro f hf
        rcases List.mem_cons.1 hf with rfl | hf
        · rfl
        · exact ih2 f hf

theorem search_session_tail_total (cfg : Config) (env : Env) (trans_num : Nat)
    (base : List Nat) (p1 : Nat) (uid_seq : tSDP_UUID_SEQ) (H : List Nat) (C : Nat)
    (hparse : ∀ tail, env.sdpu_extract_uid_seq (base ++ tail) (base ++ tail).length =
      some (p1, uid_seq))
    (hbase : base.length = p1 + 2) (hu : uid_seq ≠ [])
    (hc0 : cfg.SDP_CONTINUATION_LEN ≠ 0) (hc1 : cfg.SDP_CONTINUATION_LEN < 256)
    (hCpos : 0 < C) :
    ∀ (fuel c : Nat) (st : State),
      H = collect_handles env st.db uid_seq
        (if BE_STREAM_TO_UINT16 base p1 > cfg.SDP_MAX_RECORDS then cfg.SDP_MAX_RECORDS
          else BE_STREAM_TO_UINT16 base p1) none →
      C = UINT16 (Int.tdiv ((st.ccb.rem_mtu_size : Int) -
        (SDP_MAX_SERVICE_RSPHDR_LEN : Int)) 4) →
      (∀ r ∈ st.db, r.record_handle < 4294967296) →
      st.ccb.cont_offset = c → c ≤ H.length → H.length - c < fuel →
      ∃ frames, search_session cfg env trans_num base fuel st
          (UINT8_TO_BE_STREAM cfg.SDP_CONTINUATION_LEN ++ UINT16_TO_BE_STREAM c) = some frames := by
  intro fuel
  induction fuel with
  | zero => intro c st _ _ _ _ _ h; omega
  | succ fuel ih =>
    intro c st hH hC hdb hst hc hfuel
    obtain ⟨st1, h1, h2, h3, h4⟩ := search_session_step cfg env trans_num base p1 uid_seq H C c
      fuel st hparse hbase hu hc0 hc1 hH hC hdb hst hc
    rw [h4]
    by_cases hle : H.length - c ≤ C
    · rw [if_pos hle]
      exact ⟨_, rfl⟩
    · obtain ⟨rest, hrest⟩ := ih (c + C) st1 (by rw [h1]; exact hH) (by rw [h2]; exact hC)
        (by rw [h1]; exact hdb) (h3 hle) (by omega) (by omega)
      rw [if_neg hle, hrest]
      exact ⟨_, rfl⟩

theorem search_session_correct (cfg : Config) (env : Env) (trans_num : Nat)
    (base : List Nat) (p1 : Nat) (uid_seq : tSDP_UUID_SEQ) (H : List Nat) (C : Nat) (st : State)
    (hparse : ∀ tail, env.sdpu_extract_uid_seq (base ++ tail) (base ++ tail).length =
      some (p1, uid_seq))
    (hbase : base.length = p1 + 2) (hu : uid_seq ≠ [])
    (hc0 : cfg.SDP_CONTINUATION_LEN ≠ 0) (hc1 : cfg.SDP_CONTINUATION_LEN < 256)
    (hH : H = collect_handles env st.db uid_seq
      (if BE_STREAM_TO_UINT16 base p1 > cfg.SDP_MAX_RECORDS then cfg.SDP_MAX_RECORDS
        else BE_STREAM_TO_UINT16 base p1) none)
    (hC : C = UINT16 (Int.tdiv ((st.ccb.rem_mtu_size : Int) -
      (SDP_MAX_SERVICE_RSPHDR_LEN : Int)) 4))
    (hdb : ∀ r ∈ st.db, r.record_handle < 4294967296) :
    (∀ fuel frames, search_session cfg env trans_num base fuel st [0] = some frames →
      frames.flatMap (fun f => f.handles) = H ∧ ∀ f ∈ frames, f.total = H.length) ∧
    (0 < C → ∀ fuel, H.length < fuel →
      ∃ frames, search_session cfg env trans_num base fuel st [0] = some frames) := by
  refine ⟨?_, ?_⟩
  · intro fuel frames h
    cases fuel with
    | zero => simp [search_session] at h
    | succ fuel =>
      obtain ⟨st1, h1, h2, h3, h4⟩ := search_session_first cfg env trans_num base p1 uid_seq
        H C fuel st hparse hbase hu hc0 hc1 hH hC hdb
      rw [h4] at h
      by_cases hle : H.length ≤ C
      · simp only [hle, ↓reduceIte, Option.some.injEq] at h
        subst h
        simp
      · simp only [hle, ↓reduceIte, Option.map_eq_some'] at h
        obtain ⟨rest, hrest, rfl⟩ := h
        obtain ⟨ih1, ih2⟩ := search_session_tail_correct cfg env trans_num base p1 uid_seq
          H C hparse hbase hu hc0 hc1 fuel C st1 (by rw [h1]; exact hH)
          (by rw [h2]; exact hC) (by rw [h1]; exact hdb) (h3 hle) (by omega) rest hrest
        refine ⟨?_, ?_⟩
        · simp only [List.flatMap_cons, ih1]
          exact List.take_append_drop _ _
        · intro f hf
          rcases List.mem_cons.1 hf with rfl | hf
          · rfl
          · exact ih2 f hf
  · intro hCpos fuel hfuel
    cases fuel with
    | zero => omega
    | succ fuel =>
      obtain ⟨st1, h1, h2, h3, h4⟩ := search_session_first cfg env trans_num base p1 uid_seq
        H C fuel st hparse hbase hu hc0 hc1 hH hC hdb
      rw [h4]
      by_cases hle : H.length ≤ C
      · rw [if_pos hle]
        exact ⟨_, rfl⟩
      · obtain ⟨rest, hrest⟩ := search_session_tail_total cfg env trans_num base p1 uid_seq
          H C hparse hbase hu hc0 hc1 hCpos fuel C st1 (by rw [h1]; exact hH)
          (by rw [h2]; exact hC) (by rw [h1]; exact hdb) (h3 hle) (by omega) (by omega)
        rw [if_neg hle, hrest]
        exact ⟨_, rfl⟩

/-! ## Search: a full continuation sequence -/

/-- C2: for a well-formed Search request (the UUID list parses and is not
empty, the maximum count follows it) against an unchanging store, the client
that follows the continuation offsets until the zero terminator receives
windows whose concatenation is exactly the list of the handles of the
matching records in store order, cut at min (client maximum,
`SDP_MAX_RECORDS`); every frame, the first included, reports the length of
that list as total match count, so no handle is duplicated or skipped. Such a
sequence ends whenever at least one handle fits in a frame (an MTU from 16 to
65535, for instance): any fuel above `SDP_MAX_RECORDS` suffices. -/
theorem C2_search_windows (cfg : Config) (env : Env) (trans_num : Nat) (base : List Nat)
    (p1 : Nat) (uid_seq : tSDP_UUID_SEQ) (st : State)
    (hparse : ∀ tail, env.sdpu_extract_uid_seq (base ++ tail) (base ++ tail).length =
      some (p1, uid_seq))
    (hbase : base.length = p1 + 2) (hu : uid_seq ≠ [])
    (hc0 : cfg.SDP_CONTINUATION_LEN ≠ 0) (hc1 : cfg.SDP_CONTINUATION_LEN < 256)
    (hdb : ∀ r ∈ st.db, r.record_handle < 4294967296) :
    (∀ fuel frames, search_session cfg env trans_num base fuel st [0] = some frames →
      frames.flatMap (fun f => f.handles) =
          ((matching_records env st.db uid_seq).map fun r => r.record_handle).take
            (min (BE_STREAM_TO_UINT16 base p1) cfg.SDP_MAX_RECORDS) ∧
        ∀ f ∈ frames, f.total = (frames.flatMap fun f => f.handles).length) ∧
    (0 < UINT16 (Int.tdiv ((st.ccb.rem_mtu_size : Int) - (SDP_MAX_SERVICE_RSPHDR_LEN : Int)) 4) →
      ∀ fuel, cfg.SDP_MAX_RECORDS < fuel →
        ∃ frames, search_session cfg env trans_num base fuel st [0] = some frames) := by
  have hmin : (if BE_STREAM_TO_UINT16 base p1 > cfg.SDP_MAX_RECORDS then cfg.SDP_MAX_RECORDS
      else BE_STREAM_TO_UINT16 base p1) =
      min (BE_STREAM_TO_UINT16 base p1) cfg.SDP_MAX_RECORDS := by
    split_ifs <;> omega
  have hH : ((matching_records env st.db uid_seq).map fun r => r.record_handle).take
        (min (BE_STREAM_TO_UINT16 base p1) cfg.SDP_MAX_RECORDS) =
      collect_handles env st.db uid_seq
        (if BE_STREAM_TO_UINT16 base p1 > cfg.SDP_MAX_RECORDS then cfg.SDP_MAX_RECORDS
          else BE_STREAM_TO_UINT16 base p1) none := by
    rw [collect_handles_from env st.db uid_seq _ none 0 (Or.inl ⟨rfl, rfl⟩), hmin]
    rfl
  obtain ⟨hA, hB⟩ := search_session_correct cfg env trans_num base p1 uid_seq _ _ st hparse hbase
    hu hc0 hc1 hH rfl hdb
  refine ⟨?_, ?_⟩
  · intro fuel frames h
    obtain ⟨h1, h2⟩ := hA fuel frames h
    exact ⟨h1, by rw [h1]; exact h2⟩
  · intro hC fuel hfuel
    refine hB hC fuel ?_
    have : (((matching_records env st.db uid_seq).map fun r => r.record_handle).take
        (min (BE_STREAM_TO_UINT16 base p1) cfg.SDP_MAX_RECORDS)).length ≤
        min (BE_STREAM_TO_UINT16 base p1) cfg.SDP_MAX_RECORDS := List.length_take_le _ _
    omega

/-- C2, at a Search for the UUID 0x1101 with at most 5 handles against
`db_serial` on a connection with MTU 20 (two handles per frame): the client
gets the handles 0x10000 and 0x10002 with the token 2, then 0x10003 with the
zero terminator. -/
theorem C2_search_windows_witness :
    search_session bt_config bt_env 7 (search_req 5 []) 4 (idle_state db_serial [] 20) [0] =
        some [⟨3, [0x10000, 0x10002], some 2⟩, ⟨3, [0x10003], none⟩] ∧
      [0x10000, 0x10002, 0x10003] =
        ((matching_records bt_env db_serial [⟨2, [0x11, 0x01]⟩]).map fun r =>
          r.record_handle).take (min 5 bt_config.SDP_MAX_RECORDS) :=
  ⟨by decide!,
    ((C2_search_windows bt_config bt_env 7 (search_req 5 []) 5 [⟨2, [0x11, 0x01]⟩]
      (idle_state db_serial [] 20)
      (by intro tail; simp [bt_env, parse_sequence, search_req, parse_uuid_elems])
      (by decide) (by decide) (by decide) (by decide) (by decide)).1 4
      [⟨3, [0x10000, 0x10002], some 2⟩, ⟨3, [0x10003], none⟩] (by decide!)).1⟩

/-! ## Search: a continuation behind the collected handles -/

/-- C11, the code at a failing input: on a connection with MTU 20 (two
handles per frame) a Search for the UUID 0x1101 against `db_serial` collects
three handles and sends two of them with the token 2. The continuation request
that carries this offset and asks for at most 1 handle is accepted; it collects
one handle, so none remains behind the offset 2, yet line 512 computes
`rem_handles = 1 - 2` in 16 bits, 65535, and the frame reports a count of 2
handles in this frame where min (remaining handles, (20 - 12) / 4) is 0. -/
theorem C11_count_behind_the_handles :
    process_service_search bt_config bt_env (idle_state db_serial [] 20) 7 8
        (search_req 30 [0]) 8 =
      some ({ idle_state db_serial [] 20 with ccb := { idle_ccb [] 20 with cont_offset := 2 } },
        .response ([3, 0, 7, 0, 15] ++ [0, 3, 0, 2] ++ [0, 1, 0, 0, 0, 1, 0, 2] ++ [2, 0, 2])) ∧
    (process_service_search bt_config bt_env
        { idle_state db_serial [] 20 with ccb := { idle_ccb [] 20 with cont_offset := 2 } } 8 10
        (search_req 1 [2, 0, 2]) 10).map Prod.snd =
      some (.response ([3, 0, 8, 0, 15] ++ [0, 1, 0, 2] ++ [0, 0, 0, 0, 0, 0, 0, 0] ++
        [2, 0, 4])) ∧
    collect_handles bt_env db_serial [⟨2, [0x11, 0x01]⟩] 1 none = [0x10000] ∧
    min ((collect_handles bt_env db_serial [⟨2, [0x11, 0x01]⟩] 1 none).length - 2)
      ((20 - 12) / 4) = 0 := by
  decide!

/-- C17, the code at a failing input: on a connection with MTU 16 (one handle
per frame) a Search for the UUID 0x1101 against `db_serial` sends the handle
0x10000 with the token 1. The continuation request that carries this offset and
asks for at most 0 handles is accepted; it collects no handle and reports a
total match count of 0, yet its frame holds one handle, the zero entry
`rsp_handles[1]` behind the collected list, and the token 2. -/
theorem C17_handle_behind_the_list :
    process_service_search bt_config bt_env (idle_state db_serial [] 16) 7 8
        (search_req 30 [0]) 8 =
      some ({ idle_state db_serial [] 16 with ccb := { idle_ccb [] 16 with cont_offset := 1 } },
        .response ([3, 0, 7, 0, 11] ++ [0, 3, 0, 1] ++ [0, 1, 0, 0] ++ [2, 0, 1])) ∧
    (process_service_search bt_config bt_env
        { idle_state db_serial [] 16 with ccb := { idle_ccb [] 16 with cont_offset := 1 } } 8 10
        (search_req 0 [2, 0, 1]) 10).map Prod.snd =
      some (.response ([3, 0, 8, 0, 11] ++ [0, 0, 0, 1] ++ [0, 0, 0, 0] ++ [2, 0, 2])) ∧
    collect_handles bt_env db_serial [⟨2, [0x11, 0x01]⟩] 0 none = [] := by
  decide!

/-! ## Search: the total match count -/

theorem build_search_response_total (cfg : Config) (st st1 : State) (trans_num : Nat)
    (H : List Nat) (rem c : Nat) (p_buf : List Nat) (hN : H.length < 65536)
    (h : build_search_response cfg st trans_num H rem c = some (st1, .response p_buf)) :
    BE_STREAM_TO_UINT16 p_buf 5 = H.length := by
  unfold build_search_response at h
  dsimp only at h
  split_ifs at h
  all_goals
    simp only [Option.some.injEq, Prod.mk.injEq, Outcome.response.injEq] at h
    obtain ⟨-, rfl⟩ := h
    simp only [UINT8_TO_BE_STREAM, UINT16_TO_BE_STREAM, BE_STREAM_TO_UINT16, rd,
      List.cons_append, List.nil_append, List.getD_cons_succ, List.getD_cons_zero]
    omega

theorem process_service_search_total (cfg : Config) (env : Env) (st st1 : State)
    (trans_num param_len : Nat) (p_req : List Nat) (p_req_end p1 : Nat)
    (uid_seq : tSDP_UUID_SEQ) (p_buf : List Nat)
    (hp : env.sdpu_extract_uid_seq p_req param_len = some (p1, uid_seq))
    (h : process_service_search cfg env st trans_num param_len p_req p_req_end =
      some (st1, .response p_buf)) :
    BE_STREAM_TO_UINT16 p_buf 5 =
      (collect_handles env st.db uid_seq
        (if BE_STREAM_TO_UINT16 p_req p1 > cfg.SDP_MAX_RECORDS then cfg.SDP_MAX_RECORDS
          else BE_STREAM_TO_UINT16 p_req p1) none).length := by
  have hN : (collect_handles env st.db uid_seq
      (if BE_STREAM_TO_UINT16 p_req p1 > cfg.SDP_MAX_RECORDS then cfg.SDP_MAX_RECORDS
        else BE_STREAM_TO_UINT16 p_req p1) none).length < 65536 := by
    have h1 := collect_handles_length_le env st.db uid_seq
      (if BE_STREAM_TO_UINT16 p_req p1 > cfg.SDP_MAX_RECORDS then cfg.SDP_MAX_RECORDS
        else BE_STREAM_TO_UINT16 p_req p1) none
    have h2 := BE16_lt p_req p1
    have h3 : (if BE_STREAM_TO_UINT16 p_req p1 > cfg.SDP_MAX_RECORDS then cfg.SDP_MAX_RECORDS
        else BE_STREAM_TO_UINT16 p_req p1) < 65536 := by split_ifs <;> omega
    omega
  simp only [process_service_search, hp] at h
  by_cases hu0 : uid_seq.length = 0
  · simp [hu0] at h
  simp only [hu0, ↓reduceIte] at h
  by_cases h2 : p1 + 2 > p_req_end
  · simp [h2] at h
  simp only [h2, ↓reduceIte] at h
  by_cases hm : rd p_req (p1 + 2) ≠ 0
  · rw [if_pos hm] at h
    by_cases h3 : rd p_req (p1 + 2) ≠ cfg.SDP_CONTINUATION_LEN ∨ p1 + 2 + 1 ≥ p_req_end
    · rw [if_pos h3] at h; exact absurd h (by simp)
    rw [if_neg h3] at h
    by_cases h4 : BE_STREAM_TO_UINT16 p_req (p1 + 2 + 1) ≠ st.ccb.cont_offset
    · rw [if_pos h4] at h; exact absurd h (by simp)
    rw [if_neg h4] at h
    by_cases h5 : p1 + 2 + 3 ≠ p_req_end
    · rw [if_pos h5] at h; exact absurd h (by simp)
    rw [if_neg h5] at h
    exact build_search_response_total cfg _ _ _ _ _ _ _ hN h
  · rw [if_neg hm] at h
    by_cases h5 : p1 + 2 + 1 ≠ p_req_end
    · rw [if_pos h5] at h; exact absurd h (by simp)
    rw [if_neg h5] at h
    exact build_search_response_total cfg _ _ _ _ _ _ _ hN h

/-- An accepted request without continuation: the handler clears the stored
offset and answers from the start of the collected handles. -/
theorem process_service_search_fresh (cfg : Config) (env : Env) (st : State)
    (trans_num param_len : Nat) (p_req : List Nat) (p_req_end p1 : Nat)
    (uid_seq : tSDP_UUID_SEQ)
    (hp : env.sdpu_extract_uid_seq p_req param_len = some (p1, uid_seq)) (hu : uid_seq ≠ [])
    (hm : rd p_req (p1 + 2) = 0) (hend : p1 + 3 = p_req_end) :
    process_service_search cfg env st trans_num param_len p_req p_req_end =
      build_search_response cfg { st with ccb := { st.ccb with cont_offset := 0 } } trans_num
        (collect_handles env st.db uid_seq
          (if BE_STREAM_TO_UINT16 p_req p1 > cfg.SDP_MAX_RECORDS then cfg.SDP_MAX_RECORDS
            else BE_STREAM_TO_UINT16 p_req p1) none)
        (collect_handles env st.db uid_seq
          (if BE_STREAM_TO_UINT16 p_req p1 > cfg.SDP_MAX_RECORDS then cfg.SDP_MAX_RECORDS
            else BE_STREAM_TO_UINT16 p_req p1) none).length 0 := by
  have hu0 : ¬ uid_seq.length = 0 := by simpa using hu
  subst hend
  simp only [process_service_search, hp, hu0, ↓reduceIte, hm, ne_eq, not_true_eq_false,
    show ¬ p1 + 2 > p1 + 3 by omega, show p1 + 2 + 1 = p1 + 3 by omega]

/-- An accepted continuation request: the handler answers from the stored
offset, with `rem_handles` the 16-bit difference of line 512. -/
theorem process_service_search_cont (cfg : Config) (env : Env) (st : State)
    (trans_num param_len : Nat) (p_req : List Nat) (p_req_end p1 : Nat)
    (uid_seq : tSDP_UUID_SEQ)
    (hp : env.sdpu_extract_uid_seq p_req param_len = some (p1, uid_seq)) (hu : uid_seq ≠ [])
    (hc0 : cfg.SDP_CONTINUATION_LEN ≠ 0)
    (hm : rd p_req (p1 + 2) = cfg.SDP_CONTINUATION_LEN)
    (hoff : BE_STREAM_TO_UINT16 p_req (p1 + 3) = st.ccb.cont_offset)
    (hend : p1 + 5 = p_req_end) :
    process_service_search cfg env st trans_num param_len p_req p_req_end =
      build_search_response cfg st trans_num
        (collect_handles env st.db uid_seq
          (if BE_STREAM_TO_UINT16 p_req p1 > cfg.SDP_MAX_RECORDS then cfg.SDP_MAX_RECORDS
            else BE_STREAM_TO_UINT16 p_req p1) none)
        (UINT16 (((collect_handles env st.db uid_seq
          (if BE_STREAM_TO_UINT16 p_req p1 > cfg.SDP_MAX_RECORDS then cfg.SDP_MAX_RECORDS
            else BE_STREAM_TO_UINT16 p_req p1) none).length : Int) - st.ccb.cont_offset))
        st.ccb.cont_offset := by
  have hu0 : ¬ uid_seq.length = 0 := by simpa using hu
  subst hend
  simp only [process_service_search, hp, hu0, ↓reduceIte, hm, hc0, ne_eq, not_false_eq_true,
    not_true_eq_false, false_or, ge_iff_le, show ¬ p1 + 2 > p1 + 5 by omega,
    show ¬ p1 + 5 ≤ p1 + 2 + 1 by omega, show p1 + 2 + 1 = p1 + 3 by omega, hoff,
    show p1 + 2 + 3 = p1 + 5 by omega]

/-- The copy loop of the response ends, and a frame is sent, unless its 16-bit
index would have to pass 65535. -/
theorem build_search_response_isSome (cfg : Config) (st : State) (trans_num : Nat)
    (H : List Nat) (rem c : Nat)
    (h : c + UINT16 (Int.tdiv ((st.ccb.rem_mtu_size : Int) -
      (SDP_MAX_SERVICE_RSPHDR_LEN : Int)) 4) ≤ 65535 ∨ (c = 0 ∧ rem ≤ 65535)) :
    ∃ st1 p_buf, build_search_response cfg st trans_num H rem c = some (st1, .response p_buf) := by
  have hlt := UINT16_lt (Int.tdiv ((st.ccb.rem_mtu_size : Int) -
      (SDP_MAX_SERVICE_RSPHDR_LEN : Int)) 4)
  have hno : ¬ ((if rem ≤ UINT16 (Int.tdiv ((st.ccb.rem_mtu_size : Int) -
        (SDP_MAX_SERVICE_RSPHDR_LEN : Int)) 4) then rem
      else UINT16 (Int.tdiv ((st.ccb.rem_mtu_size : Int) -
        (SDP_MAX_SERVICE_RSPHDR_LEN : Int)) 4)) ≠ 0 ∧
      c + (if rem ≤ UINT16 (Int.tdiv ((st.ccb.rem_mtu_size : Int) -
        (SDP_MAX_SERVICE_RSPHDR_LEN : Int)) 4) then rem
      else UINT16 (Int.tdiv ((st.ccb.rem_mtu_size : Int) -
        (SDP_MAX_SERVICE_RSPHDR_LEN : Int)) 4)) > 65535) := by
    split_ifs <;> omega
  unfold build_search_response
  dsimp only
  rw [if_neg hno]
  exact ⟨_, _, rfl⟩

theorem collect_handles_eq_take (env : Env) (db : List tSDP_RECORD) (uid_seq : tSDP_UUID_SEQ)
    (m : Nat) (cap : Nat) :
    collect_handles env db uid_seq (if m > cap then cap else m) none =
      ((matching_records env db uid_seq).map fun r => r.record_handle).take (min m cap) := by
  have hmin : (if m > cap then cap else m) = min m cap := by split_ifs <;> omega
  rw [collect_handles_from env db uid_seq _ none 0 (Or.inl ⟨rfl, rfl⟩), hmin]
  rfl

/-! ## Search: the total match count -/

/-- C16: in a Search request whose UUID list parses, the handles the handler
collects are the handles of the first min (client maximum, `SDP_MAX_RECORDS`)
matching records of the store, in store order (fewer when the store has
fewer), and every response frame the request yields carries as total match
count min (client maximum, `SDP_MAX_RECORDS`, number of matching records). A
request without continuation that is well-formed yields such a frame, and so
does a continuation request with the stored offset when the offset plus the
number of handles that fit in a frame stays within 16 bits. -/
theorem C16_total_match_count (cfg : Config) (env : Env) (st : State)
    (trans_num param_len : Nat) (p_req : List Nat) (p_req_end p1 : Nat)
    (uid_seq : tSDP_UUID_SEQ)
    (hp : env.sdpu_extract_uid_seq p_req param_len = some (p1, uid_seq)) :
    collect_handles env st.db uid_seq
        (if BE_STREAM_TO_UINT16 p_req p1 > cfg.SDP_MAX_RECORDS then cfg.SDP_MAX_RECORDS
          else BE_STREAM_TO_UINT16 p_req p1) none =
      ((matching_records env st.db uid_seq).map fun r => r.record_handle).take
        (min (BE_STREAM_TO_UINT16 p_req p1) cfg.SDP_MAX_RECORDS) ∧
    (∀ st1 p_buf,
      process_service_search cfg env st trans_num param_len p_req p_req_end =
        some (st1, .response p_buf) →
      BE_STREAM_TO_UINT16 p_buf 5 =
        min (min (BE_STREAM_TO_UINT16 p_req p1) cfg.SDP_MAX_RECORDS)
          (matching_records env st.db uid_seq).length) ∧
    (uid_seq ≠ [] → rd p_req (p1 + 2) = 0 → p1 + 3 = p_req_end →
      ∃ st1 p_buf, process_service_search cfg env st trans_num param_len p_req p_req_end =
        some (st1, .response p_buf)) ∧
    (uid_seq ≠ [] → cfg.SDP_CONTINUATION_LEN ≠ 0 →
      rd p_req (p1 + 2) = cfg.SDP_CONTINUATION_LEN →
      BE_STREAM_TO_UINT16 p_req (p1 + 3) = st.ccb.cont_offset → p1 + 5 = p_req_end →
      st.ccb.cont_offset + UINT16 (Int.tdiv ((st.ccb.rem_mtu_size : Int) -
        (SDP_MAX_SERVICE_RSPHDR_LEN : Int)) 4) ≤ 65535 →
      ∃ st1 p_buf, process_service_search cfg env st trans_num param_len p_req p_req_end =
        some (st1, .response p_buf)) := by
  have hH := collect_handles_eq_take env st.db uid_seq (BE_STREAM_TO_UINT16 p_req p1)
    cfg.SDP_MAX_RECORDS
  refine ⟨hH, ?_, ?_, ?_⟩
  · intro st1 p_buf h
    rw [process_service_search_total cfg env st st1 trans_num param_len p_req p_req_end p1
      uid_seq p_buf hp h, hH]
    simp [matching_records]
  · intro hu hm hend
    rw [process_service_search_fresh cfg env st trans_num param_len p_req p_req_end p1 uid_seq
      hp hu hm hend]
    apply build_search_response_isSome
    right
    refine ⟨rfl, ?_⟩
    have h1 := collect_handles_length_le env st.db uid_seq
      (if BE_STREAM_TO_UINT16 p_req p1 > cfg.SDP_MAX_RECORDS then cfg.SDP_MAX_RECORDS
        else BE_STREAM_TO_UINT16 p_req p1) none
    have h2 := BE16_lt p_req p1
    have h3 : (if BE_STREAM_TO_UINT16 p_req p1 > cfg.SDP_MAX_RECORDS then cfg.SDP_MAX_RECORDS
        else BE_STREAM_TO_UINT16 p_req p1) < 65536 := by split_ifs <;> omega
    omega
  · intro hu hc0 hm hoff hend hfit
    rw [process_service_search_cont cfg env st trans_num param_len p_req p_req_end p1 uid_seq
      hp hu hc0 hm hoff hend]
    exact build_search_response_isSome cfg st trans_num _ _ _ (Or.inl hfit)

/-- C16, at a Search for the UUID 0x1101 with at most 2 handles against
`db_serial`, which holds three matching records: two handles are collected
and a frame is sent. -/
theorem C16_total_match_count_witness :
    collect_handles bt_env db_serial [⟨2, [0x11, 0x01]⟩]
        (if BE_STREAM_TO_UINT16 (search_req 2 [0]) 5 > bt_config.SDP_MAX_RECORDS
          then bt_config.SDP_MAX_RECORDS else BE_STREAM_TO_UINT16 (search_req 2 [0]) 5) none =
      ((matching_records bt_env db_serial [⟨2, [0x11, 0x01]⟩]).map fun r =>
        r.record_handle).take
        (min (BE_STREAM_TO_UINT16 (search_req 2 [0]) 5) bt_config.SDP_MAX_RECORDS) ∧
    ∃ st1 p_buf,
      process_service_search bt_config bt_env (idle_state db_serial [] 672) 7 8
        (search_req 2 [0]) 8 = some (st1, .response p_buf) :=
  ⟨(C16_total_match_count bt_config bt_env (idle_state db_serial [] 672) 7 8
      (search_req 2 [0]) 8 5 [⟨2, [0x11, 0x01]⟩] (by decide)).1,
    (C16_total_match_count bt_config bt_env (idle_state db_serial [] 672) 7 8
      (search_req 2 [0]) 8 5 [⟨2, [0x11, 0x01]⟩] (by decide)).2.2.1
      (by decide) (by decide) (by decide)⟩

/-! ## Search: the error conditions -/

/-- C18: in the Search handler, a UUID list that does not parse or is empty
gives `SDP_INVALID_REQ_SYNTAX`; a continuation request (marker byte
`SDP_CONTINUATION_LEN`, followed by at least one byte of the request) whose
offset differs from the stored one gives `SDP_INVALID_CONT_STATE`; a
continuation request with the stored offset whose end is not right behind the
offset, and a request with the zero marker whose end is not right behind the
marker, give `SDP_INVALID_PDU_SIZE`. The three codes are pairwise distinct,
and in each case the outcome of the call is that one error: no frame is sent
and the state is the one before the request. -/
theorem C18_search_errors (cfg : Config) (env : Env) (st : State)
    (trans_num param_len : Nat) (p_req : List Nat) (p_req_end : Nat) :
    ((env.sdpu_extract_uid_seq p_req param_len = none ∨
        ∃ p1, env.sdpu_extract_uid_seq p_req param_len = some (p1, [])) →
      process_service_search cfg env st trans_num param_len p_req p_req_end =
        some (st, .error trans_num .SDP_INVALID_REQ_SYNTAX)) ∧
    (∀ p1 uid_seq, env.sdpu_extract_uid_seq p_req param_len = some (p1, uid_seq) →
      uid_seq ≠ [] → cfg.SDP_CONTINUATION_LEN ≠ 0 →
      rd p_req (p1 + 2) = cfg.SDP_CONTINUATION_LEN → p1 + 3 < p_req_end →
      (BE_STREAM_TO_UINT16 p_req (p1 + 3) ≠ st.ccb.cont_offset →
        process_service_search cfg env st trans_num param_len p_req p_req_end =
          some (st, .error trans_num .SDP_INVALID_CONT_STATE)) ∧
      (BE_STREAM_TO_UINT16 p_req (p1 + 3) = st.ccb.cont_offset → p1 + 5 ≠ p_req_end →
        process_service_search cfg env st trans_num param_len p_req p_req_end =
          some (st, .error trans_num .SDP_INVALID_PDU_SIZE))) ∧
    (∀ p1 uid_seq, env.sdpu_extract_uid_seq p_req param_len = some (p1, uid_seq) →
      uid_seq ≠ [] → rd p_req (p1 + 2) = 0 → p1 + 2 ≤ p_req_end → p1 + 3 ≠ p_req_end →
      process_service_search cfg env st trans_num param_len p_req p_req_end =
        some (st, .error trans_num .SDP_INVALID_PDU_SIZE)) ∧
    tSDP_STATUS.SDP_INVALID_REQ_SYNTAX ≠ tSDP_STATUS.SDP_INVALID_CONT_STATE ∧
    tSDP_STATUS.SDP_INVALID_REQ_SYNTAX ≠ tSDP_STATUS.SDP_INVALID_PDU_SIZE ∧
    tSDP_STATUS.SDP_INVALID_CONT_STATE ≠ tSDP_STATUS.SDP_INVALID_PDU_SIZE := by
  refine ⟨?_, ?_, ?_, by decide, by decide, by decide⟩
  · rintro (h | ⟨p1, h⟩)
    · simp only [process_service_search, h]
    · simp only [process_service_search, h, List.length_nil, ↓reduceIte]
  · intro p1 uid_seq hp hu hc hm hend
    have hu0 : ¬ uid_seq.length = 0 := by simpa using hu
    have h1 : ¬ p1 + 2 > p_req_end := by omega
    refine ⟨fun hoff => ?_, fun hoff hsz => ?_⟩
    · simp only [process_service_search, hp, hu0, ↓reduceIte, h1, hm, hc, ne_eq,
        not_false_eq_true, not_true_eq_false, ge_iff_le, false_or]
      simp only [show ¬ p_req_end ≤ p1 + 2 + 1 by omega, ↓reduceIte,
        show p1 + 2 + 1 = p1 + 3 by omega, hoff, not_false_eq_true]
    · simp only [process_service_search, hp, hu0, ↓reduceIte, h1, hm, hc, ne_eq,
        not_false_eq_true, not_true_eq_false, ge_iff_le, false_or]
      simp only [show ¬ p_req_end ≤ p1 + 2 + 1 by omega, ↓reduceIte,
        show p1 + 2 + 1 = p1 + 3 by omega, hoff, not_true_eq_false,
        show ¬ p1 + 2 + 3 = p_req_end by omega, not_false_eq_true]
  · intro p1 uid_seq hp hu hm hend hsz
    have hu0 : ¬ uid_seq.length = 0 := by simpa using hu
    have h1 : ¬ p1 + 2 > p_req_end := by omega
    simp only [process_service_search, hp, hu0, ↓reduceIte, h1, hm, ne_eq, not_true_eq_false,
      show ¬ p1 + 2 + 1 = p_req_end by omega, not_false_eq_true]

/-- C18, at three Search requests on a connection whose stored offset is 0:
an empty UUID list, a continuation with the offset 9, and a zero marker with
one byte behind it. -/
theorem C18_search_errors_witness :
    process_service_search bt_config bt_env (idle_state db_serial [] 672) 7 5
        [0x35, 0, 0, 5, 0] 5 =
      some (idle_state db_serial [] 672, .error 7 .SDP_INVALID_REQ_SYNTAX) ∧
    process_service_search bt_config bt_env (idle_state db_serial [] 672) 7 10
        (search_req 5 [2, 0, 9]) 10 =
      some (idle_state db_serial [] 672, .error 7 .SDP_INVALID_CONT_STATE) ∧
    process_service_search bt_config bt_env (idle_state db_serial [] 672) 7 9
        (search_req 5 [0, 0]) 9 =
      some (idle_state db_serial [] 672, .error 7 .SDP_INVALID_PDU_SIZE) :=
  ⟨(C18_search_errors bt_config bt_env (idle_state db_serial [] 672) 7 5
      [0x35, 0, 0, 5, 0] 5).1 (Or.inr ⟨2, by decide⟩),
    ((C18_search_errors bt_config bt_env (idle_state db_serial [] 672) 7 10
      (search_req 5 [2, 0, 9]) 10).2.1 5 [⟨2, [0x11, 0x01]⟩]
      (by decide) (by decide) (by decide) (by decide) (by decide)).1 (by decide),
    (C18_search_errors bt_config bt_env (idle_state db_serial [] 672) 7 9
      (search_req 5 [0, 0]) 9).2.2.1 5 [⟨2, [0x11, 0x01]⟩]
      (by decide) (by decide) (by decide) (by decide) (by decide)⟩

/-! ## The continuation test of Attribute-Fetch and Search-Attribute-Fetch -/

theorem check_continuation_fresh (cfg : Config) (st : State) (p_req : List Nat)
    (p p_req_end : Nat) (attr_seq : tSDP_ATTR_SEQ) (b : Bool)
    (hm : rd p_req p = 0) (hend : p + 1 = p_req_end) :
    check_continuation cfg st p_req p p_req_end attr_seq b =
      .ok (st.reset_cont b, attr_seq, false, [0, 0, 0]) := by
  simp only [check_continuation, hm, ne_eq, not_true_eq_false, ↓reduceIte, hend,
    State.reset_cont]

theorem check_continuation_cont (cfg : Config) (st : State) (p_req : List Nat)
    (p p_req_end : Nat) (attr_seq : tSDP_ATTR_SEQ) (b : Bool)
    (hc : cfg.SDP_CONTINUATION_LEN ≠ 0) (hm : rd p_req p = cfg.SDP_CONTINUATION_LEN)
    (hoff : BE_STREAM_TO_UINT16 p_req (p + 1) = st.ccb.cont_offset)
    (hend : p + 3 = p_req_end) :
    check_continuation cfg st p_req p p_req_end attr_seq b =
      .ok (st,
        attr_seq.set st.ccb.cont_info.next_attr_index
          { attr_seq.getD st.ccb.cont_info.next_attr_index ⟨0, 0⟩ with
            start := st.ccb.cont_info.next_attr_start_id },
        true, []) := by
  simp only [check_continuation, hm, hc, ne_eq, not_false_eq_true, not_true_eq_false,
    ↓reduceIte, hoff, hend]

theorem check_continuation_rejected (cfg : Config) (st : State) (p_req : List Nat)
    (p p_req_end : Nat) (attr_seq : tSDP_ATTR_SEQ) (b : Bool)
    (hm : rd p_req p ≠ 0)
    (hbad : rd p_req p ≠ cfg.SDP_CONTINUATION_LEN ∨
      BE_STREAM_TO_UINT16 p_req (p + 1) ≠ st.ccb.cont_offset ∨ p + 3 ≠ p_req_end) :
    ∃ code, check_continuation cfg st p_req p p_req_end attr_seq b = .error code ∧
      (code = .SDP_INVALID_CONT_STATE ∨ code = .SDP_INVALID_PDU_SIZE) := by
  unfold check_continuation
  rw [if_pos hm]
  by_cases h1 : rd p_req p ≠ cfg.SDP_CONTINUATION_LEN
  · rw [if_pos h1]; exact ⟨_, rfl, Or.inl rfl⟩
  rw [if_neg h1]
  dsimp only
  by_cases h2 : BE_STREAM_TO_UINT16 p_req (p + 1) ≠ st.ccb.cont_offset
  · rw [if_pos h2]; exact ⟨_, rfl, Or.inl rfl⟩
  rw [if_neg h2]
  have h3 : p + 3 ≠ p_req_end := by
    rcases hbad with h | h | h
    · exact absurd h h1
    · exact absurd h h2
    · exact h
  rw [if_pos h3]; exact ⟨_, rfl, Or.inr rfl⟩

/-- Attribute-Fetch up to the continuation test: for a request whose
attribute list parses and whose record exists, the handler runs the PBAP
rewrite, allocates the scratch buffer anew and tests for a continuation. -/
theorem process_service_attr_req_eq (cfg : Config) (env : Env) (fuel : Nat) (st : State)
    (trans_num param_len : Nat) (p_req : List Nat) (p_req_end n i : Nat)
    (attr_seq : tSDP_ATTR_SEQ)
    (hp : env.sdpu_extract_attr_seq (p_req.drop 6) param_len = some (n, attr_seq))
    (ha : attr_seq ≠ []) (hend : 6 + n ≤ p_req_end)
    (hi : sdp_db_find_record st.db (BE_STREAM_TO_UINT32 p_req 0) = some i) :
    process_service_attr_req cfg env fuel st trans_num param_len p_req p_req_end =
      match check_continuation cfg
          ((sdp_update_pbap_record_if_blacklisted cfg env st (.db i)
            st.ccb.device_address).1.realloc_rsp_list
            (cap_max_list_len (BE_STREAM_TO_UINT16 p_req 4) st.ccb.rem_mtu_size
              SDP_MAX_ATTR_RSPHDR_LEN))
          p_req (6 + n) p_req_end attr_seq false with
      | .error code =>
        some ((sdp_update_pbap_record_if_blacklisted cfg env st (.db i)
            st.ccb.device_address).1.realloc_rsp_list
            (cap_max_list_len (BE_STREAM_TO_UINT16 p_req 4) st.ccb.rem_mtu_size
              SDP_MAX_ATTR_RSPHDR_LEN), .error trans_num code)
      | .ok (st2, attr_seq1, is_cont, p_rsp) =>
        run_attr_req cfg env fuel st2 trans_num
          (cap_max_list_len (BE_STREAM_TO_UINT16 p_req 4) st.ccb.rem_mtu_size
            SDP_MAX_ATTR_RSPHDR_LEN)
          (sdp_update_pbap_record_if_blacklisted cfg env st (.db i) st.ccb.device_address).2
          attr_seq1 attr_seq is_cont p_rsp := by
  have h4 : ¬ 4 > p_req_end := by omega
  have hlen : ¬ (attr_seq.length = 0 ∨ 6 + n > p_req_end) := by
    simp only [List.length_eq_zero, ha, false_or]; omega
  simp only [process_service_attr_req, h4, ↓reduceIte, hp, hlen, hi, State.realloc_rsp_list]

/-- Search-Attribute-Fetch up to the continuation test. -/
theorem process_service_search_attr_req_eq (cfg : Config) (env : Env) (fuel : Nat) (st : State)
    (trans_num param_len : Nat) (p_req : List Nat) (p_req_end p1 n : Nat)
    (uid_seq : tSDP_UUID_SEQ) (attr_seq : tSDP_ATTR_SEQ)
    (hp : env.sdpu_extract_uid_seq p_req param_len = some (p1, uid_seq)) (hu : uid_seq ≠ [])
    (hpa : env.sdpu_extract_attr_seq (p_req.drop (p1 + 2)) param_len = some (n, attr_seq))
    (ha : attr_seq ≠ []) :
    process_service_search_attr_req cfg env fuel st trans_num param_len p_req p_req_end =
      match check_continuation cfg
          (st.realloc_rsp_list
            (cap_max_list_len (BE_STREAM_TO_UINT16 p_req p1) st.ccb.rem_mtu_size
              SDP_MAX_SERVATTR_RSPHDR_LEN))
          p_req (p1 + 2 + n) p_req_end attr_seq true with
      | .error code =>
        some (st.realloc_rsp_list
            (cap_max_list_len (BE_STREAM_TO_UINT16 p_req p1) st.ccb.rem_mtu_size
              SDP_MAX_SERVATTR_RSPHDR_LEN), .error trans_num code)
      | .ok (st2, attr_seq1, is_cont, p_rsp) =>
        run_search_attr_req cfg env fuel st2 trans_num
          (cap_max_list_len (BE_STREAM_TO_UINT16 p_req p1) st.ccb.rem_mtu_size
            SDP_MAX_SERVATTR_RSPHDR_LEN)
          uid_seq attr_seq1 attr_seq is_cont p_rsp := by
  have hu0 : ¬ uid_seq.length = 0 := by simpa using hu
  have ha0 : ¬ attr_seq.length = 0 := by simpa using ha
  simp only [process_service_search_attr_req, hp, hu0, ↓reduceIte, hpa, ha0,
    State.realloc_rsp_list]
  rfl

/-! ## Requests without continuation: what is reset -/

theorem build_search_response_cont_info (cfg : Config) (st st1 : State) (trans_num : Nat)
    (H : List Nat) (rem c : Nat) (out : Outcome)
    (h : build_search_response cfg st trans_num H rem c = some (st1, out)) :
    st1.ccb.cont_info = st.ccb.cont_info ∧ st1.ccb.list_len = st.ccb.list_len := by
  unfold build_search_response at h
  dsimp only at h
  split_ifs at h
  all_goals
    simp only [Option.some.injEq, Prod.mk.injEq] at h
    obtain ⟨rfl, -⟩ := h
    exact ⟨rfl, rfl⟩

/-- C13 (amended): a well-formed request without continuation (zero marker
right at the end of the request) is accepted by each handler, and the handler
resets part of the continuation state before it builds the response. Search
sets `cont_offset` to 0 and builds the response from that state; it never
writes `cont_info` or `list_len`, which are after the request what they were
before. Attribute-Fetch builds the response from the state in which
`cont_offset`, `next_attr_index` and `attr_offset` are 0 and both record
pointers are null, with `last_attr_seq_desc_sent` as it was.
Search-Attribute-Fetch builds it from the state in which, besides,
`last_attr_seq_desc_sent` is false. -/
theorem C13_fresh_request_resets (cfg : Config) (env : Env) (fuel : Nat) (st : State)
    (trans_num param_len : Nat) (p_req : List Nat) (p_req_end : Nat) :
    (∀ p1 uid_seq, env.sdpu_extract_uid_seq p_req param_len = some (p1, uid_seq) →
      uid_seq ≠ [] → rd p_req (p1 + 2) = 0 → p1 + 3 = p_req_end →
      process_service_search cfg env st trans_num param_len p_req p_req_end =
          build_search_response cfg { st with ccb := { st.ccb with cont_offset := 0 } }
            trans_num
            (collect_handles env st.db uid_seq
              (if BE_STREAM_TO_UINT16 p_req p1 > cfg.SDP_MAX_RECORDS then cfg.SDP_MAX_RECORDS
                else BE_STREAM_TO_UINT16 p_req p1) none)
            (collect_handles env st.db uid_seq
              (if BE_STREAM_TO_UINT16 p_req p1 > cfg.SDP_MAX_RECORDS then cfg.SDP_MAX_RECORDS
                else BE_STREAM_TO_UINT16 p_req p1) none).length 0 ∧
        ∃ st1 p_buf,
          process_service_search cfg env st trans_num param_len p_req p_req_end =
            some (st1, .response p_buf) ∧
          st1.ccb.cont_info = st.ccb.cont_info ∧ st1.ccb.list_len = st.ccb.list_len) ∧
    (∀ n attr_seq i,
      env.sdpu_extract_attr_seq (p_req.drop 6) param_len = some (n, attr_seq) →
      attr_seq ≠ [] → sdp_db_find_record st.db (BE_STREAM_TO_UINT32 p_req 0) = some i →
      rd p_req (6 + n) = 0 → 6 + n + 1 = p_req_end →
      ∃ st2,
        process_service_attr_req cfg env fuel st trans_num param_len p_req p_req_end =
          run_attr_req cfg env fuel st2 trans_num
            (cap_max_list_len (BE_STREAM_TO_UINT16 p_req 4) st.ccb.rem_mtu_size
              SDP_MAX_ATTR_RSPHDR_LEN)
            (sdp_update_pbap_record_if_blacklisted cfg env st (.db i)
              st.ccb.device_address).2
            attr_seq attr_seq false [0, 0, 0] ∧
        st2.ccb.cont_offset = 0 ∧
        st2.ccb.cont_info =
          ⟨0, st.ccb.cont_info.next_attr_start_id, none, none,
            st.ccb.cont_info.last_attr_seq_desc_sent, 0⟩ ∧
        st2.ccb.list_len = st.ccb.list_len) ∧
    (∀ p1 uid_seq n attr_seq,
      env.sdpu_extract_uid_seq p_req param_len = some (p1, uid_seq) → uid_seq ≠ [] →
      env.sdpu_extract_attr_seq (p_req.drop (p1 + 2)) param_len = some (n, attr_seq) →
      attr_seq ≠ [] → rd p_req (p1 + 2 + n) = 0 → p1 + 2 + n + 1 = p_req_end →
      ∃ st2,
        process_service_search_attr_req cfg env fuel st trans_num param_len p_req p_req_end =
          run_search_attr_req cfg env fuel st2 trans_num
            (cap_max_list_len (BE_STREAM_TO_UINT16 p_req p1) st.ccb.rem_mtu_size
              SDP_MAX_SERVATTR_RSPHDR_LEN)
            uid_seq attr_seq attr_seq false [0, 0, 0] ∧
        st2.ccb.cont_offset = 0 ∧
        st2.ccb.cont_info = ⟨0, st.ccb.cont_info.next_attr_start_id, none, none, false, 0⟩ ∧
        st2.ccb.list_len = st.ccb.list_len) := by
  refine ⟨?_, ?_, ?_⟩
  · intro p1 uid_seq hp hu hm hend
    have hreq := process_service_search_fresh cfg env st trans_num param_len p_req p_req_end p1
      uid_seq hp hu hm hend
    refine ⟨hreq, ?_⟩
    have hN : (collect_handles env st.db uid_seq
        (if BE_STREAM_TO_UINT16 p_req p1 > cfg.SDP_MAX_RECORDS then cfg.SDP_MAX_RECORDS
          else BE_STREAM_TO_UINT16 p_req p1) none).length ≤ 65535 := by
      have h1 := collect_handles_length_le env st.db uid_seq
        (if BE_STREAM_TO_UINT16 p_req p1 > cfg.SDP_MAX_RECORDS then cfg.SDP_MAX_RECORDS
          else BE_STREAM_TO_UINT16 p_req p1) none
      have h2 := BE16_lt p_req p1
      have h3 : (if BE_STREAM_TO_UINT16 p_req p1 > cfg.SDP_MAX_RECORDS then cfg.SDP_MAX_RECORDS
          else BE_STREAM_TO_UINT16 p_req p1) < 65536 := by split_ifs <;> omega
      omega
    obtain ⟨st1, p_buf, hb⟩ := build_search_response_isSome cfg
      { st with ccb := { st.ccb with cont_offset := 0 } } trans_num
      (collect_handles env st.db uid_seq
        (if BE_STREAM_TO_UINT16 p_req p1 > cfg.SDP_MAX_RECORDS then cfg.SDP_MAX_RECORDS
          else BE_STREAM_TO_UINT16 p_req p1) none) _ 0 (Or.inr ⟨rfl, hN⟩)
    refine ⟨st1, p_buf, by rw [hreq, hb], ?_⟩
    exact build_search_response_cont_info cfg
      { st with ccb := { st.ccb with cont_offset := 0 } } _ _ _ _ _ _ hb
  · intro n attr_seq i hp ha hi hm hend
    refine ⟨((sdp_update_pbap_record_if_blacklisted cfg env st (.db i)
        st.ccb.device_address).1.realloc_rsp_list
        (cap_max_list_len (BE_STREAM_TO_UINT16 p_req 4) st.ccb.rem_mtu_size
          SDP_MAX_ATTR_RSPHDR_LEN)).reset_cont false, ?_, rfl, ?_, ?_⟩
    · rw [process_service_attr_req_eq cfg env fuel st trans_num param_len p_req p_req_end n i
        attr_seq hp ha (by omega) hi, check_continuation_fresh cfg _ p_req (6 + n) p_req_end
        attr_seq false hm hend]
    · simp only [State.reset_cont, State.realloc_rsp_list, update_pbap_ccb,
        Bool.false_eq_true, ↓reduceIte]
    · simp only [State.reset_cont, State.realloc_rsp_list, update_pbap_ccb]
  · intro p1 uid_seq n attr_seq hp hu hpa ha hm hend
    refine ⟨(st.realloc_rsp_list
        (cap_max_list_len (BE_STREAM_TO_UINT16 p_req p1) st.ccb.rem_mtu_size
          SDP_MAX_SERVATTR_RSPHDR_LEN)).reset_cont true, ?_, rfl, rfl, rfl⟩
    rw [process_service_search_attr_req_eq cfg env fuel st trans_num param_len p_req p_req_end
      p1 n uid_seq attr_seq hp hu hpa ha, check_continuation_fresh cfg _ p_req (p1 + 2 + n)
      p_req_end attr_seq true hm hend]

/-- C13 (amended), at an Attribute-Fetch without continuation that arrives
while a Search-Attribute-Fetch response is in flight. -/
theorem C13_fresh_request_resets_witness :
    ∃ st2,
      process_service_attr_req bt_config bt_env 9 state_serial_frame1 8 14
          (attr_req 0 600 [0]) 14 =
        run_attr_req bt_config bt_env 9 st2 8 600 (.db 0) [⟨0, 0xFFFF⟩] [⟨0, 0xFFFF⟩] false
          [0, 0, 0] ∧
      st2.ccb.cont_offset = 0 ∧
      st2.ccb.cont_info = ⟨0, 1, none, none, true, 0⟩ ∧
      st2.ccb.list_len = 62 :=
  (C13_fresh_request_resets bt_config bt_env 9 state_serial_frame1 8 14
    (attr_req 0 600 [0]) 14).2.1 7 [⟨0, 0xFFFF⟩] 0
    (by decide) (by decide) (by decide) (by decide) (by decide)

/-- C13 as stated fails. A Search without continuation that is accepted while
an Attribute-Fetch response is in flight (`state_three_frame1`: attribute 2
cut after 4 bytes) sends its frame and leaves the partial attribute offset 4
and the start id 2 in place. The first frame of a Search-Attribute-Fetch with
a budget of 20 bytes leaves `last_attr_seq_desc_sent` set
(`state_serial_frame1`), and an Attribute-Fetch without continuation that is
accepted next sends its frame with the flag still set. -/
theorem C13_counterexample :
    (process_service_search bt_config bt_env state_three_frame1 8 8 (search_req 5 [0]) 8).map
        (fun r => (r.2, r.1.ccb.cont_info)) =
      some (.response [3, 0, 8, 0, 5, 0, 0, 0, 0, 0], ⟨0, 2, none, none, false, 4⟩) ∧
    process_service_search_attr_req bt_config bt_env 9 (idle_state db_serial [] 672) 7 15
        (search_attr_req 20 [0]) 15 =
      some (state_serial_frame1,
        .response ([7, 0, 7, 0, 24, 0, 19] ++
          [0x35, 60, 0x36, 0, 17, 9, 0, 0, 13, 4, 0, 1, 0, 0, 9, 0, 1, 0x35, 3] ++ [2, 0, 19])) ∧
    (process_service_attr_req bt_config bt_env 9 state_serial_frame1 8 14
        (attr_req 0 600 [0]) 14).map
        (fun r => (r.2, r.1.ccb.cont_info.last_attr_seq_desc_sent)) =
      some (.response ([5, 0, 8, 0, 22, 0, 19] ++
          [0x35, 17, 9, 0, 0, 13, 4, 0, 1, 0, 0, 9, 0, 1, 0x35, 3, 0x19, 0x11, 0x01] ++ [0]),
        true) := by
  decide!

/-! ## The scratch buffer does not carry over to the next request -/

theorem with_scratch_db (st : State) (l : List Nat) (n : Nat) :
    (st.with_scratch l n).db = st.db := rfl

theorem with_scratch_cont_offset (st : State) (l : List Nat) (n : Nat) :
    (st.with_scratch l n).ccb.cont_offset = st.ccb.cont_offset := rfl

theorem with_scratch_rem_mtu_size (st : State) (l : List Nat) (n : Nat) :
    (st.with_scratch l n).ccb.rem_mtu_size = st.ccb.rem_mtu_size := rfl

theorem with_scratch_device_address (st : State) (l : List Nat) (n : Nat) :
    (st.with_scratch l n).ccb.device_address = st.ccb.device_address := rfl

theorem update_pbap_with_scratch (cfg : Config) (env : Env) (st : State) (p : RecPtr)
    (addr : BD_ADDR) (l : List Nat) (n : Nat) :
    sdp_update_pbap_record_if_blacklisted cfg env (st.with_scratch l n) p addr =
      ((sdp_update_pbap_record_if_blacklisted cfg env st p addr).1.with_scratch l n,
        (sdp_update_pbap_record_if_blacklisted cfg env st p addr).2) := by
  unfold sdp_update_pbap_record_if_blacklisted
  cases p <;> dsimp only [State.with_scratch, State.deref] <;> split_ifs <;> rfl

theorem build_search_response_with_scratch (cfg : Config) (st : State) (trans_num : Nat)
    (H : List Nat) (rem c : Nat) (l : List Nat) (n : Nat) :
    build_search_response cfg (st.with_scratch l n) trans_num H rem c =
      (build_search_response cfg st trans_num H rem c).map
        fun r => (r.1.with_scratch l n, r.2) := by
  unfold build_search_response
  dsimp only [State.with_scratch]
  split_ifs <;> rfl

theorem process_service_search_with_scratch (cfg : Config) (env : Env) (st : State)
    (trans_num param_len : Nat) (p_req : List Nat) (p_req_end : Nat) (l : List Nat) (n : Nat) :
    process_service_search cfg env (st.with_scratch l n) trans_num param_len p_req p_req_end =
      (process_service_search cfg env st trans_num param_len p_req p_req_end).map
        fun r => (r.1.with_scratch l n, r.2) := by
  unfold process_service_search
  cases env.sdpu_extract_uid_seq p_req param_len with
  | none => rfl
  | some r =>
    obtain ⟨p1, uid_seq⟩ := r
    simp only [with_scratch_db, with_scratch_cont_offset]
    split_ifs
    all_goals first
      | rfl
      | exact build_search_response_with_scratch cfg _ _ _ _ _ _ _
      | exact build_search_response_with_scratch cfg
          { st with ccb := { st.ccb with cont_offset := 0 } } _ _ _ _ _ _

theorem process_service_attr_req_with_scratch (cfg : Config) (env : Env) (fuel : Nat)
    (st : State) (trans_num param_len : Nat) (p_req : List Nat) (p_req_end : Nat)
    (l : List Nat) (n : Nat) :
    (process_service_attr_req cfg env fuel (st.with_scratch l n) trans_num param_len p_req
        p_req_end).map (fun r => (r.1.with_scratch [] 0, r.2)) =
      (process_service_attr_req cfg env fuel st trans_num param_len p_req p_req_end).map
        fun r => (r.1.with_scratch [] 0, r.2) := by
  unfold process_service_attr_req
  simp only [with_scratch_db, with_scratch_rem_mtu_size, with_scratch_device_address,
    update_pbap_with_scratch]
  split_ifs
  · rfl
  · cases env.sdpu_extract_attr_seq (p_req.drop 6) param_len with
    | none => rfl
    | some r =>
      obtain ⟨k, attr_seq⟩ := r
      dsimp only
      split_ifs
      · rfl
      · cases sdp_db_find_record st.db (BE_STREAM_TO_UINT32 p_req 0) with
        | none => rfl
        | some i => rfl

theorem process_service_search_attr_req_with_scratch (cfg : Config) (env : Env) (fuel : Nat)
    (st : State) (trans_num param_len : Nat) (p_req : List Nat) (p_req_end : Nat)
    (l : List Nat) (n : Nat) :
    (process_service_search_attr_req cfg env fuel (st.with_scratch l n) trans_num param_len
        p_req p_req_end).map (fun r => (r.1.with_scratch [] 0, r.2)) =
      (process_service_search_attr_req cfg env fuel st trans_num param_len p_req p_req_end).map
        fun r => (r.1.with_scratch [] 0, r.2) := by
  unfold process_service_search_attr_req
  simp only [with_scratch_rem_mtu_size]
  cases env.sdpu_extract_uid_seq p_req param_len with
  | none => rfl
  | some r =>
    obtain ⟨p1, uid_seq⟩ := r
    dsimp only
    split_ifs
    · rfl
    · cases env.sdpu_extract_attr_seq (p_req.drop (p1 + 2)) param_len with
      | none => rfl
      | some r =>
        obtain ⟨k, attr_seq⟩ := r
        dsimp only
        split_ifs
        · rfl
        · rfl

/-- A request is answered in the same way, and leaves the same state but for
the scratch buffer, whatever the scratch buffer holds when it arrives. -/
theorem sdp_server_handle_client_req_with_scratch (cfg : Config) (env : Env) (fuel : Nat)
    (st : State) (p_msg : BT_HDR) (l : List Nat) (n : Nat) :
    (sdp_server_handle_client_req cfg env fuel (st.with_scratch l n) p_msg).map
        (fun r => (r.1.with_scratch [] 0, r.2)) =
      (sdp_server_handle_client_req cfg env fuel st p_msg).map
        fun r => (r.1.with_scratch [] 0, r.2) := by
  unfold sdp_server_handle_client_req
  dsimp only
  cases dispatch cfg p_msg with
  | send_error t c => rfl
  | call_process_service_search t pl p e =>
    dsimp only
    have h := process_service_search_with_scratch cfg env
      { st with ccb := { st.ccb with sdp_conn_timer := st.ccb.sdp_conn_timer + 1 } } t pl p e l n
    rw [show ({ (st.with_scratch l n) with
        ccb := { (st.with_scratch l n).ccb with
          sdp_conn_timer := (st.with_scratch l n).ccb.sdp_conn_timer + 1 } } : State) =
      ({ st with ccb := { st.ccb with sdp_conn_timer := st.ccb.sdp_conn_timer + 1 } } :
        State).with_scratch l n from rfl, h, Option.map_map]
    rfl
  | call_process_service_attr_req t pl p e =>
    exact process_service_attr_req_with_scratch cfg env fuel
      { st with ccb := { st.ccb with sdp_conn_timer := st.ccb.sdp_conn_timer + 1 } } t pl p e l n
  | call_process_service_search_attr_req t pl p e =>
    exact process_service_search_attr_req_with_scratch cfg env fuel
      { st with ccb := { st.ccb with sdp_conn_timer := st.ccb.sdp_conn_timer + 1 } } t pl p e l n

/-! ## Rejected continuation requests -/

/-- A continuation request (the byte behind the parsed lists is not
zero) that a handler rejects because the marker byte is not
`SDP_CONTINUATION_LEN`, because its offset is not the stored one, or because
the request does not end right behind the offset, is answered with one error
(`SDP_INVALID_CONT_STATE` or `SDP_INVALID_PDU_SIZE`) and leaves `cont_offset`,
`list_len` and the whole `cont_info` (next attribute index and start id, both
record pointers, partial attribute offset, sequence-header flag) as they were,
and the store too. Search leaves the whole state as it was;
Search-Attribute-Fetch has only allocated the scratch buffer anew, and
Attribute-Fetch has done that after the PBAP rewrite has had its look at the
record. Every following request, of any kind, is then answered as it would
have been without the rejected one, and leaves the same state but for the
scratch buffer (for Attribute-Fetch: when the PBAP rewrite did not create its
record copy during the rejected request). -/
theorem rejected_continuation_fields (cfg : Config) (env : Env) (fuel : Nat) (st : State)
    (trans_num param_len : Nat) (p_req : List Nat) (p_req_end : Nat) :
    (∀ p1 uid_seq, env.sdpu_extract_uid_seq p_req param_len = some (p1, uid_seq) →
      uid_seq ≠ [] → p1 + 2 ≤ p_req_end → rd p_req (p1 + 2) ≠ 0 →
      (rd p_req (p1 + 2) ≠ cfg.SDP_CONTINUATION_LEN ∨ p1 + 3 ≥ p_req_end ∨
        BE_STREAM_TO_UINT16 p_req (p1 + 3) ≠ st.ccb.cont_offset ∨ p1 + 5 ≠ p_req_end) →
      ∃ code, (code = .SDP_INVALID_CONT_STATE ∨ code = .SDP_INVALID_PDU_SIZE) ∧
        process_service_search cfg env st trans_num param_len p_req p_req_end =
          some (st, .error trans_num code)) ∧
    (∀ n attr_seq i,
      env.sdpu_extract_attr_seq (p_req.drop 6) param_len = some (n, attr_seq) →
      attr_seq ≠ [] → 6 + n ≤ p_req_end →
      sdp_db_find_record st.db (BE_STREAM_TO_UINT32 p_req 0) = some i →
      rd p_req (6 + n) ≠ 0 →
      (rd p_req (6 + n) ≠ cfg.SDP_CONTINUATION_LEN ∨
        BE_STREAM_TO_UINT16 p_req (6 + n + 1) ≠ st.ccb.cont_offset ∨ 6 + n + 3 ≠ p_req_end) →
      ∃ code st1, (code = .SDP_INVALID_CONT_STATE ∨ code = .SDP_INVALID_PDU_SIZE) ∧
        process_service_attr_req cfg env fuel st trans_num param_len p_req p_req_end =
          some (st1, .error trans_num code) ∧
        st1.db = st.db ∧ st1.ccb.cont_offset = st.ccb.cont_offset ∧
        st1.ccb.list_len = st.ccb.list_len ∧ st1.ccb.cont_info = st.ccb.cont_info ∧
        ((sdp_update_pbap_record_if_blacklisted cfg env st (.db i) st.ccb.device_address).1 =
            st →
          ∀ fuel2 p_msg,
            (sdp_server_handle_client_req cfg env fuel2 st1 p_msg).map
                (fun r => (r.1.with_scratch [] 0, r.2)) =
              (sdp_server_handle_client_req cfg env fuel2 st p_msg).map
                fun r => (r.1.with_scratch [] 0, r.2))) ∧
    (∀ p1 uid_seq n attr_seq,
      env.sdpu_extract_uid_seq p_req param_len = some (p1, uid_seq) → uid_seq ≠ [] →
      env.sdpu_extract_attr_seq (p_req.drop (p1 + 2)) param_len = some (n, attr_seq) →
      attr_seq ≠ [] → rd p_req (p1 + 2 + n) ≠ 0 →
      (rd p_req (p1 + 2 + n) ≠ cfg.SDP_CONTINUATION_LEN ∨
        BE_STREAM_TO_UINT16 p_req (p1 + 2 + n + 1) ≠ st.ccb.cont_offset ∨
        p1 + 2 + n + 3 ≠ p_req_end) →
      ∃ code st1, (code = .SDP_INVALID_CONT_STATE ∨ code = .SDP_INVALID_PDU_SIZE) ∧
        process_service_search_attr_req cfg env fuel st trans_num param_len p_req p_req_end =
          some (st1, .error trans_num code) ∧
        st1.db = st.db ∧ st1.ccb.cont_offset = st.ccb.cont_offset ∧
        st1.ccb.list_len = st.ccb.list_len ∧ st1.ccb.cont_info = st.ccb.cont_info ∧
        ∀ fuel2 p_msg,
          (sdp_server_handle_client_req cfg env fuel2 st1 p_msg).map
              (fun r => (r.1.with_scratch [] 0, r.2)) =
            (sdp_server_handle_client_req cfg env fuel2 st p_msg).map
              fun r => (r.1.with_scratch [] 0, r.2)) := by
  refine ⟨?_, ?_, ?_⟩
  · intro p1 uid_seq hp hu hend hm hbad
    have hu0 : ¬ uid_seq.length = 0 := by simpa using hu
    have h1 : ¬ p1 + 2 > p_req_end := by omega
    simp only [process_service_search, hp, hu0, ↓reduceIte, h1, hm, ne_eq,
      not_false_eq_true]
    by_cases h2 : ¬ rd p_req (p1 + 2) = cfg.SDP_CONTINUATION_LEN ∨ p1 + 2 + 1 ≥ p_req_end
    · rw [if_pos h2]; exact ⟨_, Or.inl rfl, rfl⟩
    rw [if_neg h2]
    by_cases h3 : BE_STREAM_TO_UINT16 p_req (p1 + 2 + 1) = st.ccb.cont_offset
    · have h4 : ¬ p1 + 2 + 3 = p_req_end := by
        rcases hbad with h | h | h | h
        · exact absurd (Or.inl h) h2
        · exact absurd (Or.inr (by omega)) h2
        · exact absurd h3 h
        · omega
      simp only [h3, not_true_eq_false, ↓reduceIte, h4, not_false_eq_true]
      exact ⟨_, Or.inr rfl, rfl⟩
    · simp only [h3, not_false_eq_true, ↓reduceIte]
      exact ⟨_, Or.inl rfl, rfl⟩
  · intro n attr_seq i hp ha hend hi hm hbad
    obtain ⟨code, hcode, hor⟩ := check_continuation_rejected cfg
      ((sdp_update_pbap_record_if_blacklisted cfg env st (.db i)
        st.ccb.device_address).1.realloc_rsp_list
        (cap_max_list_len (BE_STREAM_TO_UINT16 p_req 4) st.ccb.rem_mtu_size
          SDP_MAX_ATTR_RSPHDR_LEN))
      p_req (6 + n) p_req_end attr_seq false hm
      (by simpa only [State.realloc_rsp_list, update_pbap_ccb] using hbad)
    refine ⟨code, (sdp_update_pbap_record_if_blacklisted cfg env st (.db i)
        st.ccb.device_address).1.realloc_rsp_list
        (cap_max_list_len (BE_STREAM_TO_UINT16 p_req 4) st.ccb.rem_mtu_size
          SDP_MAX_ATTR_RSPHDR_LEN), hor, ?_, ?_, ?_, ?_, ?_, ?_⟩
    · rw [process_service_attr_req_eq cfg env fuel st trans_num param_len p_req p_req_end n i
        attr_seq hp ha hend hi, hcode]
    · exact update_pbap_db cfg env st _ _
    · simp only [State.realloc_rsp_list, update_pbap_ccb]
    · simp only [State.realloc_rsp_list, update_pbap_ccb]
    · simp only [State.realloc_rsp_list, update_pbap_ccb]
    · intro hsame fuel2 p_msg
      rw [hsame]
      exact sdp_server_handle_client_req_with_scratch cfg env fuel2 st p_msg [] _
  · intro p1 uid_seq n attr_seq hp hu hpa ha hm hbad
    obtain ⟨code, hcode, hor⟩ := check_continuation_rejected cfg
      (st.realloc_rsp_list
        (cap_max_list_len (BE_STREAM_TO_UINT16 p_req p1) st.ccb.rem_mtu_size
          SDP_MAX_SERVATTR_RSPHDR_LEN))
      p_req (p1 + 2 + n) p_req_end attr_seq true hm hbad
    refine ⟨code, st.realloc_rsp_list
        (cap_max_list_len (BE_STREAM_TO_UINT16 p_req p1) st.ccb.rem_mtu_size
          SDP_MAX_SERVATTR_RSPHDR_LEN), hor, ?_, rfl, rfl, rfl, rfl, ?_⟩
    · rw [process_service_search_attr_req_eq cfg env fuel st trans_num param_len p_req
        p_req_end p1 n uid_seq attr_seq hp hu hpa ha, hcode]
    · intro fuel2 p_msg
      exact sdp_server_handle_client_req_with_scratch cfg env fuel2 st p_msg [] _

/-- The rejection of a Search-Attribute-Fetch continuation with the offset 8
on a connection whose stored offset is 9. -/
theorem rejected_continuation_fields_at_offset_8 :
    ∃ code st1, (code = .SDP_INVALID_CONT_STATE ∨ code = .SDP_INVALID_PDU_SIZE) ∧
      process_service_search_attr_req bt_config bt_env 0 (streaming_state [rec_three]) 7 17
          (search_attr_req 50 [2, 0, 8]) 17 = some (st1, .error 7 code) ∧
      st1.db = [rec_three] ∧ st1.ccb.cont_offset = 9 ∧ st1.ccb.list_len = 40 ∧
      st1.ccb.cont_info = ⟨0, 0, none, none, false, 0⟩ ∧
      ∀ fuel2 p_msg,
        (sdp_server_handle_client_req bt_config bt_env fuel2 st1 p_msg).map
            (fun r => (r.1.with_scratch [] 0, r.2)) =
          (sdp_server_handle_client_req bt_config bt_env fuel2 (streaming_state [rec_three])
            p_msg).map fun r => (r.1.with_scratch [] 0, r.2) :=
  (rejected_continuation_fields bt_config bt_env 0 (streaming_state [rec_three]) 7 17
    (search_attr_req 50 [2, 0, 8]) 17).2.2 5 [⟨2, [0x11, 0x01]⟩] 7 [⟨0, 0xFFFF⟩]
    (by decide) (by decide) (by decide) (by decide) (by decide) (Or.inr (Or.inl (by decide)))

set_option maxRecDepth 1000000 in
/-- C14, the code at failing inputs. For a peer on the PBAP blacklist and a
store with the PBAP records `rec_pbap` and `rec_pbap_b`, an Attribute-Fetch
for the handle 0x00010005 that is rejected as a continuation, because its
offset 8 is not the stored offset 0, because its marker length is 3, or
because a byte trails the offset, leaves `cont_offset`, `list_len` and
`cont_info` as they were, but `sdp_update_pbap_record_if_blacklisted` (line
644) has run before the test of the continuation bytes (line 651) and has
left the copy of `rec_pbap` in its static record. A fresh Attribute-Fetch for
the handle 0x00010006 that follows is answered with the 36 bytes of the copy
of `rec_pbap`; without the rejected request it is answered with the 44 bytes
of the copy of `rec_pbap_b`. -/
theorem C14_rejection_leaves_a_copy :
    process_service_attr_req bt_config pbap_env 9
        (idle_state [rec_pbap, rec_pbap_b] peer_blacklisted 672) 7 16
        (attr_req 5 600 [2, 0, 8]) 16 =
      some ((state_pbap_copied [rec_pbap, rec_pbap_b]).with_scratch [] 600,
        .error 7 .SDP_INVALID_CONT_STATE) ∧
    process_service_attr_req bt_config pbap_env 9
        (idle_state [rec_pbap, rec_pbap_b] peer_blacklisted 672) 7 16
        (attr_req 5 600 [3, 0, 0]) 16 =
      some ((state_pbap_copied [rec_pbap, rec_pbap_b]).with_scratch [] 600,
        .error 7 .SDP_INVALID_CONT_STATE) ∧
    process_service_attr_req bt_config pbap_env 9
        (idle_state [rec_pbap, rec_pbap_b] peer_blacklisted 672) 7 17
        (attr_req 5 600 [2, 0, 0, 0]) 17 =
      some ((state_pbap_copied [rec_pbap, rec_pbap_b]).with_scratch [] 600,
        .error 7 .SDP_INVALID_PDU_SIZE) ∧
    ((state_pbap_copied [rec_pbap, rec_pbap_b]).with_scratch [] 600).ccb.cont_offset =
      (idle_state [rec_pbap, rec_pbap_b] peer_blacklisted 672).ccb.cont_offset ∧
    ((state_pbap_copied [rec_pbap, rec_pbap_b]).with_scratch [] 600).ccb.list_len =
      (idle_state [rec_pbap, rec_pbap_b] peer_blacklisted 672).ccb.list_len ∧
    ((state_pbap_copied [rec_pbap, rec_pbap_b]).with_scratch [] 600).ccb.cont_info =
      (idle_state [rec_pbap, rec_pbap_b] peer_blacklisted 672).ccb.cont_info ∧
    ((state_pbap_copied [rec_pbap, rec_pbap_b]).with_scratch [] 600).is_blacklisted_rec_created =
      true ∧
    (idle_state [rec_pbap, rec_pbap_b] peer_blacklisted 672).is_blacklisted_rec_created =
      false ∧
    (process_service_attr_req bt_config pbap_env 9
        ((state_pbap_copied [rec_pbap, rec_pbap_b]).with_scratch [] 600) 8 14
        (attr_req 6 600 [0]) 14).map Prod.snd =
      some (.response ([5, 0, 8, 0, 39, 0, 36, 0x35, 34] ++
        copy_of_rec_pbap.attributes.flatMap pbap_env.sdpu_build_attrib_entry ++ [0])) ∧
    (process_service_attr_req bt_config pbap_env 9
        (idle_state [rec_pbap, rec_pbap_b] peer_blacklisted 672) 8 14
        (attr_req 6 600 [0]) 14).map Prod.snd =
      some (.response ([5, 0, 8, 0, 47, 0, 44, 0x35, 42] ++
        copy_of_rec_pbap_b.attributes.flatMap pbap_env.sdpu_build_attrib_entry ++ [0])) := by
  decide!

/-! ## The attribute walk: what it leaves alone -/

theorem update_attr_p_rsp (w : Walk) (f : tSDP_ATTRIBUTE → tSDP_ATTRIBUTE) :
    (w.update_attr f).p_rsp = w.p_rsp := by
  unfold Walk.update_attr
  split <;> rfl

theorem update_attr_cont_info (w : Walk) (f : tSDP_ATTRIBUTE → tSDP_ATTRIBUTE) :
    (w.update_attr f).cont_info = w.cont_info := by
  unfold Walk.update_attr
  split <;> rfl

theorem update_attr_xx (w : Walk) (f : tSDP_ATTRIBUTE → tSDP_ATTRIBUTE) :
    (w.update_attr f).xx = w.xx := by
  unfold Walk.update_attr
  split <;> rfl

theorem update_attr_attr_seq (w : Walk) (f : tSDP_ATTRIBUTE → tSDP_ATTRIBUTE) :
    (w.update_attr f).attr_seq = w.attr_seq := by
  unfold Walk.update_attr
  split <;> rfl

theorem update_attr_maxxed_out (w : Walk) (f : tSDP_ATTRIBUTE → tSDP_ATTRIBUTE) :
    (w.update_attr f).maxxed_out = w.maxxed_out := by
  unfold Walk.update_attr
  split <;> rfl

theorem restore_attr_p_rsp (w : Walk) : (restore_attr w).p_rsp = w.p_rsp := by
  unfold restore_attr
  dsimp only
  split_ifs <;> simp only [update_attr_p_rsp]

theorem restore_attr_cont_info (w : Walk) : (restore_attr w).cont_info = w.cont_info := by
  unfold restore_attr
  dsimp only
  split_ifs <;> simp only [update_attr_cont_info]

theorem restore_attr_maxxed_out (w : Walk) : (restore_attr w).maxxed_out = w.maxxed_out := by
  unfold restore_attr
  dsimp only
  split_ifs <;> simp only [update_attr_maxxed_out]

theorem body_tail_p_rsp (w : Walk) (id : Nat) : (body_tail w id).p_rsp = w.p_rsp := by
  unfold body_tail
  dsimp only
  rw [restore_attr_p_rsp]
  split_ifs <;> rfl

theorem body_tail_cont_info (w : Walk) (id : Nat) : (body_tail w id).cont_info = w.cont_info := by
  unfold body_tail
  dsimp only
  rw [restore_attr_cont_info]
  split_ifs <;> rfl

/-- One pass through the loop body only appends to the scratch bytes. -/
theorem attr_walk_body_p_rsp (cfg : Config) (env : Env) (addr : BD_ADDR) (max_list_len : Nat)
    (w : Walk) :
    ∃ rest, (attr_walk_body cfg env addr max_list_len w).walk.p_rsp = w.p_rsp ++ rest := by
  unfold attr_walk_body
  dsimp only
  cases sdp_db_find_attr_in_rec w.p_rec (w.attr_seq.getD w.xx ⟨0, 0⟩).start
      (w.attr_seq.getD w.xx ⟨0, 0⟩).end with
  | none => exact ⟨[], by simp [BodyExit.walk]⟩
  | some j =>
    dsimp only
    split_ifs
    · exact ⟨[], by simp [BodyExit.walk, apply_rewrites_p_rsp]⟩
    · exact ⟨_, by simp only [BodyExit.walk, apply_rewrites_p_rsp]; rfl⟩
    · exact ⟨_, by simp only [BodyExit.walk, body_tail_p_rsp, apply_rewrites_p_rsp]; rfl⟩
    · exact ⟨[], by simp [BodyExit.walk, apply_rewrites_p_rsp]⟩
    · exact ⟨_, by simp only [BodyExit.walk, apply_rewrites_p_rsp]; rfl⟩
    · exact ⟨_, by simp only [BodyExit.walk, body_tail_p_rsp, apply_rewrites_p_rsp]; rfl⟩

/-- The attribute loop only appends to the scratch bytes. -/
theorem attr_walk_p_rsp (cfg : Config) (env : Env) (addr : BD_ADDR) (max_list_len : Nat)
    (fuel : Nat) (w0 : Walk) (e : WalkExit)
    (h : attr_walk cfg env addr max_list_len fuel w0 = some e) :
    ∃ rest, e.walk.p_rsp = w0.p_rsp ++ rest := by
  induction fuel generalizing w0 with
  | zero =>
    rw [attr_walk] at h
    split_ifs at h
    simp only [Option.some.injEq] at h
    subst h
    exact ⟨[], by simp [WalkExit.walk]⟩
  | succ fuel ih =>
    rw [attr_walk] at h
    split_ifs at h
    · obtain ⟨r1, hr1⟩ := attr_walk_body_p_rsp cfg env addr max_list_len w0
      split at h
      · rename_i w1 heq
        rw [heq] at hr1
        obtain ⟨r2, hr2⟩ := ih _ h
        exact ⟨r1 ++ r2, by rw [hr2]; simp only [BodyExit.walk] at hr1; simp [hr1]⟩
      · rename_i w1 heq
        rw [heq] at hr1
        simp only [Option.some.injEq] at h
        subst h
        exact ⟨r1, hr1⟩
      · rename_i w1 heq
        rw [heq] at hr1
        simp only [Option.some.injEq] at h
        subst h
        exact ⟨r1, hr1⟩
    · simp only [Option.some.injEq] at h
      subst h
      exact ⟨[], by simp [WalkExit.walk]⟩

/-! ## The record loop: what it leaves alone -/

theorem store_ccb (st : State) (p : RecPtr) (r : tSDP_RECORD) : (st.store p r).ccb = st.ccb := by
  cases p <;> rfl

theorem after_walk_outside_loops (st : State) (p : RecPtr) (w : Walk) :
    (st.after_walk p w).ccb.outside_loops = st.ccb.outside_loops := by
  simp only [State.after_walk, tCONN_CB.outside_loops, store_ccb]

theorem enter_record_outside_loops (cfg : Config) (env : Env) (st : State) (i : Nat) :
    (enter_record cfg env st i).1.ccb.outside_loops = st.ccb.outside_loops := by
  simp only [enter_record, update_pbap_ccb, tCONN_CB.outside_loops]

/-- The record loop writes neither the address, the MTU, the stored offset,
the total length nor the timer of the connection. -/
theorem search_attr_records_outside_loops (cfg : Config) (env : Env) (max_list_len : Nat)
    (uid_seq : tSDP_UUID_SEQ) (attr_seq_sav : tSDP_ATTR_SEQ) (walk_fuel : Nat) :
    ∀ (fuel : Nat) (l : RecLoop) (o : Option Nat) (e : RecLoopExit),
      search_attr_records cfg env max_list_len uid_seq attr_seq_sav walk_fuel fuel l o = some e →
      e.state.ccb.outside_loops = l.st.ccb.outside_loops := by
  intro fuel
  induction fuel with
  | zero =>
    intro l o e h
    cases o with
    | none =>
      simp only [search_attr_records, Option.some.injEq] at h
      subst h; rfl
    | some i => simp [search_attr_records] at h
  | succ fuel ih =>
    intro l o e h
    cases o with
    | none =>
      simp only [search_attr_records, Option.some.injEq] at h
      subst h; rfl
    | some i =>
      rw [search_attr_records] at h
      dsimp only at h
      have he := enter_record_outside_loops cfg env l.st i
      by_cases h1 : (enter_record cfg env l.st i).1.ccb.cont_info.last_attr_seq_desc_sent = false ∧
          rem_len_of max_list_len l.p_rsp < 3
      · rw [if_pos h1] at h
        simp only [Option.some.injEq] at h
        subst h
        exact he
      · rw [if_neg h1] at h
        split at h
        · simp at h
        · rename_i w hw
          simp only [Option.some.injEq] at h
          subst h
          simp only [RecLoopExit.state, after_walk_outside_loops, he]
        · rename_i w0 hw
          by_cases h2 : (restore_attr w0).maxxed_out = true
          · rw [if_pos h2] at h
            simp only [Option.some.injEq] at h
            subst h
            simp only [RecLoopExit.state]
            exact (after_walk_outside_loops _ _ _).trans he
          · rw [if_neg h2] at h
            have := ih _ _ _ h
            rw [this]
            exact (after_walk_outside_loops _ _ _).trans he

theorem update_pbap_not_blacklisted (cfg : Config) (env : Env) (st : State) (p : RecPtr)
    (addr : BD_ADDR) (hnb : ∀ a, is_pbap_record_blacklisted cfg env a addr = false) :
    sdp_update_pbap_record_if_blacklisted cfg env st p addr = (st, p) := by
  unfold sdp_update_pbap_record_if_blacklisted
  rw [hnb]
  rfl

/-- For a peer that is not on the PBAP blacklist the record loop computes no
length reduction. -/
theorem search_attr_records_skip (cfg : Config) (env : Env) (max_list_len : Nat)
    (uid_seq : tSDP_UUID_SEQ) (attr_seq_sav : tSDP_ATTR_SEQ) (walk_fuel : Nat) (addr : BD_ADDR)
    (hnb : ∀ a, is_pbap_record_blacklisted cfg env a addr = false) :
    ∀ (fuel : Nat) (l : RecLoop) (o : Option Nat) (r : RecLoop),
      l.st.ccb.device_address = addr →
      search_attr_records cfg env max_list_len uid_seq attr_seq_sav walk_fuel fuel l o =
        some (.done r) →
      r.blacklist_skip_len = l.blacklist_skip_len := by
  intro fuel
  induction fuel with
  | zero =>
    intro l o r _ h
    cases o with
    | none =>
      simp only [search_attr_records, Option.some.injEq, RecLoopExit.done.injEq] at h
      subst h; rfl
    | some i => simp [search_attr_records] at h
  | succ fuel ih =>
    intro l o r haddr h
    cases o with
    | none =>
      simp only [search_attr_records, Option.some.injEq, RecLoopExit.done.injEq] at h
      subst h; rfl
    | some i =>
      rw [search_attr_records] at h
      dsimp only at h
      have he : (enter_record cfg env l.st i).2 = .db i := by
        simp only [enter_record, haddr, update_pbap_not_blacklisted cfg env _ _ addr hnb]
      have hd := enter_record_outside_loops cfg env l.st i
      rw [he] at h
      simp only [ne_eq, not_true_eq_false, ↓reduceIte] at h
      by_cases h1 : (enter_record cfg env l.st i).1.ccb.cont_info.last_attr_seq_desc_sent = false ∧
          rem_len_of max_list_len l.p_rsp < 3
      · rw [if_pos h1] at h
        simp only [Option.some.injEq, RecLoopExit.done.injEq] at h
        subst h
        rfl
      · rw [if_neg h1] at h
        split at h
        · simp at h
        · simp at h
        · rename_i w0 hw
          by_cases h2 : (restore_attr w0).maxxed_out = true
          · rw [if_pos h2] at h
            simp only [Option.some.injEq, RecLoopExit.done.injEq] at h
            subst h
            rfl
          · rw [if_neg h2] at h
            have := ih _ _ _ ?_ h
            · exact this
            · have h3 := (after_walk_outside_loops (enter_record cfg env l.st i).1 (.db i)
                (restore_attr w0)).trans hd
              simp only [tCONN_CB.outside_loops, Prod.mk.injEq] at h3
              rw [← haddr]
              exact h3.1

/-! ## Search-Attribute-Fetch: the total length on a continuation -/

/-- When a Search-Attribute-Fetch request is accepted as a
continuation (marker, stored offset, end of the request right behind it) and
yields a response frame, the record loop of the request has ended with some
length reduction `blacklist_skip_len`, computed from the records of this frame
that the PBAP rewrite replaced, and `list_len` after the request is `list_len`
before it, less that reduction when the reduction is not zero and smaller than
`list_len` (lines 1337-1343). For a peer that is not on the PBAP blacklist the
reduction is zero and `list_len` is unchanged. -/
theorem list_len_on_continuation (cfg : Config) (env : Env) (fuel : Nat) (st : State)
    (trans_num param_len : Nat) (p_req : List Nat) (p_req_end p1 n : Nat)
    (uid_seq : tSDP_UUID_SEQ) (attr_seq : tSDP_ATTR_SEQ)
    (hp : env.sdpu_extract_uid_seq p_req param_len = some (p1, uid_seq)) (hu : uid_seq ≠ [])
    (hpa : env.sdpu_extract_attr_seq (p_req.drop (p1 + 2)) param_len = some (n, attr_seq))
    (ha : attr_seq ≠ []) (hc0 : cfg.SDP_CONTINUATION_LEN ≠ 0)
    (hm : rd p_req (p1 + 2 + n) = cfg.SDP_CONTINUATION_LEN)
    (hoff : BE_STREAM_TO_UINT16 p_req (p1 + 2 + n + 1) = st.ccb.cont_offset)
    (hend : p1 + 2 + n + 3 = p_req_end) (st1 : State) (p_buf : List Nat)
    (hrsp : process_service_search_attr_req cfg env fuel st trans_num param_len p_req
      p_req_end = some (st1, .response p_buf)) :
    (∃ l, search_attr_records cfg env
          (cap_max_list_len (BE_STREAM_TO_UINT16 p_req p1) st.ccb.rem_mtu_size
            SDP_MAX_SERVATTR_RSPHDR_LEN)
          uid_seq attr_seq fuel fuel
          { st := st.realloc_rsp_list
              (cap_max_list_len (BE_STREAM_TO_UINT16 p_req p1) st.ccb.rem_mtu_size
                SDP_MAX_SERVATTR_RSPHDR_LEN)
            attr_seq := attr_seq.set st.ccb.cont_info.next_attr_index
              { attr_seq.getD st.ccb.cont_info.next_attr_index ⟨0, 0⟩ with
                start := st.ccb.cont_info.next_attr_start_id }
            p_rsp := [], blacklist_skip_len := 0 }
          (sdp_db_service_search env st.db st.ccb.cont_info.prev_sdp_rec uid_seq) =
        some (.done l) ∧
      st1.ccb.list_len =
        if l.blacklist_skip_len ≠ 0 ∧ st.ccb.list_len > l.blacklist_skip_len
        then st.ccb.list_len - l.blacklist_skip_len else st.ccb.list_len) ∧
    ((∀ a, is_pbap_record_blacklisted cfg env a st.ccb.device_address = false) →
      st1.ccb.list_len = st.ccb.list_len) := by
  rw [process_service_search_attr_req_eq cfg env fuel st trans_num param_len p_req p_req_end
    p1 n uid_seq attr_seq hp hu hpa ha,
    check_continuation_cont cfg
      (st.realloc_rsp_list
        (cap_max_list_len (BE_STREAM_TO_UINT16 p_req p1) st.ccb.rem_mtu_size
          SDP_MAX_SERVATTR_RSPHDR_LEN))
      p_req (p1 + 2 + n) p_req_end attr_seq true hc0 hm hoff hend]
    at hrsp
  simp only [run_search_attr_req] at hrsp
  split at hrsp
  · simp at hrsp
  · simp at hrsp
  · rename_i l hl
    have hout := search_attr_records_outside_loops cfg env _ uid_seq attr_seq fuel fuel _ _ _ hl
    simp only [RecLoopExit.state, State.realloc_rsp_list, tCONN_CB.outside_loops,
      Prod.mk.injEq] at hout
    obtain ⟨-, -, -, hll, -⟩ := hout
    simp only [finish_search_attr_req, true_and, Bool.not_true, Bool.false_eq_true,
      ↓reduceIte, false_and, decide_False, Option.some.injEq, Prod.mk.injEq] at hrsp
    by_cases hz : UINT16 (l.p_rsp.length : Int) = 0
    · rw [if_pos hz] at hrsp
      simp at hrsp
    rw [if_neg hz] at hrsp
    simp only [Prod.mk.injEq] at hrsp
    obtain ⟨rfl, -⟩ := hrsp
    refine ⟨⟨l, hl, ?_⟩, fun hnb => ?_⟩
    · simp only [hll]
    · have hk := search_attr_records_skip cfg env _ uid_seq attr_seq fuel
        st.ccb.device_address hnb fuel _ _ l rfl hl
      simp only [hk, hll, ne_eq, not_true_eq_false, false_and, ↓reduceIte]

/-- The second frame of a Search-Attribute-Fetch from `db_serial` for a peer
that is on no blacklist: a frame is sent and `list_len` stays 62. -/
theorem list_len_on_continuation_plain_peer :
    process_service_search_attr_req bt_config plain_env 9 state_serial_frame1 8 17
        (search_attr_req 20 [2, 0, 19]) 17 =
      some (state_serial_frame2,
        .response ([7, 0, 8, 0, 25, 0, 20] ++
          [0x19, 0x11, 0x01, 0x36, 0, 17, 9, 0, 0, 13, 4, 0, 1, 0, 2, 9, 0, 1, 0x35, 3] ++
          [2, 0, 39])) ∧
    state_serial_frame2.ccb.list_len = state_serial_frame1.ccb.list_len :=
  ⟨by decide!,
    (list_len_on_continuation bt_config plain_env 9 state_serial_frame1 8 17
      (search_attr_req 20 [2, 0, 19]) 17 5 7 [⟨2, [0x11, 0x01]⟩] [⟨0, 0xFFFF⟩]
      (by decide) (by decide) (by decide) (by decide) (by decide) (by decide) (by decide)
      (by decide) state_serial_frame2
      ([7, 0, 8, 0, 25, 0, 20] ++
        [0x19, 0x11, 0x01, 0x36, 0, 17, 9, 0, 0, 13, 4, 0, 1, 0, 2, 9, 0, 1, 0x35, 3] ++
        [2, 0, 39]) (by decide!)).2
      (by intro a; simp [is_pbap_record_blacklisted, plain_env, bt_env, state_serial_frame1,
        idle_ccb])⟩

set_option maxRecDepth 1000000 in
/-- C15, the code at failing inputs. A Search-Attribute-Fetch of the UUID
0x112F from a peer on the PBAP blacklist is answered from the copy the PBAP
rewrite makes of `rec_pbap`; the whole answer has 39 bytes. With a budget of
30 bytes the first frame stores the total length 39 and the token 29, and the
continuation request with that offset, which visits the rewritten record
again, sends the last 10 bytes and leaves a total length of 25. With a budget
of 15 bytes the first frame sends 14 bytes and stores the total length 39; the
continuation frame sends 15 bytes, and the reduction applied again (lines
1337-1343) leaves the total length 25, below the stored offset 29: the frame
ends with the zero terminator although the profile descriptor list was cut
after 8 bytes and 10 bytes of the answer are not sent. -/
theorem C15_reduction_on_continuation :
    process_service_search_attr_req bt_config pbap_env 9
        (idle_state [rec_pbap] peer_blacklisted 672) 7 15 (search_attr_req_pbap 30 [0]) 15 =
      some (state_pbap_frame1,
        .response ([7, 0, 7, 0, 34, 0, 29] ++
          [0x35, 37, 0x36, 0, 34, 9, 0, 0, 10, 0, 1, 0, 5, 9, 0, 1, 0x35, 3, 0x19, 0x11, 0x2F,
            9, 0, 9, 0x35, 8, 0x35, 6, 0x19] ++ [2, 0, 29])) ∧
    state_pbap_frame1.ccb.list_len = 39 ∧
    (process_service_search_attr_req bt_config pbap_env 9 state_pbap_frame1 8 17
        (search_attr_req_pbap 30 [2, 0, 29]) 17).map (fun r => (r.2, r.1.ccb.list_len)) =
      some (.response ([7, 0, 8, 0, 13, 0, 10] ++ [0x11, 0x30, 9, 1, 1, 9, 3, 0x14, 8, 3] ++ [0]),
        25) ∧
    (process_service_search_attr_req bt_config pbap_env 9
        (idle_state [rec_pbap] peer_blacklisted 672) 7 15 (search_attr_req_pbap 600 [0])
        15).map (fun r => (r.2, r.1.ccb.list_len)) =
      some (.response ([7, 0, 7, 0, 42, 0, 39] ++ [0x35, 37, 0x36, 0, 34] ++
        copy_of_rec_pbap.attributes.flatMap pbap_env.sdpu_build_attrib_entry ++ [0]), 39) ∧
    process_service_search_attr_req bt_config pbap_env 9
        (idle_state [rec_pbap] peer_blacklisted 672) 7 15 (search_attr_req_pbap 15 [0]) 15 =
      some (state_pbap_15_frame1,
        .response ([7, 0, 7, 0, 19, 0, 14] ++
          [0x35, 37, 0x36, 0, 34, 9, 0, 0, 10, 0, 1, 0, 5, 9] ++ [2, 0, 14])) ∧
    state_pbap_15_frame1.ccb.list_len = 39 ∧
    (process_service_search_attr_req bt_config pbap_env 9 state_pbap_15_frame1 8 17
        (search_attr_req_pbap 15 [2, 0, 14]) 17).map
        (fun r => (r.2, r.1.ccb.list_len, r.1.ccb.cont_offset, r.1.ccb.cont_info)) =
      some (.response ([7, 0, 8, 0, 18, 0, 15] ++
          [0, 1, 0x35, 3, 0x19, 0x11, 0x2F, 9, 0, 9, 0x35, 8, 0x35, 6, 0x19] ++ [0]),
        25, 29, ⟨0, 9, none, some (.db 0), true, 8⟩) := by
  decide!

/-! ## The attribute walk stays within the budget -/

theorem rem_len_of_exact (max_list_len : Nat) (p_rsp : List Nat)
    (hmax : max_list_len ≤ 65535)
    (hlen : p_rsp.length ≤ max_list_len ∨ p_rsp.length ≤ 3)
    (hrem : 0 < rem_len_of max_list_len p_rsp) :
    rem_len_of max_list_len p_rsp = (max_list_len : Int) - (p_rsp.length : Int) := by
  unfold rem_len_of INT16 at *
  omega

theorem partial_entry_length_le (env : Env) (a : tSDP_ATTRIBUTE) (len offset : Nat) :
    (sdpu_build_partial_attrib_entry env a len offset).1.length ≤ len := by
  simp only [sdpu_build_partial_attrib_entry, List.length_take, List.length_drop]
  omega

/-- One pass through the loop body keeps the scratch bytes within the budget,
when encodings are shorter than 65536 bytes. -/
theorem attr_walk_body_within (cfg : Config) (env : Env) (addr : BD_ADDR) (max_list_len : Nat)
    (w : Walk) (henc : ∀ a, (env.sdpu_build_attrib_entry a).length < 65536)
    (hmax : max_list_len ≤ 65535)
    (hlen : w.p_rsp.length ≤ max_list_len ∨ w.p_rsp.length ≤ 3) :
    (attr_walk_body cfg env addr max_list_len w).walk.p_rsp.length ≤ max_list_len ∨
      (attr_walk_body cfg env addr max_list_len w).walk.p_rsp.length ≤ 3 := by
  unfold attr_walk_body
  dsimp only
  cases sdp_db_find_attr_in_rec w.p_rec (w.attr_seq.getD w.xx ⟨0, 0⟩).start
      (w.attr_seq.getD w.xx ⟨0, 0⟩).end with
  | none => exact hlen
  | some j =>
    dsimp only
    simp only [apply_rewrites_p_rsp, apply_rewrites_cont_info]
    by_cases h0 : rem_len_of max_list_len w.p_rsp ≤ 0
    · rw [if_pos h0]
      simpa only [BodyExit.walk, apply_rewrites_p_rsp] using hlen
    rw [if_neg h0]
    have hex := rem_len_of_exact max_list_len w.p_rsp hmax hlen (by omega)
    have hU : UINT16 (rem_len_of max_list_len w.p_rsp) = max_list_len - w.p_rsp.length := by
      rw [hex]; unfold UINT16; omega
    have hpart := partial_entry_length_le env ((apply_rewrites cfg env addr w j).p_rec.attr j)
      (UINT16 (rem_len_of max_list_len w.p_rsp)) w.cont_info.attr_offset
    rw [hU] at hpart
    split_ifs with h1 h2 h3 h4
    · left
      simp only [BodyExit.walk, List.length_append, hU]
      omega
    · left
      simp only [BodyExit.walk, body_tail_p_rsp, List.length_append, hU]
      omega
    · simpa only [BodyExit.walk, apply_rewrites_p_rsp] using hlen
    · left
      simp only [BodyExit.walk, List.length_append, hU]
      omega
    · left
      have ha := henc ((apply_rewrites cfg env addr w j).p_rec.attr j)
      simp only [BodyExit.walk, body_tail_p_rsp, List.length_append]
      simp only [sdpu_get_attrib_entry_len, UINT16] at h3
      omega

/-- The attribute loop keeps the scratch bytes within the budget, when
encodings are shorter than 65536 bytes. -/
theorem attr_walk_within (cfg : Config) (env : Env) (addr : BD_ADDR) (max_list_len : Nat)
    (henc : ∀ a, (env.sdpu_build_attrib_entry a).length < 65536)
    (hmax : max_list_len ≤ 65535) (fuel : Nat) (w0 : Walk) (e : WalkExit)
    (hlen : w0.p_rsp.length ≤ max_list_len ∨ w0.p_rsp.length ≤ 3)
    (h : attr_walk cfg env addr max_list_len fuel w0 = some e) :
    e.walk.p_rsp.length ≤ max_list_len ∨ e.walk.p_rsp.length ≤ 3 := by
  induction fuel generalizing w0 with
  | zero =>
    rw [attr_walk] at h
    split_ifs at h
    simp only [Option.some.injEq] at h
    subst h
    exact hlen
  | succ fuel ih =>
    rw [attr_walk] at h
    split_ifs at h
    · have hb := attr_walk_body_within cfg env addr max_list_len w0 henc hmax hlen
      split at h
      · rename_i w1 heq
        rw [heq] at hb
        exact ih { w1 with xx := UINT16 ((w1.xx : Int) + 1) } hb h
      · rename_i w1 heq
        rw [heq] at hb
        simp only [Option.some.injEq] at h
        subst h
        exact hb
      · rename_i w1 heq
        rw [heq] at hb
        simp only [Option.some.injEq] at h
        subst h
        exact hb
    · simp only [Option.some.injEq] at h
      subst h
      exact hlen

/-! ## The attribute walk keeps ids and encoded lengths -/

theorem setv_shape (env : Env)
    (hcodec : ∀ a k v, (env.sdpu_build_attrib_entry (tSDP_ATTRIBUTE.setv a k v)).length =
      (env.sdpu_build_attrib_entry a).length)
    (a : tSDP_ATTRIBUTE) (k v : Nat) : attr_shape env (a.setv k v) = attr_shape env a := by
  simp only [attr_shape, hcodec]
  rfl

theorem modify_shape (env : Env) (l : List tSDP_ATTRIBUTE) (f : tSDP_ATTRIBUTE → tSDP_ATTRIBUTE)
    (j : Nat)
    (hf : attr_shape env (f (l.getD j tSDP_ATTRIBUTE.zero)) =
      attr_shape env (l.getD j tSDP_ATTRIBUTE.zero)) :
    (l.modify f j).map (attr_shape env) = l.map (attr_shape env) := by
  induction l generalizing j with
  | nil => cases j <;> rfl
  | cons a as ih =>
    cases j with
    | zero =>
      simp only [List.modify_zero_cons, List.map_cons, List.cons.injEq, and_true]
      simpa using hf
    | succ j =>
      simp only [List.modify_succ_cons, List.map_cons, List.cons.injEq, true_and]
      exact ih j (by simpa using hf)

theorem update_attr_shape (env : Env) (w : Walk) (f : tSDP_ATTRIBUTE → tSDP_ATTRIBUTE)
    (hf : ∀ j, w.p_attr = some j →
      attr_shape env (f (w.p_rec.attr j)) = attr_shape env (w.p_rec.attr j)) :
    (w.update_attr f).p_rec.attributes.map (attr_shape env) =
      w.p_rec.attributes.map (attr_shape env) := by
  unfold Walk.update_attr
  split
  · rfl
  · rename_i j hj
    exact modify_shape env _ f j (hf j hj)

theorem update_attr_p_attr (w : Walk) (f : tSDP_ATTRIBUTE → tSDP_ATTRIBUTE) :
    (w.update_attr f).p_attr = w.p_attr := by
  unfold Walk.update_attr
  split <;> rfl

theorem restore_attr_shape (env : Env)
    (hcodec : ∀ a k v, (env.sdpu_build_attrib_entry (tSDP_ATTRIBUTE.setv a k v)).length =
      (env.sdpu_build_attrib_entry a).length)
    (w : Walk) :
    (restore_attr w).p_rec.attributes.map (attr_shape env) =
      w.p_rec.attributes.map (attr_shape env) := by
  have hs : ∀ (w1 : Walk) (k : Nat) (g : tSDP_ATTRIBUTE → Nat),
      (w1.update_attr fun a => a.setv k (g a)).p_rec.attributes.map (attr_shape env) =
        w1.p_rec.attributes.map (attr_shape env) :=
    fun w1 k g => update_attr_shape env w1 _ (fun j _ => setv_shape env hcodec _ _ _)
  unfold restore_attr
  dsimp only
  split_ifs <;>
    simp only [hs _ _ (fun _ => 0x06),
      hs _ AVRCP_SUPPORTED_FEATURES_POSITION
        (fun a => a.rdv AVRCP_SUPPORTED_FEATURES_POSITION ||| AVRCP_BROWSE_SUPPORT_BITMASK),
      hs _ (AVRCP_SUPPORTED_FEATURES_POSITION - 1)
        (fun a => a.rdv (AVRCP_SUPPORTED_FEATURES_POSITION - 1) ||| AVRCP_CA_SUPPORT_BITMASK)]

theorem fallback_avrcp_shape (cfg : Config) (env : Env)
    (hcodec : ∀ a k v, (env.sdpu_build_attrib_entry (tSDP_ATTRIBUTE.setv a k v)).length =
      (env.sdpu_build_attrib_entry a).length)
    (a : tSDP_ATTRIBUTE) (addr : BD_ADDR) :
    attr_shape env (sdp_fallback_avrcp_version cfg env a addr).1 = attr_shape env a := by
  unfold sdp_fallback_avrcp_version
  dsimp only
  split_ifs <;> first | rfl | exact setv_shape env hcodec _ _ _

theorem reset_browsing_shape (cfg : Config) (env : Env)
    (hcodec : ∀ a k v, (env.sdpu_build_attrib_entry (tSDP_ATTRIBUTE.setv a k v)).length =
      (env.sdpu_build_attrib_entry a).length)
    (b a : tSDP_ATTRIBUTE) (addr : BD_ADDR) :
    attr_shape env (sdp_reset_avrcp_browsing_bit cfg env b a addr).1 = attr_shape env a := by
  unfold sdp_reset_avrcp_browsing_bit
  dsimp only
  split_ifs <;> first | rfl | exact setv_shape env hcodec _ _ _

theorem reset_cover_art_shape (cfg : Config) (env : Env)
    (hcodec : ∀ a k v, (env.sdpu_build_attrib_entry (tSDP_ATTRIBUTE.setv a k v)).length =
      (env.sdpu_build_attrib_entry a).length)
    (b a : tSDP_ATTRIBUTE) (addr : BD_ADDR) :
    attr_shape env (sdp_reset_avrcp_cover_art_bit cfg env b a addr).1 = attr_shape env a := by
  unfold sdp_reset_avrcp_cover_art_bit
  dsimp only
  split_ifs <;> first | rfl | exact setv_shape env hcodec _ _ _

theorem change_hfp_shape (cfg : Config) (env : Env)
    (hcodec : ∀ a k v, (env.sdpu_build_attrib_entry (tSDP_ATTRIBUTE.setv a k v)).length =
      (env.sdpu_build_attrib_entry a).length)
    (a : tSDP_ATTRIBUTE) (addr : BD_ADDR) :
    attr_shape env (sdp_change_hfp_version cfg env a addr).1 = attr_shape env a := by
  unfold sdp_change_hfp_version
  dsimp only
  split_ifs <;> first | rfl | exact setv_shape env hcodec _ _ _

theorem replace_attr_shape (env : Env) (w : Walk) (j : Nat) (c : tSDP_ATTRIBUTE)
    (hp : w.p_attr = some j) (hc : attr_shape env c = attr_shape env (w.p_rec.attr j)) :
    (w.update_attr fun _ => c).p_rec.attributes.map (attr_shape env) =
      w.p_rec.attributes.map (attr_shape env) :=
  update_attr_shape env w _ (fun j1 hj1 => by rw [hp] at hj1; cases hj1; exact hc)

theorem apply_rewrites_shape (cfg : Config) (env : Env)
    (hcodec : ∀ a k v, (env.sdpu_build_attrib_entry (tSDP_ATTRIBUTE.setv a k v)).length =
      (env.sdpu_build_attrib_entry a).length)
    (addr : BD_ADDR) (w : Walk) (j : Nat) :
    (apply_rewrites cfg env addr w j).p_rec.attributes.map (attr_shape env) =
      w.p_rec.attributes.map (attr_shape env) := by
  unfold apply_rewrites
  dsimp only
  rw [replace_attr_shape env _ j _ (by simp only [update_attr_p_attr])
      (change_hfp_shape cfg env hcodec _ addr),
    replace_attr_shape env _ j _ (by simp only [update_attr_p_attr])
      (reset_cover_art_shape cfg env hcodec _ _ addr),
    replace_attr_shape env _ j _ (by simp only [update_attr_p_attr])
      (reset_browsing_shape cfg env hcodec _ _ addr),
    replace_attr_shape env _ j _ rfl (fallback_avrcp_shape cfg env hcodec _ addr)]

theorem body_tail_shape (env : Env)
    (hcodec : ∀ a k v, (env.sdpu_build_attrib_entry (tSDP_ATTRIBUTE.setv a k v)).length =
      (env.sdpu_build_attrib_entry a).length)
    (w : Walk) (id : Nat) :
    (body_tail w id).p_rec.attributes.map (attr_shape env) =
      w.p_rec.attributes.map (attr_shape env) := by
  unfold body_tail
  dsimp only
  rw [restore_attr_shape env hcodec]
  split_ifs <;> rfl

theorem attr_walk_body_shape (cfg : Config) (env : Env)
    (hcodec : ∀ a k v, (env.sdpu_build_attrib_entry (tSDP_ATTRIBUTE.setv a k v)).length =
      (env.sdpu_build_attrib_entry a).length)
    (addr : BD_ADDR) (max_list_len : Nat) (w : Walk) :
    (attr_walk_body cfg env addr max_list_len w).walk.p_rec.attributes.map (attr_shape env) =
      w.p_rec.attributes.map (attr_shape env) := by
  unfold attr_walk_body
  dsimp only
  cases sdp_db_find_attr_in_rec w.p_rec (w.attr_seq.getD w.xx ⟨0, 0⟩).start
      (w.attr_seq.getD w.xx ⟨0, 0⟩).end with
  | none => rfl
  | some j =>
    dsimp only
    have ha := apply_rewrites_shape cfg env hcodec addr w j
    split_ifs
    all_goals
      simp only [BodyExit.walk, body_tail_shape env hcodec]
      exact ha

/-- The attribute loop changes neither the id nor the encoded length of an
attribute of the record, when the length of an encoding does not depend on
the value bytes. -/
theorem attr_walk_shape (cfg : Config) (env : Env)
    (hcodec : ∀ a k v, (env.sdpu_build_attrib_entry (tSDP_ATTRIBUTE.setv a k v)).length =
      (env.sdpu_build_attrib_entry a).length)
    (addr : BD_ADDR) (max_list_len : Nat) (fuel : Nat) (w0 : Walk) (e : WalkExit)
    (h : attr_walk cfg env addr max_list_len fuel w0 = some e) :
    e.walk.p_rec.attributes.map (attr_shape env) = w0.p_rec.attributes.map (attr_shape env) := by
  induction fuel generalizing w0 with
  | zero =>
    rw [attr_walk] at h
    split_ifs at h
    simp only [Option.some.injEq] at h
    subst h
    rfl
  | succ fuel ih =>
    rw [attr_walk] at h
    split_ifs at h
    · have hb := attr_walk_body_shape cfg env hcodec addr max_list_len w0
      split at h
      · rename_i w1 heq
        rw [heq] at hb
        rw [ih { w1 with xx := UINT16 ((w1.xx : Int) + 1) } h]
        exact hb
      · rename_i w1 heq
        rw [heq] at hb
        simp only [Option.some.injEq] at h
        subst h
        exact hb
      · rename_i w1 heq
        rw [heq] at hb
        simp only [Option.some.injEq] at h
        subst h
        exact hb
    · simp only [Option.some.injEq] at h
      subst h
      rfl

/-- The length of an attribute sequence depends on the ids and the encoded
lengths of the attributes only. -/
theorem seq_len_of_shape (env : Env) (r1 r2 : tSDP_RECORD) (attr_seq : tSDP_ATTR_SEQ)
    (h : r1.attributes.map (attr_shape env) = r2.attributes.map (attr_shape env)) :
    sdpu_get_attrib_seq_len env r1 attr_seq = sdpu_get_attrib_seq_len env r2 attr_seq := by
  have key : ∀ (l : List tSDP_ATTRIBUTE) (e : tSDP_ATTR_ENTRY),
      ((l.filter fun a => decide (e.start ≤ a.id ∧ a.id ≤ e.end)).map
        (sdpu_get_attrib_entry_len env)) =
      (((l.map (attr_shape env)).filter fun s => decide (e.start ≤ s.1 ∧ s.1 ≤ e.end)).map
        fun s => UINT16 (s.2 : Int)) := by
    intro l e
    induction l with
    | nil => rfl
    | cons a as ih =>
      simp only [List.filter_cons, List.map_cons, attr_shape]
      split_ifs
      · simp only [List.map_cons, ih, sdpu_get_attrib_entry_len, attr_shape]
      · exact ih
  unfold sdpu_get_attrib_seq_len matched_attrs
  congr 2
  simp only [List.map_flatMap, key, h]

/-! ## Attribute-Fetch: the sequence header of the first frame -/

theorem cap_max_list_len_le (m mtu hdr : Nat) (hm : m < 65536) :
    cap_max_list_len m mtu hdr ≤ 65535 := by
  unfold cap_max_list_len
  split_ifs
  · have := UINT16_lt ((mtu : Int) - (hdr : Int))
    omega
  · omega

theorem build_attr_response_drop (cfg : Config) (pdu trans_num : Nat) (rsp_list : List Nat)
    (cont_offset len_to_send new_cont_offset list_len : Nat) :
    (build_attr_response cfg pdu trans_num rsp_list cont_offset len_to_send new_cont_offset
        list_len).drop 7 =
      (rsp_list.drop cont_offset).take len_to_send ++
        (if new_cont_offset < list_len then
          UINT8_TO_BE_STREAM cfg.SDP_CONTINUATION_LEN ++ UINT16_TO_BE_STREAM new_cont_offset
        else UINT8_TO_BE_STREAM 0) := by
  simp only [build_attr_response, UINT8_TO_BE_STREAM, UINT16_TO_BE_STREAM, List.cons_append,
    List.nil_append, List.drop_succ_cons, List.drop_zero]

/-- The end of Attribute-Fetch for a first response: the sequence header, the
payload length and the stored total length. -/
theorem finish_attr_req_header (cfg : Config) (env : Env) (st : State) (trans_num : Nat)
    (p_rec : RecPtr) (attr_seq_sav : tSDP_ATTR_SEQ) (w0 : Walk) (rest : List Nat) (L : Nat)
    (hp : w0.p_rsp = [0, 0, 0] ++ rest) (hlen : w0.p_rsp.length < 65536)
    (hL : sdpu_get_attrib_seq_len env (restore_attr w0).p_rec attr_seq_sav = L)
    (hL3 : L + 3 < 65536) :
    ∃ p_buf, (finish_attr_req cfg env st trans_num p_rec attr_seq_sav false w0).2 =
        .response p_buf ∧
      (L + 3 ≤ 255 →
        (p_buf.drop 7).take 2 =
            [UINT8 ((cfg.DATA_ELE_SEQ_DESC_TYPE <<< 3) ||| cfg.SIZE_IN_NEXT_BYTE), L] ∧
          2 ≤ BE_STREAM_TO_UINT16 p_buf 5 ∧
          (finish_attr_req cfg env st trans_num p_rec attr_seq_sav false w0).1.ccb.list_len =
            L + 2) ∧
      (255 < L + 3 →
        (p_buf.drop 7).take 3 =
            [UINT8 ((cfg.DATA_ELE_SEQ_DESC_TYPE <<< 3) ||| cfg.SIZE_IN_NEXT_WORD),
              L / 256, L % 256] ∧
          3 ≤ BE_STREAM_TO_UINT16 p_buf 5 ∧
          (finish_attr_req cfg env st trans_num p_rec attr_seq_sav false w0).1.ccb.list_len =
            L + 3) := by
  have hw : ∀ (c : Prop) [Decidable c] (ci : tSDP_CONT_INFO),
      (if c then { restore_attr w0 with cont_info := ci } else restore_attr w0).p_rsp =
        w0.p_rsp ∧
      (if c then { restore_attr w0 with cont_info := ci } else restore_attr w0).p_rec =
        (restore_attr w0).p_rec := by
    intro c _ ci
    split_ifs <;> exact ⟨restore_attr_p_rsp w0, rfl⟩
  have hlen3 : rest.length + 3 < 65536 := by
    rw [hp] at hlen; simpa using hlen
  have hU : UINT16 ((L : Int) + 3) = L + 3 := by unfold UINT16; omega
  refine ⟨_, rfl, ?_, ?_⟩
  · intro hsmall
    simp only [finish_attr_req, Bool.not_false, ↓reduceIte, (hw _ _).1, (hw _ _).2, hL, hU,
      put_sequence_header, show ¬ L + 3 > 255 by omega, hp, build_attr_response_drop,
      payload_len_build_attr_response _ _ _ _ _ _ _ _ (UINT16_lt _)]
    refine ⟨?_, ?_, ?_⟩
    · simp only [List.cons_append, List.nil_append, List.length_cons, List.set_cons_succ,
        List.set_cons_zero, List.drop_succ_cons, List.drop_zero]
      have h1 : UINT16 ((UINT16 ((rest.length + 1 + 1 + 1 : Nat) : Int) : Int) - 1) =
          rest.length + 2 := by unfold UINT16; omega
      rw [h1]
      simp only [List.take_succ_cons, List.take_zero, List.cons_append, List.nil_append,
        List.cons.injEq, true_and, and_true]
      unfold UINT16
      omega
    · simp only [List.cons_append, List.nil_append, List.length_cons]
      have h1 : UINT16 ((UINT16 ((rest.length + 1 + 1 + 1 : Nat) : Int) : Int) - 1) =
          rest.length + 2 := by unfold UINT16; omega
      rw [h1]
      omega
    · have h2 : UINT16 (((L + 3 : Nat) : Int) - 1) = L + 2 := by unfold UINT16; omega
      exact h2
  · intro hbig
    simp only [finish_attr_req, Bool.not_false, ↓reduceIte, (hw _ _).1, (hw _ _).2, hL, hU,
      put_sequence_header, show L + 3 > 255 by omega, hp, build_attr_response_drop,
      payload_len_build_attr_response _ _ _ _ _ _ _ _ (UINT16_lt _)]
    refine ⟨?_, ?_, trivial⟩
    · simp only [List.cons_append, List.nil_append, List.length_cons, List.set_cons_succ,
        List.set_cons_zero, List.drop_zero]
      have h1 : UINT16 ((rest.length + 1 + 1 + 1 : Nat) : Int) = rest.length + 3 := by
        unfold UINT16; omega
      rw [h1]
      simp only [List.take_succ_cons, List.take_zero, List.cons_append, List.nil_append,
        List.cons.injEq, true_and, and_true]
      constructor <;> (unfold UINT16; omega)
    · simp only [List.cons_append, List.nil_append, List.length_cons]
      have h1 : UINT16 ((rest.length + 1 + 1 + 1 : Nat) : Int) = rest.length + 3 := by
        unfold UINT16; omega
      rw [h1]
      omega

/-- C19: an accepted Attribute-Fetch request without continuation that yields
a response frame. Let L be the sequence length of the record the walk uses
(the record of the handle, or the copy the PBAP rewrite returns for it) under
the attribute list as the client sent it, and let L + 3 fit in 16 bits. Then
the payload of the frame (behind the 7 bytes of envelope and payload length)
begins with the sequence header for L, whatever the budget of the frame and
however the walk has updated its ranges: the descriptor for a one-byte length
and the byte L when L + 3 <= 255, with `list_len` stored as L + 2; the
descriptor for a two-byte length and L in 16 bits big-endian otherwise, with
`list_len` stored as L + 3. The codec is taken to give every attribute an
encoding shorter than 65536 bytes whose length does not depend on the value
bytes. -/
theorem C19_first_frame_header (cfg : Config) (env : Env) (fuel : Nat) (st : State)
    (trans_num param_len : Nat) (p_req : List Nat) (p_req_end n i : Nat)
    (attr_seq : tSDP_ATTR_SEQ)
    (hp : env.sdpu_extract_attr_seq (p_req.drop 6) param_len = some (n, attr_seq))
    (ha : attr_seq ≠ [])
    (hi : sdp_db_find_record st.db (BE_STREAM_TO_UINT32 p_req 0) = some i)
    (hm : rd p_req (6 + n) = 0) (hend : 6 + n + 1 = p_req_end)
    (hcodec : ∀ a k v, (env.sdpu_build_attrib_entry (tSDP_ATTRIBUTE.setv a k v)).length =
      (env.sdpu_build_attrib_entry a).length)
    (henc : ∀ a, (env.sdpu_build_attrib_entry a).length < 65536)
    (L : Nat)
    (hL : sdpu_get_attrib_seq_len env
      ((sdp_update_pbap_record_if_blacklisted cfg env st (.db i) st.ccb.device_address).1.deref
        (sdp_update_pbap_record_if_blacklisted cfg env st (.db i) st.ccb.device_address).2)
      attr_seq = L)
    (hL3 : L + 3 < 65536) (st1 : State) (p_buf : List Nat)
    (hrsp : process_service_attr_req cfg env fuel st trans_num param_len p_req p_req_end =
      some (st1, .response p_buf)) :
    (L + 3 ≤ 255 →
      (p_buf.drop 7).take 2 =
          [UINT8 ((cfg.DATA_ELE_SEQ_DESC_TYPE <<< 3) ||| cfg.SIZE_IN_NEXT_BYTE), L] ∧
        2 ≤ BE_STREAM_TO_UINT16 p_buf 5 ∧ st1.ccb.list_len = L + 2) ∧
    (255 < L + 3 →
      (p_buf.drop 7).take 3 =
          [UINT8 ((cfg.DATA_ELE_SEQ_DESC_TYPE <<< 3) ||| cfg.SIZE_IN_NEXT_WORD),
            L / 256, L % 256] ∧
        3 ≤ BE_STREAM_TO_UINT16 p_buf 5 ∧ st1.ccb.list_len = L + 3) := by
  rw [process_service_attr_req_eq cfg env fuel st trans_num param_len p_req p_req_end n i
    attr_seq hp ha (by omega) hi, check_continuation_fresh cfg _ p_req (6 + n) p_req_end
    attr_seq false hm hend] at hrsp
  simp only [run_attr_req] at hrsp
  split at hrsp
  · simp at hrsp
  · simp at hrsp
  · rename_i w0 hw
    simp only [Option.some.injEq] at hrsp
    have hmax := cap_max_list_len_le (BE_STREAM_TO_UINT16 p_req 4) st.ccb.rem_mtu_size
      SDP_MAX_ATTR_RSPHDR_LEN (BE16_lt p_req 4)
    obtain ⟨rest, hrest⟩ := attr_walk_p_rsp cfg env _ _ fuel _ _ hw
    have hwithin := attr_walk_within cfg env _ _ henc hmax fuel _ _
      (Or.inr (by simp [Walk.init])) hw
    have hshape := attr_walk_shape cfg env hcodec _ _ fuel _ _ hw
    simp only [WalkExit.walk, Walk.init] at hrest hwithin hshape
    have hL1 : sdpu_get_attrib_seq_len env (restore_attr w0).p_rec attr_seq = L := by
      rw [← hL]
      apply seq_len_of_shape
      rw [restore_attr_shape env hcodec, hshape]
      rfl
    obtain ⟨b, hb, h1, h2⟩ := finish_attr_req_header cfg env _ trans_num _ attr_seq w0 rest L
      hrest (by omega) hL1 hL3
    rw [hrsp] at hb h1 h2
    simp only [Outcome.response.injEq] at hb
    subst hb
    exact ⟨h1, h2⟩

/-- C19, at an Attribute-Fetch of the range 0x0000-0xFFFF from the first
record of `db_serial`, whose two attributes have encodings of 9 and 8 bytes:
the payload begins with the one-byte-length header for 17, and the stored
total length is 19. -/
theorem C19_first_frame_header_witness :
    process_service_attr_req bt_config capped_env 9 (idle_state db_serial [] 672) 7 14
        (attr_req 0 600 [0]) 14 =
      some ({ idle_state db_serial [] 672 with
          ccb := { idle_ccb [] 672 with
            cont_offset := 19, list_len := 19,
            rsp_list := [0, 0x35, 17, 9, 0, 0, 13, 4, 0, 1, 0, 0, 9, 0, 1, 0x35, 3, 0x19, 0x11,
              0x01],
            rsp_list_size := 600 } },
        .response ([5, 0, 7, 0, 22, 0, 19] ++
          [0x35, 17, 9, 0, 0, 13, 4, 0, 1, 0, 0, 9, 0, 1, 0x35, 3, 0x19, 0x11, 0x01] ++ [0])) ∧
    ((([5, 0, 7, 0, 22, 0, 19] ++
          [0x35, 17, 9, 0, 0, 13, 4, 0, 1, 0, 0, 9, 0, 1, 0x35, 3, 0x19, 0x11, 0x01] ++
          [0]).drop 7).take 2 =
        [UINT8 ((bt_config.DATA_ELE_SEQ_DESC_TYPE <<< 3) ||| bt_config.SIZE_IN_NEXT_BYTE), 17] ∧
      2 ≤ BE_STREAM_TO_UINT16 ([5, 0, 7, 0, 22, 0, 19] ++
          [0x35, 17, 9, 0, 0, 13, 4, 0, 1, 0, 0, 9, 0, 1, 0x35, 3, 0x19, 0x11, 0x01] ++ [0]) 5 ∧
      ({ idle_state db_serial [] 672 with
          ccb := { idle_ccb [] 672 with
            cont_offset := 19, list_len := 19,
            rsp_list := [0, 0x35, 17, 9, 0, 0, 13, 4, 0, 1, 0, 0, 9, 0, 1, 0x35, 3, 0x19, 0x11,
              0x01],
            rsp_list_size := 600 } } : State).ccb.list_len = 17 + 2) :=
  ⟨by decide!,
    (C19_first_frame_header bt_config capped_env 9 (idle_state db_serial [] 672) 7 14
      (attr_req 0 600 [0]) 14 7 0 [⟨0, 0xFFFF⟩] (by decide) (by decide) (by decide) (by decide)
      (by decide)
      (by intro a k v; simp [capped_env, bt_env, tSDP_ATTRIBUTE.setv])
      (by intro a; simp only [capped_env, List.length_take]; omega)
      17 (by decide!) (by decide) _ _ (by decide!)).1 (by decide)⟩

/-! ## The record loop only appends to the scratch bytes -/

theorem put_record_header_prefix (cfg : Config) (base rest : List Nat) (seq_len : Nat) :
    ∃ rest1, put_record_header cfg (base ++ rest) base.length seq_len = base ++ rest1 := by
  unfold put_record_header
  rw [List.take_left']
  · exact ⟨_, by rw [List.append_assoc]⟩
  · rfl

/-- The record loop leaves the scratch bytes it finds in place. -/
theorem search_attr_records_p_rsp (cfg : Config) (env : Env) (max_list_len : Nat)
    (uid_seq : tSDP_UUID_SEQ) (attr_seq_sav : tSDP_ATTR_SEQ) (walk_fuel : Nat) :
    ∀ (fuel : Nat) (l : RecLoop) (o : Option Nat) (r : RecLoop),
      search_attr_records cfg env max_list_len uid_seq attr_seq_sav walk_fuel fuel l o =
        some (.done r) →
      ∃ rest, r.p_rsp = l.p_rsp ++ rest := by
  intro fuel
  induction fuel with
  | zero =>
    intro l o r h
    cases o with
    | none =>
      simp only [search_attr_records, Option.some.injEq, RecLoopExit.done.injEq] at h
      subst h; exact ⟨[], by simp⟩
    | some i => simp [search_attr_records] at h
  | succ fuel ih =>
    intro l o r h
    cases o with
    | none =>
      simp only [search_attr_records, Option.some.injEq, RecLoopExit.done.injEq] at h
      subst h; exact ⟨[], by simp⟩
    | some i =>
      rw [search_attr_records] at h
      dsimp only at h
      by_cases h1 : (enter_record cfg env l.st i).1.ccb.cont_info.last_attr_seq_desc_sent = false ∧
          rem_len_of max_list_len l.p_rsp < 3
      · rw [if_pos h1] at h
        simp only [Option.some.injEq, RecLoopExit.done.injEq] at h
        subst h
        exact ⟨[], by simp⟩
      · rw [if_neg h1] at h
        split at h
        · simp at h
        · simp at h
        · rename_i w0 hw
          obtain ⟨rest0, hrest0⟩ := attr_walk_p_rsp cfg env _ _ walk_fuel _ _ hw
          simp only [WalkExit.walk, Walk.init] at hrest0
          have hbase : ∃ rest1, (restore_attr w0).p_rsp = l.p_rsp ++ rest1 := by
            rw [restore_attr_p_rsp, hrest0]
            split_ifs
            · exact ⟨_, by rw [List.append_assoc]⟩
            · exact ⟨_, rfl⟩
          obtain ⟨rest1, hrest1⟩ := hbase
          have hp1 : ∃ rest2,
              (if ((enter_record cfg env l.st i).1.after_walk (enter_record cfg env l.st i).2
                  (restore_attr w0)).ccb.cont_info.last_attr_seq_desc_sent = false then
                if sdpu_get_attrib_seq_len env (restore_attr w0).p_rec attr_seq_sav ≠ 0 then
                  put_record_header cfg (restore_attr w0).p_rsp l.p_rsp.length
                    (sdpu_get_attrib_seq_len env (restore_attr w0).p_rec attr_seq_sav)
                else (restore_attr w0).p_rsp.take l.p_rsp.length
              else (restore_attr w0).p_rsp) = l.p_rsp ++ rest2 := by
            rw [hrest1]
            split_ifs
            · exact put_record_header_prefix cfg _ _ _
            · exact ⟨[], by rw [List.take_left' rfl]; simp⟩
            · exact ⟨_, rfl⟩
          obtain ⟨rest2, hrest2⟩ := hp1
          by_cases h2 : (restore_attr w0).maxxed_out = true
          · rw [if_pos h2] at h
            simp only [Option.some.injEq, RecLoopExit.done.injEq] at h
            subst h
            exact ⟨rest2, hrest2⟩
          · rw [if_neg h2] at h
            obtain ⟨rest3, hrest3⟩ := ih _ _ _ h
            exact ⟨rest2 ++ rest3, by rw [hrest3]; dsimp only; rw [hrest2, List.append_assoc]⟩

/-! ## The stored offset and the end of a frame -/

theorem build_attr_response_tail (cfg : Config) (pdu trans_num : Nat) (rsp_list : List Nat)
    (cont_offset len_to_send new_cont_offset list_len : Nat)
    (h : cont_offset + len_to_send ≤ rsp_list.length) :
    (build_attr_response cfg pdu trans_num rsp_list cont_offset len_to_send new_cont_offset
        list_len).drop (7 + len_to_send) =
      continuation_tail cfg new_cont_offset list_len := by
  rw [← List.drop_drop, build_attr_response_drop, List.drop_left']
  · rfl
  · simp only [List.length_take, List.length_drop]
    omega

theorem put_sequence_header_fits (cfg : Config) (p_rsp : List Nat) (list_len : Nat)
    (h : 1 ≤ p_rsp.length) :
    (put_sequence_header cfg p_rsp list_len (UINT16 (p_rsp.length : Int))).2.1 +
        (put_sequence_header cfg p_rsp list_len (UINT16 (p_rsp.length : Int))).2.2.2 ≤
      (put_sequence_header cfg p_rsp list_len (UINT16 (p_rsp.length : Int))).1.length ∧
    (put_sequence_header cfg p_rsp list_len (UINT16 (p_rsp.length : Int))).2.2.2 < 65536 := by
  unfold put_sequence_header
  split_ifs
  · simp only [List.length_set]
    unfold UINT16
    omega
  · simp only [List.length_set]
    unfold UINT16
    omega

/-- The end of Attribute-Fetch: the new stored offset is the old one plus the
payload length of the frame, in 16 bits, and the frame ends with the
continuation token for it or with the zero byte. -/
theorem finish_attr_req_frame (cfg : Config) (env : Env) (st : State) (trans_num : Nat)
    (p_rec : RecPtr) (attr_seq_sav : tSDP_ATTR_SEQ) (is_cont : Bool) (w0 : Walk)
    (hlen : is_cont = false → 1 ≤ w0.p_rsp.length) :
    ∃ p_buf,
      (finish_attr_req cfg env st trans_num p_rec attr_seq_sav is_cont w0).2 = .response p_buf ∧
      (finish_attr_req cfg env st trans_num p_rec attr_seq_sav is_cont w0).1.ccb.cont_offset =
        (st.ccb.cont_offset + BE_STREAM_TO_UINT16 p_buf 5) % 65536 ∧
      p_buf.drop (7 + BE_STREAM_TO_UINT16 p_buf 5) =
        continuation_tail cfg
          (finish_attr_req cfg env st trans_num p_rec attr_seq_sav is_cont w0).1.ccb.cont_offset
          (finish_attr_req cfg env st trans_num p_rec attr_seq_sav is_cont w0).1.ccb.list_len := by
  have hw : ∀ (c : Prop) [Decidable c] (ci : tSDP_CONT_INFO),
      (if c then { restore_attr w0 with cont_info := ci } else restore_attr w0).p_rsp =
        w0.p_rsp := by
    intro c _ ci
    split_ifs <;> exact restore_attr_p_rsp w0
  have hco : ∀ (w : Walk), (st.after_walk p_rec w).ccb.cont_offset = st.ccb.cont_offset := by
    intro w
    have := after_walk_outside_loops st p_rec w
    simp only [tCONN_CB.outside_loops, Prod.mk.injEq] at this
    exact this.2.2.1
  have hU : ∀ x : Nat, UINT16 ((st.ccb.cont_offset : Int) + (x : Int)) =
      (st.ccb.cont_offset + x) % 65536 := by
    intro x; unfold UINT16; omega
  cases is_cont with
  | true =>
    refine ⟨_, rfl, ?_, ?_⟩
    · simp only [finish_attr_req, Bool.not_true, Bool.false_eq_true, ↓reduceIte, hw, hco,
        payload_len_build_attr_response _ _ _ _ _ _ _ _ (UINT16_lt _), hU]
    · simp only [finish_attr_req, Bool.not_true, Bool.false_eq_true, ↓reduceIte, hw, hco,
        payload_len_build_attr_response _ _ _ _ _ _ _ _ (UINT16_lt _)]
      apply build_attr_response_tail
      unfold UINT16
      omega
  | false =>
    have hfit := fun ll => put_sequence_header_fits cfg w0.p_rsp ll (hlen rfl)
    refine ⟨_, rfl, ?_, ?_⟩
    · simp only [finish_attr_req, Bool.not_false, ↓reduceIte, hw, hco,
        payload_len_build_attr_response _ _ _ _ _ _ _ _ (hfit _).2, hU]
    · simp only [finish_attr_req, Bool.not_false, ↓reduceIte, hw, hco,
        payload_len_build_attr_response _ _ _ _ _ _ _ _ (hfit _).2]
      apply build_attr_response_tail
      exact (hfit _).1

/-- The end of Search-Attribute-Fetch, when it sends a frame: the new stored
offset is the old one plus the payload length of the frame, in 16 bits, and
the frame ends with the continuation token for it or with the zero byte. -/
theorem finish_search_attr_req_frame (cfg : Config) (env : Env) (trans_num : Nat)
    (uid_seq : tSDP_UUID_SEQ) (attr_seq_sav : tSDP_ATTR_SEQ) (is_cont : Bool) (l : RecLoop)
    (hlen : is_cont = false → 1 ≤ l.p_rsp.length) (st1 : State) (p_buf : List Nat)
    (h : finish_search_attr_req cfg env trans_num uid_seq attr_seq_sav is_cont l =
      (st1, .response p_buf)) :
    st1.ccb.cont_offset = (l.st.ccb.cont_offset + BE_STREAM_TO_UINT16 p_buf 5) % 65536 ∧
      p_buf.drop (7 + BE_STREAM_TO_UINT16 p_buf 5) =
        continuation_tail cfg st1.ccb.cont_offset st1.ccb.list_len := by
  have hU : ∀ x : Nat, UINT16 ((l.st.ccb.cont_offset : Int) + (x : Int)) =
      (l.st.ccb.cont_offset + x) % 65536 := by
    intro x; unfold UINT16; omega
  unfold finish_search_attr_req at h
  dsimp only at h
  cases is_cont with
  | true =>
    by_cases hz : UINT16 (l.p_rsp.length : Int) = 0
    · simp [hz] at h
    · simp only [hz, and_false, ↓reduceIte, Bool.not_true, Bool.false_eq_true, false_and,
        decide_False, Prod.mk.injEq, Outcome.response.injEq] at h
      obtain ⟨rfl, rfl⟩ := h
      refine ⟨?_, ?_⟩
      · simp only [payload_len_build_attr_response _ _ _ _ _ _ _ _ (UINT16_lt _), hU]
      · simp only [payload_len_build_attr_response _ _ _ _ _ _ _ _ (UINT16_lt _)]
        apply build_attr_response_tail
        unfold UINT16
        omega
  | false =>
    simp only [Bool.false_eq_true, false_and, ↓reduceIte, Bool.not_false, true_and,
      Prod.mk.injEq, Outcome.response.injEq] at h
    obtain ⟨rfl, rfl⟩ := h
    have hfit := fun ll => put_sequence_header_fits cfg l.p_rsp ll (hlen rfl)
    refine ⟨?_, ?_⟩
    · simp only [payload_len_build_attr_response _ _ _ _ _ _ _ _ (hfit _).2, hU]
    · simp only [payload_len_build_attr_response _ _ _ _ _ _ _ _ (hfit _).2]
      apply build_attr_response_tail
      exact (hfit _).1

/-! ## What a response frame tells about the request -/

theorem check_continuation_ok (cfg : Config) (st st2 : State) (p_req : List Nat)
    (p p_req_end : Nat) (attr_seq a1 : tSDP_ATTR_SEQ) (b c : Bool) (p_rsp : List Nat)
    (h : check_continuation cfg st p_req p p_req_end attr_seq b = .ok (st2, a1, c, p_rsp)) :
    (rd p_req p = 0 ∧ p + 1 = p_req_end ∧ st2 = st.reset_cont b ∧ a1 = attr_seq ∧ c = false ∧
        p_rsp = [0, 0, 0]) ∨
      (rd p_req p ≠ 0 ∧ rd p_req p = cfg.SDP_CONTINUATION_LEN ∧
        BE_STREAM_TO_UINT16 p_req (p + 1) = st.ccb.cont_offset ∧ p + 3 = p_req_end ∧ st2 = st ∧
        a1 = attr_seq.set st.ccb.cont_info.next_attr_index
          { attr_seq.getD st.ccb.cont_info.next_attr_index ⟨0, 0⟩ with
            start := st.ccb.cont_info.next_attr_start_id } ∧
        c = true ∧ p_rsp = []) := by
  unfold check_continuation at h
  by_cases hm : rd p_req p ≠ 0
  · rw [if_pos hm] at h
    by_cases h1 : rd p_req p ≠ cfg.SDP_CONTINUATION_LEN
    · rw [if_pos h1] at h; exact absurd h (by simp)
    rw [if_neg h1] at h
    dsimp only at h
    by_cases h2 : BE_STREAM_TO_UINT16 p_req (p + 1) ≠ st.ccb.cont_offset
    · rw [if_pos h2] at h; exact absurd h (by simp)
    rw [if_neg h2] at h
    by_cases h3 : p + 3 ≠ p_req_end
    · rw [if_pos h3] at h; exact absurd h (by simp)
    rw [if_neg h3] at h
    simp only [Except.ok.injEq, Prod.mk.injEq] at h
    obtain ⟨rfl, rfl, rfl, rfl⟩ := h
    right
    exact ⟨hm, not_not.1 h1, not_not.1 h2, not_not.1 h3, rfl, rfl, rfl, rfl⟩
  · rw [if_neg hm] at h
    by_cases h3 : p + 1 ≠ p_req_end
    · rw [if_pos h3] at h; exact absurd h (by simp)
    rw [if_neg h3] at h
    simp only [Except.ok.injEq, Prod.mk.injEq] at h
    obtain ⟨rfl, rfl, rfl, rfl⟩ := h
    left
    exact ⟨not_not.1 hm, not_not.1 h3, rfl, rfl, rfl, rfl⟩

/-- An Attribute-Fetch request that is answered with a frame has passed the
parser, the record lookup and the continuation test. -/
theorem process_service_attr_req_response (cfg : Config) (env : Env) (fuel : Nat) (st : State)
    (trans_num param_len : Nat) (p_req : List Nat) (p_req_end : Nat) (st1 : State)
    (p_buf : List Nat)
    (h : process_service_attr_req cfg env fuel st trans_num param_len p_req p_req_end =
      some (st1, .response p_buf)) :
    ∃ n attr_seq i st2 a1 c p_rsp,
      env.sdpu_extract_attr_seq (p_req.drop 6) param_len = some (n, attr_seq) ∧
      attr_seq ≠ [] ∧ 6 + n ≤ p_req_end ∧
      sdp_db_find_record st.db (BE_STREAM_TO_UINT32 p_req 0) = some i ∧
      check_continuation cfg
          ((sdp_update_pbap_record_if_blacklisted cfg env st (.db i)
            st.ccb.device_address).1.realloc_rsp_list
            (cap_max_list_len (BE_STREAM_TO_UINT16 p_req 4) st.ccb.rem_mtu_size
              SDP_MAX_ATTR_RSPHDR_LEN))
          p_req (6 + n) p_req_end attr_seq false = .ok (st2, a1, c, p_rsp) ∧
      run_attr_req cfg env fuel st2 trans_num
          (cap_max_list_len (BE_STREAM_TO_UINT16 p_req 4) st.ccb.rem_mtu_size
            SDP_MAX_ATTR_RSPHDR_LEN)
          (sdp_update_pbap_record_if_blacklisted cfg env st (.db i) st.ccb.device_address).2
          a1 attr_seq c p_rsp = some (st1, .response p_buf) := by
  by_cases h4 : 4 > p_req_end
  · simp [process_service_attr_req, h4] at h
  cases hp : env.sdpu_extract_attr_seq (p_req.drop 6) param_len with
  | none => simp [process_service_attr_req, h4, hp] at h
  | some r =>
    obtain ⟨n, attr_seq⟩ := r
    by_cases hlen : attr_seq.length = 0 ∨ 6 + n > p_req_end
    · simp only [process_service_attr_req, h4, ↓reduceIte, hp, hlen] at h
      simp at h
    cases hi : sdp_db_find_record st.db (BE_STREAM_TO_UINT32 p_req 0) with
    | none =>
      simp only [process_service_attr_req, h4, ↓reduceIte, hp, hlen, hi] at h
      simp at h
    | some i =>
      have ha : attr_seq ≠ [] := by
        intro h0; exact hlen (Or.inl (by simp [h0]))
      have hend : 6 + n ≤ p_req_end := by
        by_contra h0; exact hlen (Or.inr (by omega))
      rw [process_service_attr_req_eq cfg env fuel st trans_num param_len p_req p_req_end n i
        attr_seq hp ha hend hi] at h
      split at h
      · simp at h
      · rename_i st2 a1 c p_rsp hcc
        exact ⟨n, attr_seq, i, st2, a1, c, p_rsp, rfl, ha, hend, rfl, hcc, h⟩

/-- A Search-Attribute-Fetch request that is answered with a frame has passed
the parsers and the continuation test. -/
theorem process_service_search_attr_req_response (cfg : Config) (env : Env) (fuel : Nat)
    (st : State) (trans_num param_len : Nat) (p_req : List Nat) (p_req_end : Nat) (st1 : State)
    (p_buf : List Nat)
    (h : process_service_search_attr_req cfg env fuel st trans_num param_len p_req p_req_end =
      some (st1, .response p_buf)) :
    ∃ p1 uid_seq n attr_seq st2 a1 c p_rsp,
      env.sdpu_extract_uid_seq p_req param_len = some (p1, uid_seq) ∧ uid_seq ≠ [] ∧
      env.sdpu_extract_attr_seq (p_req.drop (p1 + 2)) param_len = some (n, attr_seq) ∧
      attr_seq ≠ [] ∧
      check_continuation cfg
          (st.realloc_rsp_list
            (cap_max_list_len (BE_STREAM_TO_UINT16 p_req p1) st.ccb.rem_mtu_size
              SDP_MAX_SERVATTR_RSPHDR_LEN))
          p_req (p1 + 2 + n) p_req_end attr_seq true = .ok (st2, a1, c, p_rsp) ∧
      run_search_attr_req cfg env fuel st2 trans_num
          (cap_max_list_len (BE_STREAM_TO_UINT16 p_req p1) st.ccb.rem_mtu_size
            SDP_MAX_SERVATTR_RSPHDR_LEN)
          uid_seq a1 attr_seq c p_rsp = some (st1, .response p_buf) := by
  cases hp : env.sdpu_extract_uid_seq p_req param_len with
  | none => simp [process_service_search_attr_req, hp] at h
  | some r =>
    obtain ⟨p1, uid_seq⟩ := r
    by_cases hu0 : uid_seq.length = 0
    · simp only [process_service_search_attr_req, hp, hu0, ↓reduceIte] at h
      simp at h
    cases hpa : env.sdpu_extract_attr_seq (p_req.drop (p1 + 2)) param_len with
    | none =>
      simp only [process_service_search_attr_req, hp, hu0, ↓reduceIte, hpa] at h
      simp at h
    | some r =>
      obtain ⟨n, attr_seq⟩ := r
      by_cases ha0 : attr_seq.length = 0
      · simp only [process_service_search_attr_req, hp, hu0, ↓reduceIte, hpa, ha0] at h
        simp at h
      have hu : uid_seq ≠ [] := by intro h0; exact hu0 (by simp [h0])
      have ha : attr_seq ≠ [] := by intro h0; exact ha0 (by simp [h0])
      rw [process_service_search_attr_req_eq cfg env fuel st trans_num param_len p_req
        p_req_end p1 n uid_seq attr_seq hp hu hpa ha] at h
      split at h
      · simp at h
      · rename_i st2 a1 c p_rsp hcc
        exact ⟨p1, uid_seq, n, attr_seq, st2, a1, c, p_rsp, rfl, hu, hpa, ha, hcc, h⟩

theorem attr_request_step (cfg : Config) (env : Env) (fuel : Nat) (r : AttrRequest)
    (st st1 : State) (p_buf : List Nat)
    (h : r.handle cfg env fuel st = some (st1, .response p_buf)) :
    st1.ccb.cont_offset =
        ((if r.marker env = 0 then 0 else st.ccb.cont_offset) +
          BE_STREAM_TO_UINT16 p_buf 5) % 65536 ∧
      p_buf.drop (7 + BE_STREAM_TO_UINT16 p_buf 5) =
        continuation_tail cfg st1.ccb.cont_offset st1.ccb.list_len := by
  obtain ⟨sa, trans_num, param_len, p_req, p_req_end⟩ := r
  cases sa with
  | false =>
    simp only [AttrRequest.handle, Bool.false_eq_true, ↓reduceIte] at h
    obtain ⟨n, attr_seq, i, st2, a1, c, p_rsp, hp, -, -, -, hcc, hrun⟩ :=
      process_service_attr_req_response cfg env fuel st trans_num param_len p_req p_req_end
        st1 p_buf h
    have hmk : AttrRequest.marker env ⟨false, trans_num, param_len, p_req, p_req_end⟩ =
        rd p_req (6 + n) := by
      simp only [AttrRequest.marker, Bool.false_eq_true, ↓reduceIte, hp]
    rw [hmk]
    simp only [run_attr_req] at hrun
    split at hrun
    · simp at hrun
    · simp at hrun
    · rename_i w0 hw
      simp only [Option.some.injEq] at hrun
      obtain ⟨rest, hrest⟩ := attr_walk_p_rsp cfg env _ _ fuel _ _ hw
      simp only [WalkExit.walk, Walk.init] at hrest
      rcases check_continuation_ok cfg _ _ _ _ _ _ _ _ _ _ hcc with
        ⟨hm, -, rfl, -, rfl, rfl⟩ | ⟨hm, -, -, -, rfl, -, rfl, rfl⟩
      · obtain ⟨b, hb, h1, h2⟩ := finish_attr_req_frame cfg env _ trans_num _ attr_seq false w0
          (fun _ => by rw [hrest]; simp)
        rw [hrun] at hb h1 h2
        simp only [Outcome.response.injEq] at hb
        subst hb
        refine ⟨?_, h2⟩
        rw [h1, if_pos hm]
        rfl
      · obtain ⟨b, hb, h1, h2⟩ := finish_attr_req_frame cfg env _ trans_num _ attr_seq true w0
          (fun h0 => by simp at h0)
        rw [hrun] at hb h1 h2
        simp only [Outcome.response.injEq] at hb
        subst hb
        refine ⟨?_, h2⟩
        rw [h1, if_neg hm]
        simp only [State.realloc_rsp_list, update_pbap_ccb]
  | true =>
    simp only [AttrRequest.handle, ↓reduceIte] at h
    obtain ⟨p1, uid_seq, n, attr_seq, st2, a1, c, p_rsp, hp, -, hpa, -, hcc, hrun⟩ :=
      process_service_search_attr_req_response cfg env fuel st trans_num param_len p_req
        p_req_end st1 p_buf h
    have hmk : AttrRequest.marker env ⟨true, trans_num, param_len, p_req, p_req_end⟩ =
        rd p_req (p1 + 2 + n) := by
      simp only [AttrRequest.marker, ↓reduceIte, hp, hpa]
    rw [hmk]
    simp only [run_search_attr_req] at hrun
    split at hrun
    · simp at hrun
    · simp at hrun
    · rename_i l hl
      simp only [Option.some.injEq] at hrun
      obtain ⟨rest, hrest⟩ := search_attr_records_p_rsp cfg env _ uid_seq attr_seq fuel fuel _ _ _
        hl
      have hout := search_attr_records_outside_loops cfg env _ uid_seq attr_seq fuel fuel _ _ _
        hl
      simp only [RecLoopExit.state, tCONN_CB.outside_loops, Prod.mk.injEq] at hout
      obtain ⟨-, -, hco, -, -⟩ := hout
      rcases check_continuation_ok cfg _ _ _ _ _ _ _ _ _ _ hcc with
        ⟨hm, -, rfl, -, rfl, rfl⟩ | ⟨hm, -, -, -, rfl, -, rfl, rfl⟩
      · obtain ⟨h1, h2⟩ := finish_search_attr_req_frame cfg env trans_num uid_seq attr_seq false
          l (fun _ => by rw [hrest]; simp) st1 p_buf hrun
        refine ⟨?_, h2⟩
        rw [h1, if_pos hm, hco]
        rfl
      · obtain ⟨h1, h2⟩ := finish_search_attr_req_frame cfg env trans_num uid_seq attr_seq true
          l (fun h0 => by simp at h0) st1 p_buf hrun
        refine ⟨?_, h2⟩
        rw [h1, if_neg hm, hco]
        rfl

theorem stream_frames_continued (cfg : Config) (env : Env) (fuel : Nat) :
    ∀ (rs : List AttrRequest) (st st1 : State) (frames : List (List Nat)),
      (∀ r ∈ rs, r.marker env ≠ 0) →
      stream_frames cfg env fuel st rs = some (st1, frames) →
      st1.ccb.cont_offset =
        (st.ccb.cont_offset + (frames.map fun f => BE_STREAM_TO_UINT16 f 5).sum) % 65536 ∨
      (rs = [] ∧ st1 = st ∧ frames = []) := by
  intro rs
  induction rs with
  | nil =>
    intro st st1 frames _ h
    simp only [stream_frames, Option.some.injEq, Prod.mk.injEq] at h
    exact Or.inr ⟨rfl, h.1.symm, h.2.symm⟩
  | cons r rs ih =>
    intro st st1 frames hmk h
    left
    rw [stream_frames] at h
    split at h
    · rename_i st2 p_buf hh
      simp only [Option.map_eq_some'] at h
      obtain ⟨⟨st3, fr⟩, hrest, heq⟩ := h
      simp only [Prod.mk.injEq] at heq
      obtain ⟨rfl, rfl⟩ := heq
      have hstep := (attr_request_step cfg env fuel r st st2 p_buf hh).1
      rw [if_neg (hmk r (List.mem_cons_self _ _))] at hstep
      rcases ih st2 st3 fr (fun r1 hr1 => hmk r1 (List.mem_cons_of_mem _ hr1)) hrest with
        h1 | ⟨-, rfl, rfl⟩
      · simp only [List.map_cons, List.sum_cons]
        rw [h1, hstep]
        omega
      · simp only [List.map_cons, List.sum_cons, List.map_nil, List.sum_nil, Nat.add_zero]
        exact hstep
    · simp at h

/-! ## Attribute responses: the stored offset -/

/-- C20: whenever Attribute-Fetch or Search-Attribute-Fetch answers a request
with a frame, the stored `cont_offset` after it is the payload length of the
frame (bytes 5..6) for a request without continuation, and the offset stored
before plus that payload length for a continuation, in 16 bits; and behind
the payload the frame ends with `SDP_CONTINUATION_LEN` and exactly the stored
offset when the stored offset is below `list_len`, with the single byte 0
otherwise. Hence, after a request without continuation and any number of
continuation requests that were all answered with frames, the stored offset
is the sum of the payload lengths of these frames, modulo 2^16. -/
theorem C20_stored_offset (cfg : Config) (env : Env) (fuel : Nat) :
    (∀ (r : AttrRequest) (st st1 : State) (p_buf : List Nat),
      r.handle cfg env fuel st = some (st1, .response p_buf) →
      st1.ccb.cont_offset =
          ((if r.marker env = 0 then 0 else st.ccb.cont_offset) +
            BE_STREAM_TO_UINT16 p_buf 5) % 65536 ∧
        p_buf.drop (7 + BE_STREAM_TO_UINT16 p_buf 5) =
          (if st1.ccb.cont_offset < st1.ccb.list_len then
            UINT8_TO_BE_STREAM cfg.SDP_CONTINUATION_LEN ++
              UINT16_TO_BE_STREAM st1.ccb.cont_offset
          else [0]) ∧
        BE_STREAM_TO_UINT16 (UINT16_TO_BE_STREAM st1.ccb.cont_offset) 0 =
          st1.ccb.cont_offset) ∧
    (∀ (r0 : AttrRequest) (rs : List AttrRequest) (st st1 : State) (frames : List (List Nat)),
      r0.marker env = 0 → (∀ r ∈ rs, r.marker env ≠ 0) →
      stream_frames cfg env fuel st (r0 :: rs) = some (st1, frames) →
      st1.ccb.cont_offset = (frames.map fun f => BE_STREAM_TO_UINT16 f 5).sum % 65536) := by
  refine ⟨?_, ?_⟩
  · intro r st st1 p_buf h
    obtain ⟨h1, h2⟩ := attr_request_step cfg env fuel r st st1 p_buf h
    refine ⟨h1, h2, ?_⟩
    have hlt : st1.ccb.cont_offset < 65536 := by rw [h1]; omega
    have := BE16_encode st1.ccb.cont_offset [] hlt
    simpa using this
  · intro r0 rs st st1 frames h0 hrs h
    rw [stream_frames] at h
    split at h
    · rename_i st2 p_buf hh
      simp only [Option.map_eq_some'] at h
      obtain ⟨⟨st3, fr⟩, hrest, heq⟩ := h
      simp only [Prod.mk.injEq] at heq
      obtain ⟨rfl, rfl⟩ := heq
      have hstep := (attr_request_step cfg env fuel r0 st st2 p_buf hh).1
      rw [if_pos h0] at hstep
      rcases stream_frames_continued cfg env fuel rs st2 st3 fr hrs hrest with
        h1 | ⟨-, rfl, rfl⟩
      · simp only [List.map_cons, List.sum_cons]
        rw [h1, hstep]
        omega
      · simp only [List.map_cons, List.sum_cons, List.map_nil, List.sum_nil, Nat.add_zero]
        simpa using hstep
    · simp at h

/-- C20, at the first two frames of the Search-Attribute-Fetch of the UUID
0x1101 from `db_serial` with a budget of 20 bytes: payloads of 19 and 20
bytes, and a stored offset of 39. -/
theorem C20_stored_offset_witness :
    stream_frames bt_config bt_env 9 (idle_state db_serial [] 672)
        [⟨true, 7, 15, search_attr_req 20 [0], 15⟩,
          ⟨true, 8, 17, search_attr_req 20 [2, 0, 19], 17⟩] =
      some (state_serial_frame2,
        [[7, 0, 7, 0, 24, 0, 19] ++
            [0x35, 60, 0x36, 0, 17, 9, 0, 0, 13, 4, 0, 1, 0, 0, 9, 0, 1, 0x35, 3] ++ [2, 0, 19],
          [7, 0, 8, 0, 25, 0, 20] ++
            [0x19, 0x11, 0x01, 0x36, 0, 17, 9, 0, 0, 13, 4, 0, 1, 0, 2, 9, 0, 1, 0x35, 3] ++
            [2, 0, 39]]) ∧
    state_serial_frame2.ccb.cont_offset =
      ([[7, 0, 7, 0, 24, 0, 19] ++
            [0x35, 60, 0x36, 0, 17, 9, 0, 0, 13, 4, 0, 1, 0, 0, 9, 0, 1, 0x35, 3] ++ [2, 0, 19],
          [7, 0, 8, 0, 25, 0, 20] ++
            [0x19, 0x11, 0x01, 0x36, 0, 17, 9, 0, 0, 13, 4, 0, 1, 0, 2, 9, 0, 1, 0x35, 3] ++
            [2, 0, 39]].map fun f => BE_STREAM_TO_UINT16 f 5).sum % 65536 :=
  ⟨by decide!,
    (C20_stored_offset bt_config bt_env 9).2
      ⟨true, 7, 15, search_attr_req 20 [0], 15⟩
      [⟨true, 8, 17, search_attr_req 20 [2, 0, 19], 17⟩]
      (idle_state db_serial [] 672) state_serial_frame2
      [[7, 0, 7, 0, 24, 0, 19] ++
          [0x35, 60, 0x36, 0, 17, 9, 0, 0, 13, 4, 0, 1, 0, 0, 9, 0, 1, 0x35, 3] ++ [2, 0, 19],
        [7, 0, 8, 0, 25, 0, 20] ++
          [0x19, 0x11, 0x01, 0x36, 0, 17, 9, 0, 0, 13, 4, 0, 1, 0, 2, 9, 0, 1, 0x35, 3] ++
          [2, 0, 39]]
      (by decide) (by decide) (by decide!)⟩

/-! ## The example of two records: evaluation -/

set_option maxRecDepth 1000000 in
/-- The two frames of a Search-Attribute-Fetch with a budget of 90 bytes for
the UUID 0x1101 and the range 0x0000-0xFFFF, computed for two stores whose
matching records have full encodings of 60 and 80 bytes. The first frame
carries 89 bytes: the outer header of two bytes for a body of 140, all of the first
record and the first 27 bytes of the second one, behind them the token with
the offset 89. The request that echoes the token is answered with the other
53 bytes of the second record and the zero terminator, after which the stored
offset has reached the total length 142. The second record is cut inside an
attribute (`rec_80`) and between two attributes (`rec_80b`). -/
theorem two_record_frames :
    (record_encoding bt_config bt_env rec_60).length = 60 ∧
    (record_encoding bt_config bt_env rec_80).length = 80 ∧
    (record_encoding bt_config bt_env rec_80b).length = 80 ∧
    collect_handles bt_env (db_example rec_80) [⟨2, [0x11, 0x01]⟩] 3 none = [0x10000, 0x10001] ∧
    process_service_search_attr_req bt_config bt_env 9 (idle_state (db_example rec_80) [] 672)
        7 15 (search_attr_req 90 [0]) 15 =
      some (state_example_frame1 rec_80 4 7,
        .response ([7, 0, 7, 0, 94, 0, 89] ++
          ([0x35, 140] ++ record_encoding bt_config bt_env rec_60 ++
            (record_encoding bt_config bt_env rec_80).take 27) ++ [2, 0, 89])) ∧
    (process_service_search_attr_req bt_config bt_env 9 (state_example_frame1 rec_80 4 7)
        8 17 (search_attr_req 90 [2, 0, 89]) 17).map
        (fun r => (r.1.ccb.cont_offset, r.1.ccb.list_len, r.2)) =
      some (142, 142,
        .response ([7, 0, 8, 0, 56, 0, 53] ++
          (record_encoding bt_config bt_env rec_80).drop 27 ++ [0])) ∧
    process_service_search_attr_req bt_config bt_env 9 (idle_state (db_example rec_80b) [] 672)
        7 15 (search_attr_req 90 [0]) 15 =
      some (state_example_frame1 rec_80b 0x0100 0,
        .response ([7, 0, 7, 0, 94, 0, 89] ++
          ([0x35, 140] ++ record_encoding bt_config bt_env rec_60 ++
            (record_encoding bt_config bt_env rec_80b).take 27) ++ [2, 0, 89])) ∧
    (process_service_search_attr_req bt_config bt_env 9 (state_example_frame1 rec_80b 0x0100 0)
        8 17 (search_attr_req 90 [2, 0, 89]) 17).map
        (fun r => (r.1.ccb.cont_offset, r.1.ccb.list_len, r.2)) =
      some (142, 142,
        .response ([7, 0, 8, 0, 56, 0, 53] ++
          (record_encoding bt_config bt_env rec_80b).drop 27 ++ [0])) := by
  refine ⟨by decide!, by decide!, by decide!, by decide!, by decide!, by decide!, by decide!,
    by decide!⟩

/-! ## A walk over a whole record, without rewrites -/

theorem modify_getD_self (l : List tSDP_ATTRIBUTE) (j : Nat) (d : tSDP_ATTRIBUTE) :
    l.modify (fun _ => l.getD j d) j = l := by
  induction l generalizing j with
  | nil => cases j <;> rfl
  | cons a as ih =>
    cases j with
    | zero => rfl
    | succ j =>
      simp only [List.modify_succ_cons, List.getD_cons_succ, ih]

theorem update_attr_self (w : Walk) (j : Nat) (h : w.p_attr = some j) :
    w.update_attr (fun _ => w.p_rec.attr j) = w := by
  obtain ⟨xx, s, p, c, r, pa, f1, f2, f3, f4, m⟩ := w
  cases r
  simp only at h
  subst h
  simp only [Walk.update_attr, tSDP_RECORD.attr, modify_getD_self]

theorem attr_mem (r : tSDP_RECORD) (j : Nat) (hj : j < r.attributes.length) :
    r.attr j ∈ r.attributes := by
  simp only [tSDP_RECORD.attr, List.getD_eq_getElem _ _ hj]
  exact List.getElem_mem _

theorem apply_rewrites_idle (cfg : Config) (env : Env) (addr : BD_ADDR) (w : Walk) (j : Nat)
    (hj : j < w.p_rec.attributes.length) (hid : rewrites_idle cfg env addr w.p_rec) :
    apply_rewrites cfg env addr w j =
      { w with p_attr := some j, is_avrcp_fallback := false, is_avrcp_browse_bit_reset := false,
               is_avrcp_ca_bit_reset := false, is_hfp_fallback := false } := by
  obtain ⟨h1, h2, h3, h4⟩ := hid.2 _ (attr_mem w.p_rec j hj)
  have hu : ∀ w0 : Walk, w0.p_attr = some j → w0.p_rec = w.p_rec →
      w0.update_attr (fun _ => w.p_rec.attr j) = w0 := by
    intro w0 hp hr
    rw [← hr]
    exact update_attr_self w0 j hp
  unfold apply_rewrites
  simp only [h1, h2, h3, h4, hu, update_attr_self]

theorem attr_search_from_skip (s e : Nat) (pre rest : List tSDP_ATTRIBUTE) (i : Nat)
    (hpre : ∀ a ∈ pre, a.id < s) :
    attr_search_from s e (pre ++ rest) i = attr_search_from s e rest (i + pre.length) := by
  induction pre generalizing i with
  | nil => rfl
  | cons a as ih =>
    have ha : ¬ (s ≤ a.id ∧ a.id ≤ e) := by
      have := hpre a (List.mem_cons_self _ _)
      omega
    have h := ih (i + 1) (fun b hb => hpre b (List.mem_cons_of_mem _ hb))
    rw [List.cons_append]
    simp only [attr_search_from, ha, ↓reduceIte, List.length_cons]
    rw [h]
    congr 1
    omega

theorem find_attr_stands_at (w : Walk) (pre : List tSDP_ATTRIBUTE) (a : tSDP_ATTRIBUTE)
    (rest : List tSDP_ATTRIBUTE) (s : Nat) (hw : w.stands_at pre (a :: rest) s) :
    sdp_db_find_attr_in_rec w.p_rec s 0xFFFF = some pre.length := by
  obtain ⟨-, -, hrec, hpre, hrest, -⟩ := hw
  have ha := hrest a (List.mem_cons_self _ _)
  have hin : s ≤ a.id ∧ a.id ≤ 0xFFFF := ⟨ha.1, by omega⟩
  simp only [sdp_db_find_attr_in_rec, hrec, attr_search_from_skip s _ pre _ 0 hpre,
    attr_search_from, hin, and_self, ↓reduceIte, Nat.zero_add]

theorem find_attr_stands_at_end (w : Walk) (pre : List tSDP_ATTRIBUTE) (s : Nat)
    (hw : w.stands_at pre [] s) :
    sdp_db_find_attr_in_rec w.p_rec s 0xFFFF = none := by
  obtain ⟨-, -, hrec, hpre, -⟩ := hw
  simp only [sdp_db_find_attr_in_rec, hrec, attr_search_from_skip s _ pre _ 0 hpre,
    attr_search_from]

theorem attr_stands_at (w : Walk) (pre : List tSDP_ATTRIBUTE) (a : tSDP_ATTRIBUTE)
    (rest : List tSDP_ATTRIBUTE) (s : Nat) (hw : w.stands_at pre (a :: rest) s) :
    w.p_rec.attr pre.length = a ∧ pre.length < w.p_rec.attributes.length := by
  obtain ⟨-, -, hrec, -⟩ := hw
  simp only [tSDP_RECORD.attr, hrec, List.length_append, List.length_cons]
  constructor
  · rw [List.getD_eq_getElem _ _ (by simp)]
    exact List.getElem_append_right (Nat.le_refl _) |>.trans (by simp)
  · omega

theorem rem_len_of_small (max_list_len : Nat) (p_rsp : List Nat) (hmax : max_list_len ≤ 32767)
    (hlen : p_rsp.length ≤ 32767) :
    rem_len_of max_list_len p_rsp = (max_list_len : Int) - (p_rsp.length : Int) := by
  unfold rem_len_of INT16
  omega

/-- The end of the loop body under one range `s`-0xFFFF, after the attribute
`id` of the range was added: the range starts behind the attribute, and the
loop index is put back by one. -/
theorem body_tail_idle (w : Walk) (s id : Nat) (hxx : w.xx = 0)
    (hseq : w.attr_seq = [⟨s, 0xFFFF⟩]) (hs : s ≠ 0xFFFF) (hid : id < 0xFFFF)
    (h1 : w.is_avrcp_fallback = false) (h2 : w.is_avrcp_browse_bit_reset = false)
    (h3 : w.is_hfp_fallback = false) (h4 : w.is_avrcp_ca_bit_reset = false) :
    body_tail w id = { w with attr_seq := [⟨id + 1, 0xFFFF⟩], xx := 65535 } := by
  have hu : UINT16 ((id : Int) + 1) = id + 1 := by
    unfold UINT16
    omega
  simp only [body_tail, hxx, hseq, List.getD_cons_zero, ne_eq, hs, not_false_eq_true,
    ↓reduceIte, List.set_cons_zero, hu, restore_attr, h1, h2, h3, h4, Bool.false_eq_true]
  rfl

/-- A pass through the loop body at an attribute that fits the budget: its
encoding is added and the range starts behind it. -/
theorem attr_walk_body_full (cfg : Config) (env : Env) (addr : BD_ADDR) (max_list_len : Nat)
    (w : Walk) (pre : List tSDP_ATTRIBUTE) (a : tSDP_ATTRIBUTE) (rest : List tSDP_ATTRIBUTE)
    (s : Nat) (hw : w.stands_at pre (a :: rest) s) (hid : rewrites_idle cfg env addr w.p_rec)
    (ho : w.cont_info.attr_offset = 0) (hmax : max_list_len ≤ 32767)
    (hpos : w.p_rsp.length < max_list_len)
    (hfit : w.p_rsp.length + (env.sdpu_build_attrib_entry a).length ≤ max_list_len) :
    attr_walk_body cfg env addr max_list_len w =
      .next ⟨65535, [⟨a.id + 1, 0xFFFF⟩], w.p_rsp ++ env.sdpu_build_attrib_entry a, w.cont_info,
        w.p_rec, some pre.length, false, false, false, false, w.maxxed_out⟩ := by
  have hfind := find_attr_stands_at w pre a rest s hw
  obtain ⟨hattr, hj⟩ := attr_stands_at w pre a rest s hw
  have hw1 := apply_rewrites_idle cfg env addr w pre.length hj hid
  obtain ⟨hxx, hseq, -, -, hrest, -, -⟩ := hw
  have ha := hrest a (List.mem_cons_self _ _)
  have hrem := rem_len_of_small max_list_len w.p_rsp hmax (by omega)
  have hlen : sdpu_get_attrib_entry_len env a = (env.sdpu_build_attrib_entry a).length := by
    unfold sdpu_get_attrib_entry_len UINT16
    omega
  have h1 : ¬ ((max_list_len : Int) - (w.p_rsp.length : Int) ≤ 0) := by omega
  have h2 : ¬ ((max_list_len : Int) - (w.p_rsp.length : Int) <
      ((env.sdpu_build_attrib_entry a).length : Int)) := by omega
  simp only [attr_walk_body, hxx, hseq, List.getD_cons_zero, hfind, hw1, hattr, hrem, h1, h2,
    ↓reduceIte, ho, ne_eq, not_true_eq_false, hlen]
  rw [body_tail_idle _ s a.id rfl rfl (by omega) ha.2 rfl rfl rfl rfl]

/-- A pass through the loop body when the range holds no attribute. -/
theorem attr_walk_body_end (cfg : Config) (env : Env) (addr : BD_ADDR) (max_list_len : Nat)
    (w : Walk) (pre : List tSDP_ATTRIBUTE) (s : Nat) (hw : w.stands_at pre [] s) :
    attr_walk_body cfg env addr max_list_len w = .next w := by
  have hfind := find_attr_stands_at_end w pre s hw
  obtain ⟨hxx, hseq, -⟩ := hw
  simp only [attr_walk_body, hxx, hseq, List.getD_cons_zero, hfind]

/-- A pass through the loop body when the budget is used up: the attribute
is noted as the place to go on from. -/
theorem attr_walk_body_used_up (cfg : Config) (env : Env) (addr : BD_ADDR) (max_list_len : Nat)
    (w : Walk) (pre : List tSDP_ATTRIBUTE) (a : tSDP_ATTRIBUTE) (rest : List tSDP_ATTRIBUTE)
    (s : Nat) (hw : w.stands_at pre (a :: rest) s) (hid : rewrites_idle cfg env addr w.p_rec)
    (hmax : max_list_len ≤ 32767) (hpos : w.p_rsp.length = max_list_len) :
    attr_walk_body cfg env addr max_list_len w =
      .brk ⟨0, [⟨s, 0xFFFF⟩], w.p_rsp,
        { w.cont_info with next_attr_index := 0, next_attr_start_id := a.id },
        w.p_rec, some pre.length, false, false, false, false, true⟩ := by
  have hfind := find_attr_stands_at w pre a rest s hw
  obtain ⟨hattr, hj⟩ := attr_stands_at w pre a rest s hw
  have hw1 := apply_rewrites_idle cfg env addr w pre.length hj hid
  obtain ⟨hxx, hseq, -⟩ := hw
  have hrem := rem_len_of_small max_list_len w.p_rsp hmax (by omega)
  have h1 : (max_list_len : Int) - (w.p_rsp.length : Int) ≤ 0 := by omega
  simp only [attr_walk_body, hxx, hseq, List.getD_cons_zero, hfind, hw1, hattr, hrem, h1,
    ↓reduceIte]

/-- A pass through the loop body at an attribute that does not fit what is
left of the budget: the bytes that fit are added, and the attribute and the
number of its bytes added are noted. -/
theorem attr_walk_body_cut (cfg : Config) (env : Env) (addr : BD_ADDR) (max_list_len : Nat)
    (w : Walk) (pre : List tSDP_ATTRIBUTE) (a : tSDP_ATTRIBUTE) (rest : List tSDP_ATTRIBUTE)
    (s : Nat) (hw : w.stands_at pre (a :: rest) s) (hid : rewrites_idle cfg env addr w.p_rec)
    (ho : w.cont_info.attr_offset = 0) (hmax : max_list_len ≤ 32767)
    (hpos : w.p_rsp.length < max_list_len)
    (hcut : max_list_len < w.p_rsp.length + (env.sdpu_build_attrib_entry a).length)
    (hlim : (env.sdpu_build_attrib_entry a).length < cfg.SDP_MAX_ATTR_LEN)
    (henc : (env.sdpu_build_attrib_entry a).length < 65536) :
    attr_walk_body cfg env addr max_list_len w =
      .brk ⟨0, [⟨s, 0xFFFF⟩],
        w.p_rsp ++ (env.sdpu_build_attrib_entry a).take (max_list_len - w.p_rsp.length),
        { w.cont_info with
          attr_offset := max_list_len - w.p_rsp.length
          next_attr_index := 0, next_attr_start_id := a.id },
        w.p_rec, some pre.length, false, false, false, false, true⟩ := by
  have hfind := find_attr_stands_at w pre a rest s hw
  obtain ⟨hattr, hj⟩ := attr_stands_at w pre a rest s hw
  have hw1 := apply_rewrites_idle cfg env addr w pre.length hj hid
  obtain ⟨hxx, hseq, -⟩ := hw
  have hrem := rem_len_of_small max_list_len w.p_rsp hmax (by omega)
  have hlen : sdpu_get_attrib_entry_len env a = (env.sdpu_build_attrib_entry a).length := by
    unfold sdpu_get_attrib_entry_len UINT16
    omega
  have h1 : ¬ ((max_list_len : Int) - (w.p_rsp.length : Int) ≤ 0) := by omega
  have h2 : (max_list_len : Int) - (w.p_rsp.length : Int) <
      ((env.sdpu_build_attrib_entry a).length : Int) := by omega
  have h3 : ¬ ((env.sdpu_build_attrib_entry a).length ≥ cfg.SDP_MAX_ATTR_LEN) := by omega
  have h4 : UINT16 ((max_list_len : Int) - (w.p_rsp.length : Int)) =
      max_list_len - w.p_rsp.length := by
    unfold UINT16
    omega
  have h5 : min ((env.sdpu_build_attrib_entry a).length - 0) (max_list_len - w.p_rsp.length) =
      max_list_len - w.p_rsp.length := by omega
  have h6 : UINT16 (((0 : Nat) : Int) + ((max_list_len - w.p_rsp.length : Nat) : Int)) =
      max_list_len - w.p_rsp.length := by
    unfold UINT16
    omega
  simp only [attr_walk_body, hxx, hseq, List.getD_cons_zero, hfind, hw1, hattr, hrem, h1, h2,
    h3, ↓reduceIte, ho, ne_eq, not_true_eq_false, hlen, sdpu_build_partial_attrib_entry, h4, h5,
    h6, List.drop_zero]

/-- A pass through the loop body at an attribute of which `offset` bytes were
sent with an earlier frame, when the other bytes fit the budget: they are
added, and the range starts behind the attribute. -/
theorem attr_walk_body_rest (cfg : Config) (env : Env) (addr : BD_ADDR) (max_list_len : Nat)
    (w : Walk) (pre : List tSDP_ATTRIBUTE) (a : tSDP_ATTRIBUTE) (rest : List tSDP_ATTRIBUTE)
    (s : Nat) (hw : w.stands_at pre (a :: rest) s) (hid : rewrites_idle cfg env addr w.p_rec)
    (ho : w.cont_info.attr_offset ≠ 0) (hmax : max_list_len ≤ 32767)
    (hpos : w.p_rsp.length < max_list_len)
    (hle : w.cont_info.attr_offset ≤ (env.sdpu_build_attrib_entry a).length)
    (hfit : w.p_rsp.length + (env.sdpu_build_attrib_entry a).length ≤
      max_list_len + w.cont_info.attr_offset)
    (henc : (env.sdpu_build_attrib_entry a).length < 65536) :
    attr_walk_body cfg env addr max_list_len w =
      .next ⟨65535, [⟨a.id + 1, 0xFFFF⟩],
        w.p_rsp ++ (env.sdpu_build_attrib_entry a).drop w.cont_info.attr_offset,
        { w.cont_info with attr_offset := 0 },
        w.p_rec, some pre.length, false, false, false, false, w.maxxed_out⟩ := by
  have hfind := find_attr_stands_at w pre a rest s hw
  obtain ⟨hattr, hj⟩ := attr_stands_at w pre a rest s hw
  have hw1 := apply_rewrites_idle cfg env addr w pre.length hj hid
  obtain ⟨hxx, hseq, -, -, hrest, -, -⟩ := hw
  have ha := hrest a (List.mem_cons_self _ _)
  have hrem := rem_len_of_small max_list_len w.p_rsp hmax (by omega)
  have hlen : sdpu_get_attrib_entry_len env a = (env.sdpu_build_attrib_entry a).length := by
    unfold sdpu_get_attrib_entry_len UINT16
    omega
  have h1 : ¬ ((max_list_len : Int) - (w.p_rsp.length : Int) ≤ 0) := by omega
  have h4 : UINT16 ((max_list_len : Int) - (w.p_rsp.length : Int)) =
      max_list_len - w.p_rsp.length := by
    unfold UINT16
    omega
  have h5 : min ((env.sdpu_build_attrib_entry a).length - w.cont_info.attr_offset)
      (max_list_len - w.p_rsp.length) =
      (env.sdpu_build_attrib_entry a).length - w.cont_info.attr_offset := by omega
  have h6 : UINT16 ((w.cont_info.attr_offset : Int) +
      (((env.sdpu_build_attrib_entry a).length - w.cont_info.attr_offset : Nat) : Int)) =
      (env.sdpu_build_attrib_entry a).length := by
    unfold UINT16
    omega
  have h7 : ((env.sdpu_build_attrib_entry a).drop w.cont_info.attr_offset).take
      ((env.sdpu_build_attrib_entry a).length - w.cont_info.attr_offset) =
      (env.sdpu_build_attrib_entry a).drop w.cont_info.attr_offset :=
    List.take_of_length_le (by simp)
  simp only [attr_walk_body, hxx, hseq, List.getD_cons_zero, hfind, hw1, hattr, hrem, h1,
    ↓reduceIte, ho, ne_eq, not_false_eq_true, not_true_eq_false, hlen,
    sdpu_build_partial_attrib_entry, h4, h5, h6, h7]
  rw [body_tail_idle _ s a.id rfl rfl (by omega) ha.2 rfl rfl rfl rfl]

theorem uint16_wrap : UINT16 (((65535 : Nat) : Int) + 1) = 0 := by
  unfold UINT16
  omega

theorem attr_walk_next (cfg : Config) (env : Env) (addr : BD_ADDR) (max_list_len fuel : Nat)
    (w w1 w2 : Walk) (hxx : w.xx < w.attr_seq.length)
    (hb : attr_walk_body cfg env addr max_list_len w = .next w1)
    (h2 : { w1 with xx := UINT16 ((w1.xx : Int) + 1) } = w2) :
    attr_walk cfg env addr max_list_len (fuel + 1) w =
      attr_walk cfg env addr max_list_len fuel w2 := by
  rw [attr_walk]
  simp only [hxx, ↓reduceIte, hb, h2]

theorem attr_walk_brk (cfg : Config) (env : Env) (addr : BD_ADDR) (max_list_len fuel : Nat)
    (w w1 : Walk) (hxx : w.xx < w.attr_seq.length)
    (hb : attr_walk_body cfg env addr max_list_len w = .brk w1) :
    attr_walk cfg env addr max_list_len (fuel + 1) w = some (.done w1) := by
  rw [attr_walk]
  simp only [hxx, ↓reduceIte, hb]

theorem attr_walk_left (cfg : Config) (env : Env) (addr : BD_ADDR) (max_list_len fuel : Nat)
    (w : Walk) (hxx : ¬ w.xx < w.attr_seq.length) :
    attr_walk cfg env addr max_list_len fuel w = some (.done w) := by
  rw [attr_walk.eq_def]
  simp only [hxx, ↓reduceIte]

theorem stands_at_next (w : Walk) (pre : List tSDP_ATTRIBUTE) (a : tSDP_ATTRIBUTE)
    (rest : List tSDP_ATTRIBUTE) (s : Nat) (hw : w.stands_at pre (a :: rest) s)
    (p_rsp : List Nat) (c : tSDP_CONT_INFO) (j : Option Nat) (m : Bool) :
    Walk.stands_at ⟨0, [⟨a.id + 1, 0xFFFF⟩], p_rsp, c, w.p_rec, j, false, false, false, false, m⟩
      (pre ++ [a]) rest (a.id + 1) := by
  obtain ⟨-, -, hrec, hpre, hrest, hsorted, -⟩ := hw
  have ha := hrest a (List.mem_cons_self _ _)
  rw [List.pairwise_cons] at hsorted
  refine ⟨rfl, rfl, by simp [hrec], ?_, ?_, hsorted.2, rfl, rfl, rfl, rfl⟩
  · intro b hb
    rw [List.mem_append, List.mem_singleton] at hb
    rcases hb with hb | hb
    · have := hpre b hb
      omega
    · subst hb
      omega
  · intro b hb
    have h1 := hsorted.1 b hb
    have h2 := hrest b (List.mem_cons_of_mem _ hb)
    omega

/-- The attribute loop under one range `s`-0xFFFF, with a budget that is not
used up by the attributes of the range: their encodings are added one after
the other, and the loop ends with the range passed. -/
theorem attr_walk_all (cfg : Config) (env : Env) (addr : BD_ADDR) (max_list_len : Nat)
    (hmax : max_list_len ≤ 32767) (rest : List tSDP_ATTRIBUTE) :
    ∀ (fuel : Nat) (w : Walk) (pre : List tSDP_ATTRIBUTE) (s : Nat),
      w.stands_at pre rest s → rewrites_idle cfg env addr w.p_rec →
      w.cont_info.attr_offset = 0 →
      w.p_rsp.length + (rest.flatMap env.sdpu_build_attrib_entry).length < max_list_len →
      rest.length < fuel →
      ∃ w1, attr_walk cfg env addr max_list_len fuel w = some (.done w1) ∧
        w1.p_rsp = w.p_rsp ++ rest.flatMap env.sdpu_build_attrib_entry ∧
        w1.cont_info = w.cont_info ∧ w1.p_rec = w.p_rec ∧ w1.maxxed_out = w.maxxed_out ∧
        w1.is_avrcp_fallback = false ∧ w1.is_avrcp_browse_bit_reset = false ∧
        w1.is_hfp_fallback = false ∧ w1.is_avrcp_ca_bit_reset = false := by
  induction rest with
  | nil =>
    intro fuel w pre s hw _ _ _ hfuel
    obtain ⟨fuel, rfl⟩ : ∃ f, fuel = f + 1 := ⟨fuel - 1, by omega⟩
    have hb := attr_walk_body_end cfg env addr max_list_len w pre s hw
    obtain ⟨hxx, hseq, -, -, -, -, h1, h2, h3, h4⟩ := hw
    rw [attr_walk_next cfg env addr max_list_len fuel w w _ (by rw [hxx, hseq]; simp) hb rfl,
      attr_walk_left _ _ _ _ _ _ (by rw [hxx, hseq]; simp [UINT16])]
    exact ⟨_, rfl, by simp, rfl, rfl, rfl, h1, h2, h3, h4⟩
  | cons a rest ih =>
    intro fuel w pre s hw hid ho hlen hfuel
    obtain ⟨fuel, rfl⟩ : ∃ f, fuel = f + 1 := ⟨fuel - 1, by omega⟩
    simp only [List.flatMap_cons, List.length_append, List.length_cons] at hlen hfuel
    have hb := attr_walk_body_full cfg env addr max_list_len w pre a rest s hw hid ho hmax
      (by omega) (by omega)
    have hnext := stands_at_next w pre a rest s hw
      (w.p_rsp ++ env.sdpu_build_attrib_entry a) w.cont_info (some pre.length) w.maxxed_out
    obtain ⟨w1, hw1, hp, hc, hr, hm, hf⟩ := ih fuel _ (pre ++ [a]) (a.id + 1) hnext hid ho
      (by simp only [List.length_append]; omega) (by omega)
    refine ⟨w1, ?_, ?_, hc, hr, hm, hf⟩
    · rw [attr_walk_next cfg env addr max_list_len fuel w _
        ⟨0, [⟨a.id + 1, 0xFFFF⟩], w.p_rsp ++ env.sdpu_build_attrib_entry a, w.cont_info,
          w.p_rec, some pre.length, false, false, false, false, w.maxxed_out⟩
        (by rw [hw.1, hw.2.1]; simp) hb (by simp only [uint16_wrap])]
      exact hw1
    · rw [hp, List.flatMap_cons, List.append_assoc]

/-- The attribute loop of a continuation request, which goes on at the
attribute `a` of which `attr_offset` bytes were sent, with a budget that is
not used up by what is left of the range: the other bytes of `a` and the
encodings of the attributes behind it are added. -/
theorem attr_walk_resume (cfg : Config) (env : Env) (addr : BD_ADDR) (max_list_len : Nat)
    (hmax : max_list_len ≤ 32767) (a : tSDP_ATTRIBUTE) (rest : List tSDP_ATTRIBUTE)
    (fuel : Nat) (w : Walk) (pre : List tSDP_ATTRIBUTE) (s : Nat)
    (hw : w.stands_at pre (a :: rest) s) (hid : rewrites_idle cfg env addr w.p_rec)
    (hle : w.cont_info.attr_offset ≤ (env.sdpu_build_attrib_entry a).length)
    (henc : (env.sdpu_build_attrib_entry a).length < 65536)
    (hlen : w.p_rsp.length + ((a :: rest).flatMap env.sdpu_build_attrib_entry).length <
      max_list_len + w.cont_info.attr_offset)
    (hfuel : rest.length + 1 < fuel) :
    ∃ w1, attr_walk cfg env addr max_list_len fuel w = some (.done w1) ∧
      w1.p_rsp = w.p_rsp ++
        ((a :: rest).flatMap env.sdpu_build_attrib_entry).drop w.cont_info.attr_offset ∧
      w1.cont_info = { w.cont_info with attr_offset := 0 } ∧ w1.p_rec = w.p_rec ∧
      w1.maxxed_out = w.maxxed_out ∧
      w1.is_avrcp_fallback = false ∧ w1.is_avrcp_browse_bit_reset = false ∧
      w1.is_hfp_fallback = false ∧ w1.is_avrcp_ca_bit_reset = false := by
  by_cases ho : w.cont_info.attr_offset = 0
  · obtain ⟨w1, hw1, hp, hc, hr⟩ := attr_walk_all cfg env addr max_list_len hmax (a :: rest)
      fuel w pre s hw hid ho (by omega) (by simp only [List.length_cons]; omega)
    refine ⟨w1, hw1, by rw [hp, ho, List.drop_zero], ?_, hr⟩
    rw [hc, ← ho]
  · obtain ⟨fuel, rfl⟩ : ∃ f, fuel = f + 1 := ⟨fuel - 1, by omega⟩
    simp only [List.flatMap_cons, List.length_append] at hlen
    have hb := attr_walk_body_rest cfg env addr max_list_len w pre a rest s hw hid ho hmax
      (by omega) hle (by omega) henc
    have hnext := stands_at_next w pre a rest s hw
      (w.p_rsp ++ (env.sdpu_build_attrib_entry a).drop w.cont_info.attr_offset)
      { w.cont_info with attr_offset := 0 } (some pre.length) w.maxxed_out
    obtain ⟨w1, hw1, hp, hc, hr, hm, hf⟩ := attr_walk_all cfg env addr max_list_len hmax rest
      fuel _ (pre ++ [a]) (a.id + 1) hnext hid rfl
      (by simp only [List.length_append, List.length_drop]; omega) (by omega)
    refine ⟨w1, ?_, ?_, hc, hr, hm, hf⟩
    · rw [attr_walk_next cfg env addr max_list_len fuel w _
        ⟨0, [⟨a.id + 1, 0xFFFF⟩],
          w.p_rsp ++ (env.sdpu_build_attrib_entry a).drop w.cont_info.attr_offset,
          { w.cont_info with attr_offset := 0 },
          w.p_rec, some pre.length, false, false, false, false, w.maxxed_out⟩
        (by rw [hw.1, hw.2.1]; simp) hb (by simp only [uint16_wrap])]
      exact hw1
    · rw [hp, List.flatMap_cons, List.drop_append_of_le_length hle, List.append_assoc]

/-- The attribute loop under one range `s`-0xFFFF, with a budget that the
attributes of the range exceed: the loop adds the bytes of their encodings
that fit the budget, and notes the attribute at which it stops and the
number of its bytes added. -/
theorem attr_walk_cut (cfg : Config) (env : Env) (addr : BD_ADDR) (max_list_len : Nat)
    (hmax : max_list_len ≤ 32767) (rest : List tSDP_ATTRIBUTE) :
    ∀ (fuel : Nat) (w : Walk) (pre : List tSDP_ATTRIBUTE) (s : Nat),
      w.stands_at pre rest s → rewrites_idle cfg env addr w.p_rec →
      w.cont_info.attr_offset = 0 → w.p_rsp.length ≤ max_list_len →
      max_list_len < w.p_rsp.length + (rest.flatMap env.sdpu_build_attrib_entry).length →
      (∀ a ∈ rest, (env.sdpu_build_attrib_entry a).length < cfg.SDP_MAX_ATTR_LEN ∧
        (env.sdpu_build_attrib_entry a).length < 65536) →
      rest.length ≤ fuel →
      ∃ w1 pre1 a1 rest1 o, attr_walk cfg env addr max_list_len fuel w = some (.done w1) ∧
        w1.p_rsp = w.p_rsp ++
          (rest.flatMap env.sdpu_build_attrib_entry).take (max_list_len - w.p_rsp.length) ∧
        rest = pre1 ++ a1 :: rest1 ∧
        (pre1.flatMap env.sdpu_build_attrib_entry).length + o =
          max_list_len - w.p_rsp.length ∧
        o ≤ (env.sdpu_build_attrib_entry a1).length ∧
        w1.cont_info = { w.cont_info with
          attr_offset := o, next_attr_index := 0, next_attr_start_id := a1.id } ∧
        w1.p_rec = w.p_rec ∧ w1.maxxed_out = true ∧
        w1.is_avrcp_fallback = false ∧ w1.is_avrcp_browse_bit_reset = false ∧
        w1.is_hfp_fallback = false ∧ w1.is_avrcp_ca_bit_reset = false := by
  induction rest with
  | nil =>
    intro fuel w pre s _ _ _ h1 h2
    simp only [List.flatMap_nil, List.length_nil] at h2
    omega
  | cons a rest ih =>
    intro fuel w pre s hw hid ho hin hout hlim hfuel
    simp only [List.length_cons] at hfuel
    obtain ⟨fuel, rfl⟩ : ∃ f, fuel = f + 1 := ⟨fuel - 1, by omega⟩
    have hxx : w.xx < w.attr_seq.length := by rw [hw.1, hw.2.1]; simp
    have hla := hlim a (List.mem_cons_self _ _)
    simp only [List.flatMap_cons, List.length_append] at hout
    by_cases hfull : w.p_rsp.length = max_list_len
    · have hb := attr_walk_body_used_up cfg env addr max_list_len w pre a rest s hw hid hmax
        hfull
      refine ⟨_, [], a, rest, 0, attr_walk_brk cfg env addr max_list_len fuel w _ hxx hb, ?_,
        rfl, ?_, Nat.zero_le _, ?_, rfl, rfl, rfl, rfl, rfl, rfl⟩
      · simp [hfull]
      · simp [hfull]
      · simp only [ho]
    · by_cases hfit : w.p_rsp.length + (env.sdpu_build_attrib_entry a).length ≤ max_list_len
      · have hb := attr_walk_body_full cfg env addr max_list_len w pre a rest s hw hid ho hmax
          (by omega) hfit
        have hnext := stands_at_next w pre a rest s hw
          (w.p_rsp ++ env.sdpu_build_attrib_entry a) w.cont_info (some pre.length)
          w.maxxed_out
        obtain ⟨w1, pre1, a1, rest1, o, hw1, hp, hdec, hsum, hol, hc, hr, hm, hf⟩ :=
          ih fuel _ (pre ++ [a]) (a.id + 1) hnext hid ho
            (by simp only [List.length_append]; omega)
            (by simp only [List.length_append]; omega)
            (fun b hb => hlim b (List.mem_cons_of_mem _ hb)) (by omega)
        simp only [List.length_append] at hp hsum
        refine ⟨w1, a :: pre1, a1, rest1, o, ?_, ?_, by rw [hdec]; rfl, ?_, hol, hc, hr, hm,
          hf⟩
        · rw [attr_walk_next cfg env addr max_list_len fuel w _
            ⟨0, [⟨a.id + 1, 0xFFFF⟩], w.p_rsp ++ env.sdpu_build_attrib_entry a, w.cont_info,
              w.p_rec, some pre.length, false, false, false, false, w.maxxed_out⟩
            hxx hb (by simp only [uint16_wrap])]
          exact hw1
        · have ht : (env.sdpu_build_attrib_entry a).take (max_list_len - w.p_rsp.length) =
              env.sdpu_build_attrib_entry a := List.take_of_length_le (by omega)
          have hn : max_list_len - w.p_rsp.length - (env.sdpu_build_attrib_entry a).length =
              max_list_len - (w.p_rsp.length + (env.sdpu_build_attrib_entry a).length) := by
            omega
          rw [hp, List.flatMap_cons, List.take_append_eq_append_take, ht, hn,
            List.append_assoc]
        · simp only [List.flatMap_cons, List.length_append]
          omega
      · have hb := attr_walk_body_cut cfg env addr max_list_len w pre a rest s hw hid ho hmax
          (by omega) (by omega) hla.1 hla.2
        refine ⟨_, [], a, rest, max_list_len - w.p_rsp.length,
          attr_walk_brk cfg env addr max_list_len fuel w _ hxx hb, ?_, rfl, ?_, by omega, rfl,
          rfl, rfl, rfl, rfl, rfl, rfl⟩
        · simp only [List.flatMap_cons]
          rw [List.take_append_of_le_length (by omega)]
        · simp

theorem restore_attr_idle (w : Walk) (h1 : w.is_avrcp_fallback = false)
    (h2 : w.is_avrcp_browse_bit_reset = false) (h3 : w.is_hfp_fallback = false)
    (h4 : w.is_avrcp_ca_bit_reset = false) : restore_attr w = w := by
  simp only [restore_attr, h1, h2, h3, h4, Bool.false_eq_true, ↓reduceIte]

theorem set_getD_self (l : List tSDP_RECORD) (i : Nat) (d : tSDP_RECORD) :
    l.set i (l.getD i d) = l := by
  induction l generalizing i with
  | nil => rfl
  | cons a as ih =>
    cases i with
    | zero => rfl
    | succ i => simp only [List.set_cons_succ, List.getD_cons_succ, ih]

theorem store_deref (st : State) (i : Nat) : st.store (.db i) (st.deref (.db i)) = st := by
  simp only [State.store, State.deref, set_getD_self]

theorem enter_record_idle (cfg : Config) (env : Env) (st : State) (i : Nat)
    (hid : rewrites_idle cfg env st.ccb.device_address (st.deref (.db i))) :
    enter_record cfg env st i =
      ({ st with ccb := { st.ccb with
          cont_info := { st.ccb.cont_info with curr_sdp_rec := some (.db i) } } }, .db i) := by
  have h := hid.1
  simp only [State.deref] at h
  simp only [enter_record, sdp_update_pbap_record_if_blacklisted, State.deref, h,
    Bool.false_eq_true, ↓reduceIte]

theorem init_stands_at (st : State) (p : RecPtr) (p_rsp : List Nat)
    (hidx : st.ccb.cont_info.next_attr_index = 0)
    (hsorted : (st.deref p).attributes.Pairwise (fun a b => a.id < b.id))
    (hids : ∀ a ∈ (st.deref p).attributes, a.id < 0xFFFF) :
    (Walk.init st p [⟨0, 0xFFFF⟩] p_rsp).stands_at [] (st.deref p).attributes 0 := by
  refine ⟨hidx, rfl, rfl, ?_, ?_, hsorted, rfl, rfl, rfl, rfl⟩
  · intro a ha
    cases ha
  · intro a ha
    exact ⟨Nat.zero_le _, hids a ha⟩

theorem sum_entry_len (env : Env) (l : List tSDP_ATTRIBUTE)
    (h : (l.flatMap env.sdpu_build_attrib_entry).length < 65536) :
    (l.map (sdpu_get_attrib_entry_len env)).sum =
      (l.flatMap env.sdpu_build_attrib_entry).length := by
  induction l with
  | nil => rfl
  | cons a as ih =>
    simp only [List.flatMap_cons, List.length_append] at h
    have h1 : sdpu_get_attrib_entry_len env a = (env.sdpu_build_attrib_entry a).length := by
      unfold sdpu_get_attrib_entry_len UINT16
      omega
    simp only [List.map_cons, List.sum_cons, List.flatMap_cons, List.length_append, h1,
      ih (by omega)]

/-- The sequence length of a record under the range 0x0000-0xFFFF is the
length of the encodings of its attributes. -/
theorem seq_len_whole (env : Env) (r : tSDP_RECORD)
    (hids : ∀ a ∈ r.attributes, a.id < 0xFFFF)
    (h : (r.attributes.flatMap env.sdpu_build_attrib_entry).length < 65536) :
    sdpu_get_attrib_seq_len env r [⟨0, 0xFFFF⟩] =
      (r.attributes.flatMap env.sdpu_build_attrib_entry).length := by
  have hf : (r.attributes.filter fun a => decide (0 ≤ a.id ∧ a.id ≤ 0xFFFF)) = r.attributes := by
    rw [List.filter_eq_self]
    intro a ha
    have := hids a ha
    simp only [decide_eq_true_eq]
    omega
  simp only [sdpu_get_attrib_seq_len, matched_attrs, List.flatMap_cons, List.flatMap_nil,
    List.append_nil, hf, sum_entry_len env _ h]
  unfold UINT16
  omega

theorem slot_take (p x : List Nat) : (p ++ ([0, 0, 0] ++ x)).take p.length = p := by
  rw [List.take_left']
  rfl

theorem slot_drop (p x : List Nat) : (p ++ ([0, 0, 0] ++ x)).drop (p.length + 3) = x := by
  rw [← List.append_assoc, List.drop_left']
  simp

theorem search_attr_records_whole (cfg : Config) (env : Env) (max_list_len : Nat)
    (uid_seq : tSDP_UUID_SEQ) (walk_fuel fuel : Nat) (l : RecLoop) (i : Nat)
    (hmax : max_list_len ≤ 32767)
    (hid : rewrites_idle cfg env l.st.ccb.device_address (l.st.deref (.db i)))
    (hsorted : (l.st.deref (.db i)).attributes.Pairwise (fun a b => a.id < b.id))
    (hids : ∀ a ∈ (l.st.deref (.db i)).attributes, a.id < 0xFFFF)
    (hseq : l.attr_seq = [⟨0, 0xFFFF⟩])
    (hidx : l.st.ccb.cont_info.next_attr_index = 0)
    (hoff : l.st.ccb.cont_info.attr_offset = 0)
    (hsent : l.st.ccb.cont_info.last_attr_seq_desc_sent = false)
    (hne : (l.st.deref (.db i)).attributes.flatMap env.sdpu_build_attrib_entry ≠ [])
    (hroom : l.p_rsp.length + 3 +
      ((l.st.deref (.db i)).attributes.flatMap env.sdpu_build_attrib_entry).length <
        max_list_len)
    (hwf : (l.st.deref (.db i)).attributes.length < walk_fuel) :
    search_attr_records cfg env max_list_len uid_seq [⟨0, 0xFFFF⟩] walk_fuel (fuel + 1) l
        (some i) =
      search_attr_records cfg env max_list_len uid_seq [⟨0, 0xFFFF⟩] walk_fuel fuel
        { st := { l.st with ccb := { l.st.ccb with
            rsp_list := l.p_rsp ++ record_encoding cfg env (l.st.deref (.db i))
            cont_info := { l.st.ccb.cont_info with
              curr_sdp_rec := some (.db i), prev_sdp_rec := some (.db i) } } }
          attr_seq := [⟨0, 0xFFFF⟩]
          p_rsp := l.p_rsp ++ record_encoding cfg env (l.st.deref (.db i))
          blacklist_skip_len := l.blacklist_skip_len }
        (sdp_db_service_search env l.st.db (some (.db i)) uid_seq) := by
  obtain ⟨⟨db, tmp, created, ⟨addr, mtu, co, ll, ⟨nai, nasi, prev, curr, sent, off⟩, rl, rls,
    timer⟩⟩, attr_seq, p_rsp, skip⟩ := l
  simp only at hseq hidx hoff hsent
  subst hseq hidx hoff hsent
  simp only [State.deref] at hid hsorted hids hne hroom hwf
  have hst : Walk.stands_at
      ⟨0, [⟨0, 0xFFFF⟩], p_rsp ++ [0, 0, 0], ⟨0, nasi, prev, some (.db i), false, 0⟩,
        db.getD i ⟨0, []⟩, none, false, false, false, false, false⟩ []
      (db.getD i ⟨0, []⟩).attributes 0 := by
    refine ⟨rfl, rfl, rfl, ?_, ?_, hsorted, rfl, rfl, rfl, rfl⟩
    · intro a ha
      cases ha
    · intro a ha
      exact ⟨Nat.zero_le _, hids a ha⟩
  obtain ⟨w1, hw1, hp, hc, hr, hm, hf1, hf2, hf3, hf4⟩ :=
    attr_walk_all cfg env addr max_list_len hmax (db.getD i ⟨0, []⟩).attributes walk_fuel
      _ [] 0 hst hid rfl
      (by simp only [List.length_append, List.length_cons, List.length_nil]; omega)
      hwf
  obtain ⟨xx1, as1, pr1, c1, rec1, pa1, g1, g2, g3, g4, m1⟩ := w1
  simp only at hp hc hr hm hf1 hf2 hf3 hf4
  subst hp hc hr hm hf1 hf2 hf3 hf4
  have hrem : ¬ rem_len_of max_list_len p_rsp < 3 := by
    rw [rem_len_of_small _ _ hmax (by omega)]
    omega
  have hseqlen := seq_len_whole env (db.getD i ⟨0, []⟩) hids (by omega)
  have hne2 : ((db.getD i ⟨0, []⟩).attributes.flatMap env.sdpu_build_attrib_entry).length ≠ 0 := by
    rwa [ne_eq, List.length_eq_zero]
  rw [search_attr_records]
  simp only [enter_record, sdp_update_pbap_record_if_blacklisted, State.deref, hid.1,
    Bool.false_eq_true, ↓reduceIte, hrem, and_false, Walk.init, hw1, restore_attr_idle,
    State.after_walk, State.store, set_getD_self, hseqlen, ne_eq, hne2, not_false_eq_true,
    and_true, and_self, put_record_header, record_encoding]
  simp only [slot_take, slot_drop, not_true_eq_false, ↓reduceIte, List.append_assoc]

theorem search_attr_records_cut (cfg : Config) (env : Env) (max_list_len : Nat)
    (uid_seq : tSDP_UUID_SEQ) (walk_fuel fuel : Nat) (l : RecLoop) (i : Nat)
    (hmax : max_list_len ≤ 32767)
    (hid : rewrites_idle cfg env l.st.ccb.device_address (l.st.deref (.db i)))
    (hsorted : (l.st.deref (.db i)).attributes.Pairwise (fun a b => a.id < b.id))
    (hids : ∀ a ∈ (l.st.deref (.db i)).attributes, a.id < 0xFFFF)
    (hseq : l.attr_seq = [⟨0, 0xFFFF⟩])
    (hidx : l.st.ccb.cont_info.next_attr_index = 0)
    (hoff : l.st.ccb.cont_info.attr_offset = 0)
    (hsent : l.st.ccb.cont_info.last_attr_seq_desc_sent = false)
    (hroom : l.p_rsp.length + 3 ≤ max_list_len)
    (hover : max_list_len < l.p_rsp.length + 3 +
      ((l.st.deref (.db i)).attributes.flatMap env.sdpu_build_attrib_entry).length)
    (hlim : ((l.st.deref (.db i)).attributes.flatMap env.sdpu_build_attrib_entry).length <
      cfg.SDP_MAX_ATTR_LEN)
    (henc : ((l.st.deref (.db i)).attributes.flatMap env.sdpu_build_attrib_entry).length <
      65536)
    (hwf : (l.st.deref (.db i)).attributes.length ≤ walk_fuel) :
    ∃ as1 pre1 a1 rest1 o,
      search_attr_records cfg env max_list_len uid_seq [⟨0, 0xFFFF⟩] walk_fuel (fuel + 1) l
          (some i) =
        some (.done
          { st := { l.st with ccb := { l.st.ccb with
              rsp_list := l.p_rsp ++ (record_encoding cfg env (l.st.deref (.db i))).take
                (max_list_len - l.p_rsp.length)
              cont_info := { l.st.ccb.cont_info with
                next_attr_index := 0, next_attr_start_id := a1.id
                curr_sdp_rec := some (.db i), last_attr_seq_desc_sent := true
                attr_offset := o } } }
            attr_seq := as1
            p_rsp := l.p_rsp ++ (record_encoding cfg env (l.st.deref (.db i))).take
              (max_list_len - l.p_rsp.length)
            blacklist_skip_len := l.blacklist_skip_len }) ∧
      (l.st.deref (.db i)).attributes = pre1 ++ a1 :: rest1 ∧
      (pre1.flatMap env.sdpu_build_attrib_entry).length + o + 3 =
        max_list_len - l.p_rsp.length ∧
      o ≤ (env.sdpu_build_attrib_entry a1).length := by
  obtain ⟨⟨db, tmp, created, ⟨addr, mtu, co, ll, ⟨nai, nasi, prev, curr, sent, off⟩, rl, rls,
    timer⟩⟩, attr_seq, p_rsp, skip⟩ := l
  simp only at hseq hidx hoff hsent
  subst hseq hidx hoff hsent
  simp only [State.deref] at hid hsorted hids hroom hover hlim henc hwf
  have hst : Walk.stands_at
      ⟨0, [⟨0, 0xFFFF⟩], p_rsp ++ [0, 0, 0], ⟨0, nasi, prev, some (.db i), false, 0⟩,
        db.getD i ⟨0, []⟩, none, false, false, false, false, false⟩ []
      (db.getD i ⟨0, []⟩).attributes 0 := by
    refine ⟨rfl, rfl, rfl, ?_, ?_, hsorted, rfl, rfl, rfl, rfl⟩
    · intro a ha
      cases ha
    · intro a ha
      exact ⟨Nat.zero_le _, hids a ha⟩
  have hall : ∀ a ∈ (db.getD i ⟨0, []⟩).attributes,
      (env.sdpu_build_attrib_entry a).length ≤
        ((db.getD i ⟨0, []⟩).attributes.flatMap env.sdpu_build_attrib_entry).length := by
    intro a ha
    obtain ⟨s, t, hst⟩ := List.append_of_mem ha
    rw [hst]
    simp only [List.flatMap_append, List.flatMap_cons, List.length_append]
    omega
  obtain ⟨w1, pre1, a1, rest1, o, hw1, hp, hdec, hsum, hol, hc, hr, hm, hf1, hf2, hf3, hf4⟩ :=
    attr_walk_cut cfg env addr max_list_len hmax (db.getD i ⟨0, []⟩).attributes walk_fuel
      _ [] 0 hst hid rfl
      (by simp only [List.length_append, List.length_cons, List.length_nil]; omega)
      (by simp only [List.length_append, List.length_cons, List.length_nil]; omega)
      (fun a ha => ⟨by have := hall a ha; omega, by have := hall a ha; omega⟩)
      hwf
  obtain ⟨xx1, as1, pr1, c1, rec1, pa1, g1, g2, g3, g4, m1⟩ := w1
  simp only [List.length_append, List.length_cons, List.length_nil] at hp hsum
  simp only at hc hr hm hf1 hf2 hf3 hf4
  subst hp hc hr hm hf1 hf2 hf3 hf4
  refine ⟨as1, pre1, a1, rest1, o, ?_, hdec, by simp only; omega, hol⟩
  have hrem : ¬ rem_len_of max_list_len p_rsp < 3 := by
    rw [rem_len_of_small _ _ hmax (by omega)]
    omega
  have hseqlen := seq_len_whole env (db.getD i ⟨0, []⟩) hids henc
  have hne2 : ((db.getD i ⟨0, []⟩).attributes.flatMap env.sdpu_build_attrib_entry).length ≠ 0 := by
    omega
  have htake : (record_encoding cfg env (db.getD i ⟨0, []⟩)).take (max_list_len - p_rsp.length) =
      UINT8_TO_BE_STREAM ((cfg.DATA_ELE_SEQ_DESC_TYPE <<< 3) ||| cfg.SIZE_IN_NEXT_WORD) ++
        (UINT16_TO_BE_STREAM
            ((db.getD i ⟨0, []⟩).attributes.flatMap env.sdpu_build_attrib_entry).length ++
          ((db.getD i ⟨0, []⟩).attributes.flatMap env.sdpu_build_attrib_entry).take
            (max_list_len - (p_rsp.length + (0 + 1 + 1 + 1)))) := by
    have h3 : max_list_len - p_rsp.length =
        (max_list_len - (p_rsp.length + (0 + 1 + 1 + 1))) + 3 := by omega
    rw [h3]
    simp only [record_encoding, UINT8_TO_BE_STREAM, UINT16_TO_BE_STREAM, List.cons_append,
      List.nil_append, List.take_succ_cons, List.append_assoc]
  rw [search_attr_records]
  simp only [enter_record, sdp_update_pbap_record_if_blacklisted, State.deref, hid.1,
    Bool.false_eq_true, ↓reduceIte, hrem, and_false, Walk.init, hw1, restore_attr_idle,
    State.after_walk, State.store, set_getD_self, hseqlen, ne_eq, hne2, not_false_eq_true,
    and_true, and_self, put_record_header, htake, slot_take, slot_drop, not_true_eq_false,
    List.append_assoc]

theorem search_attr_records_rest (cfg : Config) (env : Env) (max_list_len : Nat)
    (uid_seq : tSDP_UUID_SEQ) (walk_fuel fuel : Nat) (l : RecLoop) (i : Nat)
    (pre1 : List tSDP_ATTRIBUTE) (a1 : tSDP_ATTRIBUTE) (rest1 : List tSDP_ATTRIBUTE)
    (hmax : max_list_len ≤ 32767)
    (hid : rewrites_idle cfg env l.st.ccb.device_address (l.st.deref (.db i)))
    (hdec : (l.st.deref (.db i)).attributes = pre1 ++ a1 :: rest1)
    (hsorted : (l.st.deref (.db i)).attributes.Pairwise (fun a b => a.id < b.id))
    (hids : ∀ a ∈ (l.st.deref (.db i)).attributes, a.id < 0xFFFF)
    (hseq : l.attr_seq = [⟨a1.id, 0xFFFF⟩])
    (hidx : l.st.ccb.cont_info.next_attr_index = 0)
    (hsent : l.st.ccb.cont_info.last_attr_seq_desc_sent = true)
    (hle : l.st.ccb.cont_info.attr_offset ≤ (env.sdpu_build_attrib_entry a1).length)
    (henc : (env.sdpu_build_attrib_entry a1).length < 65536)
    (hroom : l.p_rsp.length + ((a1 :: rest1).flatMap env.sdpu_build_attrib_entry).length <
      max_list_len + l.st.ccb.cont_info.attr_offset)
    (hwf : rest1.length + 1 < walk_fuel) :
    search_attr_records cfg env max_list_len uid_seq [⟨0, 0xFFFF⟩] walk_fuel (fuel + 1) l
        (some i) =
      search_attr_records cfg env max_list_len uid_seq [⟨0, 0xFFFF⟩] walk_fuel fuel
        { st := { l.st with ccb := { l.st.ccb with
            rsp_list := l.p_rsp ++ ((a1 :: rest1).flatMap env.sdpu_build_attrib_entry).drop
              l.st.ccb.cont_info.attr_offset
            cont_info := { l.st.ccb.cont_info with
              curr_sdp_rec := some (.db i), prev_sdp_rec := some (.db i)
              last_attr_seq_desc_sent := false, attr_offset := 0 } } }
          attr_seq := [⟨0, 0xFFFF⟩]
          p_rsp := l.p_rsp ++ ((a1 :: rest1).flatMap env.sdpu_build_attrib_entry).drop
            l.st.ccb.cont_info.attr_offset
          blacklist_skip_len := l.blacklist_skip_len }
        (sdp_db_service_search env l.st.db (some (.db i)) uid_seq) := by
  obtain ⟨⟨db, tmp, created, ⟨addr, mtu, co, ll, ⟨nai, nasi, prev, curr, sent, off⟩, rl, rls,
    timer⟩⟩, attr_seq, p_rsp, skip⟩ := l
  simp only at hseq hidx hsent hle hroom
  subst hseq hidx hsent
  simp only [State.deref] at hid hsorted hids hdec
  have hst : Walk.stands_at
      ⟨0, [⟨a1.id, 0xFFFF⟩], p_rsp, ⟨0, nasi, prev, some (.db i), true, off⟩,
        db.getD i ⟨0, []⟩, none, false, false, false, false, false⟩ pre1 (a1 :: rest1)
      a1.id := by
    rw [hdec, List.pairwise_append] at hsorted
    obtain ⟨-, hs2, hs3⟩ := hsorted
    refine ⟨rfl, rfl, hdec, ?_, ?_, hs2, rfl, rfl, rfl, rfl⟩
    · intro a ha
      exact hs3 a ha a1 (List.mem_cons_self _ _)
    · intro a ha
      refine ⟨?_, hids a (by rw [hdec]; exact List.mem_append_right _ ha)⟩
      rw [List.pairwise_cons] at hs2
      rcases List.mem_cons.mp ha with h | h
      · rw [h]
      · exact Nat.le_of_lt (hs2.1 a h)
  obtain ⟨w1, hw1, hp, hc, hr, hm, hf1, hf2, hf3, hf4⟩ :=
    attr_walk_resume cfg env addr max_list_len hmax a1 rest1 walk_fuel _ pre1 a1.id hst hid
      hle henc hroom hwf
  obtain ⟨xx1, as1, pr1, c1, rec1, pa1, g1, g2, g3, g4, m1⟩ := w1
  simp only at hp hc hr hm hf1 hf2 hf3 hf4
  subst hp hc hr hm hf1 hf2 hf3 hf4
  rw [search_attr_records]
  simp only [enter_record, sdp_update_pbap_record_if_blacklisted, State.deref, hid.1,
    Bool.false_eq_true, ↓reduceIte, Bool.true_eq_false, false_and, Walk.init, hw1,
    restore_attr_idle, State.after_walk, State.store, set_getD_self, not_true_eq_false, ne_eq]

theorem search_attr_records_none (cfg : Config) (env : Env) (max_list_len : Nat)
    (uid_seq : tSDP_UUID_SEQ) (attr_seq_sav : tSDP_ATTR_SEQ) (walk_fuel fuel : Nat)
    (l : RecLoop) :
    search_attr_records cfg env max_list_len uid_seq attr_seq_sav walk_fuel fuel l none =
      some (.done l) := by
  cases fuel <;> rw [search_attr_records]

theorem db_search_from_append (m : tSDP_RECORD → Bool) (pre rest : List tSDP_RECORD) (i : Nat)
    (h : ∀ r ∈ pre, m r = false) :
    db_search_from m (pre ++ rest) i = db_search_from m rest (i + pre.length) := by
  induction pre generalizing i with
  | nil => rfl
  | cons a as ih =>
    have ha := h a (List.mem_cons_self _ _)
    have h2 := ih (i + 1) (fun b hb => h b (List.mem_cons_of_mem _ hb))
    rw [List.cons_append]
    simp only [db_search_from, ha, Bool.false_eq_true, ↓reduceIte, List.length_cons]
    rw [h2]
    congr 1
    omega

theorem getD_append_cons (l1 : List tSDP_RECORD) (a : tSDP_RECORD) (l2 : List tSDP_RECORD)
    (d : tSDP_RECORD) : (l1 ++ a :: l2).getD l1.length d = a := by
  induction l1 with
  | nil => rfl
  | cons b bs ih => simpa using ih

/-- The store of the example: two records that match, at the indices
`pre.length` and `pre.length + 1 + mid.length`. -/
theorem two_matches (env : Env) (uid_seq : tSDP_UUID_SEQ) (db pre mid post : List tSDP_RECORD)
    (r1 r2 : tSDP_RECORD) (hdb : db = pre ++ r1 :: (mid ++ r2 :: post))
    (hno : ∀ r ∈ pre ++ mid ++ post, env.record_matches r uid_seq = false)
    (hr1 : env.record_matches r1 uid_seq = true) (hr2 : env.record_matches r2 uid_seq = true) :
    db.getD pre.length ⟨0, []⟩ = r1 ∧ db.getD (pre.length + 1 + mid.length) ⟨0, []⟩ = r2 ∧
    sdp_db_service_search env db none uid_seq = some pre.length ∧
    sdp_db_service_search env db (some (.db pre.length)) uid_seq =
      some (pre.length + 1 + mid.length) ∧
    sdp_db_service_search env db (some (.db (pre.length + 1 + mid.length))) uid_seq = none ∧
    matching_records env db uid_seq = [r1, r2] := by
  have hpre : ∀ r ∈ pre, env.record_matches r uid_seq = false := fun r hr =>
    hno r (List.mem_append_left _ (List.mem_append_left _ hr))
  have hmid : ∀ r ∈ mid, env.record_matches r uid_seq = false := fun r hr =>
    hno r (List.mem_append_left _ (List.mem_append_right _ hr))
  have hpost : ∀ r ∈ post, env.record_matches r uid_seq = false := fun r hr =>
    hno r (List.mem_append_right _ hr)
  subst hdb
  have hi2 : pre.length + 1 + mid.length = (pre ++ r1 :: mid).length := by
    simp only [List.length_append, List.length_cons]
    omega
  have hl2 : pre ++ r1 :: (mid ++ r2 :: post) = (pre ++ r1 :: mid) ++ r2 :: post := by
    simp only [List.append_assoc, List.cons_append]
  have hd1 : (pre ++ r1 :: (mid ++ r2 :: post)).drop (pre.length + 1) = mid ++ r2 :: post := by
    have h : pre ++ r1 :: (mid ++ r2 :: post) = (pre ++ [r1]) ++ (mid ++ r2 :: post) := by
      simp only [List.append_assoc, List.cons_append, List.nil_append]
    rw [h]
    exact List.drop_left' (by simp)
  have hd2 : (pre ++ r1 :: (mid ++ r2 :: post)).drop (pre.length + 1 + mid.length + 1) =
      post := by
    have h : pre ++ r1 :: (mid ++ r2 :: post) = (pre ++ r1 :: mid ++ [r2]) ++ post := by
      simp only [List.append_assoc, List.cons_append, List.nil_append]
    rw [h]
    apply List.drop_left'
    simp only [List.length_append, List.length_cons, List.length_nil]
    omega
  have hfp : pre.filter (fun r => env.record_matches r uid_seq) = [] :=
    List.filter_eq_nil_iff.mpr (fun r hr => by simp [hpre r hr])
  have hfm : mid.filter (fun r => env.record_matches r uid_seq) = [] :=
    List.filter_eq_nil_iff.mpr (fun r hr => by simp [hmid r hr])
  have hfq : post.filter (fun r => env.record_matches r uid_seq) = [] :=
    List.filter_eq_nil_iff.mpr (fun r hr => by simp [hpost r hr])
  refine ⟨getD_append_cons _ _ _ _, ?_, ?_, ?_, ?_, ?_⟩
  · rw [hi2, hl2]
    exact getD_append_cons _ _ _ _
  · simp only [sdp_db_service_search, List.drop_zero]
    rw [db_search_from_append _ _ _ _ hpre]
    simp only [db_search_from, hr1, ↓reduceIte, Nat.zero_add]
  · simp only [sdp_db_service_search]
    rw [hd1, db_search_from_append _ _ _ _ hmid]
    simp only [db_search_from, hr2, ↓reduceIte]
  · simp only [sdp_db_service_search]
    rw [hd2]
    exact db_search_from_eq_none _ _ _ hpost
  · simp only [matching_records, List.filter_append, List.filter_cons, hr1, hr2,
      ↓reduceIte, hfp, hfm, hfq, List.nil_append, List.cons_append, List.append_nil]

theorem finish_first_frame (cfg : Config) (env : Env) (trans_num : Nat)
    (uid_seq : tSDP_UUID_SEQ) (attr_seq_sav : tSDP_ATTR_SEQ) (l : RecLoop) (x : List Nat)
    (hp : l.p_rsp = [0, 0, 0] ++ x) (hx : x.length = 87) (hskip : l.blacklist_skip_len = 0)
    (hco : l.st.ccb.cont_offset = 0)
    (hll : sdpu_get_list_len env l.st.db uid_seq attr_seq_sav = 140) :
    finish_search_attr_req cfg env trans_num uid_seq attr_seq_sav false l =
      ({ l.st with ccb := { l.st.ccb with
          rsp_list := [0, UINT8 ((cfg.DATA_ELE_SEQ_DESC_TYPE <<< 3) ||| cfg.SIZE_IN_NEXT_BYTE),
            140] ++ x
          list_len := 142, cont_offset := 89 } },
        .response (UINT8_TO_BE_STREAM cfg.SDP_PDU_SERVICE_SEARCH_ATTR_RSP ++
          UINT16_TO_BE_STREAM trans_num ++ UINT16_TO_BE_STREAM 94 ++ UINT16_TO_BE_STREAM 89 ++
          (UINT8_TO_BE_STREAM ((cfg.DATA_ELE_SEQ_DESC_TYPE <<< 3) ||| cfg.SIZE_IN_NEXT_BYTE) ++
            UINT8_TO_BE_STREAM 140 ++ x) ++
          (UINT8_TO_BE_STREAM cfg.SDP_CONTINUATION_LEN ++ UINT16_TO_BE_STREAM 89))) := by
  obtain ⟨⟨db, tmp, created, ⟨addr, mtu, co, ll, ci, rl, rls, timer⟩⟩, attr_seq, p_rsp, skip⟩ := l
  simp only at hp hskip hco hll
  subst hp hskip hco
  have h1 : UINT16 (((0 :: 0 :: 0 :: x).length : Nat) : Int) = 90 := by
    simp only [List.length_cons, hx]
    rfl
  have h2 : UINT16 (((140 : Nat) : Int) + 3) = 143 := by rfl
  have h3 : UINT16 (((143 : Nat) : Int) - 1) = 142 := by rfl
  have h4 : UINT16 (((90 : Nat) : Int) - 1) = 89 := by rfl
  have h5 : UINT16 (((0 : Nat) : Int) + ((89 : Nat) : Int)) = 89 := by rfl
  have h6 : UINT16 (((143 : Nat) : Int) - 3) % 256 = 140 := by rfl
  have h7 : ((UINT8 ((cfg.DATA_ELE_SEQ_DESC_TYPE <<< 3) ||| cfg.SIZE_IN_NEXT_BYTE) :: 140 :: x).take
      89) = UINT8 ((cfg.DATA_ELE_SEQ_DESC_TYPE <<< 3) ||| cfg.SIZE_IN_NEXT_BYTE) :: 140 :: x :=
    List.take_of_length_le (by simp only [List.length_cons, hx]; omega)
  simp only [finish_search_attr_req, h1, hll, h2, put_sequence_header, h3, h4, h5, h6,
    build_attr_response, Bool.false_eq_true, false_and, ↓reduceIte, Bool.not_false,
    ne_eq, not_true_eq_false, decide_False, decide_True, List.cons_append, List.nil_append,
    List.set_cons_succ, List.set_cons_zero, List.drop_succ_cons, List.drop_zero, h7,
    and_false, gt_iff_lt, Nat.reduceLT, Nat.sub_zero, Nat.lt_irrefl]
  have h8 : UINT16 (((UINT16_TO_BE_STREAM 89 ++
      UINT8 ((cfg.DATA_ELE_SEQ_DESC_TYPE <<< 3) ||| cfg.SIZE_IN_NEXT_BYTE) :: 140 :: x ++
      (UINT8_TO_BE_STREAM cfg.SDP_CONTINUATION_LEN ++ UINT16_TO_BE_STREAM 89)).length : Nat) :
      Int) = 94 := by
    simp only [UINT8_TO_BE_STREAM, UINT16_TO_BE_STREAM, List.length_append, List.length_cons,
      List.length_nil, hx]
    rfl
  rw [h8]
  simp only [UINT8_TO_BE_STREAM, UINT16_TO_BE_STREAM, UINT8, List.cons_append, List.nil_append,
    List.append_assoc, Nat.reduceMod]

theorem record_encoding_length (cfg : Config) (env : Env) (r : tSDP_RECORD) :
    (record_encoding cfg env r).length =
      (r.attributes.flatMap env.sdpu_build_attrib_entry).length + 3 := by
  simp only [record_encoding, UINT8_TO_BE_STREAM, UINT16_TO_BE_STREAM, List.length_append,
    List.length_cons, List.length_nil]
  omega

theorem list_len_two (env : Env) (db : List tSDP_RECORD) (uid_seq : tSDP_UUID_SEQ)
    (r1 r2 : tSDP_RECORD) (hm : matching_records env db uid_seq = [r1, r2])
    (hi1 : ∀ a ∈ r1.attributes, a.id < 0xFFFF) (hi2 : ∀ a ∈ r2.attributes, a.id < 0xFFFF)
    (hl1 : (r1.attributes.flatMap env.sdpu_build_attrib_entry).length = 57)
    (hl2 : (r2.attributes.flatMap env.sdpu_build_attrib_entry).length = 77) :
    sdpu_get_list_len env db uid_seq [⟨0, 0xFFFF⟩] = 140 := by
  have h1 := seq_len_whole env r1 hi1 (by omega)
  have h2 := seq_len_whole env r2 hi2 (by omega)
  simp only [sdpu_get_list_len, hm, List.map_cons, List.map_nil, h1, h2, hl1, hl2]
  decide

theorem run_search_attr_req_first (cfg : Config) (env : Env) (fuel : Nat) (s : State)
    (trans_num : Nat) (uid_seq : tSDP_UUID_SEQ) (pre mid post : List tSDP_RECORD)
    (r1 r2 : tSDP_RECORD) (hdb : s.db = pre ++ r1 :: (mid ++ r2 :: post))
    (hno : ∀ r ∈ pre ++ mid ++ post, env.record_matches r uid_seq = false)
    (hr1 : env.record_matches r1 uid_seq = true) (hr2 : env.record_matches r2 uid_seq = true)
    (hs1 : r1.attributes.Pairwise (fun a b => a.id < b.id))
    (hi1 : ∀ a ∈ r1.attributes, a.id < 0xFFFF)
    (hs2 : r2.attributes.Pairwise (fun a b => a.id < b.id))
    (hi2 : ∀ a ∈ r2.attributes, a.id < 0xFFFF)
    (hl1 : (r1.attributes.flatMap env.sdpu_build_attrib_entry).length = 57)
    (hl2 : (r2.attributes.flatMap env.sdpu_build_attrib_entry).length = 77)
    (hlim : 80 ≤ cfg.SDP_MAX_ATTR_LEN)
    (hid1 : rewrites_idle cfg env s.ccb.device_address r1)
    (hid2 : rewrites_idle cfg env s.ccb.device_address r2)
    (hco : s.ccb.cont_offset = 0) (hprev : s.ccb.cont_info.prev_sdp_rec = none)
    (hidx : s.ccb.cont_info.next_attr_index = 0)
    (hsent : s.ccb.cont_info.last_attr_seq_desc_sent = false)
    (hoff : s.ccb.cont_info.attr_offset = 0)
    (hfuel : r1.attributes.length + r2.attributes.length + 2 ≤ fuel) :
    ∃ pre1 a1 rest1 o rl,
      run_search_attr_req cfg env fuel s trans_num 90 uid_seq [⟨0, 0xFFFF⟩] [⟨0, 0xFFFF⟩] false
          [0, 0, 0] =
        some ({ s with ccb := { s.ccb with
            rsp_list := rl, list_len := 142, cont_offset := 89
            cont_info := ⟨0, a1.id, some (.db pre.length),
              some (.db (pre.length + 1 + mid.length)), true, o⟩ } },
          .response (UINT8_TO_BE_STREAM cfg.SDP_PDU_SERVICE_SEARCH_ATTR_RSP ++
            UINT16_TO_BE_STREAM trans_num ++ UINT16_TO_BE_STREAM 94 ++ UINT16_TO_BE_STREAM 89 ++
            (UINT8_TO_BE_STREAM ((cfg.DATA_ELE_SEQ_DESC_TYPE <<< 3) ||| cfg.SIZE_IN_NEXT_BYTE) ++
              UINT8_TO_BE_STREAM 140 ++ record_encoding cfg env r1 ++
              (record_encoding cfg env r2).take 27) ++
            (UINT8_TO_BE_STREAM cfg.SDP_CONTINUATION_LEN ++ UINT16_TO_BE_STREAM 89))) ∧
      r2.attributes = pre1 ++ a1 :: rest1 ∧
      (pre1.flatMap env.sdpu_build_attrib_entry).length + o = 24 ∧
      o ≤ (env.sdpu_build_attrib_entry a1).length := by
  obtain ⟨hg1, hg2, hf1, hf2, -, hmr⟩ := two_matches env uid_seq s.db pre mid post r1 r2 hdb hno
    hr1 hr2
  obtain ⟨fuel, rfl⟩ : ∃ f, fuel = f + 2 := ⟨fuel - 2, by omega⟩
  have hll := list_len_two env s.db uid_seq r1 r2 hmr hi1 hi2 hl1 hl2
  have hlen1 := record_encoding_length cfg env r1
  have hlen2 := record_encoding_length cfg env r2
  have hd1 : s.deref (.db pre.length) = r1 := hg1
  have hd2 : s.deref (.db (pre.length + 1 + mid.length)) = r2 := hg2
  have step1 := search_attr_records_whole cfg env 90 uid_seq (fuel + 2) (fuel + 1)
    { st := s, attr_seq := [⟨0, 0xFFFF⟩], p_rsp := [0, 0, 0], blacklist_skip_len := 0 }
    pre.length (by omega) (by rw [hd1]; exact hid1) (by rw [hd1]; exact hs1)
    (by rw [hd1]; exact hi1) rfl hidx hoff hsent
    (by rw [hd1]; intro h; rw [h] at hl1; simp at hl1)
    (by rw [hd1, hl1]; simp) (by rw [hd1]; omega)
  obtain ⟨as1, pre1, a1, rest1, o, step2, hdec, hsum, hol⟩ :=
    search_attr_records_cut cfg env 90 uid_seq (fuel + 2) fuel
      { st := { s with ccb := { s.ccb with
          rsp_list := [0, 0, 0] ++ record_encoding cfg env (s.deref (.db pre.length))
          cont_info := { s.ccb.cont_info with
            curr_sdp_rec := some (.db pre.length), prev_sdp_rec := some (.db pre.length) } } }
        attr_seq := [⟨0, 0xFFFF⟩]
        p_rsp := [0, 0, 0] ++ record_encoding cfg env (s.deref (.db pre.length))
        blacklist_skip_len := 0 }
      (pre.length + 1 + mid.length) (by omega)
      (by show rewrites_idle cfg env s.ccb.device_address
            (s.deref (.db (pre.length + 1 + mid.length)))
          rw [hd2]; exact hid2)
      (by show (s.deref (.db (pre.length + 1 + mid.length))).attributes.Pairwise _
          rw [hd2]; exact hs2)
      (by show ∀ a ∈ (s.deref (.db (pre.length + 1 + mid.length))).attributes, _
          rw [hd2]; exact hi2)
      rfl hidx hoff hsent
      (by simp only [List.length_append, List.length_cons, List.length_nil, hd1, hlen1, hl1]
          omega)
      (by show 90 < ([0, 0, 0] ++ record_encoding cfg env (s.deref (.db pre.length))).length +
            3 + ((s.deref (.db (pre.length + 1 + mid.length))).attributes.flatMap
              env.sdpu_build_attrib_entry).length
          rw [hd1, hd2, hl2]
          simp only [List.length_append, List.length_cons, List.length_nil, hlen1, hl1]
          omega)
      (by show ((s.deref (.db (pre.length + 1 + mid.length))).attributes.flatMap
            env.sdpu_build_attrib_entry).length < _
          rw [hd2, hl2]; omega)
      (by show ((s.deref (.db (pre.length + 1 + mid.length))).attributes.flatMap
            env.sdpu_build_attrib_entry).length < _
          rw [hd2, hl2]; omega)
      (by show (s.deref (.db (pre.length + 1 + mid.length))).attributes.length ≤ _
          rw [hd2]; omega)
  have h27 : 90 - ([0, 0, 0] ++ record_encoding cfg env r1).length = 27 := by
    simp only [List.length_append, List.length_cons, List.length_nil, hlen1, hl1]
  simp only [State.deref, hg1, hg2, h27] at step1 step2 hdec
  simp only [State.deref, hg1, List.length_append, List.length_cons, List.length_nil, hlen1,
    hl1] at hsum
  refine ⟨pre1, a1, rest1, o,
    0 :: ((cfg.DATA_ELE_SEQ_DESC_TYPE <<< 3) ||| cfg.SIZE_IN_NEXT_BYTE) % 256 :: 140 ::
      (record_encoding cfg env r1 ++ (record_encoding cfg env r2).take 27),
    ?main, hdec, by omega, hol⟩
  case main =>
    simp only [run_search_attr_req, hprev, hf1, step1, hf2, step2]
    rw [finish_first_frame cfg env trans_num uid_seq _ _
      (record_encoding cfg env r1 ++ (record_encoding cfg env r2).take 27)
      (by simp only [List.append_assoc]) ?_ rfl hco hll]
    · simp only [List.append_assoc, UINT8_TO_BE_STREAM, UINT8, List.cons_append,
        List.nil_append, Nat.reduceMod]
    · simp only [List.length_append, List.length_take, hlen1, hlen2, hl1, hl2]
      rfl

theorem finish_last_frame (cfg : Config) (env : Env) (trans_num : Nat)
    (uid_seq : tSDP_UUID_SEQ) (attr_seq_sav : tSDP_ATTR_SEQ) (l : RecLoop)
    (hx : l.p_rsp.length = 53) (hskip : l.blacklist_skip_len = 0)
    (hco : l.st.ccb.cont_offset = 89) (hll : l.st.ccb.list_len = 142) :
    finish_search_attr_req cfg env trans_num uid_seq attr_seq_sav true l =
      ({ l.st with ccb := { l.st.ccb with
          rsp_list := l.p_rsp, list_len := 142, cont_offset := 142 } },
        .response (UINT8_TO_BE_STREAM cfg.SDP_PDU_SERVICE_SEARCH_ATTR_RSP ++
          UINT16_TO_BE_STREAM trans_num ++ UINT16_TO_BE_STREAM 56 ++ UINT16_TO_BE_STREAM 53 ++
          l.p_rsp ++ UINT8_TO_BE_STREAM 0)) := by
  obtain ⟨⟨db, tmp, created, ⟨addr, mtu, co, ll, ci, rl, rls, timer⟩⟩, attr_seq, p_rsp, skip⟩ := l
  simp only at hx hskip hco hll
  subst hskip hco hll
  have h1 : UINT16 ((p_rsp.length : Nat) : Int) = 53 := by
    rw [hx]
    rfl
  have h5 : UINT16 (((89 : Nat) : Int) + ((53 : Nat) : Int)) = 142 := by rfl
  have h7 : p_rsp.take 53 = p_rsp := List.take_of_length_le (by omega)
  simp only [finish_search_attr_req, h1, h5, build_attr_response, Bool.false_eq_true,
    false_and, ↓reduceIte, Bool.not_true, ne_eq, not_true_eq_false, decide_False,
    List.drop_zero, h7, and_false, gt_iff_lt, Nat.lt_irrefl, true_and, Nat.reduceEqDiff,
    OfNat.ofNat_ne_zero, and_true]
  have h8 : UINT16 (((UINT16_TO_BE_STREAM 53 ++ p_rsp ++ UINT8_TO_BE_STREAM 0).length : Nat) :
      Int) = 56 := by
    simp only [UINT8_TO_BE_STREAM, UINT16_TO_BE_STREAM, List.length_append, List.length_cons,
      List.length_nil, hx]
    rfl
  rw [h8]
  simp only [List.append_assoc]

theorem run_search_attr_req_second (cfg : Config) (env : Env) (fuel : Nat) (s : State)
    (trans_num : Nat) (uid_seq : tSDP_UUID_SEQ) (pre mid post : List tSDP_RECORD)
    (r1 r2 : tSDP_RECORD) (pre1 : List tSDP_ATTRIBUTE) (a1 : tSDP_ATTRIBUTE)
    (rest1 : List tSDP_ATTRIBUTE) (o : Nat)
    (hdb : s.db = pre ++ r1 :: (mid ++ r2 :: post))
    (hno : ∀ r ∈ pre ++ mid ++ post, env.record_matches r uid_seq = false)
    (hr1 : env.record_matches r1 uid_seq = true) (hr2 : env.record_matches r2 uid_seq = true)
    (hs2 : r2.attributes.Pairwise (fun a b => a.id < b.id))
    (hi2 : ∀ a ∈ r2.attributes, a.id < 0xFFFF)
    (hl2 : (r2.attributes.flatMap env.sdpu_build_attrib_entry).length = 77)
    (hid2 : rewrites_idle cfg env s.ccb.device_address r2)
    (hdec : r2.attributes = pre1 ++ a1 :: rest1)
    (hsum : (pre1.flatMap env.sdpu_build_attrib_entry).length + o = 24)
    (hol : o ≤ (env.sdpu_build_attrib_entry a1).length)
    (hco : s.ccb.cont_offset = 89) (hll : s.ccb.list_len = 142)
    (hci : s.ccb.cont_info = ⟨0, a1.id, some (.db pre.length),
      some (.db (pre.length + 1 + mid.length)), true, o⟩)
    (hfuel : r2.attributes.length + 2 ≤ fuel) :
    run_search_attr_req cfg env fuel s trans_num 90 uid_seq [⟨a1.id, 0xFFFF⟩] [⟨0, 0xFFFF⟩] true
        [] =
      some ({ s with ccb := { s.ccb with
          rsp_list := (record_encoding cfg env r2).drop 27, list_len := 142, cont_offset := 142
          cont_info := ⟨0, a1.id, some (.db (pre.length + 1 + mid.length)),
            some (.db (pre.length + 1 + mid.length)), false, 0⟩ } },
        .response (UINT8_TO_BE_STREAM cfg.SDP_PDU_SERVICE_SEARCH_ATTR_RSP ++
          UINT16_TO_BE_STREAM trans_num ++ UINT16_TO_BE_STREAM 56 ++ UINT16_TO_BE_STREAM 53 ++
          (record_encoding cfg env r2).drop 27 ++ UINT8_TO_BE_STREAM 0)) := by
  obtain ⟨-, hg2, -, hf2, hf3, -⟩ := two_matches env uid_seq s.db pre mid post r1 r2 hdb hno
    hr1 hr2
  obtain ⟨fuel, rfl⟩ : ∃ f, fuel = f + 2 := ⟨fuel - 2, by omega⟩
  have hd2 : s.deref (.db (pre.length + 1 + mid.length)) = r2 := hg2
  have hstream : r2.attributes.flatMap env.sdpu_build_attrib_entry =
      pre1.flatMap env.sdpu_build_attrib_entry ++
        (a1 :: rest1).flatMap env.sdpu_build_attrib_entry := by
    rw [hdec, List.flatMap_append]
  have hlen : (pre1.flatMap env.sdpu_build_attrib_entry).length +
      ((a1 :: rest1).flatMap env.sdpu_build_attrib_entry).length = 77 := by
    rw [← List.length_append, ← hstream, hl2]
  have hla : (env.sdpu_build_attrib_entry a1).length ≤
      ((a1 :: rest1).flatMap env.sdpu_build_attrib_entry).length := by
    simp only [List.flatMap_cons, List.length_append]
    omega
  have hlr : r2.attributes.length = pre1.length + (rest1.length + 1) := by
    rw [hdec, List.length_append, List.length_cons]
  have hdrop : (record_encoding cfg env r2).drop 27 =
      ((a1 :: rest1).flatMap env.sdpu_build_attrib_entry).drop o := by
    have h24 : (27 : Nat) = ((pre1.flatMap env.sdpu_build_attrib_entry).length + o) + 3 := by
      omega
    rw [h24]
    simp only [record_encoding, UINT8_TO_BE_STREAM, UINT16_TO_BE_STREAM, List.cons_append,
      List.nil_append, List.drop_succ_cons, hstream]
    rw [← List.drop_drop, List.drop_left]
  have hoff : s.ccb.cont_info.attr_offset = o := by rw [hci]
  have step := search_attr_records_rest cfg env 90 uid_seq (fuel + 2) (fuel + 1)
    { st := s, attr_seq := [⟨a1.id, 0xFFFF⟩], p_rsp := [], blacklist_skip_len := 0 }
    (pre.length + 1 + mid.length) pre1 a1 rest1 (by omega) (by rw [hd2]; exact hid2)
    (by rw [hd2]; exact hdec) (by rw [hd2]; exact hs2) (by rw [hd2]; exact hi2) rfl
    (by rw [hci]) (by rw [hci]) (by rw [hoff]; exact hol) (by omega)
    (by rw [hoff]; simp only [List.length_nil]; omega) (by omega)
  simp only [hoff, List.nil_append, ← hdrop] at step
  have hprev : s.ccb.cont_info.prev_sdp_rec = some (.db pre.length) := by rw [hci]
  have hx : ((record_encoding cfg env r2).drop 27).length = 53 := by
    rw [List.length_drop, record_encoding_length, hl2]
  simp only [run_search_attr_req, hprev, hf2, step, hf3, search_attr_records_none]
  rw [finish_last_frame cfg env trans_num uid_seq _ _ hx rfl hco hll]
  simp only [hci]

/-! ## The example of two records of 60 and 80 bytes -/

/-- C12: a Search-Attribute-Fetch over the range 0x0000-0xFFFF with an
effective budget of 90 bytes, against a store with exactly two matching
records `r1` and `r2` whose full encodings are 60 and 80 bytes, the attributes
of each in the ascending order of ids below 0xFFFF, for a peer to which no
rewrite applies. The first frame carries a payload of 89 bytes: the outer
sequence header (two bytes, for a body of 140), all of `r1` and the first 27
bytes of `r2`, and behind the payload the continuation token with the offset
89, which is also the stored offset. The request that repeats the search with
the token of offset 89 is answered with a payload of the other 53 bytes of
`r2` and the terminator byte 0; the store is the same after both. -/
theorem C12_two_record_example (cfg : Config) (env : Env) (fuel : Nat) (st : State)
    (trans1 trans2 plen1 plen2 : Nat) (req1 req2 : List Nat) (end1 end2 p1 n1 p2 n2 : Nat)
    (uid_seq : tSDP_UUID_SEQ) (pre mid post : List tSDP_RECORD) (r1 r2 : tSDP_RECORD)
    (hp1 : env.sdpu_extract_uid_seq req1 plen1 = some (p1, uid_seq)) (hu : uid_seq ≠ [])
    (ha1 : env.sdpu_extract_attr_seq (req1.drop (p1 + 2)) plen1 = some (n1, [⟨0, 0xFFFF⟩]))
    (hb1 : cap_max_list_len (BE_STREAM_TO_UINT16 req1 p1) st.ccb.rem_mtu_size
      SDP_MAX_SERVATTR_RSPHDR_LEN = 90)
    (hm1 : rd req1 (p1 + 2 + n1) = 0) (he1 : p1 + 2 + n1 + 1 = end1)
    (hp2 : env.sdpu_extract_uid_seq req2 plen2 = some (p2, uid_seq))
    (ha2 : env.sdpu_extract_attr_seq (req2.drop (p2 + 2)) plen2 = some (n2, [⟨0, 0xFFFF⟩]))
    (hb2 : cap_max_list_len (BE_STREAM_TO_UINT16 req2 p2) st.ccb.rem_mtu_size
      SDP_MAX_SERVATTR_RSPHDR_LEN = 90)
    (hc0 : cfg.SDP_CONTINUATION_LEN ≠ 0)
    (hm2 : rd req2 (p2 + 2 + n2) = cfg.SDP_CONTINUATION_LEN)
    (ho2 : BE_STREAM_TO_UINT16 req2 (p2 + 2 + n2 + 1) = 89) (he2 : p2 + 2 + n2 + 3 = end2)
    (hdb : st.db = pre ++ r1 :: (mid ++ r2 :: post))
    (hno : ∀ r ∈ pre ++ mid ++ post, env.record_matches r uid_seq = false)
    (hr1 : env.record_matches r1 uid_seq = true) (hr2 : env.record_matches r2 uid_seq = true)
    (hs1 : r1.attributes.Pairwise (fun a b => a.id < b.id))
    (hi1 : ∀ a ∈ r1.attributes, a.id < 0xFFFF)
    (hs2 : r2.attributes.Pairwise (fun a b => a.id < b.id))
    (hi2 : ∀ a ∈ r2.attributes, a.id < 0xFFFF)
    (hl1 : (record_encoding cfg env r1).length = 60)
    (hl2 : (record_encoding cfg env r2).length = 80)
    (hlim : 80 ≤ cfg.SDP_MAX_ATTR_LEN)
    (hid1 : rewrites_idle cfg env st.ccb.device_address r1)
    (hid2 : rewrites_idle cfg env st.ccb.device_address r2)
    (hfuel : r1.attributes.length + r2.attributes.length + 2 ≤ fuel) :
    ∃ st1 st2,
      process_service_search_attr_req cfg env fuel st trans1 plen1 req1 end1 =
        some (st1, .response (UINT8_TO_BE_STREAM cfg.SDP_PDU_SERVICE_SEARCH_ATTR_RSP ++
          UINT16_TO_BE_STREAM trans1 ++ UINT16_TO_BE_STREAM 94 ++ UINT16_TO_BE_STREAM 89 ++
          (UINT8_TO_BE_STREAM ((cfg.DATA_ELE_SEQ_DESC_TYPE <<< 3) ||| cfg.SIZE_IN_NEXT_BYTE) ++
            UINT8_TO_BE_STREAM 140 ++ record_encoding cfg env r1 ++
            (record_encoding cfg env r2).take 27) ++
          (UINT8_TO_BE_STREAM cfg.SDP_CONTINUATION_LEN ++ UINT16_TO_BE_STREAM 89))) ∧
      (UINT8_TO_BE_STREAM ((cfg.DATA_ELE_SEQ_DESC_TYPE <<< 3) ||| cfg.SIZE_IN_NEXT_BYTE) ++
        UINT8_TO_BE_STREAM 140 ++ record_encoding cfg env r1 ++
        (record_encoding cfg env r2).take 27).length = 89 ∧
      st1.ccb.cont_offset = 89 ∧ st1.db = st.db ∧
      process_service_search_attr_req cfg env fuel st1 trans2 plen2 req2 end2 =
        some (st2, .response (UINT8_TO_BE_STREAM cfg.SDP_PDU_SERVICE_SEARCH_ATTR_RSP ++
          UINT16_TO_BE_STREAM trans2 ++ UINT16_TO_BE_STREAM 56 ++ UINT16_TO_BE_STREAM 53 ++
          (record_encoding cfg env r2).drop 27 ++ UINT8_TO_BE_STREAM 0)) ∧
      ((record_encoding cfg env r2).drop 27).length = 53 ∧
      st2.ccb.cont_offset = 142 ∧ st2.ccb.list_len = 142 ∧ st2.db = st.db := by
  have hlen1 := record_encoding_length cfg env r1
  have hlen2 := record_encoding_length cfg env r2
  have hl1' : (r1.attributes.flatMap env.sdpu_build_attrib_entry).length = 57 := by omega
  have hl2' : (r2.attributes.flatMap env.sdpu_build_attrib_entry).length = 77 := by omega
  obtain ⟨pre1, a1, rest1, o, rl, hrun1, hdec, hsum, hol⟩ :=
    run_search_attr_req_first cfg env fuel ((st.realloc_rsp_list 90).reset_cont true) trans1
      uid_seq pre mid post r1 r2 hdb hno hr1 hr2 hs1 hi1 hs2 hi2 hl1' hl2' hlim hid1 hid2 rfl rfl
      rfl rfl rfl hfuel
  have hrun2 := run_search_attr_req_second cfg env fuel
    (State.realloc_rsp_list
      { (st.realloc_rsp_list 90).reset_cont true with ccb :=
        { ((st.realloc_rsp_list 90).reset_cont true).ccb with
          rsp_list := rl, list_len := 142, cont_offset := 89
          cont_info := ⟨0, a1.id, some (.db pre.length),
            some (.db (pre.length + 1 + mid.length)), true, o⟩ } } 90)
    trans2 uid_seq pre mid post r1 r2 pre1 a1 rest1 o hdb hno hr1 hr2 hs2 hi2 hl2' hid2 hdec
    hsum hol rfl rfl rfl (by omega)
  have e1 : process_service_search_attr_req cfg env fuel st trans1 plen1 req1 end1 =
      run_search_attr_req cfg env fuel ((st.realloc_rsp_list 90).reset_cont true) trans1 90
        uid_seq [⟨0, 0xFFFF⟩] [⟨0, 0xFFFF⟩] false [0, 0, 0] := by
    rw [process_service_search_attr_req_eq cfg env fuel st trans1 plen1 req1 end1 p1 n1 uid_seq
      _ hp1 hu ha1 (by simp), hb1, check_continuation_fresh cfg _ req1 _ end1 _ true hm1 he1]
  have e2 : process_service_search_attr_req cfg env fuel
      { (st.realloc_rsp_list 90).reset_cont true with ccb :=
      { ((st.realloc_rsp_list 90).reset_cont true).ccb with
        rsp_list := rl, list_len := 142, cont_offset := 89
        cont_info := ⟨0, a1.id, some (.db pre.length),
          some (.db (pre.length + 1 + mid.length)), true, o⟩ } }
      trans2 plen2 req2 end2 =
      run_search_attr_req cfg env fuel
        (State.realloc_rsp_list
          { (st.realloc_rsp_list 90).reset_cont true with ccb :=
          { ((st.realloc_rsp_list 90).reset_cont true).ccb with
            rsp_list := rl, list_len := 142, cont_offset := 89
            cont_info := ⟨0, a1.id, some (.db pre.length),
              some (.db (pre.length + 1 + mid.length)), true, o⟩ } } 90)
        trans2 90 uid_seq [⟨a1.id, 0xFFFF⟩] [⟨0, 0xFFFF⟩] true [] := by
    rw [process_service_search_attr_req_eq cfg env fuel _ trans2 plen2 req2 end2 p2 n2 uid_seq
      _ hp2 hu ha2 (by simp)]
    simp only [State.realloc_rsp_list, State.reset_cont, hb2]
    rw [check_continuation_cont cfg _ req2 _ end2 _ true hc0 hm2 ho2 he2]
    rfl
  refine ⟨_, _, e1.trans hrun1, ?_, rfl, rfl, e2.trans hrun2, ?_, rfl, rfl, rfl⟩
  · simp only [UINT8_TO_BE_STREAM, List.length_append, List.length_cons, List.length_nil,
      List.length_take, hl1, hl2]
    rfl
  · rw [List.length_drop, hl2]

set_option maxRecDepth 1000000 in
/-- C12, at the records `rec_60` and `rec_80` of the store
`db_example rec_80`, with a record between them that does not match, and the
requests for the UUID 0x1101 with a maximum of 90 bytes on a connection with
the MTU 672. -/
theorem C12_two_record_example_witness :
    ∃ st1 st2,
      process_service_search_attr_req bt_config bt_env 9 (idle_state (db_example rec_80) [] 672)
          7 15 (search_attr_req 90 [0]) 15 =
        some (st1, .response (UINT8_TO_BE_STREAM bt_config.SDP_PDU_SERVICE_SEARCH_ATTR_RSP ++
          UINT16_TO_BE_STREAM 7 ++ UINT16_TO_BE_STREAM 94 ++ UINT16_TO_BE_STREAM 89 ++
          (UINT8_TO_BE_STREAM
              ((bt_config.DATA_ELE_SEQ_DESC_TYPE <<< 3) ||| bt_config.SIZE_IN_NEXT_BYTE) ++
            UINT8_TO_BE_STREAM 140 ++ record_encoding bt_config bt_env rec_60 ++
            (record_encoding bt_config bt_env rec_80).take 27) ++
          (UINT8_TO_BE_STREAM bt_config.SDP_CONTINUATION_LEN ++ UINT16_TO_BE_STREAM 89))) ∧
      (UINT8_TO_BE_STREAM
          ((bt_config.DATA_ELE_SEQ_DESC_TYPE <<< 3) ||| bt_config.SIZE_IN_NEXT_BYTE) ++
        UINT8_TO_BE_STREAM 140 ++ record_encoding bt_config bt_env rec_60 ++
        (record_encoding bt_config bt_env rec_80).take 27).length = 89 ∧
      st1.ccb.cont_offset = 89 ∧ st1.db = (idle_state (db_example rec_80) [] 672).db ∧
      process_service_search_attr_req bt_config bt_env 9 st1 8 17
          (search_attr_req 90 [2, 0, 89]) 17 =
        some (st2, .response (UINT8_TO_BE_STREAM bt_config.SDP_PDU_SERVICE_SEARCH_ATTR_RSP ++
          UINT16_TO_BE_STREAM 8 ++ UINT16_TO_BE_STREAM 56 ++ UINT16_TO_BE_STREAM 53 ++
          (record_encoding bt_config bt_env rec_80).drop 27 ++ UINT8_TO_BE_STREAM 0)) ∧
      ((record_encoding bt_config bt_env rec_80).drop 27).length = 53 ∧
      st2.ccb.cont_offset = 142 ∧ st2.ccb.list_len = 142 ∧
      st2.db = (idle_state (db_example rec_80) [] 672).db :=
  C12_two_record_example bt_config bt_env 9 (idle_state (db_example rec_80) [] 672) 7 8 15 17
    (search_attr_req 90 [0]) (search_attr_req 90 [2, 0, 89]) 15 17 5 7 5 7 [⟨2, [0x11, 0x01]⟩]
    [] [rec_other] [] rec_60 rec_80
    (by decide!) (by decide) (by decide!) (by decide!) (by decide!) (by decide)
    (by decide!) (by decide!) (by decide!) (by decide) (by decide!) (by decide!) (by decide)
    (by decide!) (by decide!) (by decide!) (by decide!) (by decide) (by decide) (by decide)
    (by decide) (by decide!) (by decide!) (by decide)
    (by unfold rewrites_idle; decide!) (by unfold rewrites_idle; decide!) (by decide)

/-! ## The PBAP copy across calls -/

/-- C22, the code at a failing input: for a peer on the PBAP blacklist and a
store with the PBAP records `rec_pbap` and `rec_pbap_b`, the first call of
`sdp_update_pbap_record_if_blacklisted` for `rec_pbap_b` returns the copy of
`rec_pbap_b`; after a call for `rec_pbap`, which leaves the store as it is
and keeps the copy of `rec_pbap` in its static record, a call for
`rec_pbap_b` returns the copy of `rec_pbap`, and so does a call for a record
that has taken the place of `rec_pbap` in the store. An Attribute-Fetch for
the handle 0x00010006 is then answered with the attributes of the record
0x00010005. -/
theorem C22_copy_of_an_earlier_call :
    pbap_returned_record bt_config pbap_env
        (idle_state [rec_pbap, rec_pbap_b] peer_blacklisted 672) (.db 1) peer_blacklisted =
      copy_of_rec_pbap_b ∧
    sdp_update_pbap_record_if_blacklisted bt_config pbap_env
        (idle_state [rec_pbap, rec_pbap_b] peer_blacklisted 672) (.db 0) peer_blacklisted =
      (state_pbap_copied [rec_pbap, rec_pbap_b], .pbap_temp_sdp_rec) ∧
    pbap_returned_record bt_config pbap_env (state_pbap_copied [rec_pbap, rec_pbap_b]) (.db 1)
        peer_blacklisted = copy_of_rec_pbap ∧
    pbap_returned_record bt_config pbap_env (state_pbap_copied [rec_pbap_b]) (.db 0)
        peer_blacklisted = copy_of_rec_pbap ∧
    copy_of_rec_pbap ≠ copy_of_rec_pbap_b ∧
    (process_service_attr_req bt_config pbap_env 9
        (idle_state [rec_pbap, rec_pbap_b] peer_blacklisted 672) 8 14
        (attr_req 6 600 [0]) 14).map Prod.snd =
      some (.response ([5, 0, 8, 0, 47, 0, 44, 0x35, 42] ++
        copy_of_rec_pbap_b.attributes.flatMap pbap_env.sdpu_build_attrib_entry ++ [0])) ∧
    (process_service_attr_req bt_config pbap_env 9 (state_pbap_copied [rec_pbap, rec_pbap_b])
        8 14 (attr_req 6 600 [0]) 14).map Prod.snd =
      some (.response ([5, 0, 8, 0, 39, 0, 36, 0x35, 34] ++
        copy_of_rec_pbap.attributes.flatMap pbap_env.sdpu_build_attrib_entry ++ [0])) := by
  decide!

/-! ## The range 0x0000-0xFFFF and an attribute with the id 0xFFFF -/

/-- C23, the code at a failing input: the attribute loop over `rec_three`
(attributes 1, 2 and 0xFFFF, 5 bytes each) with the range 0x0000-0xFFFF and a
budget of 40 bytes, 37 behind the reserved header bytes, where 15 suffice.
Behind the attribute 0xFFFF the range starts at `0xFFFF + 1`, which is 0 in
16 bits, so the loop finds the attribute 1 again: it encodes the three
attributes twice and the attribute 1 a third time, and stops 2 bytes into the
attribute 2 because the budget is used up. The frame of the Attribute-Fetch
carries these 39 bytes behind a header for 15. -/
theorem C23_range_does_not_end :
    (matched_attrs rec_three [⟨0, 0xFFFF⟩]).map (fun a => a.id) = [1, 2, 0xFFFF] ∧
    (attr_walk bt_config bt_env [] 40 20
        (Walk.init (idle_state [rec_three] [] 672) (.db 0) [⟨0, 0xFFFF⟩] [0, 0, 0])).map
        (fun e => (e.walk.p_rsp, e.walk.cont_info.next_attr_start_id,
          e.walk.cont_info.attr_offset)) =
      some ([0, 0, 0] ++
        ([9, 0, 1, 13, 0] ++ [9, 0, 2, 13, 0] ++ [9, 0xFF, 0xFF, 13, 0]) ++
        ([9, 0, 1, 13, 0] ++ [9, 0, 2, 13, 0] ++ [9, 0xFF, 0xFF, 13, 0]) ++
        [9, 0, 1, 13, 0] ++ [9, 0], 2, 2) ∧
    (process_service_attr_req bt_config bt_env 20 (idle_state [rec_three] [] 672) 7 14
        (attr_req 0 40 [0]) 14).map Prod.snd =
      some (.response ([5, 0, 7, 0, 42, 0, 39] ++ [0x35, 15] ++
        ([9, 0, 1, 13, 0] ++ [9, 0, 2, 13, 0] ++ [9, 0xFF, 0xFF, 13, 0]) ++
        ([9, 0, 1, 13, 0] ++ [9, 0, 2, 13, 0] ++ [9, 0xFF, 0xFF, 13, 0]) ++
        [9, 0, 1, 13, 0] ++ [9, 0] ++ [0])) := by
  decide!

/-! ## An attribute as long as `SDP_MAX_ATTR_LEN` -/

theorem attr_walk_body_at_max (cfg : Config) (env : Env) (addr : BD_ADDR)
    (max_list_len : Nat) (w : Walk) (j : Nat)
    (hfind : sdp_db_find_attr_in_rec w.p_rec (w.attr_seq.getD w.xx ⟨0, 0⟩).start
      (w.attr_seq.getD w.xx ⟨0, 0⟩).end = some j)
    (hbig : cfg.SDP_MAX_ATTR_LEN ≤
      sdpu_get_attrib_entry_len env ((apply_rewrites cfg env addr w j).p_rec.attr j))
    (hoff : w.cont_info.attr_offset = 0)
    (hrem : 0 < rem_len_of max_list_len w.p_rsp)
    (hfit : rem_len_of max_list_len w.p_rsp <
      (sdpu_get_attrib_entry_len env ((apply_rewrites cfg env addr w j).p_rec.attr j) : Int)) :
    attr_walk_body cfg env addr max_list_len w = .ret (apply_rewrites cfg env addr w j) := by
  simp only [attr_walk_body, hfind, apply_rewrites_p_rsp, apply_rewrites_cont_info, hoff,
    ne_eq, not_true_eq_false, ↓reduceIte, hfit, show ¬ rem_len_of max_list_len w.p_rsp ≤ 0 by omega,
    show sdpu_get_attrib_entry_len env ((apply_rewrites cfg env addr w j).p_rec.attr j) ≥
      cfg.SDP_MAX_ATTR_LEN from hbig]

theorem rem_len_of_lt (max_list_len : Nat) (p : List Nat) :
    rem_len_of max_list_len p < 32768 := by
  simp only [rem_len_of, INT16]
  omega

theorem entry_head_copied (env : Env) (a : tSDP_ATTRIBUTE) (r : Int) (h0 : 0 < r)
    (h1 : r < (sdpu_get_attrib_entry_len env a : Int)) (h2 : r < 32768) :
    sdpu_build_partial_attrib_entry env a (UINT16 r) 0 =
      ((env.sdpu_build_attrib_entry a).take r.toNat, r.toNat) := by
  have hu : UINT16 r = r.toNat := by
    simp only [UINT16]
    congr 1
    omega
  have hm : min (sdpu_get_attrib_entry_len env a - 0) r.toNat = r.toNat := by
    simp only [Nat.sub_zero]
    omega
  have hu2 : UINT16 ((0 : Nat) + r.toNat) = r.toNat := by
    simp only [UINT16]
    omega
  simp only [sdpu_build_partial_attrib_entry, hu, hm, List.drop_zero]
  rw [Prod.mk.injEq]
  refine ⟨rfl, ?_⟩
  simp only [UINT16]
  omega

theorem attr_walk_body_below_max (cfg : Config) (env : Env) (addr : BD_ADDR)
    (max_list_len : Nat) (w : Walk) (j : Nat)
    (hfind : sdp_db_find_attr_in_rec w.p_rec (w.attr_seq.getD w.xx ⟨0, 0⟩).start
      (w.attr_seq.getD w.xx ⟨0, 0⟩).end = some j)
    (hsmall : sdpu_get_attrib_entry_len env ((apply_rewrites cfg env addr w j).p_rec.attr j) <
      cfg.SDP_MAX_ATTR_LEN)
    (hoff : w.cont_info.attr_offset = 0)
    (hrem : 0 < rem_len_of max_list_len w.p_rsp)
    (hfit : rem_len_of max_list_len w.p_rsp <
      (sdpu_get_attrib_entry_len env ((apply_rewrites cfg env addr w j).p_rec.attr j) : Int)) :
    attr_walk_body cfg env addr max_list_len w =
      .brk { apply_rewrites cfg env addr w j with
        p_rsp := w.p_rsp ++ (env.sdpu_build_attrib_entry
          ((apply_rewrites cfg env addr w j).p_rec.attr j)).take
            (rem_len_of max_list_len w.p_rsp).toNat
        cont_info := { w.cont_info with
          attr_offset := (rem_len_of max_list_len w.p_rsp).toNat
          next_attr_index := w.xx
          next_attr_start_id := ((apply_rewrites cfg env addr w j).p_rec.attr j).id }
        maxxed_out := true } := by
  have hp := entry_head_copied env ((apply_rewrites cfg env addr w j).p_rec.attr j)
    (rem_len_of max_list_len w.p_rsp) hrem hfit (rem_len_of_lt max_list_len w.p_rsp)
  simp only [attr_walk_body, hfind, apply_rewrites_p_rsp, apply_rewrites_cont_info, hoff,
    apply_rewrites_xx,
    ne_eq, not_true_eq_false, ↓reduceIte, hfit, show ¬ rem_len_of max_list_len w.p_rsp ≤ 0 by omega,
    show ¬ sdpu_get_attrib_entry_len env ((apply_rewrites cfg env addr w j).p_rec.attr j) ≥
      cfg.SDP_MAX_ATTR_LEN by omega, hp]

/-- C25 (amended): when the attribute loop of Attribute-Fetch or
Search-Attribute-Fetch reaches a matched attribute with no partial offset
pending whose encoded length is greater than the remaining budget, the
remaining budget being positive, the test is `attr_len >= SDP_MAX_ATTR_LEN`:
for a length equal to `SDP_MAX_ATTR_LEN` or above it the loop returns with
`SDP_NO_RESOURCES`, in Attribute-Fetch and in the record loop of
Search-Attribute-Fetch; for a length below `SDP_MAX_ATTR_LEN` the loop
copies the first `rem_len` bytes of the encoding, stores `rem_len` as the
partial offset and the index and the attribute id as the resume point, sets
`maxxed_out` and stops. -/
theorem C25_length_at_the_maximum (cfg : Config) (env : Env) (addr : BD_ADDR)
    (max_list_len : Nat) (k fuel : Nat) (w0 w : Walk) (j : Nat)
    (hreach : attr_walk_passes cfg env addr max_list_len k w0 = some w)
    (hxx : w.xx < w.attr_seq.length)
    (hfind : sdp_db_find_attr_in_rec w.p_rec (w.attr_seq.getD w.xx ⟨0, 0⟩).start
      (w.attr_seq.getD w.xx ⟨0, 0⟩).end = some j)
    (hoff : w.cont_info.attr_offset = 0)
    (hrem : 0 < rem_len_of max_list_len w.p_rsp)
    (hfit : rem_len_of max_list_len w.p_rsp <
      (sdpu_get_attrib_entry_len env ((apply_rewrites cfg env addr w j).p_rec.attr j) : Int)) :
    (cfg.SDP_MAX_ATTR_LEN ≤
        sdpu_get_attrib_entry_len env ((apply_rewrites cfg env addr w j).p_rec.attr j) →
      attr_walk cfg env addr max_list_len (k + (fuel + 1)) w0 =
        some (.no_resources (apply_rewrites cfg env addr w j)) ∧
      (∀ st trans_num p_rec attr_seq attr_seq_sav is_cont p_rsp,
        w0 = Walk.init st p_rec attr_seq p_rsp → addr = st.ccb.device_address →
        run_attr_req cfg env (k + (fuel + 1)) st trans_num max_list_len p_rec attr_seq
            attr_seq_sav is_cont p_rsp =
          some (st.after_walk p_rec (apply_rewrites cfg env addr w j),
            .error trans_num .SDP_NO_RESOURCES)) ∧
      (∀ uid_seq attr_seq_sav rfuel l i,
        ¬ ((enter_record cfg env l.st i).1.ccb.cont_info.last_attr_seq_desc_sent = false ∧
          rem_len_of max_list_len l.p_rsp < 3) →
        w0 = Walk.init (enter_record cfg env l.st i).1 (enter_record cfg env l.st i).2
          l.attr_seq
          (if (enter_record cfg env l.st i).1.ccb.cont_info.last_attr_seq_desc_sent = false
            then l.p_rsp ++ [0, 0, 0] else l.p_rsp) →
        addr = (enter_record cfg env l.st i).1.ccb.device_address →
        search_attr_records cfg env max_list_len uid_seq attr_seq_sav (k + (fuel + 1))
            (rfuel + 1) l (some i) =
          some (.no_resources ((enter_record cfg env l.st i).1.after_walk
            (enter_record cfg env l.st i).2 (apply_rewrites cfg env addr w j))))) ∧
    (sdpu_get_attrib_entry_len env ((apply_rewrites cfg env addr w j).p_rec.attr j) <
        cfg.SDP_MAX_ATTR_LEN →
      ∃ w1, attr_walk cfg env addr max_list_len (k + (fuel + 1)) w0 = some (.done w1) ∧
        w1.p_rsp = w.p_rsp ++ (env.sdpu_build_attrib_entry
          ((apply_rewrites cfg env addr w j).p_rec.attr j)).take
            (rem_len_of max_list_len w.p_rsp).toNat ∧
        (w1.cont_info.attr_offset : Int) = rem_len_of max_list_len w.p_rsp ∧
        w1.cont_info.next_attr_index = w.xx ∧
        w1.cont_info.next_attr_start_id = ((apply_rewrites cfg env addr w j).p_rec.attr j).id ∧
        w1.maxxed_out = true) := by
  refine ⟨?_, ?_⟩
  · intro hbig
    have hwalk : attr_walk cfg env addr max_list_len (k + (fuel + 1)) w0 =
        some (.no_resources (apply_rewrites cfg env addr w j)) := by
      rw [attr_walk_of_passes cfg env addr max_list_len k (fuel + 1) w0 w hreach, attr_walk]
      simp only [hxx, ↓reduceIte,
        attr_walk_body_at_max cfg env addr max_list_len w j hfind hbig hoff hrem hfit]
    refine ⟨hwalk, ?_, ?_⟩
    · intro st trans_num p_rec attr_seq attr_seq_sav is_cont p_rsp hw0 haddr
      subst hw0 haddr
      simp only [run_attr_req, hwalk]
    · intro uid_seq attr_seq_sav rfuel l i hroom hw0 haddr
      subst hw0 haddr
      rw [search_attr_records]
      simp only [hroom, ↓reduceIte, hwalk]
  · intro hsmall
    refine ⟨{ apply_rewrites cfg env addr w j with
        p_rsp := w.p_rsp ++ (env.sdpu_build_attrib_entry
          ((apply_rewrites cfg env addr w j).p_rec.attr j)).take
            (rem_len_of max_list_len w.p_rsp).toNat
        cont_info := { w.cont_info with
          attr_offset := (rem_len_of max_list_len w.p_rsp).toNat
          next_attr_index := w.xx
          next_attr_start_id := ((apply_rewrites cfg env addr w j).p_rec.attr j).id }
        maxxed_out := true }, ?_, rfl, ?_, rfl, rfl, rfl⟩
    · rw [attr_walk_of_passes cfg env addr max_list_len k (fuel + 1) w0 w hreach, attr_walk]
      simp only [hxx, ↓reduceIte,
        attr_walk_body_below_max cfg env addr max_list_len w j hfind hsmall hoff hrem hfit]
    · simp only
      omega

set_option maxRecDepth 1000000 in
/-- C25 (amended), at the 400-byte attribute 0x0100 of `rec_at_max` with a
budget of 50 bytes and the range 0x0100-0xFFFF, where `SDP_MAX_ATTR_LEN` is 400 (the request fails), and where it
is 401 (47 bytes of the attribute are placed behind the 3 reserved bytes). -/
theorem C25_length_at_the_maximum_witness :
    run_attr_req bt_config bt_env 1 (idle_state [rec_at_max] [] 672) 7 50 (.db 0)
        [⟨0x0100, 0xFFFF⟩] [⟨0x0100, 0xFFFF⟩] false [0, 0, 0] =
      some ((idle_state [rec_at_max] [] 672).after_walk (.db 0)
          (apply_rewrites bt_config bt_env []
            (Walk.init (idle_state [rec_at_max] [] 672) (.db 0) [⟨0x0100, 0xFFFF⟩] [0, 0, 0]) 1),
        .error 7 .SDP_NO_RESOURCES) ∧
    ∃ w1, attr_walk { bt_config with SDP_MAX_ATTR_LEN := 401 } bt_env [] 50 (0 + (0 + 1))
        (Walk.init (idle_state [rec_at_max] [] 672) (.db 0) [⟨0x0100, 0xFFFF⟩] [0, 0, 0]) =
          some (.done w1) ∧
      w1.p_rsp = [0, 0, 0] ++ (bt_env.sdpu_build_attrib_entry
        ((apply_rewrites { bt_config with SDP_MAX_ATTR_LEN := 401 } bt_env []
          (Walk.init (idle_state [rec_at_max] [] 672) (.db 0) [⟨0x0100, 0xFFFF⟩]
            [0, 0, 0]) 1).p_rec.attr 1)).take (rem_len_of 50 [0, 0, 0]).toNat ∧
      (w1.cont_info.attr_offset : Int) = rem_len_of 50 [0, 0, 0] ∧
      w1.cont_info.next_attr_index = 0 ∧
      w1.cont_info.next_attr_start_id =
        ((apply_rewrites { bt_config with SDP_MAX_ATTR_LEN := 401 } bt_env []
          (Walk.init (idle_state [rec_at_max] [] 672) (.db 0) [⟨0x0100, 0xFFFF⟩]
            [0, 0, 0]) 1).p_rec.attr 1).id ∧
      w1.maxxed_out = true :=
  ⟨((C25_length_at_the_maximum bt_config bt_env [] 50 0 0
      (Walk.init (idle_state [rec_at_max] [] 672) (.db 0) [⟨0x0100, 0xFFFF⟩] [0, 0, 0])
      (Walk.init (idle_state [rec_at_max] [] 672) (.db 0) [⟨0x0100, 0xFFFF⟩] [0, 0, 0]) 1
      rfl (by decide) (by decide) (by decide) (by decide) (by decide)).1 (by decide)).2.1
      (idle_state [rec_at_max] [] 672) 7 (.db 0) [⟨0x0100, 0xFFFF⟩] [⟨0x0100, 0xFFFF⟩] false [0, 0, 0]
      rfl rfl,
   (C25_length_at_the_maximum { bt_config with SDP_MAX_ATTR_LEN := 401 } bt_env [] 50 0 0
      (Walk.init (idle_state [rec_at_max] [] 672) (.db 0) [⟨0x0100, 0xFFFF⟩] [0, 0, 0])
      (Walk.init (idle_state [rec_at_max] [] 672) (.db 0) [⟨0x0100, 0xFFFF⟩] [0, 0, 0]) 1
      rfl (by decide) (by decide) (by decide) (by decide) (by decide)).2 (by decide)⟩

set_option maxRecDepth 1000000 in
/-- C25 as stated fails: the attribute 0x0100 of `rec_at_max` has an encoded
length of exactly `SDP_MAX_ATTR_LEN` = 400 bytes; an Attribute-Fetch and a
Search-Attribute-Fetch with a budget of 50 bytes, which reach it with no
partial offset pending, are answered with `SDP_NO_RESOURCES`, and no frame
with a part of the attribute is sent. -/
theorem C25_counterexample :
    sdpu_get_attrib_entry_len bt_env (rec_at_max.attr 1) = bt_config.SDP_MAX_ATTR_LEN ∧
    (process_service_attr_req bt_config bt_env 2 (idle_state [rec_at_max] [] 672) 7 14
        (attr_req 0 50 [0]) 14).map Prod.snd = some (.error 7 .SDP_NO_RESOURCES) ∧
    (process_service_search_attr_req bt_config bt_env 2 (idle_state [rec_at_max] [] 672) 7 15
        (search_attr_req 50 [0]) 15).map
      Prod.snd = some (.error 7 .SDP_NO_RESOURCES) := by
  decide!

/-! ## Reads behind the end of a request -/

/-- C30, the code at failing inputs: requests whose length field agrees with
the bytes present, so that the dispatcher calls the handler with `p_req_end`
at the end of the parameters, and the offsets the handler reads. An
Attribute-Fetch that ends behind the attribute list (13 parameter bytes)
reads the marker byte at offset 13; one that ends behind the marker byte 2
(14 bytes) reads the offset at 14 and 15; one with 3 parameter bytes reads
the handle at offset 3 before the test of line 614. A Search-Attribute-Fetch
that ends behind the attribute list (14 bytes) reads the marker at offset
14, one that ends behind the UUID list (5 bytes) reads the maximum length at
5 and 6. A Search that ends behind the UUID list reads the maximum count at
5 and 6 before the test of line 471, and one that ends behind the maximum
count (7 bytes) reads the marker at offset 7. -/
theorem C30_reads_behind_the_request :
    (dispatch bt_config (request_msg 4 (attr_req 0 600 [])) =
        .call_process_service_attr_req 7 13 (attr_req 0 600 []) 13 ∧
      process_service_attr_req_reads bt_config bt_env (idle_state [rec_three] [] 672) 13
        (attr_req 0 600 []) 13 = [0, 1, 2, 3, 4, 5, 13]) ∧
    (dispatch bt_config (request_msg 4 (attr_req 0 600 [2])) =
        .call_process_service_attr_req 7 14 (attr_req 0 600 [2]) 14 ∧
      process_service_attr_req_reads bt_config bt_env (idle_state [rec_three] [] 672) 14
        (attr_req 0 600 [2]) 14 = [0, 1, 2, 3, 4, 5, 13, 13, 14, 15]) ∧
    (dispatch bt_config (request_msg 4 [0, 1, 0]) =
        .call_process_service_attr_req 7 3 [0, 1, 0] 3 ∧
      process_service_attr_req_reads bt_config bt_env (idle_state [rec_three] [] 672) 3
        [0, 1, 0] 3 = [0, 1, 2, 3]) ∧
    (dispatch bt_config (request_msg 6 (search_attr_req 600 [])) =
        .call_process_service_search_attr_req 7 14 (search_attr_req 600 []) 14 ∧
      process_service_search_attr_req_reads bt_config bt_env 14 (search_attr_req 600 []) =
        [5, 6, 14]) ∧
    (dispatch bt_config (request_msg 6 [0x35, 3, 0x19, 0x11, 0x01]) =
        .call_process_service_search_attr_req 7 5 [0x35, 3, 0x19, 0x11, 0x01] 5 ∧
      process_service_search_attr_req_reads bt_config bt_env 5 [0x35, 3, 0x19, 0x11, 0x01] =
        [5, 6]) ∧
    (dispatch bt_config (request_msg 2 [0x35, 3, 0x19, 0x11, 0x01]) =
        .call_process_service_search 7 5 [0x35, 3, 0x19, 0x11, 0x01] 5 ∧
      process_service_search_reads bt_config bt_env 5 [0x35, 3, 0x19, 0x11, 0x01] 5 =
        [5, 6]) ∧
    (dispatch bt_config (request_msg 2 (search_req 1 [])) =
        .call_process_service_search 7 7 (search_req 1 []) 7 ∧
      process_service_search_reads bt_config bt_env 7 (search_req 1 []) 7 = [5, 6, 7]) := by
  decide

/-! ## The bytes behind the attribute list -/

theorem rd_at_front (front : List Nat) (b : Nat) (rest : List Nat) :
    rd (front ++ b :: rest) front.length = b % 256 := by
  have h := rd_append_right front (b :: rest) 0
  rw [Nat.add_zero] at h
  rw [h]
  rfl

theorem BE16_behind_marker (front : List Nat) (m hi lo : Nat) (rest : List Nat)
    (hhi : hi < 256) (hlo : lo < 256) :
    BE_STREAM_TO_UINT16 (front ++ m :: hi :: lo :: rest) (front.length + 1) = hi * 256 + lo := by
  unfold BE_STREAM_TO_UINT16
  rw [rd_append_right front _ 1, Nat.add_assoc, rd_append_right front _ 2]
  simp only [rd, List.getD_cons_succ, List.getD_cons_zero]
  omega

theorem check_continuation_tail_fresh (cfg : Config) (st : State) (front : List Nat)
    (attr_seq : tSDP_ATTR_SEQ) (b : Bool) :
    check_continuation cfg st (front ++ [0]) front.length (front ++ [0]).length attr_seq b =
      .ok (st.reset_cont b, attr_seq, false, [0, 0, 0]) := by
  apply check_continuation_fresh
  · rw [rd_at_front]
  · simp

theorem check_continuation_tail_cont (cfg : Config) (st : State) (front : List Nat)
    (attr_seq : tSDP_ATTR_SEQ) (b : Bool) (hi lo : Nat)
    (hc0 : cfg.SDP_CONTINUATION_LEN ≠ 0) (hc : cfg.SDP_CONTINUATION_LEN < 256)
    (hhi : hi < 256) (hlo : lo < 256) (hoff : hi * 256 + lo = st.ccb.cont_offset) :
    check_continuation cfg st (front ++ [cfg.SDP_CONTINUATION_LEN, hi, lo]) front.length
        (front ++ [cfg.SDP_CONTINUATION_LEN, hi, lo]).length attr_seq b =
      .ok (st,
        attr_seq.set st.ccb.cont_info.next_attr_index
          { attr_seq.getD st.ccb.cont_info.next_attr_index ⟨0, 0⟩ with
            start := st.ccb.cont_info.next_attr_start_id },
        true, []) := by
  apply check_continuation_cont _ _ _ _ _ _ _ hc0
  · rw [rd_at_front, Nat.mod_eq_of_lt hc]
  · rw [BE16_behind_marker _ _ _ _ _ hhi hlo, hoff]
  · simp

theorem check_continuation_tail_marker (cfg : Config) (st : State) (front : List Nat)
    (attr_seq : tSDP_ATTR_SEQ) (b : Bool) (m : Nat) (rest : List Nat)
    (hm : m < 256) (hm0 : m ≠ 0) (hmc : m ≠ cfg.SDP_CONTINUATION_LEN) :
    check_continuation cfg st (front ++ m :: rest) front.length
        (front ++ m :: rest).length attr_seq b = .error .SDP_INVALID_CONT_STATE := by
  simp only [check_continuation, rd_at_front, Nat.mod_eq_of_lt hm, ne_eq, hm0, hmc,
    not_false_eq_true, ↓reduceIte]

theorem check_continuation_tail_zero_more (cfg : Config) (st : State) (front : List Nat)
    (attr_seq : tSDP_ATTR_SEQ) (b : Bool) (rest : List Nat) (hrest : rest ≠ []) :
    check_continuation cfg st (front ++ 0 :: rest) front.length
        (front ++ 0 :: rest).length attr_seq b = .error .SDP_INVALID_PDU_SIZE := by
  have hl : 0 < rest.length := List.length_pos.2 hrest
  have h : front.length + 1 ≠ (front ++ 0 :: rest).length := by
    simp only [List.length_append, List.length_cons]
    omega
  simp only [check_continuation, rd_at_front, Nat.zero_mod, ne_eq, not_true_eq_false,
    ↓reduceIte, h, not_false_eq_true]

theorem check_continuation_tail_cont_more (cfg : Config) (st : State) (front : List Nat)
    (attr_seq : tSDP_ATTR_SEQ) (b : Bool) (hi lo : Nat) (rest : List Nat)
    (hc0 : cfg.SDP_CONTINUATION_LEN ≠ 0) (hc : cfg.SDP_CONTINUATION_LEN < 256)
    (hhi : hi < 256) (hlo : lo < 256) (hoff : hi * 256 + lo = st.ccb.cont_offset)
    (hrest : rest ≠ []) :
    check_continuation cfg st (front ++ cfg.SDP_CONTINUATION_LEN :: hi :: lo :: rest)
        front.length (front ++ cfg.SDP_CONTINUATION_LEN :: hi :: lo :: rest).length attr_seq b =
      .error .SDP_INVALID_PDU_SIZE := by
  have hl : 0 < rest.length := List.length_pos.2 hrest
  have h : front.length + 3 ≠
      (front ++ cfg.SDP_CONTINUATION_LEN :: hi :: lo :: rest).length := by
    simp only [List.length_append, List.length_cons]
    omega
  simp only [check_continuation, rd_at_front, Nat.mod_eq_of_lt hc, ne_eq, hc0,
    not_false_eq_true, not_true_eq_false, ↓reduceIte,
    BE16_behind_marker _ _ _ _ _ hhi hlo, hoff, h]

/-- C21: the requests of Attribute-Fetch and Search-Attribute-Fetch whose
parameters are `front ++ tail`, `front` ending with the attribute list, with
the marker length `SDP_CONTINUATION_LEN` a non-zero byte. When the lists
parse and are not empty (and the record of the handle exists): the tail `[0]`
makes the handler reset the continuation state and run as a request without
continuation; the tail `[SDP_CONTINUATION_LEN, hi, lo]` with the stored
offset makes it run as a continuation; a first byte that is neither 0 nor
`SDP_CONTINUATION_LEN` is answered with `SDP_INVALID_CONT_STATE`; a 0, or a
marker with the stored offset, with more bytes behind it is answered with
`SDP_INVALID_PDU_SIZE`. An empty UUID list or an empty attribute list is
answered with `SDP_INVALID_REQ_SYNTAX` whatever the tail is. -/
theorem C21_tail_decides (cfg : Config) (env : Env) (fuel : Nat) (st : State)
    (trans_num param_len : Nat) (front : List Nat)
    (hc0 : cfg.SDP_CONTINUATION_LEN ≠ 0) (hc : cfg.SDP_CONTINUATION_LEN < 256) :
    (∀ tail n attr_seq i st1 max_list_len p_rec,
      front.length = 6 + n →
      env.sdpu_extract_attr_seq ((front ++ tail).drop 6) param_len = some (n, attr_seq) →
      attr_seq ≠ [] →
      sdp_db_find_record st.db (BE_STREAM_TO_UINT32 (front ++ tail) 0) = some i →
      max_list_len = cap_max_list_len (BE_STREAM_TO_UINT16 (front ++ tail) 4)
        st.ccb.rem_mtu_size SDP_MAX_ATTR_RSPHDR_LEN →
      st1 = (sdp_update_pbap_record_if_blacklisted cfg env st (.db i)
        st.ccb.device_address).1.realloc_rsp_list max_list_len →
      p_rec = (sdp_update_pbap_record_if_blacklisted cfg env st (.db i)
        st.ccb.device_address).2 →
      (tail = [0] →
        process_service_attr_req cfg env fuel st trans_num param_len (front ++ tail)
            (front ++ tail).length =
          run_attr_req cfg env fuel (st1.reset_cont false) trans_num max_list_len p_rec
            attr_seq attr_seq false [0, 0, 0]) ∧
      (∀ hi lo, tail = [cfg.SDP_CONTINUATION_LEN, hi, lo] → hi < 256 → lo < 256 →
        hi * 256 + lo = st.ccb.cont_offset →
        process_service_attr_req cfg env fuel st trans_num param_len (front ++ tail)
            (front ++ tail).length =
          run_attr_req cfg env fuel st1 trans_num max_list_len p_rec
            (attr_seq.set st.ccb.cont_info.next_attr_index
              { attr_seq.getD st.ccb.cont_info.next_attr_index ⟨0, 0⟩ with
                start := st.ccb.cont_info.next_attr_start_id })
            attr_seq true []) ∧
      (∀ m rest, tail = m :: rest → m < 256 → m ≠ 0 → m ≠ cfg.SDP_CONTINUATION_LEN →
        process_service_attr_req cfg env fuel st trans_num param_len (front ++ tail)
            (front ++ tail).length =
          some (st1, .error trans_num .SDP_INVALID_CONT_STATE)) ∧
      (∀ rest, tail = 0 :: rest → rest ≠ [] →
        process_service_attr_req cfg env fuel st trans_num param_len (front ++ tail)
            (front ++ tail).length =
          some (st1, .error trans_num .SDP_INVALID_PDU_SIZE)) ∧
      (∀ hi lo rest, tail = cfg.SDP_CONTINUATION_LEN :: hi :: lo :: rest → hi < 256 →
        lo < 256 → hi * 256 + lo = st.ccb.cont_offset → rest ≠ [] →
        process_service_attr_req cfg env fuel st trans_num param_len (front ++ tail)
            (front ++ tail).length =
          some (st1, .error trans_num .SDP_INVALID_PDU_SIZE))) ∧
    (∀ tail n, front.length = 6 + n →
      env.sdpu_extract_attr_seq ((front ++ tail).drop 6) param_len = some (n, []) →
      process_service_attr_req cfg env fuel st trans_num param_len (front ++ tail)
          (front ++ tail).length =
        some (st, .error trans_num .SDP_INVALID_REQ_SYNTAX)) ∧
    (∀ tail p1 n uid_seq attr_seq st1 max_list_len,
      front.length = p1 + 2 + n →
      env.sdpu_extract_uid_seq (front ++ tail) param_len = some (p1, uid_seq) →
      uid_seq ≠ [] →
      env.sdpu_extract_attr_seq ((front ++ tail).drop (p1 + 2)) param_len =
        some (n, attr_seq) →
      attr_seq ≠ [] →
      max_list_len = cap_max_list_len (BE_STREAM_TO_UINT16 (front ++ tail) p1)
        st.ccb.rem_mtu_size SDP_MAX_SERVATTR_RSPHDR_LEN →
      st1 = st.realloc_rsp_list max_list_len →
      (tail = [0] →
        process_service_search_attr_req cfg env fuel st trans_num param_len (front ++ tail)
            (front ++ tail).length =
          run_search_attr_req cfg env fuel (st1.reset_cont true) trans_num max_list_len
            uid_seq attr_seq attr_seq false [0, 0, 0]) ∧
      (∀ hi lo, tail = [cfg.SDP_CONTINUATION_LEN, hi, lo] → hi < 256 → lo < 256 →
        hi * 256 + lo = st.ccb.cont_offset →
        process_service_search_attr_req cfg env fuel st trans_num param_len (front ++ tail)
            (front ++ tail).length =
          run_search_attr_req cfg env fuel st1 trans_num max_list_len uid_seq
            (attr_seq.set st.ccb.cont_info.next_attr_index
              { attr_seq.getD st.ccb.cont_info.next_attr_index ⟨0, 0⟩ with
                start := st.ccb.cont_info.next_attr_start_id })
            attr_seq true []) ∧
      (∀ m rest, tail = m :: rest → m < 256 → m ≠ 0 → m ≠ cfg.SDP_CONTINUATION_LEN →
        process_service_search_attr_req cfg env fuel st trans_num param_len (front ++ tail)
            (front ++ tail).length =
          some (st1, .error trans_num .SDP_INVALID_CONT_STATE)) ∧
      (∀ rest, tail = 0 :: rest → rest ≠ [] →
        process_service_search_attr_req cfg env fuel st trans_num param_len (front ++ tail)
            (front ++ tail).length =
          some (st1, .error trans_num .SDP_INVALID_PDU_SIZE)) ∧
      (∀ hi lo rest, tail = cfg.SDP_CONTINUATION_LEN :: hi :: lo :: rest → hi < 256 →
        lo < 256 → hi * 256 + lo = st.ccb.cont_offset → rest ≠ [] →
        process_service_search_attr_req cfg env fuel st trans_num param_len (front ++ tail)
            (front ++ tail).length =
          some (st1, .error trans_num .SDP_INVALID_PDU_SIZE))) ∧
    (∀ p_req p_req_end p1,
      env.sdpu_extract_uid_seq p_req param_len = some (p1, []) →
      process_service_search_attr_req cfg env fuel st trans_num param_len p_req p_req_end =
        some (st, .error trans_num .SDP_INVALID_REQ_SYNTAX)) ∧
    (∀ p_req p_req_end p1 uid_seq n,
      env.sdpu_extract_uid_seq p_req param_len = some (p1, uid_seq) →
      env.sdpu_extract_attr_seq (p_req.drop (p1 + 2)) param_len = some (n, []) →
      process_service_search_attr_req cfg env fuel st trans_num param_len p_req p_req_end =
        some (st, .error trans_num .SDP_INVALID_REQ_SYNTAX)) := by
  refine ⟨?_, ?_, ?_, ?_, ?_⟩
  · intro tail n attr_seq i st1 max_list_len p_rec hfl hp ha hfind hmax hst1 hrec
    have hend : 6 + n ≤ (front ++ tail).length := by
      rw [List.length_append]
      omega
    have heq := process_service_attr_req_eq cfg env fuel st trans_num param_len (front ++ tail)
      (front ++ tail).length n i attr_seq hp ha hend hfind
    rw [← hmax, ← hst1, ← hrec, ← hfl] at heq
    have hoff1 : st1.ccb.cont_offset = st.ccb.cont_offset := by
      rw [hst1]
      simp only [State.realloc_rsp_list, update_pbap_ccb]
    have hci1 : st1.ccb.cont_info = st.ccb.cont_info := by
      rw [hst1]
      simp only [State.realloc_rsp_list, update_pbap_ccb]
    refine ⟨?_, ?_, ?_, ?_, ?_⟩
    · intro ht
      subst ht
      rw [heq, check_continuation_tail_fresh]
    · intro hi lo ht hhi hlo hoff
      subst ht
      rw [heq, check_continuation_tail_cont cfg st1 front attr_seq false hi lo hc0 hc hhi hlo
        (hoff.trans hoff1.symm), hci1]
    · intro m rest ht hm hm0 hmc
      subst ht
      rw [heq, check_continuation_tail_marker cfg st1 front attr_seq false m rest hm hm0 hmc]
    · intro rest ht hrest
      subst ht
      rw [heq, check_continuation_tail_zero_more cfg st1 front attr_seq false rest hrest]
    · intro hi lo rest ht hhi hlo hoff hrest
      subst ht
      rw [heq, check_continuation_tail_cont_more cfg st1 front attr_seq false hi lo rest hc0 hc
        hhi hlo (hoff.trans hoff1.symm) hrest]
  · intro tail n hfl hp
    have h4 : ¬ 4 > (front ++ tail).length := by
      rw [List.length_append]
      omega
    simp only [process_service_attr_req, h4, ↓reduceIte, hp, List.length_nil, true_or]
  · intro tail p1 n uid_seq attr_seq st1 max_list_len hfl hp hu hpa ha hmax hst1
    have heq := process_service_search_attr_req_eq cfg env fuel st trans_num param_len
      (front ++ tail) (front ++ tail).length p1 n uid_seq attr_seq hp hu hpa ha
    rw [← hmax, ← hst1, ← hfl] at heq
    have hoff1 : st1.ccb.cont_offset = st.ccb.cont_offset := by
      rw [hst1]
      rfl
    have hci1 : st1.ccb.cont_info = st.ccb.cont_info := by
      rw [hst1]
      rfl
    refine ⟨?_, ?_, ?_, ?_, ?_⟩
    · intro ht
      subst ht
      rw [heq, check_continuation_tail_fresh]
    · intro hi lo ht hhi hlo hoff
      subst ht
      rw [heq, check_continuation_tail_cont cfg st1 front attr_seq true hi lo hc0 hc hhi hlo
        (hoff.trans hoff1.symm), hci1]
    · intro m rest ht hm hm0 hmc
      subst ht
      rw [heq, check_continuation_tail_marker cfg st1 front attr_seq true m rest hm hm0 hmc]
    · intro rest ht hrest
      subst ht
      rw [heq, check_continuation_tail_zero_more cfg st1 front attr_seq true rest hrest]
    · intro hi lo rest ht hhi hlo hoff hrest
      subst ht
      rw [heq, check_continuation_tail_cont_more cfg st1 front attr_seq true hi lo rest hc0 hc
        hhi hlo (hoff.trans hoff1.symm) hrest]
  · intro p_req p_req_end p1 hp
    simp only [process_service_search_attr_req, hp, List.length_nil, ↓reduceIte]
  · intro p_req p_req_end p1 uid_seq n hp hpa
    simp only [process_service_search_attr_req, hp, hpa, List.length_nil, ↓reduceIte, ite_self]

set_option maxRecDepth 100000 in
/-- C21, at Attribute-Fetch requests for `rec_three` and
Search-Attribute-Fetch requests on a connection whose stored offset is 9:
the tails `[0]`, `[2, 0, 9]`, `[5]`, `[0, 0]` and `[2, 0, 9, 0]`. -/
theorem C21_tail_decides_witness :
    (process_service_attr_req bt_config bt_env 9 (streaming_state [rec_three]) 7 14
        (attr_req 0 600 [] ++ [0]) (attr_req 0 600 [] ++ [0]).length =
      run_attr_req bt_config bt_env 9
        (((streaming_state [rec_three]).realloc_rsp_list 600).reset_cont false) 7 600 (.db 0)
        [⟨0, 0xFFFF⟩] [⟨0, 0xFFFF⟩] false [0, 0, 0]) ∧
    (process_service_attr_req bt_config bt_env 9 (streaming_state [rec_three]) 7 16
        (attr_req 0 600 [] ++ [2, 0, 9]) (attr_req 0 600 [] ++ [2, 0, 9]).length =
      run_attr_req bt_config bt_env 9 ((streaming_state [rec_three]).realloc_rsp_list 600) 7 600
        (.db 0) [⟨0, 0xFFFF⟩] [⟨0, 0xFFFF⟩] true []) ∧
    (process_service_attr_req bt_config bt_env 9 (streaming_state [rec_three]) 7 14
        (attr_req 0 600 [] ++ [5]) (attr_req 0 600 [] ++ [5]).length =
      some ((streaming_state [rec_three]).realloc_rsp_list 600,
        .error 7 .SDP_INVALID_CONT_STATE)) ∧
    (process_service_search_attr_req bt_config bt_env 9 (streaming_state [rec_three]) 7 16
        (search_attr_req 600 [] ++ [0, 0]) (search_attr_req 600 [] ++ [0, 0]).length =
      some ((streaming_state [rec_three]).realloc_rsp_list 600,
        .error 7 .SDP_INVALID_PDU_SIZE)) ∧
    (process_service_search_attr_req bt_config bt_env 9 (streaming_state [rec_three]) 7 18
        (search_attr_req 600 [] ++ [2, 0, 9, 0]) (search_attr_req 600 [] ++ [2, 0, 9, 0]).length =
      some ((streaming_state [rec_three]).realloc_rsp_list 600,
        .error 7 .SDP_INVALID_PDU_SIZE)) :=
  ⟨((C21_tail_decides bt_config bt_env 9 (streaming_state [rec_three]) 7 14
      (attr_req 0 600 []) (by decide) (by decide)).1 [0] 7 [⟨0, 0xFFFF⟩] 0
      ((streaming_state [rec_three]).realloc_rsp_list 600) 600 (.db 0)
      (by decide) (by decide) (by decide) (by decide) (by decide) (by decide) (by decide)).1 rfl,
   ((C21_tail_decides bt_config bt_env 9 (streaming_state [rec_three]) 7 16
      (attr_req 0 600 []) (by decide) (by decide)).1 [2, 0, 9] 7 [⟨0, 0xFFFF⟩] 0
      ((streaming_state [rec_three]).realloc_rsp_list 600) 600 (.db 0)
      (by decide) (by decide) (by decide) (by decide) (by decide) (by decide)
      (by decide)).2.1 0 9 rfl (by decide) (by decide) (by decide),
   ((C21_tail_decides bt_config bt_env 9 (streaming_state [rec_three]) 7 14
      (attr_req 0 600 []) (by decide) (by decide)).1 [5] 7 [⟨0, 0xFFFF⟩] 0
      ((streaming_state [rec_three]).realloc_rsp_list 600) 600 (.db 0)
      (by decide) (by decide) (by decide) (by decide) (by decide) (by decide)
      (by decide)).2.2.1 5 [] rfl (by decide) (by decide) (by decide),
   ((C21_tail_decides bt_config bt_env 9 (streaming_state [rec_three]) 7 16
      (search_attr_req 600 []) (by decide) (by decide)).2.2.1 [0, 0] 5 7
      [⟨2, [0x11, 0x01]⟩] [⟨0, 0xFFFF⟩]
      ((streaming_state [rec_three]).realloc_rsp_list 600) 600
      (by decide) (by decide) (by decide) (by decide) (by decide) (by decide)
      (by decide)).2.2.2.1 [0] rfl (by decide),
   ((C21_tail_decides bt_config bt_env 9 (streaming_state [rec_three]) 7 18
      (search_attr_req 600 []) (by decide) (by decide)).2.2.1 [2, 0, 9, 0] 5 7
      [⟨2, [0x11, 0x01]⟩] [⟨0, 0xFFFF⟩]
      ((streaming_state [rec_three]).realloc_rsp_list 600) 600
      (by decide) (by decide) (by decide) (by decide) (by decide) (by decide)
      (by decide)).2.2.2.2 0 9 [0] rfl (by decide) (by decide) (by decide) (by decide)⟩

/-! ## A pending partial offset -/

theorem restore_attr_xx (w : Walk) : (restore_attr w).xx = w.xx := by
  unfold restore_attr
  dsimp only
  split_ifs <;> simp only [update_attr_xx]

theorem restore_attr_attr_seq (w : Walk) : (restore_attr w).attr_seq = w.attr_seq := by
  unfold restore_attr
  dsimp only
  split_ifs <;> simp only [update_attr_attr_seq]

theorem body_tail_xx (w : Walk) (id : Nat) :
    (body_tail w id).xx =
      if (w.attr_seq.getD w.xx ⟨0, 0⟩).start ≠ (w.attr_seq.getD w.xx ⟨0, 0⟩).end then
        UINT16 ((w.xx : Int) - 1)
      else w.xx := by
  unfold body_tail
  dsimp only
  rw [restore_attr_xx]
  split_ifs <;> rfl

theorem body_tail_attr_seq (w : Walk) (id : Nat) :
    (body_tail w id).attr_seq =
      if (w.attr_seq.getD w.xx ⟨0, 0⟩).start ≠ (w.attr_seq.getD w.xx ⟨0, 0⟩).end then
        w.attr_seq.set w.xx
          { w.attr_seq.getD w.xx ⟨0, 0⟩ with start := UINT16 ((id : Int) + 1) }
      else w.attr_seq := by
  unfold body_tail
  dsimp only
  rw [restore_attr_attr_seq]
  split_ifs <;> rfl

theorem entry_len_lt (env : Env) (a : tSDP_ATTRIBUTE) :
    sdpu_get_attrib_entry_len env a < 65536 := by
  simp only [sdpu_get_attrib_entry_len, UINT16]
  omega

theorem entry_rest_copied (env : Env) (a : tSDP_ATTRIBUTE) (k : Nat) (r : Int)
    (hk : k < sdpu_get_attrib_entry_len env a) (h0 : 0 < r) (h2 : r < 32768) :
    sdpu_build_partial_attrib_entry env a (UINT16 r) k =
      (((env.sdpu_build_attrib_entry a).drop k).take
          (min (sdpu_get_attrib_entry_len env a - k) r.toNat),
        k + min (sdpu_get_attrib_entry_len env a - k) r.toNat) := by
  have hL := entry_len_lt env a
  have hu : UINT16 r = r.toNat := by
    simp only [UINT16]
    congr 1
    omega
  simp only [sdpu_build_partial_attrib_entry, hu]
  rw [Prod.mk.injEq]
  refine ⟨rfl, ?_⟩
  simp only [UINT16]
  omega

theorem uint16_step_back (x : Nat) (hx : x < 65536) :
    UINT16 ((UINT16 ((x : Int) - 1) : Int) + 1) = x := by
  simp only [UINT16]
  omega

theorem attr_walk_body_pending_stop (cfg : Config) (env : Env) (addr : BD_ADDR)
    (max_list_len : Nat) (w : Walk) (j : Nat)
    (hfind : sdp_db_find_attr_in_rec w.p_rec (w.attr_seq.getD w.xx ⟨0, 0⟩).start
      (w.attr_seq.getD w.xx ⟨0, 0⟩).end = some j)
    (hk : 0 < w.cont_info.attr_offset)
    (hlt : w.cont_info.attr_offset <
      sdpu_get_attrib_entry_len env ((apply_rewrites cfg env addr w j).p_rec.attr j))
    (hidx : w.cont_info.next_attr_index = w.xx)
    (hid : w.cont_info.next_attr_start_id = ((apply_rewrites cfg env addr w j).p_rec.attr j).id)
    (hcut : rem_len_of max_list_len w.p_rsp <
      (sdpu_get_attrib_entry_len env ((apply_rewrites cfg env addr w j).p_rec.attr j) : Int) -
        w.cont_info.attr_offset) :
    attr_walk_body cfg env addr max_list_len w =
      .brk { apply_rewrites cfg env addr w j with
        p_rsp := w.p_rsp ++ ((env.sdpu_build_attrib_entry
          ((apply_rewrites cfg env addr w j).p_rec.attr j)).drop w.cont_info.attr_offset).take
            (rem_len_of max_list_len w.p_rsp).toNat
        cont_info := { w.cont_info with
          attr_offset := w.cont_info.attr_offset + (rem_len_of max_list_len w.p_rsp).toNat }
        maxxed_out := true } := by
  by_cases hrem : rem_len_of max_list_len w.p_rsp ≤ 0
  · have ht : (rem_len_of max_list_len w.p_rsp).toNat = 0 := by omega
    simp only [attr_walk_body, hfind, apply_rewrites_p_rsp, apply_rewrites_cont_info,
      apply_rewrites_xx, hrem, ↓reduceIte, ht, List.take_zero, List.append_nil, Nat.add_zero]
    simp only [BodyExit.brk.injEq, Walk.mk.injEq, tSDP_CONT_INFO.mk.injEq, and_true, true_and]
    exact ⟨hidx.symm, hid.symm⟩
  · have hp := entry_rest_copied env ((apply_rewrites cfg env addr w j).p_rec.attr j)
      w.cont_info.attr_offset (rem_len_of max_list_len w.p_rsp) hlt (by omega)
      (rem_len_of_lt max_list_len w.p_rsp)
    have hm : min (sdpu_get_attrib_entry_len env ((apply_rewrites cfg env addr w j).p_rec.attr j) -
        w.cont_info.attr_offset) (rem_len_of max_list_len w.p_rsp).toNat =
        (rem_len_of max_list_len w.p_rsp).toNat := by omega
    rw [hm] at hp
    have hne : ¬ w.cont_info.attr_offset + (rem_len_of max_list_len w.p_rsp).toNat =
        sdpu_get_attrib_entry_len env ((apply_rewrites cfg env addr w j).p_rec.attr j) := by
      omega
    have hk0 : ¬ w.cont_info.attr_offset = 0 := by omega
    simp only [attr_walk_body, hfind, apply_rewrites_p_rsp, apply_rewrites_cont_info,
      hrem, ↓reduceIte, hp, ne_eq, hk0, not_false_eq_true, hne]

theorem attr_walk_body_pending_done (cfg : Config) (env : Env) (addr : BD_ADDR)
    (max_list_len : Nat) (w : Walk) (j : Nat)
    (hfind : sdp_db_find_attr_in_rec w.p_rec (w.attr_seq.getD w.xx ⟨0, 0⟩).start
      (w.attr_seq.getD w.xx ⟨0, 0⟩).end = some j)
    (hk : 0 < w.cont_info.attr_offset)
    (hlt : w.cont_info.attr_offset <
      sdpu_get_attrib_entry_len env ((apply_rewrites cfg env addr w j).p_rec.attr j))
    (hfit : (sdpu_get_attrib_entry_len env ((apply_rewrites cfg env addr w j).p_rec.attr j) :
        Int) - w.cont_info.attr_offset ≤ rem_len_of max_list_len w.p_rsp) :
    attr_walk_body cfg env addr max_list_len w =
      .next (body_tail { apply_rewrites cfg env addr w j with
        p_rsp := w.p_rsp ++ ((env.sdpu_build_attrib_entry
          ((apply_rewrites cfg env addr w j).p_rec.attr j)).drop w.cont_info.attr_offset).take
            (sdpu_get_attrib_entry_len env ((apply_rewrites cfg env addr w j).p_rec.attr j) -
              w.cont_info.attr_offset)
        cont_info := { w.cont_info with attr_offset := 0 } }
        ((apply_rewrites cfg env addr w j).p_rec.attr j).id) := by
  have hrem : ¬ rem_len_of max_list_len w.p_rsp ≤ 0 := by omega
  have hp := entry_rest_copied env ((apply_rewrites cfg env addr w j).p_rec.attr j)
    w.cont_info.attr_offset (rem_len_of max_list_len w.p_rsp) hlt (by omega)
    (rem_len_of_lt max_list_len w.p_rsp)
  have hm : min (sdpu_get_attrib_entry_len env ((apply_rewrites cfg env addr w j).p_rec.attr j) -
      w.cont_info.attr_offset) (rem_len_of max_list_len w.p_rsp).toNat =
      sdpu_get_attrib_entry_len env ((apply_rewrites cfg env addr w j).p_rec.attr j) -
        w.cont_info.attr_offset := by omega
  rw [hm] at hp
  have he : w.cont_info.attr_offset +
      (sdpu_get_attrib_entry_len env ((apply_rewrites cfg env addr w j).p_rec.attr j) -
        w.cont_info.attr_offset) =
      sdpu_get_attrib_entry_len env ((apply_rewrites cfg env addr w j).p_rec.attr j) := by
    omega
  have hk0 : ¬ w.cont_info.attr_offset = 0 := by omega
  simp only [attr_walk_body, hfind, apply_rewrites_p_rsp, apply_rewrites_cont_info,
    hrem, ↓reduceIte, hp, ne_eq, hk0, not_false_eq_true, he, not_true_eq_false]

/-- A complete pass through the loop body leaves no partial offset pending,
when it was entered with none or with one inside the attribute it finds. -/
theorem attr_walk_body_next_offset (cfg : Config) (env : Env) (addr : BD_ADDR)
    (max_list_len : Nat) (w w1 : Walk)
    (hinv : w.cont_info.attr_offset = 0 ∨ w.resumes_inside cfg env addr)
    (hb : attr_walk_body cfg env addr max_list_len w = .next w1) :
    w1.cont_info.attr_offset = 0 := by
  rcases hinv with h0 | ⟨-, j, hfind, hk, hlt, -, -⟩
  · unfold attr_walk_body at hb
    dsimp only at hb
    cases hf : sdp_db_find_attr_in_rec w.p_rec (w.attr_seq.getD w.xx ⟨0, 0⟩).start
        (w.attr_seq.getD w.xx ⟨0, 0⟩).end with
    | none =>
      rw [hf] at hb
      simp only [BodyExit.next.injEq] at hb
      rw [← hb, h0]
    | some j =>
      rw [hf] at hb
      simp only [apply_rewrites_cont_info, apply_rewrites_p_rsp, h0, ne_eq, not_true_eq_false,
        ↓reduceIte] at hb
      split_ifs at hb
      simp only [BodyExit.next.injEq] at hb
      rw [← hb, body_tail_cont_info]
      simp only [apply_rewrites_cont_info, h0]
  · by_cases hfit : (sdpu_get_attrib_entry_len env
        ((apply_rewrites cfg env addr w j).p_rec.attr j) : Int) - w.cont_info.attr_offset ≤
        rem_len_of max_list_len w.p_rsp
    · rw [attr_walk_body_pending_done cfg env addr max_list_len w j hfind hk hlt hfit] at hb
      simp only [BodyExit.next.injEq] at hb
      rw [← hb, body_tail_cont_info]
    · have hidx : w.cont_info.next_attr_index = w.cont_info.next_attr_index := rfl
      exfalso
      unfold attr_walk_body at hb
      dsimp only at hb
      rw [hfind] at hb
      have hk0 : ¬ w.cont_info.attr_offset = 0 := by omega
      simp only [apply_rewrites_cont_info, apply_rewrites_p_rsp, ne_eq, hk0, not_false_eq_true,
        ↓reduceIte] at hb
      by_cases hrem : rem_len_of max_list_len w.p_rsp ≤ 0
      · simp only [hrem, ↓reduceIte] at hb
        exact absurd hb (by simp)
      · have hp := entry_rest_copied env ((apply_rewrites cfg env addr w j).p_rec.attr j)
          w.cont_info.attr_offset (rem_len_of max_list_len w.p_rsp) hlt (by omega)
          (rem_len_of_lt max_list_len w.p_rsp)
        have hne : ¬ w.cont_info.attr_offset +
            min (sdpu_get_attrib_entry_len env ((apply_rewrites cfg env addr w j).p_rec.attr j) -
              w.cont_info.attr_offset) (rem_len_of max_list_len w.p_rsp).toNat =
            sdpu_get_attrib_entry_len env ((apply_rewrites cfg env addr w j).p_rec.attr j) := by
          omega
        simp only [hrem, ↓reduceIte, hp, hne, not_false_eq_true] at hb
        exact absurd hb (by simp)

/-- A pass through the loop body that ends the loop leaves no partial offset
pending or one inside the attribute it worked on, with the resume index and
id of that attribute. -/
theorem attr_walk_body_brk_offset (cfg : Config) (env : Env) (addr : BD_ADDR)
    (max_list_len : Nat) (w w1 : Walk)
    (hinv : w.cont_info.attr_offset = 0 ∨ w.resumes_inside cfg env addr)
    (hb : attr_walk_body cfg env addr max_list_len w = .brk w1) :
    w1.xx = w.xx ∧ w1.attr_seq = w.attr_seq ∧
    (w1.cont_info.attr_offset = 0 ∨
      ∃ j, sdp_db_find_attr_in_rec w.p_rec (w.attr_seq.getD w.xx ⟨0, 0⟩).start
          (w.attr_seq.getD w.xx ⟨0, 0⟩).end = some j ∧
        0 < w1.cont_info.attr_offset ∧
        w1.cont_info.attr_offset <
          sdpu_get_attrib_entry_len env ((apply_rewrites cfg env addr w j).p_rec.attr j) ∧
        w1.cont_info.next_attr_index = w.xx ∧
        w1.cont_info.next_attr_start_id =
          ((apply_rewrites cfg env addr w j).p_rec.attr j).id) := by
  rcases hinv with h0 | ⟨-, j, hfind, hk, hlt, hidx, hid⟩
  · unfold attr_walk_body at hb
    dsimp only at hb
    cases hf : sdp_db_find_attr_in_rec w.p_rec (w.attr_seq.getD w.xx ⟨0, 0⟩).start
        (w.attr_seq.getD w.xx ⟨0, 0⟩).end with
    | none =>
      rw [hf] at hb
      exact absurd hb (by simp)
    | some j =>
      rw [hf] at hb
      simp only [apply_rewrites_cont_info, apply_rewrites_p_rsp, apply_rewrites_xx, h0, ne_eq,
        not_true_eq_false, ↓reduceIte] at hb
      by_cases hrem : rem_len_of max_list_len w.p_rsp ≤ 0
      · simp only [hrem, ↓reduceIte, BodyExit.brk.injEq] at hb
        rw [← hb]
        exact ⟨apply_rewrites_xx cfg env addr w j, apply_rewrites_attr_seq cfg env addr w j,
          Or.inl rfl⟩
      · simp only [hrem, ↓reduceIte] at hb
        by_cases hfit : rem_len_of max_list_len w.p_rsp <
            (sdpu_get_attrib_entry_len env ((apply_rewrites cfg env addr w j).p_rec.attr j) : Int)
        · simp only [hfit, ↓reduceIte] at hb
          split_ifs at hb
          have hp := entry_head_copied env ((apply_rewrites cfg env addr w j).p_rec.attr j)
            (rem_len_of max_list_len w.p_rsp) (by omega) hfit
            (rem_len_of_lt max_list_len w.p_rsp)
          simp only [hp, BodyExit.brk.injEq] at hb
          rw [← hb]
          refine ⟨apply_rewrites_xx cfg env addr w j, apply_rewrites_attr_seq cfg env addr w j,
            Or.inr ⟨j, rfl, ?_, ?_, rfl, rfl⟩⟩
          · simp only
            omega
          · simp only
            omega
        · simp only [hfit, ↓reduceIte] at hb
          exact absurd hb (by simp)
  · by_cases hfit : (sdpu_get_attrib_entry_len env
        ((apply_rewrites cfg env addr w j).p_rec.attr j) : Int) - w.cont_info.attr_offset ≤
        rem_len_of max_list_len w.p_rsp
    · rw [attr_walk_body_pending_done cfg env addr max_list_len w j hfind hk hlt hfit] at hb
      exact absurd hb (by simp)
    · rw [attr_walk_body_pending_stop cfg env addr max_list_len w j hfind hk hlt hidx hid
        (by omega)] at hb
      simp only [BodyExit.brk.injEq] at hb
      rw [← hb]
      refine ⟨apply_rewrites_xx cfg env addr w j, apply_rewrites_attr_seq cfg env addr w j,
        Or.inr ⟨j, hfind, ?_, ?_, hidx, hid⟩⟩
      · simp only
        omega
      · simp only
        have := rem_len_of_lt max_list_len w.p_rsp
        omega

theorem attr_walk_passes_succ (cfg : Config) (env : Env) (addr : BD_ADDR) (max_list_len : Nat)
    (k : Nat) (w0 w1 w : Walk) (hxx : w0.xx < w0.attr_seq.length)
    (hb : attr_walk_body cfg env addr max_list_len w0 = .next w1)
    (h : attr_walk_passes cfg env addr max_list_len k
      { w1 with xx := UINT16 ((w1.xx : Int) + 1) } = some w) :
    attr_walk_passes cfg env addr max_list_len (k + 1) w0 = some w := by
  rw [attr_walk_passes]
  simp only [hxx, ↓reduceIte, hb, h]

/-- The partial offset at the end of the attribute loop. -/
theorem attr_walk_offset (cfg : Config) (env : Env) (addr : BD_ADDR) (max_list_len : Nat) :
    ∀ (fuel : Nat) (w0 w1 : Walk),
      attr_walk cfg env addr max_list_len fuel w0 = some (.done w1) →
      (w0.cont_info.attr_offset = 0 ∨ w0.resumes_inside cfg env addr) →
      w1.cont_info.attr_offset = 0 ∨
        ∃ k w j, attr_walk_passes cfg env addr max_list_len k w0 = some w ∧
          w.xx < w.attr_seq.length ∧ w1.xx = w.xx ∧ w1.attr_seq = w.attr_seq ∧
          sdp_db_find_attr_in_rec w.p_rec (w.attr_seq.getD w.xx ⟨0, 0⟩).start
            (w.attr_seq.getD w.xx ⟨0, 0⟩).end = some j ∧
          0 < w1.cont_info.attr_offset ∧
          w1.cont_info.attr_offset <
            sdpu_get_attrib_entry_len env ((apply_rewrites cfg env addr w j).p_rec.attr j) ∧
          w1.cont_info.next_attr_index = w.xx ∧
          w1.cont_info.next_attr_start_id =
            ((apply_rewrites cfg env addr w j).p_rec.attr j).id := by
  intro fuel
  induction fuel with
  | zero =>
    intro w0 w1 h hinv
    rw [attr_walk] at h
    by_cases hxx : w0.xx < w0.attr_seq.length
    · simp only [hxx, ↓reduceIte] at h
      exact absurd h (by simp)
    · simp only [hxx, ↓reduceIte, Option.some.injEq, WalkExit.done.injEq] at h
      subst h
      rcases hinv with h0 | ⟨hlen, -⟩
      · exact Or.inl h0
      · exact absurd hlen hxx
  | succ fuel ih =>
    intro w0 w1 h hinv
    rw [attr_walk] at h
    by_cases hxx : w0.xx < w0.attr_seq.length
    · simp only [hxx, ↓reduceIte] at h
      cases hb : attr_walk_body cfg env addr max_list_len w0 with
      | next w2 =>
        rw [hb] at h
        simp only at h
        have h0 := attr_walk_body_next_offset cfg env addr max_list_len w0 w2 hinv hb
        rcases ih _ w1 h (Or.inl h0) with h1 | ⟨k, w, j, hp, hr⟩
        · exact Or.inl h1
        · exact Or.inr ⟨k + 1, w, j,
            attr_walk_passes_succ cfg env addr max_list_len k w0 w2 w hxx hb hp, hr⟩
      | brk w2 =>
        rw [hb] at h
        simp only [Option.some.injEq, WalkExit.done.injEq] at h
        subst h
        obtain ⟨hx, hs, hoff⟩ := attr_walk_body_brk_offset cfg env addr max_list_len w0 w2 hinv hb
        rcases hoff with h1 | ⟨j, hr⟩
        · exact Or.inl h1
        · exact Or.inr ⟨0, w0, j, rfl, hxx, hx, hs, hr⟩
      | ret w2 =>
        rw [hb] at h
        exact absurd h (by simp)
    · simp only [hxx, ↓reduceIte, Option.some.injEq, WalkExit.done.injEq] at h
      subst h
      rcases hinv with h0 | ⟨hlen, -⟩
      · exact Or.inl h0
      · exact absurd hlen hxx

theorem finish_attr_req_cont_info (cfg : Config) (env : Env) (st : State) (trans_num : Nat)
    (p_rec : RecPtr) (attr_seq_sav : tSDP_ATTR_SEQ) (is_cont : Bool) (w : Walk) :
    (finish_attr_req cfg env st trans_num p_rec attr_seq_sav is_cont w).1.ccb.cont_info =
      if w.xx = w.attr_seq.length then { w.cont_info with next_attr_index := 0 }
      else w.cont_info := by
  simp only [finish_attr_req, restore_attr_xx, restore_attr_attr_seq, State.after_walk]
  split_ifs <;> simp only [restore_attr_cont_info]

/-- The attribute loop at an attribute `a` (index `j` of the record, the
rewrites applied) with a partial offset `k > 0` pending that is inside the
encoding of `a`, the resume index and id designating `a`, as a continuation
frame of Attribute-Fetch enters it. If the rest of the encoding does not fit
the remaining budget, the loop stops: the bytes that fit are appended from
byte `k` on, the partial offset is non-zero and below the encoded length,
and the resume index and id still designate `a`. If it fits, the last
`attr_len - k` bytes are appended, the partial offset is 0, and the loop goes
on: in a range, with the same entry and its start behind the id of `a`;
else with the next entry. When the loop ends, in a frame entered with no
partial offset or with one as above, the partial offset is 0 or inside the
encoding of the attribute the loop stopped at, which the resume index and id
designate; the state after the frame has that partial offset and resume
point. -/
theorem pending_offset_resumed (cfg : Config) (env : Env) (addr : BD_ADDR) (max_list_len : Nat)
    (w : Walk) (j : Nat) (a : tSDP_ATTRIBUTE)
    (hxx : w.xx < w.attr_seq.length) (hx16 : w.xx < 65536)
    (hfind : sdp_db_find_attr_in_rec w.p_rec (w.attr_seq.getD w.xx ⟨0, 0⟩).start
      (w.attr_seq.getD w.xx ⟨0, 0⟩).end = some j)
    (ha : a = (apply_rewrites cfg env addr w j).p_rec.attr j)
    (hk : 0 < w.cont_info.attr_offset)
    (hlt : w.cont_info.attr_offset < sdpu_get_attrib_entry_len env a)
    (hidx : w.cont_info.next_attr_index = w.xx)
    (hid : w.cont_info.next_attr_start_id = a.id) :
    (rem_len_of max_list_len w.p_rsp <
        (sdpu_get_attrib_entry_len env a : Int) - w.cont_info.attr_offset →
      ∃ w1, (∀ fuel, attr_walk cfg env addr max_list_len (fuel + 1) w = some (.done w1)) ∧
        w1.p_rsp = w.p_rsp ++ ((env.sdpu_build_attrib_entry a).drop
          w.cont_info.attr_offset).take (rem_len_of max_list_len w.p_rsp).toNat ∧
        w1.cont_info.attr_offset =
          w.cont_info.attr_offset + (rem_len_of max_list_len w.p_rsp).toNat ∧
        0 < w1.cont_info.attr_offset ∧
        w1.cont_info.attr_offset < sdpu_get_attrib_entry_len env a ∧
        w1.cont_info.next_attr_index = w.xx ∧
        w1.cont_info.next_attr_start_id = a.id ∧
        w1.xx = w.xx ∧ w1.attr_seq = w.attr_seq ∧ w1.maxxed_out = true) ∧
    ((sdpu_get_attrib_entry_len env a : Int) - w.cont_info.attr_offset ≤
        rem_len_of max_list_len w.p_rsp →
      ∃ w2, (∀ fuel, attr_walk cfg env addr max_list_len (fuel + 1) w =
          attr_walk cfg env addr max_list_len fuel w2) ∧
        w2.p_rsp = w.p_rsp ++ ((env.sdpu_build_attrib_entry a).drop
          w.cont_info.attr_offset).take
            (sdpu_get_attrib_entry_len env a - w.cont_info.attr_offset) ∧
        w2.cont_info = { w.cont_info with attr_offset := 0 } ∧
        ((w.attr_seq.getD w.xx ⟨0, 0⟩).start ≠ (w.attr_seq.getD w.xx ⟨0, 0⟩).end →
          w2.xx = w.xx ∧
          w2.attr_seq = w.attr_seq.set w.xx
            { w.attr_seq.getD w.xx ⟨0, 0⟩ with start := UINT16 ((a.id : Int) + 1) }) ∧
        ((w.attr_seq.getD w.xx ⟨0, 0⟩).start = (w.attr_seq.getD w.xx ⟨0, 0⟩).end →
          w2.xx = UINT16 ((w.xx : Int) + 1) ∧ w2.attr_seq = w.attr_seq)) ∧
    (∀ fuel w0 w1, attr_walk cfg env addr max_list_len fuel w0 = some (.done w1) →
      (w0.cont_info.attr_offset = 0 ∨ w0.resumes_inside cfg env addr) →
      w1.cont_info.attr_offset = 0 ∨
        ∃ k w3 i, attr_walk_passes cfg env addr max_list_len k w0 = some w3 ∧
          w3.xx < w3.attr_seq.length ∧ w1.xx = w3.xx ∧ w1.attr_seq = w3.attr_seq ∧
          sdp_db_find_attr_in_rec w3.p_rec (w3.attr_seq.getD w3.xx ⟨0, 0⟩).start
            (w3.attr_seq.getD w3.xx ⟨0, 0⟩).end = some i ∧
          0 < w1.cont_info.attr_offset ∧
          w1.cont_info.attr_offset <
            sdpu_get_attrib_entry_len env ((apply_rewrites cfg env addr w3 i).p_rec.attr i) ∧
          w1.cont_info.next_attr_index = w3.xx ∧
          w1.cont_info.next_attr_start_id =
            ((apply_rewrites cfg env addr w3 i).p_rec.attr i).id) ∧
    (∀ fuel st trans_num p_rec attr_seq attr_seq_sav is_cont p_rsp st2 out,
      run_attr_req cfg env fuel st trans_num max_list_len p_rec attr_seq attr_seq_sav is_cont
        p_rsp = some (st2, out) →
      out ≠ .error trans_num .SDP_NO_RESOURCES →
      ((Walk.init st p_rec attr_seq p_rsp).cont_info.attr_offset = 0 ∨
        (Walk.init st p_rec attr_seq p_rsp).resumes_inside cfg env st.ccb.device_address) →
      st2.ccb.cont_info.attr_offset = 0 ∨
        ∃ k w3 i, attr_walk_passes cfg env st.ccb.device_address max_list_len k
            (Walk.init st p_rec attr_seq p_rsp) = some w3 ∧
          sdp_db_find_attr_in_rec w3.p_rec (w3.attr_seq.getD w3.xx ⟨0, 0⟩).start
            (w3.attr_seq.getD w3.xx ⟨0, 0⟩).end = some i ∧
          0 < st2.ccb.cont_info.attr_offset ∧
          st2.ccb.cont_info.attr_offset <
            sdpu_get_attrib_entry_len env
              ((apply_rewrites cfg env st.ccb.device_address w3 i).p_rec.attr i) ∧
          st2.ccb.cont_info.next_attr_index = w3.xx ∧
          st2.ccb.cont_info.next_attr_start_id =
            ((apply_rewrites cfg env st.ccb.device_address w3 i).p_rec.attr i).id) := by
  subst ha
  refine ⟨?_, ?_, ?_, ?_⟩
  · intro hcut
    have hb := attr_walk_body_pending_stop cfg env addr max_list_len w j hfind hk hlt hidx hid hcut
    refine ⟨_, fun fuel => attr_walk_brk cfg env addr max_list_len fuel w _ hxx hb,
      rfl, rfl, ?_, ?_, hidx, hid, apply_rewrites_xx cfg env addr w j,
      apply_rewrites_attr_seq cfg env addr w j, rfl⟩
    · simp only
      omega
    · simp only
      have := rem_len_of_lt max_list_len w.p_rsp
      omega
  · intro hfit
    have hb := attr_walk_body_pending_done cfg env addr max_list_len w j hfind hk hlt hfit
    refine ⟨_, fun fuel => attr_walk_next cfg env addr max_list_len fuel w _ _ hxx hb rfl,
      ?_, ?_, ?_, ?_⟩
    · simp only [body_tail_p_rsp]
    · simp only [body_tail_cont_info]
    · intro hne
      simp only [body_tail_xx, body_tail_attr_seq, apply_rewrites_xx, apply_rewrites_attr_seq,
        ne_eq, hne, not_false_eq_true, ↓reduceIte, uint16_step_back w.xx hx16, and_self]
    · intro heq
      simp only [body_tail_xx, body_tail_attr_seq, apply_rewrites_xx, apply_rewrites_attr_seq,
        ne_eq, heq, not_true_eq_false, ↓reduceIte, and_self]
  · exact attr_walk_offset cfg env addr max_list_len
  · intro fuel st trans_num p_rec attr_seq attr_seq_sav is_cont p_rsp st2 out hrun hout hinv
    unfold run_attr_req at hrun
    cases hw : attr_walk cfg env st.ccb.device_address max_list_len fuel
        (Walk.init st p_rec attr_seq p_rsp) with
    | none =>
      rw [hw] at hrun
      exact absurd hrun (by simp)
    | some e =>
      rw [hw] at hrun
      cases e with
      | no_resources w1 =>
        simp only [Option.some.injEq, Prod.mk.injEq] at hrun
        exact absurd hrun.2.symm hout
      | done w1 =>
        simp only [Option.some.injEq] at hrun
        have hci := finish_attr_req_cont_info cfg env st trans_num p_rec attr_seq_sav is_cont w1
        rw [hrun] at hci
        rcases attr_walk_offset cfg env st.ccb.device_address max_list_len fuel _ w1 hw hinv with
          h0 | ⟨k, w3, i, hp, hl, hx, hs, hf, h1, h2, h3, h4⟩
        · left
          rw [hci]
          split_ifs
          · exact h0
          · exact h0
        · right
          have hne : ¬ w1.xx = w1.attr_seq.length := by
            rw [hx, hs]
            omega
          rw [if_neg hne] at hci
          rw [hci]
          exact ⟨k, w3, i, hp, hf, h1, h2, h3, h4⟩

set_option maxRecDepth 1000000 in
/-- The Attribute-Fetch of `rec_60`: the first frame with a budget of
30 bytes leaves `state_60_frame1`, with the attribute 0x0100 cut after 10 of
40 bytes. A continuation frame with a budget of 20 bytes stops at byte 30 of
that attribute; one with a budget of 40 bytes appends its last 30 bytes and
goes on with the range 0x0101-0xFFFF. -/
theorem pending_offset_resumed_at_rec_60 :
    process_service_attr_req bt_config bt_env 9 (idle_state [rec_60] [] 672) 7 14
        (attr_req 0 30 [0]) 14 =
      some (state_60_frame1, .response ([5, 0, 7, 0, 34, 0, 29] ++ [0x35, 57] ++
        (rec_60.attributes.flatMap bt_env.sdpu_build_attrib_entry).take 27 ++ [2, 0, 29])) ∧
    (∃ w1,
      (∀ fuel, attr_walk bt_config bt_env [] 20 (fuel + 1)
        (Walk.init state_60_frame1 (.db 0) [⟨0x0100, 0xFFFF⟩] []) = some (.done w1)) ∧
      w1.p_rsp = ((bt_env.sdpu_build_attrib_entry (rec_60.attr 2)).drop 10).take 20 ∧
      w1.cont_info.attr_offset = 30 ∧
      w1.cont_info.next_attr_index = 0 ∧
      w1.cont_info.next_attr_start_id = 0x0100) ∧
    (∃ w2,
      (∀ fuel, attr_walk bt_config bt_env [] 40 (fuel + 1)
          (Walk.init state_60_frame1 (.db 0) [⟨0x0100, 0xFFFF⟩] []) =
        attr_walk bt_config bt_env [] 40 fuel w2) ∧
      w2.p_rsp = ((bt_env.sdpu_build_attrib_entry (rec_60.attr 2)).drop 10).take 30 ∧
      w2.cont_info.attr_offset = 0 ∧
      w2.xx = 0 ∧
      w2.attr_seq = [⟨0x0101, 0xFFFF⟩]) :=
  ⟨by decide!,
   match (pending_offset_resumed bt_config bt_env [] 20
      (Walk.init state_60_frame1 (.db 0) [⟨0x0100, 0xFFFF⟩] []) 2 (rec_60.attr 2)
      (by decide) (by decide) (by decide) (by decide) (by decide) (by decide) (by decide)
      (by decide)).1 (by decide) with
   | ⟨w1, h1, h2, h3, _, _, h6, h7, _⟩ =>
     ⟨w1, h1, h2.trans (by decide), h3.trans (by decide), h6.trans (by decide), h7⟩,
   match (pending_offset_resumed bt_config bt_env [] 40
      (Walk.init state_60_frame1 (.db 0) [⟨0x0100, 0xFFFF⟩] []) 2 (rec_60.attr 2)
      (by decide) (by decide) (by decide) (by decide) (by decide) (by decide) (by decide)
      (by decide)).2.1 (by decide) with
   | ⟨w2, h1, h2, h3, h4, _⟩ =>
     ⟨w2, h1, h2.trans (by decide), (congrArg tSDP_CONT_INFO.attr_offset h3).trans rfl,
       (h4 (by decide)).1.trans (by decide), (h4 (by decide)).2.trans (by decide)⟩⟩

set_option maxRecDepth 1000000 in
/-- C24, the code at a failing input. The first frame of the Attribute-Fetch
of `rec_60` (handle 0x00010000) with a budget of 30 bytes leaves the stored
offset 29 and the attribute 0x0100 cut after 10 of 40 bytes. A continuation
request with the token 29 that names the handle 0x00010001 is accepted on the
offset; the attribute loop runs over `rec_brief`, the range re-armed at 0x0100
finds its attribute 0x0100, whose encoding has 6 bytes, and the partial
offset 10 is behind it: no byte is copied, the loop is left at the break for
a pending offset (line 733), and the frame carries no byte and the token 29
again. After the frame the partial offset is 10, not below the encoded
length 6 of the attribute at the resume point. -/
theorem C24_offset_behind_the_attribute :
    process_service_attr_req bt_config bt_env 9 (idle_state [rec_60, rec_brief] [] 672) 7 14
        (attr_req 0 30 [0]) 14 =
      some (state_60_brief_frame1, .response ([5, 0, 7, 0, 34, 0, 29] ++ [0x35, 57] ++
        (rec_60.attributes.flatMap bt_env.sdpu_build_attrib_entry).take 27 ++ [2, 0, 29])) ∧
    state_60_brief_frame1.ccb.cont_info = ⟨0, 0x0100, none, none, false, 10⟩ ∧
    process_service_attr_req bt_config bt_env 9 state_60_brief_frame1 8 16
        (attr_req 1 30 [2, 0, 29]) 16 =
      some (state_60_brief_frame1.with_scratch [] 30,
        .response ([5, 0, 8, 0, 5] ++ [0, 0] ++ [2, 0, 29])) ∧
    (state_60_brief_frame1.with_scratch [] 30).ccb.cont_info =
      ⟨0, 0x0100, none, none, false, 10⟩ ∧
    (attr_walk bt_config bt_env [] 30 9
        (Walk.init state_60_brief_frame1 (.db 1) [⟨0x0100, 0xFFFF⟩] [])).map
        (fun e => (e.walk.xx, e.walk.p_attr, e.walk.cont_info.attr_offset, e.walk.maxxed_out,
          e.walk.p_rsp)) =
      some (0, some 1, 10, true, []) ∧
    sdp_db_find_attr_in_rec rec_brief 0x0100 0xFFFF = some 1 ∧
    (rec_brief.attr 1).id = 0x0100 ∧
    sdpu_get_attrib_entry_len bt_env (rec_brief.attr 1) = 6 ∧
    sdpu_build_partial_attrib_entry bt_env (rec_brief.attr 1) 30 10 = ([], 10) := by
  decide!

/-! ## One pass through the record loop -/

theorem enter_record_ccb (cfg : Config) (env : Env) (st : State) (i : Nat) :
    (enter_record cfg env st i).1.ccb =
      { st.ccb with cont_info := { st.ccb.cont_info with curr_sdp_rec := some (.db i) } } := by
  simp only [enter_record, update_pbap_ccb]

theorem enter_record_db (cfg : Config) (env : Env) (st : State) (i : Nat) :
    (enter_record cfg env st i).1.db = st.db := by
  simp only [enter_record, update_pbap_db]

/-- A pass through the body of the record loop whose attribute loop is left
with `w0`: the loop ends when `maxxed_out` is set, and goes on with the next
matching record behind the record `i` of the store when it is not. -/
theorem search_attr_records_step (cfg : Config) (env : Env) (max_list_len : Nat)
    (uid_seq : tSDP_UUID_SEQ) (attr_seq_sav : tSDP_ATTR_SEQ) (walk_fuel fuel : Nat)
    (l : RecLoop) (i : Nat) (w0 : Walk)
    (hroom : ¬ (l.st.ccb.cont_info.last_attr_seq_desc_sent = false ∧
      rem_len_of max_list_len l.p_rsp < 3))
    (hwalk : attr_walk cfg env l.st.ccb.device_address max_list_len walk_fuel
      (Walk.init (enter_record cfg env l.st i).1 (enter_record cfg env l.st i).2 l.attr_seq
        (if l.st.ccb.cont_info.last_attr_seq_desc_sent = false then l.p_rsp ++ [0, 0, 0]
          else l.p_rsp)) = some (.done w0)) :
    search_attr_records cfg env max_list_len uid_seq attr_seq_sav walk_fuel (fuel + 1) l
        (some i) =
      if (restore_attr w0).maxxed_out = true then
        some (.done (l.after_record cfg env attr_seq_sav i w0))
      else
        search_attr_records cfg env max_list_len uid_seq attr_seq_sav walk_fuel fuel
          ((l.after_record cfg env attr_seq_sav i w0).next_record attr_seq_sav i)
          (sdp_db_service_search env
            ((l.after_record cfg env attr_seq_sav i w0).next_record attr_seq_sav i).st.db
            (some (.db i)) uid_seq) := by
  have hflag : (enter_record cfg env l.st i).1.ccb.cont_info.last_attr_seq_desc_sent =
      l.st.ccb.cont_info.last_attr_seq_desc_sent := by
    rw [enter_record_ccb]
  have haddr : (enter_record cfg env l.st i).1.ccb.device_address = l.st.ccb.device_address := by
    rw [enter_record_ccb]
  rw [← hflag] at hroom hwalk
  rw [← haddr] at hwalk
  rw [search_attr_records]
  dsimp only
  rw [if_neg hroom, hwalk]
  dsimp only
  rfl

theorem search_attr_records_cut_off (cfg : Config) (env : Env) (max_list_len : Nat)
    (uid_seq : tSDP_UUID_SEQ) (attr_seq_sav : tSDP_ATTR_SEQ) (walk_fuel fuel : Nat)
    (l : RecLoop) (i : Nat) (w0 : Walk)
    (hroom : ¬ (l.st.ccb.cont_info.last_attr_seq_desc_sent = false ∧
      rem_len_of max_list_len l.p_rsp < 3))
    (hwalk : attr_walk cfg env l.st.ccb.device_address max_list_len walk_fuel
      (Walk.init (enter_record cfg env l.st i).1 (enter_record cfg env l.st i).2 l.attr_seq
        (if l.st.ccb.cont_info.last_attr_seq_desc_sent = false then l.p_rsp ++ [0, 0, 0]
          else l.p_rsp)) = some (.done w0))
    (hm : w0.maxxed_out = true) :
    search_attr_records cfg env max_list_len uid_seq attr_seq_sav walk_fuel (fuel + 1) l
        (some i) = some (.done (l.after_record cfg env attr_seq_sav i w0)) := by
  rw [search_attr_records_step cfg env max_list_len uid_seq attr_seq_sav walk_fuel fuel l i w0
    hroom hwalk, restore_attr_maxxed_out, if_pos hm]

theorem search_attr_records_drained (cfg : Config) (env : Env) (max_list_len : Nat)
    (uid_seq : tSDP_UUID_SEQ) (attr_seq_sav : tSDP_ATTR_SEQ) (walk_fuel fuel : Nat)
    (l : RecLoop) (i : Nat) (w0 : Walk)
    (hroom : ¬ (l.st.ccb.cont_info.last_attr_seq_desc_sent = false ∧
      rem_len_of max_list_len l.p_rsp < 3))
    (hwalk : attr_walk cfg env l.st.ccb.device_address max_list_len walk_fuel
      (Walk.init (enter_record cfg env l.st i).1 (enter_record cfg env l.st i).2 l.attr_seq
        (if l.st.ccb.cont_info.last_attr_seq_desc_sent = false then l.p_rsp ++ [0, 0, 0]
          else l.p_rsp)) = some (.done w0))
    (hm : w0.maxxed_out = false) :
    search_attr_records cfg env max_list_len uid_seq attr_seq_sav walk_fuel (fuel + 1) l
        (some i) =
      search_attr_records cfg env max_list_len uid_seq attr_seq_sav walk_fuel fuel
        ((l.after_record cfg env attr_seq_sav i w0).next_record attr_seq_sav i)
        (sdp_db_service_search env
          ((l.after_record cfg env attr_seq_sav i w0).next_record attr_seq_sav i).st.db
          (some (.db i)) uid_seq) := by
  rw [search_attr_records_step cfg env max_list_len uid_seq attr_seq_sav walk_fuel fuel l i w0
    hroom hwalk, restore_attr_maxxed_out, if_neg (by simp only [hm, Bool.false_eq_true,
      not_false_eq_true])]

/-! ## What the attribute loop leaves for the record loop -/

theorem apply_rewrites_maxxed_out (cfg : Config) (env : Env) (addr : BD_ADDR) (w : Walk)
    (j : Nat) : (apply_rewrites cfg env addr w j).maxxed_out = w.maxxed_out := rfl

theorem body_tail_maxxed_out (w : Walk) (id : Nat) :
    (body_tail w id).maxxed_out = w.maxxed_out := by
  unfold body_tail
  dsimp only
  rw [restore_attr_maxxed_out]
  split_ifs <;> rfl

/-- One pass through the loop body writes neither `prev_sdp_rec`,
`curr_sdp_rec` nor `last_attr_seq_desc_sent`. -/
theorem attr_walk_body_record_part (cfg : Config) (env : Env) (addr : BD_ADDR)
    (max_list_len : Nat) (w : Walk) :
    (attr_walk_body cfg env addr max_list_len w).walk.cont_info.record_part =
      w.cont_info.record_part := by
  unfold attr_walk_body
  dsimp only
  cases sdp_db_find_attr_in_rec w.p_rec (w.attr_seq.getD w.xx ⟨0, 0⟩).start
      (w.attr_seq.getD w.xx ⟨0, 0⟩).end with
  | none => rfl
  | some j =>
    dsimp only
    split_ifs <;>
      simp only [BodyExit.walk, body_tail_cont_info, apply_rewrites_cont_info,
        tSDP_CONT_INFO.record_part]

/-- The attribute loop writes neither `prev_sdp_rec`, `curr_sdp_rec` nor
`last_attr_seq_desc_sent`. -/
theorem attr_walk_record_part (cfg : Config) (env : Env) (addr : BD_ADDR) (max_list_len : Nat) :
    ∀ (fuel : Nat) (w0 : Walk) (e : WalkExit),
      attr_walk cfg env addr max_list_len fuel w0 = some e →
      e.walk.cont_info.record_part = w0.cont_info.record_part := by
  intro fuel
  induction fuel with
  | zero =>
    intro w0 e h
    rw [attr_walk] at h
    split_ifs at h
    simp only [Option.some.injEq] at h
    subst h
    rfl
  | succ fuel ih =>
    intro w0 e h
    rw [attr_walk] at h
    split_ifs at h
    · have hb := attr_walk_body_record_part cfg env addr max_list_len w0
      cases hbody : attr_walk_body cfg env addr max_list_len w0 with
      | next w1 =>
        rw [hbody] at h hb
        simp only at h
        rw [ih _ e h]
        exact hb
      | brk w1 =>
        rw [hbody] at h hb
        simp only [Option.some.injEq] at h
        subst h
        exact hb
      | ret w1 =>
        rw [hbody] at h hb
        simp only [Option.some.injEq] at h
        subst h
        exact hb
    · simp only [Option.some.injEq] at h
      subst h
      rfl

theorem attr_walk_body_next_maxxed (cfg : Config) (env : Env) (addr : BD_ADDR)
    (max_list_len : Nat) (w w1 : Walk)
    (hb : attr_walk_body cfg env addr max_list_len w = .next w1) :
    w1.maxxed_out = w.maxxed_out := by
  unfold attr_walk_body at hb
  dsimp only at hb
  cases hf : sdp_db_find_attr_in_rec w.p_rec (w.attr_seq.getD w.xx ⟨0, 0⟩).start
      (w.attr_seq.getD w.xx ⟨0, 0⟩).end with
  | none =>
    rw [hf] at hb
    simp only [BodyExit.next.injEq] at hb
    rw [hb]
  | some j =>
    rw [hf] at hb
    dsimp only at hb
    split_ifs at hb <;> simp only [BodyExit.next.injEq] at hb <;>
      rw [← hb, body_tail_maxxed_out] <;> rfl

/-- A pass through the loop body that ends the loop sets `maxxed_out` and
leaves the index of the entry and the id of the attribute it worked on as the
resume point. -/
theorem attr_walk_body_brk_resume (cfg : Config) (env : Env) (addr : BD_ADDR)
    (max_list_len : Nat) (w w1 : Walk)
    (hinv : w.cont_info.attr_offset = 0 ∨ w.resumes_inside cfg env addr)
    (hb : attr_walk_body cfg env addr max_list_len w = .brk w1) :
    w1.maxxed_out = true ∧
      ∃ j, sdp_db_find_attr_in_rec w.p_rec (w.attr_seq.getD w.xx ⟨0, 0⟩).start
          (w.attr_seq.getD w.xx ⟨0, 0⟩).end = some j ∧
        w1.cont_info.next_attr_index = w.xx ∧
        w1.cont_info.next_attr_start_id =
          ((apply_rewrites cfg env addr w j).p_rec.attr j).id := by
  rcases hinv with h0 | ⟨-, j, hfind, hk, hlt, hidx, hid⟩
  · unfold attr_walk_body at hb
    dsimp only at hb
    cases hf : sdp_db_find_attr_in_rec w.p_rec (w.attr_seq.getD w.xx ⟨0, 0⟩).start
        (w.attr_seq.getD w.xx ⟨0, 0⟩).end with
    | none =>
      rw [hf] at hb
      exact absurd hb (by simp)
    | some j =>
      rw [hf] at hb
      simp only [apply_rewrites_cont_info, apply_rewrites_p_rsp, apply_rewrites_xx, h0, ne_eq,
        not_true_eq_false, ↓reduceIte] at hb
      split_ifs at hb <;> simp only [BodyExit.brk.injEq] at hb <;> rw [← hb] <;>
        exact ⟨rfl, j, rfl, rfl, rfl⟩
  · by_cases hfit : (sdpu_get_attrib_entry_len env
        ((apply_rewrites cfg env addr w j).p_rec.attr j) : Int) - w.cont_info.attr_offset ≤
        rem_len_of max_list_len w.p_rsp
    · rw [attr_walk_body_pending_done cfg env addr max_list_len w j hfind hk hlt hfit] at hb
      exact absurd hb (by simp)
    · rw [attr_walk_body_pending_stop cfg env addr max_list_len w j hfind hk hlt hidx hid
        (by omega)] at hb
      simp only [BodyExit.brk.injEq] at hb
      rw [← hb]
      exact ⟨rfl, j, hfind, hidx, hid⟩

/-- The attribute loop sets `maxxed_out` only when it stops at an attribute,
and then the resume index and id designate that attribute. -/
theorem attr_walk_maxxed (cfg : Config) (env : Env) (addr : BD_ADDR) (max_list_len : Nat) :
    ∀ (fuel : Nat) (w0 w1 : Walk),
      attr_walk cfg env addr max_list_len fuel w0 = some (.done w1) →
      w0.maxxed_out = false →
      (w0.cont_info.attr_offset = 0 ∨ w0.resumes_inside cfg env addr) →
      w1.maxxed_out = true →
      ∃ k w j, attr_walk_passes cfg env addr max_list_len k w0 = some w ∧
        w.xx < w.attr_seq.length ∧
        sdp_db_find_attr_in_rec w.p_rec (w.attr_seq.getD w.xx ⟨0, 0⟩).start
          (w.attr_seq.getD w.xx ⟨0, 0⟩).end = some j ∧
        w1.cont_info.next_attr_index = w.xx ∧
        w1.cont_info.next_attr_start_id =
          ((apply_rewrites cfg env addr w j).p_rec.attr j).id := by
  intro fuel
  induction fuel with
  | zero =>
    intro w0 w1 h hm0 hinv hm1
    rw [attr_walk] at h
    split_ifs at h
    simp only [Option.some.injEq, WalkExit.done.injEq] at h
    subst h
    rw [hm0] at hm1
    exact absurd hm1 (by simp)
  | succ fuel ih =>
    intro w0 w1 h hm0 hinv hm1
    rw [attr_walk] at h
    by_cases hxx : w0.xx < w0.attr_seq.length
    · simp only [hxx, ↓reduceIte] at h
      cases hb : attr_walk_body cfg env addr max_list_len w0 with
      | next w2 =>
        rw [hb] at h
        simp only at h
        have h0 := attr_walk_body_next_offset cfg env addr max_list_len w0 w2 hinv hb
        have hm2 := attr_walk_body_next_maxxed cfg env addr max_list_len w0 w2 hb
        obtain ⟨k, w, j, hp, hr⟩ := ih _ w1 h (hm2.trans hm0) (Or.inl h0) hm1
        exact ⟨k + 1, w, j,
          attr_walk_passes_succ cfg env addr max_list_len k w0 w2 w hxx hb hp, hr⟩
      | brk w2 =>
        rw [hb] at h
        simp only [Option.some.injEq, WalkExit.done.injEq] at h
        subst h
        obtain ⟨-, j, hr⟩ := attr_walk_body_brk_resume cfg env addr max_list_len w0 w2 hinv hb
        exact ⟨0, w0, j, rfl, hxx, hr⟩
      | ret w2 =>
        rw [hb] at h
        exact absurd h (by simp)
    · simp only [hxx, ↓reduceIte, Option.some.injEq, WalkExit.done.injEq] at h
      subst h
      rw [hm0] at hm1
      exact absurd hm1 (by simp)

theorem finish_search_attr_req_cont_info (cfg : Config) (env : Env) (trans_num : Nat)
    (uid_seq : tSDP_UUID_SEQ) (attr_seq_sav : tSDP_ATTR_SEQ) (is_cont : Bool) (l : RecLoop) :
    (finish_search_attr_req cfg env trans_num uid_seq attr_seq_sav is_cont l).1.ccb.cont_info =
        l.st.ccb.cont_info ∧
      (finish_search_attr_req cfg env trans_num uid_seq attr_seq_sav is_cont l).1.db =
        l.st.db := by
  unfold finish_search_attr_req
  dsimp only
  split_ifs <;> exact ⟨rfl, rfl⟩

theorem rem_len_of_nil (max_list_len : Nat) (h : max_list_len < 32768) :
    rem_len_of max_list_len [] = max_list_len := by
  simp only [rem_len_of, INT16, List.length_nil]
  omega

theorem set_getD_start (attr_seq : tSDP_ATTR_SEQ) (s : Nat)
    (h : (attr_seq.getD 0 ⟨0, 0⟩).start = s) :
    attr_seq.set 0 { attr_seq.getD 0 ⟨0, 0⟩ with start := s } = attr_seq := by
  cases attr_seq with
  | nil => rfl
  | cons e es =>
    simp only [List.getD_cons_zero] at h
    simp only [List.getD_cons_zero, List.set_cons_zero, ← h]

/-- C26: the record loop of Search-Attribute-Fetch at a matching record `i`,
with `last_attr_seq_desc_sent` false and fewer than 3 bytes of the budget
left. The loop ends: no byte is appended to the scratch buffer, the store is
as it was, `prev_sdp_rec` keeps its value, `next_attr_index` is 0 and the
start id is the start of the first range; the frame is built with this
continuation information. For the continuation request that follows, with a
budget of at least 3 bytes, whose first range starts as the first range of
the loop did: the search from `prev_sdp_rec` finds the record `i` again, the
range list is left as the client sent it, 3 bytes are reserved for the header
of the record and the attribute loop starts at the index 0. -/
theorem C26_no_room_for_header (cfg : Config) (env : Env) (max_list_len : Nat)
    (uid_seq : tSDP_UUID_SEQ) (attr_seq_sav : tSDP_ATTR_SEQ) (walk_fuel fuel : Nat)
    (l : RecLoop) (i : Nat)
    (hflag : l.st.ccb.cont_info.last_attr_seq_desc_sent = false)
    (hrem : rem_len_of max_list_len l.p_rsp < 3) :
    ∃ l1, search_attr_records cfg env max_list_len uid_seq attr_seq_sav walk_fuel (fuel + 1) l
        (some i) = some (.done l1) ∧
      l1.p_rsp = l.p_rsp ∧
      l1.st.db = l.st.db ∧
      l1.st.ccb.cont_info =
        { l.st.ccb.cont_info with
          curr_sdp_rec := some (.db i)
          next_attr_index := 0
          next_attr_start_id := (l.attr_seq.getD 0 ⟨0, 0⟩).start } ∧
      (∀ trans_num is_cont,
        (finish_search_attr_req cfg env trans_num uid_seq attr_seq_sav is_cont
          l1).1.ccb.cont_info = l1.st.ccb.cont_info ∧
        (finish_search_attr_req cfg env trans_num uid_seq attr_seq_sav is_cont l1).1.db =
          l.st.db) ∧
      (∀ (st2 : State) (attr_seq : tSDP_ATTR_SEQ) (max2 wf2 fuel2 : Nat),
        st2.db = l.st.db → st2.ccb.cont_info = l1.st.ccb.cont_info →
        sdp_db_service_search env l.st.db l.st.ccb.cont_info.prev_sdp_rec uid_seq = some i →
        (attr_seq.getD 0 ⟨0, 0⟩).start = (l.attr_seq.getD 0 ⟨0, 0⟩).start →
        3 ≤ max2 → max2 < 32768 →
        sdp_db_service_search env st2.db st2.ccb.cont_info.prev_sdp_rec uid_seq = some i ∧
        attr_seq.set st2.ccb.cont_info.next_attr_index
          { attr_seq.getD st2.ccb.cont_info.next_attr_index ⟨0, 0⟩ with
            start := st2.ccb.cont_info.next_attr_start_id } = attr_seq ∧
        (Walk.init (enter_record cfg env st2 i).1 (enter_record cfg env st2 i).2 attr_seq
          ([] ++ [0, 0, 0])).xx = 0 ∧
        ∀ w0, attr_walk cfg env st2.ccb.device_address max2 wf2
            (Walk.init (enter_record cfg env st2 i).1 (enter_record cfg env st2 i).2 attr_seq
              ([] ++ [0, 0, 0])) = some (.done w0) →
          search_attr_records cfg env max2 uid_seq attr_seq wf2 (fuel2 + 1)
              ⟨st2, attr_seq, [], 0⟩ (some i) =
            if (restore_attr w0).maxxed_out = true then
              some (.done (RecLoop.after_record cfg env attr_seq ⟨st2, attr_seq, [], 0⟩ i w0))
            else
              search_attr_records cfg env max2 uid_seq attr_seq wf2 fuel2
                ((RecLoop.after_record cfg env attr_seq ⟨st2, attr_seq, [], 0⟩ i
                  w0).next_record attr_seq i)
                (sdp_db_service_search env
                  ((RecLoop.after_record cfg env attr_seq ⟨st2, attr_seq, [], 0⟩ i
                    w0).next_record attr_seq i).st.db (some (.db i)) uid_seq)) := by
  have hflag1 : (enter_record cfg env l.st i).1.ccb.cont_info.last_attr_seq_desc_sent = false := by
    rw [enter_record_ccb]
    exact hflag
  have hrun : search_attr_records cfg env max_list_len uid_seq attr_seq_sav walk_fuel (fuel + 1)
      l (some i) = some (.done { l with
        st := { (enter_record cfg env l.st i).1 with ccb := { (enter_record cfg env l.st i).1.ccb with
          cont_info := { (enter_record cfg env l.st i).1.ccb.cont_info with
            next_attr_index := 0
            next_attr_start_id := (l.attr_seq.getD 0 ⟨0, 0⟩).start } } }
        blacklist_skip_len :=
          if (enter_record cfg env l.st i).2 ≠ RecPtr.db i then
            blacklist_skip cfg
              (attr_seq_sav.drop (enter_record cfg env l.st i).1.ccb.cont_info.next_attr_index)
              l.blacklist_skip_len
          else l.blacklist_skip_len }) := by
    rw [search_attr_records]
    dsimp only
    rw [if_pos ⟨hflag1, hrem⟩]
  refine ⟨_, hrun, rfl, ?_, ?_, ?_, ?_⟩
  · exact enter_record_db cfg env l.st i
  · simp only [enter_record_ccb]
  · intro trans_num is_cont
    have h := finish_search_attr_req_cont_info cfg env trans_num uid_seq attr_seq_sav is_cont
      { l with
        st := { (enter_record cfg env l.st i).1 with ccb := { (enter_record cfg env l.st i).1.ccb with
          cont_info := { (enter_record cfg env l.st i).1.ccb.cont_info with
            next_attr_index := 0
            next_attr_start_id := (l.attr_seq.getD 0 ⟨0, 0⟩).start } } }
        blacklist_skip_len :=
          if (enter_record cfg env l.st i).2 ≠ RecPtr.db i then
            blacklist_skip cfg
              (attr_seq_sav.drop (enter_record cfg env l.st i).1.ccb.cont_info.next_attr_index)
              l.blacklist_skip_len
          else l.blacklist_skip_len }
    exact ⟨h.1, h.2.trans (enter_record_db cfg env l.st i)⟩
  · intro st2 attr_seq max2 wf2 fuel2 hdb hci hsearch hstart h3 hmax
    simp only [enter_record_ccb] at hci
    have hprev : st2.ccb.cont_info.prev_sdp_rec = l.st.ccb.cont_info.prev_sdp_rec := by
      rw [hci]
    have hidx : st2.ccb.cont_info.next_attr_index = 0 := by
      rw [hci]
    have hid : st2.ccb.cont_info.next_attr_start_id = (l.attr_seq.getD 0 ⟨0, 0⟩).start := by
      rw [hci]
    have hfl : st2.ccb.cont_info.last_attr_seq_desc_sent = false := by
      rw [hci]
      exact hflag
    refine ⟨?_, ?_, ?_, ?_⟩
    · rw [hdb, hprev, hsearch]
    · rw [hidx, hid]
      exact set_getD_start attr_seq _ hstart
    · simp only [Walk.init, enter_record_ccb, hidx]
    · intro w0 hwalk
      have hroom : ¬ ((⟨st2, attr_seq, [], 0⟩ : RecLoop).st.ccb.cont_info.last_attr_seq_desc_sent =
          false ∧ rem_len_of max2 (⟨st2, attr_seq, [], 0⟩ : RecLoop).p_rsp < 3) := by
        simp only [rem_len_of_nil max2 hmax]
        omega
      exact search_attr_records_step cfg env max2 uid_seq attr_seq wf2 fuel2
        ⟨st2, attr_seq, [], 0⟩ i w0 hroom (by simp only [hfl, ↓reduceIte]; exact hwalk)

theorem after_walk_cont_info (st : State) (p : RecPtr) (w : Walk) :
    (st.after_walk p w).ccb.cont_info = w.cont_info := by
  simp only [State.after_walk]

/-- The fields of the continuation information that the attribute loop over
the record `i` leaves as the record loop set them. -/
theorem walk_record_part (cfg : Config) (env : Env) (max_list_len walk_fuel : Nat)
    (l : RecLoop) (i : Nat) (p_rsp : List Nat) (e : WalkExit)
    (hwalk : attr_walk cfg env l.st.ccb.device_address max_list_len walk_fuel
      (Walk.init (enter_record cfg env l.st i).1 (enter_record cfg env l.st i).2 l.attr_seq
        p_rsp) = some e) :
    e.walk.cont_info.record_part =
      (l.st.ccb.cont_info.prev_sdp_rec, some (.db i),
        l.st.ccb.cont_info.last_attr_seq_desc_sent) := by
  rw [attr_walk_record_part cfg env _ max_list_len walk_fuel _ e hwalk]
  simp only [Walk.init, enter_record_ccb, tSDP_CONT_INFO.record_part]

theorem put_record_header_slot (cfg : Config) (base rest : List Nat) (seq_len : Nat) :
    put_record_header cfg (base ++ [0, 0, 0] ++ rest) base.length seq_len =
      base ++ (UINT8_TO_BE_STREAM ((cfg.DATA_ELE_SEQ_DESC_TYPE <<< 3) ||| cfg.SIZE_IN_NEXT_WORD) ++
        UINT16_TO_BE_STREAM seq_len) ++ rest := by
  unfold put_record_header
  have h1 : (base ++ [0, 0, 0] ++ rest).take base.length = base := by
    rw [List.append_assoc, List.take_left']
    rfl
  have h2 : (base ++ [0, 0, 0] ++ rest).drop (base.length + 3) = rest := by
    have h : base.length + 3 = (base ++ [0, 0, 0]).length := by simp
    rw [h, List.drop_left']
    rfl
  rw [h1, h2]

/-- C27: the record loop of Search-Attribute-Fetch at a matching record `i`
whose header was not sent, with room for the 3 bytes of the header, when the
attribute loop is left with `w0`. With `seq_len` the value of
`sdpu_get_attrib_seq_len` for the record and the range list as the client
sent it: if `seq_len` is 0, the scratch bytes are those before the record; if
not, the 3 reserved bytes hold the sequence descriptor and `seq_len` in 16
bits, big-endian, in front of the bytes the attribute loop appended. This
holds when the loop ends because `maxxed_out` is set, and when it goes on
with the next record. -/
theorem C27_record_header (cfg : Config) (env : Env) (max_list_len : Nat)
    (uid_seq : tSDP_UUID_SEQ) (attr_seq_sav : tSDP_ATTR_SEQ) (walk_fuel fuel : Nat)
    (l : RecLoop) (i : Nat) (w0 : Walk)
    (hflag : l.st.ccb.cont_info.last_attr_seq_desc_sent = false)
    (hroom : ¬ rem_len_of max_list_len l.p_rsp < 3)
    (hwalk : attr_walk cfg env l.st.ccb.device_address max_list_len walk_fuel
      (Walk.init (enter_record cfg env l.st i).1 (enter_record cfg env l.st i).2 l.attr_seq
        (l.p_rsp ++ [0, 0, 0])) = some (.done w0)) :
    ∃ rest, w0.p_rsp = l.p_rsp ++ [0, 0, 0] ++ rest ∧
      (sdpu_get_attrib_seq_len env (restore_attr w0).p_rec attr_seq_sav = 0 →
        (l.after_record cfg env attr_seq_sav i w0).p_rsp = l.p_rsp) ∧
      (sdpu_get_attrib_seq_len env (restore_attr w0).p_rec attr_seq_sav ≠ 0 →
        (l.after_record cfg env attr_seq_sav i w0).p_rsp =
          l.p_rsp ++
            (UINT8_TO_BE_STREAM ((cfg.DATA_ELE_SEQ_DESC_TYPE <<< 3) ||| cfg.SIZE_IN_NEXT_WORD) ++
              UINT16_TO_BE_STREAM
                (sdpu_get_attrib_seq_len env (restore_attr w0).p_rec attr_seq_sav)) ++ rest ∧
        BE_STREAM_TO_UINT16
            (UINT16_TO_BE_STREAM
              (sdpu_get_attrib_seq_len env (restore_attr w0).p_rec attr_seq_sav)) 0 =
          sdpu_get_attrib_seq_len env (restore_attr w0).p_rec attr_seq_sav) ∧
      (l.after_record cfg env attr_seq_sav i w0).st.ccb.rsp_list =
        (l.after_record cfg env attr_seq_sav i w0).p_rsp ∧
      (w0.maxxed_out = true →
        search_attr_records cfg env max_list_len uid_seq attr_seq_sav walk_fuel (fuel + 1) l
          (some i) = some (.done (l.after_record cfg env attr_seq_sav i w0))) ∧
      (w0.maxxed_out = false →
        search_attr_records cfg env max_list_len uid_seq attr_seq_sav walk_fuel (fuel + 1) l
            (some i) =
          search_attr_records cfg env max_list_len uid_seq attr_seq_sav walk_fuel fuel
            ((l.after_record cfg env attr_seq_sav i w0).next_record attr_seq_sav i)
            (sdp_db_service_search env
              ((l.after_record cfg env attr_seq_sav i w0).next_record attr_seq_sav i).st.db
              (some (.db i)) uid_seq) ∧
        ((l.after_record cfg env attr_seq_sav i w0).next_record attr_seq_sav i).p_rsp =
          (l.after_record cfg env attr_seq_sav i w0).p_rsp) := by
  obtain ⟨rest, hrest⟩ := attr_walk_p_rsp cfg env _ max_list_len walk_fuel _ _ hwalk
  simp only [WalkExit.walk, Walk.init] at hrest
  have hpart := walk_record_part cfg env max_list_len walk_fuel l i _ _ hwalk
  simp only [WalkExit.walk, tSDP_CONT_INFO.record_part, Prod.mk.injEq] at hpart
  have hfl : ((enter_record cfg env l.st i).1.after_walk (enter_record cfg env l.st i).2
      (restore_attr w0)).ccb.cont_info.last_attr_seq_desc_sent = false := by
    rw [after_walk_cont_info, restore_attr_cont_info, hpart.2.2, hflag]
  have hroom2 : ¬ (l.st.ccb.cont_info.last_attr_seq_desc_sent = false ∧
      rem_len_of max_list_len l.p_rsp < 3) := fun h => hroom h.2
  have hwalk2 : attr_walk cfg env l.st.ccb.device_address max_list_len walk_fuel
      (Walk.init (enter_record cfg env l.st i).1 (enter_record cfg env l.st i).2 l.attr_seq
        (if l.st.ccb.cont_info.last_attr_seq_desc_sent = false then l.p_rsp ++ [0, 0, 0]
          else l.p_rsp)) = some (.done w0) := by
    rw [if_pos hflag]
    exact hwalk
  refine ⟨rest, hrest, ?_, ?_, rfl, ?_, ?_⟩
  · intro h0
    simp only [RecLoop.after_record, hfl, ↓reduceIte, h0, ne_eq, not_true_eq_false,
      restore_attr_p_rsp, hrest]
    rw [List.append_assoc, List.take_left']
    rfl
  · intro hne
    refine ⟨?_, ?_⟩
    · simp only [RecLoop.after_record, hfl, ↓reduceIte, ne_eq, hne, not_false_eq_true,
        restore_attr_p_rsp, hrest, put_record_header_slot]
    · have h := BE16_encode (sdpu_get_attrib_seq_len env (restore_attr w0).p_rec attr_seq_sav) []
        (by simp only [sdpu_get_attrib_seq_len]; exact UINT16_lt _)
      rw [List.append_nil] at h
      exact h
  · intro hm
    exact search_attr_records_cut_off cfg env max_list_len uid_seq attr_seq_sav walk_fuel fuel
      l i w0 hroom2 hwalk2 hm
  · intro hm
    exact ⟨search_attr_records_drained cfg env max_list_len uid_seq attr_seq_sav walk_fuel fuel
      l i w0 hroom2 hwalk2 hm, rfl⟩

/-- The record loop of Search-Attribute-Fetch at a matching record `i`
when the attribute loop, entered with no partial offset or with one inside
the attribute it resumes, is left with `maxxed_out` set. The record loop
ends with this record: `prev_sdp_rec` has the value it had when the record
was reached, `curr_sdp_rec` is the record `i`, the resume index and id are
those of the attribute at which the attribute loop stopped, and
`last_attr_seq_desc_sent` is true when it was true or when the header of the
record was put (`seq_len` not 0), and false when the header was rolled back.
The frame is built with this continuation information. -/
theorem budget_runs_out_in_record (cfg : Config) (env : Env) (max_list_len : Nat)
    (uid_seq : tSDP_UUID_SEQ) (attr_seq_sav : tSDP_ATTR_SEQ) (walk_fuel fuel : Nat)
    (l : RecLoop) (i : Nat) (w0 : Walk)
    (hroom : ¬ (l.st.ccb.cont_info.last_attr_seq_desc_sent = false ∧
      rem_len_of max_list_len l.p_rsp < 3))
    (hwalk : attr_walk cfg env l.st.ccb.device_address max_list_len walk_fuel
      (Walk.init (enter_record cfg env l.st i).1 (enter_record cfg env l.st i).2 l.attr_seq
        (if l.st.ccb.cont_info.last_attr_seq_desc_sent = false then l.p_rsp ++ [0, 0, 0]
          else l.p_rsp)) = some (.done w0))
    (hinv : l.st.ccb.cont_info.attr_offset = 0 ∨
      (Walk.init (enter_record cfg env l.st i).1 (enter_record cfg env l.st i).2 l.attr_seq
        (if l.st.ccb.cont_info.last_attr_seq_desc_sent = false then l.p_rsp ++ [0, 0, 0]
          else l.p_rsp)).resumes_inside cfg env l.st.ccb.device_address)
    (hm : w0.maxxed_out = true) :
    search_attr_records cfg env max_list_len uid_seq attr_seq_sav walk_fuel (fuel + 1) l
        (some i) = some (.done (l.after_record cfg env attr_seq_sav i w0)) ∧
      (l.after_record cfg env attr_seq_sav i w0).st.ccb.cont_info.prev_sdp_rec =
        l.st.ccb.cont_info.prev_sdp_rec ∧
      (l.after_record cfg env attr_seq_sav i w0).st.ccb.cont_info.curr_sdp_rec =
        some (.db i) ∧
      (∃ k w j, attr_walk_passes cfg env l.st.ccb.device_address max_list_len k
          (Walk.init (enter_record cfg env l.st i).1 (enter_record cfg env l.st i).2 l.attr_seq
            (if l.st.ccb.cont_info.last_attr_seq_desc_sent = false then l.p_rsp ++ [0, 0, 0]
              else l.p_rsp)) = some w ∧
        w.xx < w.attr_seq.length ∧
        sdp_db_find_attr_in_rec w.p_rec (w.attr_seq.getD w.xx ⟨0, 0⟩).start
          (w.attr_seq.getD w.xx ⟨0, 0⟩).end = some j ∧
        (l.after_record cfg env attr_seq_sav i w0).st.ccb.cont_info.next_attr_index = w.xx ∧
        (l.after_record cfg env attr_seq_sav i w0).st.ccb.cont_info.next_attr_start_id =
          ((apply_rewrites cfg env l.st.ccb.device_address w j).p_rec.attr j).id) ∧
      (l.after_record cfg env attr_seq_sav i w0).st.ccb.cont_info.last_attr_seq_desc_sent =
        (if l.st.ccb.cont_info.last_attr_seq_desc_sent = false ∧
            sdpu_get_attrib_seq_len env (restore_attr w0).p_rec attr_seq_sav ≠ 0 then true
          else l.st.ccb.cont_info.last_attr_seq_desc_sent) ∧
      (∀ trans_num is_cont,
        (finish_search_attr_req cfg env trans_num uid_seq attr_seq_sav is_cont
          (l.after_record cfg env attr_seq_sav i w0)).1.ccb.cont_info =
            (l.after_record cfg env attr_seq_sav i w0).st.ccb.cont_info) := by
  have hpart := walk_record_part cfg env max_list_len walk_fuel l i _ _ hwalk
  simp only [WalkExit.walk, tSDP_CONT_INFO.record_part, Prod.mk.injEq] at hpart
  have hinv2 : (Walk.init (enter_record cfg env l.st i).1 (enter_record cfg env l.st i).2
      l.attr_seq (if l.st.ccb.cont_info.last_attr_seq_desc_sent = false then l.p_rsp ++ [0, 0, 0]
          else l.p_rsp)).cont_info.attr_offset = 0 ∨
      (Walk.init (enter_record cfg env l.st i).1 (enter_record cfg env l.st i).2 l.attr_seq
        (if l.st.ccb.cont_info.last_attr_seq_desc_sent = false then l.p_rsp ++ [0, 0, 0]
          else l.p_rsp)).resumes_inside cfg env l.st.ccb.device_address := by
    rcases hinv with h | h
    · left
      simp only [Walk.init, enter_record_ccb]
      exact h
    · exact Or.inr h
  obtain ⟨k, w, j, hp, hlen, hfind, hidx, hid⟩ :=
    attr_walk_maxxed cfg env _ max_list_len walk_fuel _ w0 hwalk rfl hinv2 hm
  refine ⟨search_attr_records_cut_off cfg env max_list_len uid_seq attr_seq_sav walk_fuel fuel
    l i w0 hroom hwalk hm, ?_, ?_, ⟨k, w, j, hp, hlen, hfind, ?_, ?_⟩, ?_, ?_⟩
  · simp only [RecLoop.after_record, after_walk_cont_info, restore_attr_cont_info, hpart.1]
  · simp only [RecLoop.after_record, after_walk_cont_info, restore_attr_cont_info, hpart.2.1]
  · simp only [RecLoop.after_record, after_walk_cont_info, restore_attr_cont_info, hidx]
  · simp only [RecLoop.after_record, after_walk_cont_info, restore_attr_cont_info, hid]
  · simp only [RecLoop.after_record, after_walk_cont_info, restore_attr_cont_info, hpart.2.2,
      restore_attr_maxxed_out, hm, and_true]
  · intro trans_num is_cont
    exact (finish_search_attr_req_cont_info cfg env trans_num uid_seq attr_seq_sav is_cont _).1

/-- C29: the record loop of Search-Attribute-Fetch at a matching record `i`
when the attribute loop is left without `maxxed_out`, whatever range list it
was entered with. The loop goes on with the search behind the record `i` of
the store, with the range list as the client sent it, `next_attr_index` 0,
`last_attr_seq_desc_sent` false and `prev_sdp_rec` the record `i` of the
store. For the next matching record `j`, with room for its header, the
attribute loop starts at the index 0 with that range list, behind 3 bytes
reserved for the header. -/
theorem C29_next_record (cfg : Config) (env : Env) (max_list_len : Nat)
    (uid_seq : tSDP_UUID_SEQ) (attr_seq_sav : tSDP_ATTR_SEQ) (walk_fuel fuel : Nat)
    (l : RecLoop) (i : Nat) (w0 : Walk)
    (hroom : ¬ (l.st.ccb.cont_info.last_attr_seq_desc_sent = false ∧
      rem_len_of max_list_len l.p_rsp < 3))
    (hwalk : attr_walk cfg env l.st.ccb.device_address max_list_len walk_fuel
      (Walk.init (enter_record cfg env l.st i).1 (enter_record cfg env l.st i).2 l.attr_seq
        (if l.st.ccb.cont_info.last_attr_seq_desc_sent = false then l.p_rsp ++ [0, 0, 0]
          else l.p_rsp)) = some (.done w0))
    (hm : w0.maxxed_out = false) :
    ∃ l4, search_attr_records cfg env max_list_len uid_seq attr_seq_sav walk_fuel (fuel + 1) l
          (some i) =
        search_attr_records cfg env max_list_len uid_seq attr_seq_sav walk_fuel fuel l4
          (sdp_db_service_search env l4.st.db (some (.db i)) uid_seq) ∧
      l4.attr_seq = attr_seq_sav ∧
      l4.st.ccb.cont_info.next_attr_index = 0 ∧
      l4.st.ccb.cont_info.last_attr_seq_desc_sent = false ∧
      l4.st.ccb.cont_info.prev_sdp_rec = some (.db i) ∧
      l4.st.ccb.cont_info.attr_offset = w0.cont_info.attr_offset ∧
      (∀ j fuel2 w1, ¬ rem_len_of max_list_len l4.p_rsp < 3 →
        attr_walk cfg env l4.st.ccb.device_address max_list_len walk_fuel
          (Walk.init (enter_record cfg env l4.st j).1 (enter_record cfg env l4.st j).2
            attr_seq_sav (l4.p_rsp ++ [0, 0, 0])) = some (.done w1) →
        (Walk.init (enter_record cfg env l4.st j).1 (enter_record cfg env l4.st j).2
          attr_seq_sav (l4.p_rsp ++ [0, 0, 0])).xx = 0 ∧
        search_attr_records cfg env max_list_len uid_seq attr_seq_sav walk_fuel (fuel2 + 1) l4
            (some j) =
          if (restore_attr w1).maxxed_out = true then
            some (.done (l4.after_record cfg env attr_seq_sav j w1))
          else
            search_attr_records cfg env max_list_len uid_seq attr_seq_sav walk_fuel fuel2
              ((l4.after_record cfg env attr_seq_sav j w1).next_record attr_seq_sav j)
              (sdp_db_service_search env
                ((l4.after_record cfg env attr_seq_sav j w1).next_record attr_seq_sav j).st.db
                (some (.db j)) uid_seq)) := by
  refine ⟨(l.after_record cfg env attr_seq_sav i w0).next_record attr_seq_sav i,
    search_attr_records_drained cfg env max_list_len uid_seq attr_seq_sav walk_fuel fuel
      l i w0 hroom hwalk hm, rfl, rfl, rfl, rfl, ?_, ?_⟩
  · simp only [RecLoop.next_record, RecLoop.after_record, after_walk_cont_info,
      restore_attr_cont_info]
  · intro j fuel2 w1 hroom2 hwalk2
    have hfl : ((l.after_record cfg env attr_seq_sav i w0).next_record attr_seq_sav
        i).st.ccb.cont_info.last_attr_seq_desc_sent = false := rfl
    refine ⟨?_, ?_⟩
    · simp only [Walk.init, enter_record_ccb]
      rfl
    · apply search_attr_records_step cfg env max_list_len uid_seq attr_seq_sav walk_fuel fuel2
        ((l.after_record cfg env attr_seq_sav i w0).next_record attr_seq_sav i) j w1
        (fun h => hroom2 h.2)
      rw [if_pos hfl]
      exact hwalk2

set_option maxRecDepth 1000000 in
/-- C26, at the Search-Attribute-Fetch of the UUID 0x1101 from `db_serial`
with a budget of 24 bytes: behind the first record 23 bytes are used, and the
loop ends at the record 2 with no byte for it. The first frame carries the
first record, and the continuation frame starts with the header of the
record 2 and its first attribute. -/
theorem C26_no_room_for_header_witness :
    (∃ l1, search_attr_records bt_config bt_env 24 [⟨2, [0x11, 0x01]⟩] [⟨0, 0xFFFF⟩] 9 (0 + 1)
        (loop_serial_1 24) (some 2) = some (.done l1) ∧
      l1.p_rsp = (loop_serial_1 24).p_rsp ∧
      l1.st.ccb.cont_info = ⟨0, 0, some (.db 0), some (.db 2), false, 0⟩) ∧
    ((process_service_search_attr_req bt_config bt_env 9 (idle_state db_serial [] 672) 7 15
        (search_attr_req 24 [0]) 15).map Prod.snd =
      some (.response ([7, 0, 7, 0, 27, 0, 22, 0x35, 60] ++
        [0x36, 0, 17, 9, 0, 0, 13, 4, 0, 1, 0, 0, 9, 0, 1, 0x35, 3, 0x19, 0x11, 0x01] ++
        [2, 0, 22]))) ∧
    ((process_service_search_attr_req bt_config bt_env 9 (idle_state db_serial [] 672) 7 15
        (search_attr_req 24 [0]) 15).bind (fun r =>
      (process_service_search_attr_req bt_config bt_env 9 r.1 8 17
        (search_attr_req 24 [2, 0, 22]) 17).map Prod.snd) =
      some (.response ([7, 0, 8, 0, 29, 0, 24] ++
        [0x36, 0, 17, 9, 0, 0, 13, 4, 0, 1, 0, 2, 9, 0, 1, 0x35, 3, 0x19, 0x11, 0x01] ++
        [0x36, 0, 17, 9] ++ [2, 0, 46]))) :=
  ⟨match C26_no_room_for_header bt_config bt_env 24 [⟨2, [0x11, 0x01]⟩] [⟨0, 0xFFFF⟩] 9 0
      (loop_serial_1 24) 2 (by decide) (by decide) with
    | ⟨l1, h1, h2, _, h4, _, _⟩ => ⟨l1, h1, h2, h4.trans (by decide)⟩,
   by decide!, by decide!⟩

set_option maxRecDepth 1000000 in
/-- C27, at the first record of `db_serial` in a first frame with a budget of
30 bytes and the range 0x0000-0xFFFF, where `seq_len` is 17: the 3 reserved
bytes become `36 00 11`; and with the range 0x0200-0x0300, where `seq_len` is
0: the scratch bytes are the 3 bytes that were there before the record. -/
theorem C27_record_header_witness :
    (∃ rest, walk_serial_0.p_rsp = (loop_serial 30).p_rsp ++ [0, 0, 0] ++ rest ∧
      ((loop_serial 30).after_record bt_config bt_env [⟨0, 0xFFFF⟩] 0 walk_serial_0).p_rsp =
        (loop_serial 30).p_rsp ++
          (UINT8_TO_BE_STREAM
              ((bt_config.DATA_ELE_SEQ_DESC_TYPE <<< 3) ||| bt_config.SIZE_IN_NEXT_WORD) ++
            UINT16_TO_BE_STREAM
              (sdpu_get_attrib_seq_len bt_env (restore_attr walk_serial_0).p_rec
                [⟨0, 0xFFFF⟩])) ++ rest) ∧
    UINT8_TO_BE_STREAM
          ((bt_config.DATA_ELE_SEQ_DESC_TYPE <<< 3) ||| bt_config.SIZE_IN_NEXT_WORD) ++
        UINT16_TO_BE_STREAM
          (sdpu_get_attrib_seq_len bt_env (restore_attr walk_serial_0).p_rec [⟨0, 0xFFFF⟩]) =
      [0x36, 0, 17] ∧
    (RecLoop.after_record bt_config bt_env [⟨0x0200, 0x0300⟩]
      ⟨(loop_serial 30).st, [⟨0x0200, 0x0300⟩], [0, 0, 0], 0⟩ 0
      { Walk.init (enter_record bt_config bt_env (loop_serial 30).st 0).1
          (enter_record bt_config bt_env (loop_serial 30).st 0).2 [⟨0x0200, 0x0300⟩]
          ([0, 0, 0] ++ [0, 0, 0]) with xx := 1 }).p_rsp =
      (RecLoop.mk (loop_serial 30).st [⟨0x0200, 0x0300⟩] [0, 0, 0] 0).p_rsp :=
  ⟨match C27_record_header bt_config bt_env 30 [⟨2, [0x11, 0x01]⟩] [⟨0, 0xFFFF⟩] 9 0
      (loop_serial 30) 0 walk_serial_0 (by decide!) (by decide!) (by decide!) with
    | ⟨rest, h1, _, h3, _⟩ => ⟨rest, h1, (h3 (by decide!)).1⟩,
   by decide!,
   match C27_record_header bt_config bt_env 30 [⟨2, [0x11, 0x01]⟩] [⟨0x0200, 0x0300⟩] 9 0
      ⟨(loop_serial 30).st, [⟨0x0200, 0x0300⟩], [0, 0, 0], 0⟩ 0
      { Walk.init (enter_record bt_config bt_env (loop_serial 30).st 0).1
          (enter_record bt_config bt_env (loop_serial 30).st 0).2 [⟨0x0200, 0x0300⟩]
          ([0, 0, 0] ++ [0, 0, 0]) with xx := 1 }
      (by decide!) (by decide!) (by decide!) with
    | ⟨_, _, h2, _⟩ => h2 (by decide!)⟩

set_option maxRecDepth 1000000 in
/-- The record 2 of `db_serial` in a first frame with a budget of 30
bytes: the attribute loop stops 4 bytes into the attribute 0, and the record
loop ends with `prev_sdp_rec` the record 0, the resume index 0 and id 0, and
`last_attr_seq_desc_sent` set. -/
theorem budget_runs_out_in_record_at_db_serial :
    search_attr_records bt_config bt_env 30 [⟨2, [0x11, 0x01]⟩] [⟨0, 0xFFFF⟩] 9 (0 + 1)
        (loop_serial_1 30) (some 2) =
      some (.done ((loop_serial_1 30).after_record bt_config bt_env [⟨0, 0xFFFF⟩] 2
        walk_serial_2)) ∧
    ((loop_serial_1 30).after_record bt_config bt_env [⟨0, 0xFFFF⟩] 2
      walk_serial_2).st.ccb.cont_info = ⟨0, 0, some (.db 0), some (.db 2), true, 4⟩ :=
  ⟨(budget_runs_out_in_record bt_config bt_env 30 [⟨2, [0x11, 0x01]⟩] [⟨0, 0xFFFF⟩] 9 0
      (loop_serial_1 30) 2 walk_serial_2 (by decide) (by decide) (Or.inl (by decide)) rfl).1,
   by decide⟩

set_option maxRecDepth 1000000 in
/-- C28, the code at a failing input. The first frame of the
Search-Attribute-Fetch of the UUID 0x1101 from `db_serial` with the range
0x0000-0xFFFF and a budget of 20 bytes leaves the stored offset 19, the record
0 in progress and its attribute 1 cut after 5 bytes: resume index 0, resume id
1. A continuation request with the token 19, a budget of 3 bytes and the
attribute list of the single id 0x0000 and the range 0x0000-0xFFFF is accepted
on the offset. The entry 0, re-armed at the id 1, finds no attribute; the
entry 1 finds the attribute 0 of the record, from which the bytes 5 to 7 are
copied, and the budget runs out at the break for a pending offset (lines
1110-1113), which does not write the resume point. The loop stopped at the
index 1 and the attribute 0; the resume point after the frame is the index 0
and the id 1. -/
theorem C28_resume_point_not_written :
    process_service_search_attr_req bt_config bt_env 9 (idle_state db_serial [] 672) 7 15
        (search_attr_req 20 [0]) 15 =
      some (state_serial_frame1,
        .response ([7, 0, 7, 0, 24, 0, 19] ++
          [0x35, 60, 0x36, 0, 17, 9, 0, 0, 13, 4, 0, 1, 0, 0, 9, 0, 1, 0x35, 3] ++ [2, 0, 19])) ∧
    state_serial_frame1.ccb.cont_info = ⟨0, 1, none, some (.db 0), true, 5⟩ ∧
    bt_env.sdpu_extract_attr_seq ((search_attr_req_two 3 [2, 0, 19]).drop 7) 20 =
      some (10, [⟨0, 0⟩, ⟨0, 0xFFFF⟩]) ∧
    (process_service_search_attr_req bt_config bt_env 9 state_serial_frame1 8 20
        (search_attr_req_two 3 [2, 0, 19]) 20).map (fun r => (r.2, r.1.ccb.cont_info)) =
      some (.response ([7, 0, 8, 0, 8] ++ [0, 3] ++ [0, 1, 0] ++ [2, 0, 22]),
        ⟨0, 1, none, some (.db 0), true, 8⟩) ∧
    (attr_walk bt_config bt_env [] 3 9
        (Walk.init state_serial_frame1 (.db 0) [⟨1, 0⟩, ⟨0, 0xFFFF⟩] [])).map
        (fun e => (e.walk.xx, e.walk.p_attr, e.walk.cont_info, e.walk.maxxed_out,
          e.walk.p_rsp)) =
      some (1, some 0, ⟨0, 1, none, some (.db 0), true, 8⟩, true, [0, 1, 0]) ∧
    sdp_db_find_attr_in_rec (db_serial.getD 0 ⟨0, []⟩) 1 0 = none ∧
    sdp_db_find_attr_in_rec (db_serial.getD 0 ⟨0, []⟩) 0 0xFFFF = some 0 ∧
    ((db_serial.getD 0 ⟨0, []⟩).attr 0).id = 0 ∧
    ((bt_env.sdpu_build_attrib_entry ((db_serial.getD 0 ⟨0, []⟩).attr 0)).drop 5).take 3 =
      [0, 1, 0] := by
  decide!

set_option maxRecDepth 1000000 in
/-- C29, at the continuation frame that follows `state_serial_frame1`: the
attribute loop over the first record, entered with the range 0x0001-0xFFFF,
appends the rest of the attribute 1 and is left with the range
0x0002-0xFFFF; the record loop goes on behind the record 0 with the range
0x0000-0xFFFF. -/
theorem C29_next_record_witness :
    walk_serial_resumed.attr_seq = [⟨2, 0xFFFF⟩] ∧
    ∃ l4, search_attr_records bt_config bt_env 20 [⟨2, [0x11, 0x01]⟩] [⟨0, 0xFFFF⟩] 9 (1 + 1)
          loop_serial_resumed (some 0) =
        search_attr_records bt_config bt_env 20 [⟨2, [0x11, 0x01]⟩] [⟨0, 0xFFFF⟩] 9 1 l4
          (sdp_db_service_search bt_env l4.st.db (some (.db 0)) [⟨2, [0x11, 0x01]⟩]) ∧
      l4.attr_seq = [⟨0, 0xFFFF⟩] ∧
      l4.st.ccb.cont_info.next_attr_index = 0 ∧
      l4.st.ccb.cont_info.last_attr_seq_desc_sent = false ∧
      l4.st.ccb.cont_info.prev_sdp_rec = some (.db 0) :=
  ⟨rfl,
   match C29_next_record bt_config bt_env 20 [⟨2, [0x11, 0x01]⟩] [⟨0, 0xFFFF⟩] 9 1
      loop_serial_resumed 0 walk_serial_resumed (by decide) (by decide) rfl with
    | ⟨l4, h1, h2, h3, h4, h5, _⟩ => ⟨l4, h1, h2, h3, h4, h5⟩⟩

/-! ## Search: handles behind the collected ones -/

set_option maxRecDepth 1000000 in
/-- C31, the code at failing inputs. On a connection with MTU 20 a Search for
the UUID 0x1101 against `db_serial` sends two of three handles and stores the
offset 2. When two of the matching records are gone and the client repeats
the request with the token 2, the handler collects 1 handle and sends a frame
with the total 1 and 2 handles, `rsp_handles[2]` and `rsp_handles[3]`: the
offset 2 plus the count 2 is 4, above the total. Against an empty store each
repeated request adds 2 to the stored offset; after 14 of them the offset is
30, and the next frame copies `rsp_handles[30]` and `rsp_handles[31]`, where
the array has `SDP_MAX_RECORDS` = 30 entries. -/
theorem C31_window_behind_the_total :
    process_service_search bt_config bt_env (idle_state db_serial [] 20) 7 8
        (search_req 30 [0]) 8 =
      some (state_search_frame1 db_serial,
        .response ([3, 0, 7, 0, 15] ++ [0, 3, 0, 2] ++ [0, 1, 0, 0, 0, 1, 0, 2] ++ [2, 0, 2])) ∧
    (process_service_search bt_config bt_env (state_search_frame1 (db_serial.take 1)) 8 10
        (search_req 30 [2, 0, 2]) 10).map Prod.snd =
      some (.response ([3, 0, 8, 0, 15] ++ [0, 1, 0, 2] ++ [0, 0, 0, 0, 0, 0, 0, 0] ++
        [2, 0, 4])) ∧
    process_service_search_handle_reads bt_config bt_env (state_search_frame1 (db_serial.take 1))
        10 (search_req 30 [2, 0, 2]) 10 = [2, 3] ∧
    collect_handles bt_env (db_serial.take 1) [⟨2, [0x11, 0x01]⟩] 30 none = [0x10000] ∧
    search_replays bt_config bt_env 8 (search_req 30 []) 14 (state_search_frame1 []) =
      some { state_search_frame1 [] with ccb := { idle_ccb [] 20 with cont_offset := 30 } } ∧
    process_service_search_handle_reads bt_config bt_env
        { state_search_frame1 [] with ccb := { idle_ccb [] 20 with cont_offset := 30 } }
        10 (search_req 30 [2, 0, 30]) 10 = [30, 31] ∧
    bt_config.SDP_MAX_RECORDS = 30 := by
  decide!

/-! ## Attribute-Fetch: a continuation frame without payload -/

set_option maxRecDepth 1000000 in
/-- C32, the code at failing inputs. After the first frame of the
Attribute-Fetch of `rec_three` (`state_three_frame1`: offset 11 of 17, the
attribute 2 cut after 4 bytes) the attributes 2 and 0xFFFF are deleted. The
continuation request with the token 11 is accepted; the attribute loop finds
no attribute, and the handler sends a frame with a payload of 0 bytes and the
token 11 again, leaving the connection as it found it: the same request gets
the same frame each time. The same frame answers a continuation request whose
maximum length is 0, with the record unchanged. -/
theorem C32_token_not_advanced :
    process_service_attr_req bt_config bt_env 9 { state_three_frame1 with db := [rec_one] } 8 16
        (attr_req 0 12 [2, 0, 11]) 16 =
      some ({ state_three_frame1 with
          db := [rec_one]
          ccb := { state_three_frame1.ccb with rsp_list := [], rsp_list_size := 12 } },
        .response ([5, 0, 8, 0, 5] ++ [0, 0] ++ [2, 0, 11])) ∧
    process_service_attr_req bt_config bt_env 9
        { state_three_frame1 with
          db := [rec_one]
          ccb := { state_three_frame1.ccb with rsp_list := [], rsp_list_size := 12 } } 8 16
        (attr_req 0 12 [2, 0, 11]) 16 =
      some ({ state_three_frame1 with
          db := [rec_one]
          ccb := { state_three_frame1.ccb with rsp_list := [], rsp_list_size := 12 } },
        .response ([5, 0, 8, 0, 5] ++ [0, 0] ++ [2, 0, 11])) ∧
    (process_service_attr_req bt_config bt_env 9 state_three_frame1 8 16
        (attr_req 0 0 [2, 0, 11]) 16).map (fun r => (r.1.ccb.cont_offset, r.2)) =
      some (11, .response ([5, 0, 8, 0, 5] ++ [0, 0] ++ [2, 0, 11])) := by
  decide!

/-! ## The remaining budget in 16 signed bits -/

set_option maxRecDepth 1000000 in
/-- C33, the code at failing inputs. On a connection with the MTU 65535 the
maximum length 40000 is not capped. With 3 bytes placed the remaining budget
is 39997, which the `INT16` variable `rem_len` holds as -25539; with no byte
placed, 40000 is held as -25536, and 32768 as -32768. The loop takes the
budget as used up before the first attribute: the first frame of the
Attribute-Fetch of `rec_three` carries the 2 bytes of the sequence header and
the token 2, and each continuation frame carries no byte and the token 2
again. The first frame of a Search-Attribute-Fetch carries the 2 header bytes
only. -/
theorem C33_budget_wraps :
    cap_max_list_len 40000 65535 SDP_MAX_ATTR_RSPHDR_LEN = 40000 ∧
    rem_len_of 40000 [0, 0, 0] = -25539 ∧
    rem_len_of 40000 [] = -25536 ∧
    rem_len_of 32768 [] = -32768 ∧
    rem_len_of 32767 [] = 32767 ∧
    process_service_attr_req bt_config bt_env 9 (idle_state [rec_three] [] 65535) 7 14
        (attr_req 0 40000 [0]) 14 =
      some (state_wide_frame1, .response ([5, 0, 7, 0, 7] ++ [0, 2] ++ [0x35, 15] ++ [2, 0, 2])) ∧
    (process_service_attr_req bt_config bt_env 9 state_wide_frame1 8 16
        (attr_req 0 40000 [2, 0, 2]) 16).map (fun r => (r.1.ccb.cont_offset, r.2)) =
      some (2, .response ([5, 0, 8, 0, 5] ++ [0, 0] ++ [2, 0, 2])) ∧
    (process_service_search_attr_req bt_config bt_env 9 (idle_state db_serial [] 65535) 7 15
        (search_attr_req 40000 [0]) 15).map Prod.snd =
      some (.response ([7, 0, 7, 0, 7] ++ [0, 2] ++ [0x35, 60] ++ [2, 0, 2])) := by
  decide!

/-! ## The dispatcher and a message shorter than its header -/

theorem dispatch_short (cfg : Config) (p_msg : BT_HDR) (h : p_msg.len < 5) :
    dispatch cfg p_msg =
      .send_error (BE_STREAM_TO_UINT16 p_msg.data 1) .SDP_INVALID_PDU_SIZE := by
  have hne : 5 + BE_STREAM_TO_UINT16 p_msg.data 3 ≠ p_msg.len := by omega
  simp only [dispatch, hne, ne_eq, not_false_eq_true, ↓reduceIte]

/-- C34, the code at failing inputs. For the empty message and for a message
of 4 bytes the dispatcher reads the 5 bytes at the offsets 0 to 4 before it
tests the length, so it reads behind the message; it then sends
`SDP_INVALID_PDU_SIZE` and calls no handler. For a message of 2 bytes with
the bytes 9, 9, 9 behind it in memory, the transaction number of the error
is 9, the byte at the offset 2. -/
theorem C34_reads_behind_a_short_message :
    sdp_server_handle_client_req_reads ⟨0, []⟩ = [0, 1, 2, 3, 4] ∧
    dispatch bt_config ⟨0, []⟩ = .send_error 0 .SDP_INVALID_PDU_SIZE ∧
    sdp_server_handle_client_req_reads ⟨4, [2, 0, 7, 0]⟩ = [0, 1, 2, 3, 4] ∧
    dispatch bt_config ⟨4, [2, 0, 7, 0]⟩ = .send_error 7 .SDP_INVALID_PDU_SIZE ∧
    sdp_server_handle_client_req_reads ⟨2, [2, 0, 9, 9, 9]⟩ = [0, 1, 2, 3, 4] ∧
    dispatch bt_config ⟨2, [2, 0, 9, 9, 9]⟩ = .send_error 9 .SDP_INVALID_PDU_SIZE := by
  decide!

/-! ## A continuation sent to another handler -/

set_option maxRecDepth 1000000 in
/-- C35, the code at failing inputs. A Search on a connection with MTU 20
leaves the stored offset 2 (`state_search_frame1`). An Attribute-Fetch for
the handle 0x10000 that carries the continuation token 2 is accepted and
answered with a frame: 10 bytes from the start of the attribute list, with no
sequence header, and the terminator; a Search-Attribute-Fetch with the token
2 is answered with a frame as well. An Attribute-Fetch leaves the stored
offset 11 (`state_three_frame1`); a Search with the token 11 is answered with
a frame, and the stored offset becomes 176. -/
theorem C35_continuation_of_another_kind :
    process_service_search bt_config bt_env (idle_state db_serial [] 20) 7 8
        (search_req 30 [0]) 8 =
      some (state_search_frame1 db_serial,
        .response ([3, 0, 7, 0, 15] ++ [0, 3, 0, 2] ++ [0, 1, 0, 0, 0, 1, 0, 2] ++ [2, 0, 2])) ∧
    (process_service_attr_req bt_config bt_env 9 (state_search_frame1 db_serial) 8 16
        (attr_req 0 600 [2, 0, 2]) 16).map Prod.snd =
      some (.response ([5, 0, 8, 0, 13] ++ [0, 10] ++ [9, 0, 0, 13, 4, 0, 1, 0, 0, 9] ++ [0])) ∧
    (process_service_search_attr_req bt_config bt_env 9 (state_search_frame1 db_serial) 8 17
        (search_attr_req 600 [2, 0, 2]) 17).map Prod.snd =
      some (.response ([7, 0, 8, 0, 13] ++ [0, 10] ++ [0x36, 0, 17, 9, 0, 0, 13, 4, 0, 1] ++
        [0])) ∧
    (process_service_search bt_config bt_env state_three_frame1 8 10
        (search_req 30 [2, 0, 11]) 10).map (fun r => (r.1.ccb.cont_offset, r.2.is_response)) =
      some (176, true) := by
  decide!

/-! ## The length reduction for a rewritten PBAP record -/

set_option maxRecDepth 1000000 in
/-- C36, the code at failing inputs. For the list of the range 0x0000-0xFFFF
and the single id 0x0200 the reduction is 20; for the same two entries in the
other order it is 14, because a range assigns 14 where a single id adds; for
the single ids 0x0200, 0x0200 and 0x0317 it is 20. A Search-Attribute-Fetch
for `rec_pbap` from a peer on the PBAP blacklist is answered with the same 34
attribute bytes for both orders; with the range first the frame announces 37
bytes and ends with the terminator, with the single id first it announces 43
bytes and ends with a continuation token. -/
theorem C36_reduction_depends_on_order :
    blacklist_skip bt_config [⟨0, 0xFFFF⟩, ⟨0x0200, 0x0200⟩] 0 = 20 ∧
    blacklist_skip bt_config [⟨0x0200, 0x0200⟩, ⟨0, 0xFFFF⟩] 0 = 14 ∧
    blacklist_skip bt_config [⟨0x0200, 0x0200⟩, ⟨0x0200, 0x0200⟩, ⟨0x0317, 0x0317⟩] 0 = 20 ∧
    (process_service_search_attr_req bt_config pbap_env 9
        (idle_state [rec_pbap] peer_blacklisted 672) 7 18
        (search_attr_req_pbap_list [0x0A, 0, 0, 0xFF, 0xFF, 0x09, 0x02, 0x00] [0]) 18).map
        (fun r => (r.1.ccb.list_len, r.2)) =
      some (39, .response ([7, 0, 7, 0, 42] ++ [0, 39] ++ [0x35, 37] ++ [0x36, 0, 34] ++
        copy_of_rec_pbap.attributes.flatMap pbap_env.sdpu_build_attrib_entry ++ [0])) ∧
    (process_service_search_attr_req bt_config pbap_env 9
        (idle_state [rec_pbap] peer_blacklisted 672) 7 18
        (search_attr_req_pbap_list [0x09, 0x02, 0x00, 0x0A, 0, 0, 0xFF, 0xFF] [0]) 18).map
        (fun r => (r.1.ccb.list_len, r.2)) =
      some (45, .response ([7, 0, 7, 0, 44] ++ [0, 39] ++ [0x35, 43] ++ [0x36, 0, 34] ++
        copy_of_rec_pbap.attributes.flatMap pbap_env.sdpu_build_attrib_entry ++
        [2, 0, 39])) := by
  decide!

/-! ## Search-Attribute-Fetch when no record matches -/

theorem matching_records_none (env : Env) (db : List tSDP_RECORD) (uid_seq : tSDP_UUID_SEQ)
    (hno : ∀ r ∈ db, env.record_matches r uid_seq = false) :
    matching_records env db uid_seq = [] := by
  unfold matching_records
  rw [List.filter_eq_nil_iff]
  intro r hr
  rw [hno r hr]
  simp

theorem sdp_db_service_search_none (env : Env) (db : List tSDP_RECORD) (uid_seq : tSDP_UUID_SEQ)
    (hno : ∀ r ∈ db, env.record_matches r uid_seq = false) :
    sdp_db_service_search env db none uid_seq = none := by
  unfold sdp_db_service_search
  dsimp only
  rw [List.drop_zero]
  exact db_search_from_eq_none _ db 0 hno

/-- C37: a Search-Attribute-Fetch request without continuation (the byte 0
behind the attribute list, at the end of the parameters) whose lists parse
and are not empty, with an effective maximum length of at least 3, against a
store in which no record matches the UUID list. The response frame carries
the payload length 2, the one-byte-length sequence descriptor and the length
0, and the terminator 0; the stored offset and the total length are 2, and
the 3 scratch bytes used are within the scratch buffer. -/
theorem C37_no_matching_record (cfg : Config) (env : Env) (fuel : Nat) (st : State)
    (trans_num param_len : Nat) (front : List Nat) (p1 n : Nat)
    (uid_seq : tSDP_UUID_SEQ) (attr_seq : tSDP_ATTR_SEQ)
    (hfl : front.length = p1 + 2 + n)
    (hp : env.sdpu_extract_uid_seq (front ++ [0]) param_len = some (p1, uid_seq))
    (hu : uid_seq ≠ [])
    (hpa : env.sdpu_extract_attr_seq ((front ++ [0]).drop (p1 + 2)) param_len =
      some (n, attr_seq))
    (ha : attr_seq ≠ [])
    (hno : ∀ r ∈ st.db, env.record_matches r uid_seq = false)
    (hmax : 3 ≤ cap_max_list_len (BE_STREAM_TO_UINT16 (front ++ [0]) p1) st.ccb.rem_mtu_size
      SDP_MAX_SERVATTR_RSPHDR_LEN) :
    ∃ st1, process_service_search_attr_req cfg env fuel st trans_num param_len (front ++ [0])
          (front ++ [0]).length =
        some (st1, .response (UINT8_TO_BE_STREAM cfg.SDP_PDU_SERVICE_SEARCH_ATTR_RSP ++
          UINT16_TO_BE_STREAM trans_num ++ UINT16_TO_BE_STREAM 5 ++
          (UINT16_TO_BE_STREAM 2 ++
            [UINT8 ((cfg.DATA_ELE_SEQ_DESC_TYPE <<< 3) ||| cfg.SIZE_IN_NEXT_BYTE), 0] ++
            UINT8_TO_BE_STREAM 0))) ∧
      st1.ccb.cont_offset = 2 ∧ st1.ccb.list_len = 2 ∧
      st1.ccb.rsp_list.length = 3 ∧ st1.ccb.rsp_list.length ≤ st1.ccb.rsp_list_size ∧
      st1.db = st.db := by
  have heq := process_service_search_attr_req_eq cfg env fuel st trans_num param_len
    (front ++ [0]) (front ++ [0]).length p1 n uid_seq attr_seq hp hu hpa ha
  rw [← hfl, check_continuation_tail_fresh] at heq
  have hsearch : sdp_db_service_search env st.db none uid_seq = none :=
    sdp_db_service_search_none env st.db uid_seq hno
  have hlist : sdpu_get_list_len env st.db uid_seq attr_seq = 0 := by
    simp only [sdpu_get_list_len, matching_records_none env st.db uid_seq hno, List.map_nil,
      List.sum_nil]
    rfl
  have hrun : run_search_attr_req cfg env fuel
      ((st.realloc_rsp_list (cap_max_list_len (BE_STREAM_TO_UINT16 (front ++ [0]) p1)
        st.ccb.rem_mtu_size SDP_MAX_SERVATTR_RSPHDR_LEN)).reset_cont true) trans_num
      (cap_max_list_len (BE_STREAM_TO_UINT16 (front ++ [0]) p1) st.ccb.rem_mtu_size
        SDP_MAX_SERVATTR_RSPHDR_LEN) uid_seq attr_seq attr_seq false [0, 0, 0] =
      some (finish_search_attr_req cfg env trans_num uid_seq attr_seq false
        ⟨(st.realloc_rsp_list (cap_max_list_len (BE_STREAM_TO_UINT16 (front ++ [0]) p1)
          st.ccb.rem_mtu_size SDP_MAX_SERVATTR_RSPHDR_LEN)).reset_cont true, attr_seq,
          [0, 0, 0], 0⟩) := by
    unfold run_search_attr_req
    have h1 : sdp_db_service_search env
        ((st.realloc_rsp_list (cap_max_list_len (BE_STREAM_TO_UINT16 (front ++ [0]) p1)
          st.ccb.rem_mtu_size SDP_MAX_SERVATTR_RSPHDR_LEN)).reset_cont true).db
        ((st.realloc_rsp_list (cap_max_list_len (BE_STREAM_TO_UINT16 (front ++ [0]) p1)
          st.ccb.rem_mtu_size SDP_MAX_SERVATTR_RSPHDR_LEN)).reset_cont
            true).ccb.cont_info.prev_sdp_rec uid_seq = none := hsearch
    rw [h1, search_attr_records_none]
  dsimp only at heq
  rw [hrun] at heq
  have hfin : finish_search_attr_req cfg env trans_num uid_seq attr_seq false
      ⟨(st.realloc_rsp_list (cap_max_list_len (BE_STREAM_TO_UINT16 (front ++ [0]) p1)
        st.ccb.rem_mtu_size SDP_MAX_SERVATTR_RSPHDR_LEN)).reset_cont true, attr_seq,
        [0, 0, 0], 0⟩ =
      ({ (st.realloc_rsp_list (cap_max_list_len (BE_STREAM_TO_UINT16 (front ++ [0]) p1)
          st.ccb.rem_mtu_size SDP_MAX_SERVATTR_RSPHDR_LEN)).reset_cont true with
        ccb := { ((st.realloc_rsp_list (cap_max_list_len (BE_STREAM_TO_UINT16 (front ++ [0]) p1)
            st.ccb.rem_mtu_size SDP_MAX_SERVATTR_RSPHDR_LEN)).reset_cont true).ccb with
          rsp_list := [0, UINT8 ((cfg.DATA_ELE_SEQ_DESC_TYPE <<< 3) ||| cfg.SIZE_IN_NEXT_BYTE), 0]
          list_len := 2
          cont_offset := 2 } },
        .response (UINT8_TO_BE_STREAM cfg.SDP_PDU_SERVICE_SEARCH_ATTR_RSP ++
          UINT16_TO_BE_STREAM trans_num ++ UINT16_TO_BE_STREAM 5 ++
          (UINT16_TO_BE_STREAM 2 ++
            [UINT8 ((cfg.DATA_ELE_SEQ_DESC_TYPE <<< 3) ||| cfg.SIZE_IN_NEXT_BYTE), 0] ++
            UINT8_TO_BE_STREAM 0))) := by
    have hdb : ((st.realloc_rsp_list (cap_max_list_len (BE_STREAM_TO_UINT16 (front ++ [0]) p1)
        st.ccb.rem_mtu_size SDP_MAX_SERVATTR_RSPHDR_LEN)).reset_cont true).db = st.db := rfl
    simp only [finish_search_attr_req, hdb, hlist]
    rfl
  rw [hfin] at heq
  refine ⟨_, heq, rfl, rfl, rfl, ?_, rfl⟩
  exact hmax

/-- C37, at a Search-Attribute-Fetch for the UUID 0x1105, which no record of
`db_serial` has, with the maximum length 600: the frame is
`07 00 07 00 05 00 02 35 00 00`. -/
theorem C37_no_matching_record_witness :
    ∃ st1, process_service_search_attr_req bt_config bt_env 9 (idle_state db_serial [] 672) 7 15
          ([0x35, 3, 0x19, 0x11, 0x05, 2, 88, 0x35, 5, 0x0A, 0, 0, 0xFF, 0xFF] ++ [0])
          ([0x35, 3, 0x19, 0x11, 0x05, 2, 88, 0x35, 5, 0x0A, 0, 0, 0xFF, 0xFF] ++ [0]).length =
        some (st1, .response (UINT8_TO_BE_STREAM bt_config.SDP_PDU_SERVICE_SEARCH_ATTR_RSP ++
          UINT16_TO_BE_STREAM 7 ++ UINT16_TO_BE_STREAM 5 ++
          (UINT16_TO_BE_STREAM 2 ++
            [UINT8 ((bt_config.DATA_ELE_SEQ_DESC_TYPE <<< 3) ||| bt_config.SIZE_IN_NEXT_BYTE),
              0] ++
            UINT8_TO_BE_STREAM 0))) ∧
      st1.ccb.cont_offset = 2 ∧ st1.ccb.list_len = 2 ∧
      st1.ccb.rsp_list.length = 3 ∧ st1.ccb.rsp_list.length ≤ st1.ccb.rsp_list_size ∧
      st1.db = (idle_state db_serial [] 672).db :=
  C37_no_matching_record bt_config bt_env 9 (idle_state db_serial [] 672) 7 15
    [0x35, 3, 0x19, 0x11, 0x05, 2, 88, 0x35, 5, 0x0A, 0, 0, 0xFF, 0xFF] 5 7
    [⟨2, [0x11, 0x05]⟩] [⟨0, 0xFFFF⟩]
    (by decide) (by decide) (by decide) (by decide) (by decide) (by decide) (by decide)

/-! ## Rewrite and restore of one attribute -/

theorem list_set_getD (l : List Nat) (i x : Nat) (h : l.getD i 0 = x) : l.set i x = l := by
  induction l generalizing i with
  | nil => rfl
  | cons a as ih =>
    cases i with
    | zero =>
      simp only [List.getD_cons_zero] at h
      simp only [List.set_cons_zero, h]
    | succ i =>
      simp only [List.getD_cons_succ] at h
      simp only [List.set_cons_succ, ih i h]

theorem setv_setv (a : tSDP_ATTRIBUTE) (i x y : Nat) : (a.setv i x).setv i y = a.setv i y := by
  simp only [tSDP_ATTRIBUTE.setv, List.set_set]

theorem setv_rdv (a : tSDP_ATTRIBUTE) (i x : Nat) (h : a.rdv i = x) : a.setv i x = a := by
  simp only [tSDP_ATTRIBUTE.setv, list_set_getD a.value_ptr i x h]

theorem setv_id (a : tSDP_ATTRIBUTE) (i x : Nat) : (a.setv i x).id = a.id := rfl

theorem setv_len (a : tSDP_ATTRIBUTE) (i x : Nat) : (a.setv i x).len = a.len := rfl

set_option maxRecDepth 1000000 in
theorem browse_bit_back : ∀ x < 256, x &&& 0x40 = 0x40 → (x &&& (255 - 0x40)) ||| 0x40 = x := by
  decide

set_option maxRecDepth 1000000 in
theorem cover_art_bit_back : ∀ x < 256, x &&& 0x01 = 0x01 → (x &&& (255 - 0x01)) ||| 0x01 = x := by
  decide

/-- The result of `sdp_fallback_avrcp_version`: the attribute as it was, or,
for a profile descriptor list, the attribute with the version byte written;
the result is FALSE with a byte written only when the stored version is
`AVRC_REV_1_6`. -/
theorem fallback_avrcp_cases (cfg : Config) (env : Env) (a : tSDP_ATTRIBUTE) (addr : BD_ADDR) :
    sdp_fallback_avrcp_version cfg env a addr = (a, false) ∨
      (a.id = cfg.ATTR_ID_BT_PROFILE_DESC_LIST ∧
        ∃ v, sdp_fallback_avrcp_version cfg env a addr =
          (a.setv PROFILE_VERSION_POSITION v, true)) ∨
      (a.id = cfg.ATTR_ID_BT_PROFILE_DESC_LIST ∧
        sdp_fallback_avrcp_version cfg env a addr =
          (a.setv PROFILE_VERSION_POSITION (cfg.AVRC_REV_1_6 % 256).toNat, false)) := by
  unfold sdp_fallback_avrcp_version
  dsimp only
  split_ifs with h1 h2 h3 h4 h5
  · exact Or.inr (Or.inl ⟨h1.1, _, rfl⟩)
  · by_cases h6 : sdp_get_stored_avrc_tg_version cfg env addr = cfg.AVRC_REV_1_6
    · right
      right
      refine ⟨h1.1, ?_⟩
      rw [h6]
      simp
    · right
      left
      refine ⟨h1.1, (sdp_get_stored_avrc_tg_version cfg env addr % 256).toNat, ?_⟩
      simp only [ne_eq, h6, not_false_eq_true, decide_True]
  · exact Or.inr (Or.inl ⟨h1.1, _, rfl⟩)
  · exact Or.inl rfl
  · exact Or.inl rfl
  · exact Or.inl rfl

theorem reset_browsing_cases (cfg : Config) (env : Env) (attr a : tSDP_ATTRIBUTE)
    (addr : BD_ADDR) :
    sdp_reset_avrcp_browsing_bit cfg env attr a addr = (a, false) ∨
      (a.id = cfg.ATTR_ID_SUPPORTED_FEATURES ∧
        sdp_reset_avrcp_browsing_bit cfg env attr a addr =
          (a.setv AVRCP_SUPPORTED_FEATURES_POSITION
            (a.rdv AVRCP_SUPPORTED_FEATURES_POSITION &&& (255 - AVRCP_BROWSE_SUPPORT_BITMASK)),
            true)) := by
  unfold sdp_reset_avrcp_browsing_bit
  dsimp only
  split_ifs with h1 h2 h3
  · exact Or.inr ⟨h1.1, rfl⟩
  · exact Or.inr ⟨h1.1, rfl⟩
  · exact Or.inl rfl
  · exact Or.inl rfl

theorem reset_cover_art_cases (cfg : Config) (env : Env) (attr a : tSDP_ATTRIBUTE)
    (addr : BD_ADDR) :
    sdp_reset_avrcp_cover_art_bit cfg env attr a addr = (a, false) ∨
      (a.id = cfg.ATTR_ID_SUPPORTED_FEATURES ∧
        sdp_reset_avrcp_cover_art_bit cfg env attr a addr =
          (a.setv (AVRCP_SUPPORTED_FEATURES_POSITION - 1)
            (a.rdv (AVRCP_SUPPORTED_FEATURES_POSITION - 1) &&& (255 - AVRCP_CA_SUPPORT_BITMASK)),
            true)) := by
  unfold sdp_reset_avrcp_cover_art_bit
  dsimp only
  split_ifs with h1 h2
  · exact Or.inr ⟨h1.1, rfl⟩
  · exact Or.inl rfl
  · exact Or.inl rfl

theorem change_hfp_cases (cfg : Config) (env : Env) (a : tSDP_ATTRIBUTE) (addr : BD_ADDR) :
    sdp_change_hfp_version cfg env a addr = (a, false) ∨
      (a.id = cfg.ATTR_ID_BT_PROFILE_DESC_LIST ∧
        sdp_change_hfp_version cfg env a addr = (a.setv PROFILE_VERSION_POSITION 0x07, true)) := by
  unfold sdp_change_hfp_version
  dsimp only
  split_ifs with h1 h2 h3
  · exact Or.inr ⟨h1.1, rfl⟩
  · exact Or.inl rfl
  · exact Or.inl rfl
  · exact Or.inl rfl
theorem fallback_avrcp_other (cfg : Config) (env : Env) (a : tSDP_ATTRIBUTE) (addr : BD_ADDR)
    (h : a.id ≠ cfg.ATTR_ID_BT_PROFILE_DESC_LIST) :
    sdp_fallback_avrcp_version cfg env a addr = (a, false) := by
  rcases fallback_avrcp_cases cfg env a addr with c | ⟨i, _⟩ | ⟨i, _⟩
  · exact c
  · exact absurd i h
  · exact absurd i h

theorem change_hfp_other (cfg : Config) (env : Env) (a : tSDP_ATTRIBUTE) (addr : BD_ADDR)
    (h : a.id ≠ cfg.ATTR_ID_BT_PROFILE_DESC_LIST) :
    sdp_change_hfp_version cfg env a addr = (a, false) := by
  rcases change_hfp_cases cfg env a addr with c | ⟨i, _⟩
  · exact c
  · exact absurd i h

theorem reset_browsing_other (cfg : Config) (env : Env) (attr a : tSDP_ATTRIBUTE)
    (addr : BD_ADDR) (h : a.id ≠ cfg.ATTR_ID_SUPPORTED_FEATURES) :
    sdp_reset_avrcp_browsing_bit cfg env attr a addr = (a, false) := by
  rcases reset_browsing_cases cfg env attr a addr with c | ⟨i, _⟩
  · exact c
  · exact absurd i h

theorem reset_cover_art_other (cfg : Config) (env : Env) (attr a : tSDP_ATTRIBUTE)
    (addr : BD_ADDR) (h : a.id ≠ cfg.ATTR_ID_SUPPORTED_FEATURES) :
    sdp_reset_avrcp_cover_art_bit cfg env attr a addr = (a, false) := by
  rcases reset_cover_art_cases cfg env attr a addr with c | ⟨i, _⟩
  · exact c
  · exact absurd i h

/-- The restore blocks of the handler, applied to one attribute with the four
flags the rewrite calls returned. -/
theorem restore_bits_back (a : tSDP_ATTRIBUTE) (hbytes : ∀ b ∈ a.value_ptr, b < 256)
    (hfeat : a.rdv AVRCP_SUPPORTED_FEATURES_POSITION &&& AVRCP_BROWSE_SUPPORT_BITMASK =
        AVRCP_BROWSE_SUPPORT_BITMASK ∧
      a.rdv (AVRCP_SUPPORTED_FEATURES_POSITION - 1) &&& AVRCP_CA_SUPPORT_BITMASK =
        AVRCP_CA_SUPPORT_BITMASK) :
    ∃ len b0 b1 rest id type, a = ⟨len, b0 :: b1 :: rest, id, type⟩ ∧
      (b1 &&& (255 - 0x40)) ||| 0x40 = b1 ∧ (b0 &&& (255 - 0x01)) ||| 0x01 = b0 := by
  obtain ⟨len, vp, id, type⟩ := a
  simp only [tSDP_ATTRIBUTE.rdv, AVRCP_SUPPORTED_FEATURES_POSITION, AVRCP_BROWSE_SUPPORT_BITMASK,
    AVRCP_CA_SUPPORT_BITMASK] at hfeat
  rcases vp with _ | ⟨b0, _ | ⟨b1, rest⟩⟩
  · exact absurd hfeat.1 (by simp)
  · exact absurd hfeat.1 (by simp)
  · refine ⟨len, b0, b1, rest, id, type, rfl, ?_, ?_⟩
    · exact browse_bit_back b1 (hbytes b1 (by simp)) hfeat.1
    · exact cover_art_bit_back b0 (hbytes b0 (by simp)) hfeat.2

/-- The four rewrite calls on one attribute, followed by the restore blocks
selected by the returned flags, give the attribute back. -/
theorem attr_round_trip (cfg : Config) (env : Env) (addr : BD_ADDR)
    (x2 x3 a : tSDP_ATTRIBUTE)
    (hrev : cfg.AVRC_REV_1_6 = 0x0106)
    (hids : cfg.ATTR_ID_BT_PROFILE_DESC_LIST ≠ cfg.ATTR_ID_SUPPORTED_FEATURES)
    (hbytes : ∀ b ∈ a.value_ptr, b < 256)
    (hver : a.id = cfg.ATTR_ID_BT_PROFILE_DESC_LIST → a.rdv PROFILE_VERSION_POSITION = 0x06)
    (hfeat : a.id = cfg.ATTR_ID_SUPPORTED_FEATURES →
      a.rdv AVRCP_SUPPORTED_FEATURES_POSITION &&& AVRCP_BROWSE_SUPPORT_BITMASK =
          AVRCP_BROWSE_SUPPORT_BITMASK ∧
        a.rdv (AVRCP_SUPPORTED_FEATURES_POSITION - 1) &&& AVRCP_CA_SUPPORT_BITMASK =
          AVRCP_CA_SUPPORT_BITMASK)
    (r1 r2 r3 r4 : tSDP_ATTRIBUTE × Bool) (b1 b2 b3 b4 : tSDP_ATTRIBUTE)
    (h1 : r1 = sdp_fallback_avrcp_version cfg env a addr)
    (h2 : r2 = sdp_reset_avrcp_browsing_bit cfg env x2 r1.1 addr)
    (h3 : r3 = sdp_reset_avrcp_cover_art_bit cfg env x3 r2.1 addr)
    (h4 : r4 = sdp_change_hfp_version cfg env r3.1 addr)
    (e1 : b1 = if r1.2 then r4.1.setv PROFILE_VERSION_POSITION 0x06 else r4.1)
    (e2 : b2 = if r2.2 then b1.setv AVRCP_SUPPORTED_FEATURES_POSITION
        (b1.rdv AVRCP_SUPPORTED_FEATURES_POSITION ||| AVRCP_BROWSE_SUPPORT_BITMASK) else b1)
    (e3 : b3 = if r4.2 then b2.setv PROFILE_VERSION_POSITION 0x06 else b2)
    (e4 : b4 = if r3.2 then b3.setv (AVRCP_SUPPORTED_FEATURES_POSITION - 1)
        (b3.rdv (AVRCP_SUPPORTED_FEATURES_POSITION - 1) ||| AVRCP_CA_SUPPORT_BITMASK) else b3) :
    b4 = a := by
  by_cases hPD : a.id = cfg.ATTR_ID_BT_PROFILE_DESC_LIST
  · have hSF : a.id ≠ cfg.ATTR_ID_SUPPORTED_FEATURES := fun h => hids (hPD.symm.trans h)
    have h7 : a.setv PROFILE_VERSION_POSITION 0x06 = a := setv_rdv a _ _ (hver hPD)
    have hr1 : r1.1.id = a.id ∧ r1.1.setv PROFILE_VERSION_POSITION 0x06 = a := by
      rcases fallback_avrcp_cases cfg env a addr with c | ⟨_, v, c⟩ | ⟨_, c⟩
      · rw [h1, c]
        exact ⟨rfl, h7⟩
      · rw [h1, c]
        exact ⟨rfl, by simp only [setv_setv, h7]⟩
      · rw [h1, c]
        exact ⟨rfl, by simp only [setv_setv, h7]⟩
    have hr1f : r1.2 = false → r1.1 = a := by
      rcases fallback_avrcp_cases cfg env a addr with c | ⟨_, v, c⟩ | ⟨_, c⟩
      · rw [h1, c]
        exact fun _ => rfl
      · rw [h1, c]
        intro h
        cases h
      · rw [h1, c, hrev]
        intro _
        exact h7
    have hr2 : r2 = (r1.1, false) :=
      h2.trans (reset_browsing_other cfg env x2 r1.1 addr (by rw [hr1.1]; exact hSF))
    have hr3 : r3 = (r1.1, false) := by
      rw [h3, hr2]
      exact reset_cover_art_other cfg env x3 r1.1 addr (by rw [hr1.1]; exact hSF)
    rw [hr3] at h4
    rw [hr2] at e2
    rw [hr3] at e4
    simp only [Bool.false_eq_true, if_false] at e2 e4
    rw [e4, e3, e2, e1]
    rcases change_hfp_cases cfg env r1.1 addr with c | ⟨_, c⟩
    · rw [h4, c]
      simp only [Bool.false_eq_true, if_false]
      cases hb : r1.2
      · simp only [Bool.false_eq_true, if_false]
        exact hr1f hb
      · simp only [if_true]
        exact hr1.2
    · rw [h4, c]
      simp only [if_true]
      split <;> simp only [setv_setv] <;> exact hr1.2
  · have hr1 : r1 = (a, false) := h1.trans (fallback_avrcp_other cfg env a addr hPD)
    rw [hr1] at h2
    by_cases hSF : a.id = cfg.ATTR_ID_SUPPORTED_FEATURES
    · have hr4 : r4 = (r3.1, false) := by
        rw [h4]
        refine change_hfp_other cfg env r3.1 addr ?_
        rcases reset_cover_art_cases cfg env x3 r2.1 addr with c | ⟨_, c⟩ <;>
          rcases reset_browsing_cases cfg env x2 (a, false).1 addr with d | ⟨_, d⟩ <;>
          · rw [h3, c, h2, d]
            exact hPD
      obtain ⟨len, b0, c1, rest, id, type, rfl, k1, k0⟩ := restore_bits_back a hbytes (hfeat hSF)
      rw [hr4] at e1 e3
      rw [hr1] at e1
      simp only [Bool.false_eq_true, if_false] at e1 e3
      rw [e4, e3, e2, e1, h3, h2]
      rcases reset_browsing_cases cfg env x2
          (⟨len, b0 :: c1 :: rest, id, type⟩, false).1 addr with d | ⟨_, d⟩
      · rw [d]
        rcases reset_cover_art_cases cfg env x3
            (⟨len, b0 :: c1 :: rest, id, type⟩, false).1 addr with c | ⟨_, c⟩
        · rw [c]
          simp only [Bool.false_eq_true, if_false]
        · rw [c]
          simp only [Bool.false_eq_true, if_false, if_true, tSDP_ATTRIBUTE.setv,
            tSDP_ATTRIBUTE.rdv, AVRCP_SUPPORTED_FEATURES_POSITION, AVRCP_CA_SUPPORT_BITMASK,
            List.set_cons_zero, List.getD_cons_zero, Nat.sub_self, k0]
      · rw [d]
        rcases reset_cover_art_cases cfg env x3
            (tSDP_ATTRIBUTE.setv ⟨len, b0 :: c1 :: rest, id, type⟩
              AVRCP_SUPPORTED_FEATURES_POSITION
              (tSDP_ATTRIBUTE.rdv ⟨len, b0 :: c1 :: rest, id, type⟩
                AVRCP_SUPPORTED_FEATURES_POSITION &&& (255 - AVRCP_BROWSE_SUPPORT_BITMASK)),
              true).1 addr with c | ⟨_, c⟩
        · rw [c]
          simp only [Bool.false_eq_true, if_false, if_true, tSDP_ATTRIBUTE.setv,
            tSDP_ATTRIBUTE.rdv, AVRCP_SUPPORTED_FEATURES_POSITION, AVRCP_BROWSE_SUPPORT_BITMASK,
            List.set_cons_zero, List.set_cons_succ, List.getD_cons_zero, List.getD_cons_succ,
            k1]
        · rw [c]
          simp only [Bool.false_eq_true, if_false, if_true, tSDP_ATTRIBUTE.setv,
            tSDP_ATTRIBUTE.rdv, AVRCP_SUPPORTED_FEATURES_POSITION, AVRCP_BROWSE_SUPPORT_BITMASK,
            AVRCP_CA_SUPPORT_BITMASK, Nat.sub_self,
            List.set_cons_zero, List.set_cons_succ, List.getD_cons_zero, List.getD_cons_succ,
            k1, k0]
    · have hr2 : r2 = (a, false) := h2.trans (reset_browsing_other cfg env x2 a addr hSF)
      have hr3 : r3 = (a, false) := by
        rw [h3, hr2]
        exact reset_cover_art_other cfg env x3 a addr hSF
      have hr4 : r4 = (a, false) := by
        rw [h4, hr3]
        exact change_hfp_other cfg env a addr hPD
      rw [e4, e3, e2, e1, hr1, hr2, hr3, hr4]
      simp only [Bool.false_eq_true, if_false]
theorem modify_set_slot (l : List tSDP_ATTRIBUTE) (j : Nat) (c : tSDP_ATTRIBUTE)
    (f : tSDP_ATTRIBUTE → tSDP_ATTRIBUTE) (hj : j < l.length) :
    (l.set j c).modify f j = l.set j (f c) := by
  induction l generalizing j with
  | nil => exact absurd hj (by simp)
  | cons a as ih =>
    cases j with
    | zero => rfl
    | succ j =>
      simp only [List.set_cons_succ, List.modify_succ_cons, List.cons.injEq, true_and]
      exact ih j (by simpa using hj)

theorem modify_beyond (l : List tSDP_ATTRIBUTE) (j : Nat)
    (f : tSDP_ATTRIBUTE → tSDP_ATTRIBUTE) (hj : l.length ≤ j) : l.modify f j = l := by
  induction l generalizing j with
  | nil => cases j <;> rfl
  | cons a as ih =>
    cases j with
    | zero => exact absurd hj (by simp)
    | succ j =>
      simp only [List.modify_succ_cons, List.cons.injEq, true_and]
      exact ih j (by simpa using hj)

theorem set_attr_self (l : List tSDP_ATTRIBUTE) (j : Nat) :
    l.set j (l.getD j tSDP_ATTRIBUTE.zero) = l := by
  induction l generalizing j with
  | nil => rfl
  | cons a as ih =>
    cases j with
    | zero => rfl
    | succ j => simp only [List.getD_cons_succ, List.set_cons_succ, ih j]

theorem getD_set_slot (l : List tSDP_ATTRIBUTE) (j : Nat) (c : tSDP_ATTRIBUTE)
    (hj : j < l.length) : (l.set j c).getD j tSDP_ATTRIBUTE.zero = c := by
  induction l generalizing j with
  | nil => exact absurd hj (by simp)
  | cons a as ih =>
    cases j with
    | zero => rfl
    | succ j =>
      simp only [List.set_cons_succ, List.getD_cons_succ]
      exact ih j (by simpa using hj)

/-- One write through `p_attr` into a record whose attribute `j` is `c`. -/
theorem update_attr_slot (w : Walk) (f : tSDP_ATTRIBUTE → tSDP_ATTRIBUTE) (j h : Nat)
    (l : List tSDP_ATTRIBUTE) (c : tSDP_ATTRIBUTE) (hj : j < l.length)
    (hp : w.p_attr = some j) (hr : w.p_rec = ⟨h, l.set j c⟩) :
    (w.update_attr f).p_rec = ⟨h, l.set j (f c)⟩ ∧ (w.update_attr f).p_attr = some j ∧
      (w.update_attr f).is_avrcp_fallback = w.is_avrcp_fallback ∧
      (w.update_attr f).is_avrcp_browse_bit_reset = w.is_avrcp_browse_bit_reset ∧
      (w.update_attr f).is_hfp_fallback = w.is_hfp_fallback ∧
      (w.update_attr f).is_avrcp_ca_bit_reset = w.is_avrcp_ca_bit_reset := by
  unfold Walk.update_attr
  rw [hp]
  dsimp only
  rw [hr]
  dsimp only
  rw [modify_set_slot l j c f hj]
  exact ⟨rfl, rfl, rfl, rfl, rfl, rfl⟩

theorem update_attr_beyond (w : Walk) (f : tSDP_ATTRIBUTE → tSDP_ATTRIBUTE) (j : Nat)
    (hj : w.p_rec.attributes.length ≤ j) (hp : w.p_attr = some j) :
    w.update_attr f = w := by
  obtain ⟨xx, aseq, prsp, ci, prec, pattr, f1, f2, f3, f4, mo⟩ := w
  dsimp only at hp hj
  subst hp
  simp only [Walk.update_attr, modify_beyond _ j f hj]

/-- The restore blocks on a walk whose `p_attr` is attribute `j` with value `c`. -/
theorem restore_attr_slot (w : Walk) (j h : Nat) (l : List tSDP_ATTRIBUTE)
    (c b1 b2 b3 b4 : tSDP_ATTRIBUTE) (hj : j < l.length)
    (hp : w.p_attr = some j) (hr : w.p_rec = ⟨h, l.set j c⟩)
    (e1 : b1 = if w.is_avrcp_fallback then c.setv PROFILE_VERSION_POSITION 0x06 else c)
    (e2 : b2 = if w.is_avrcp_browse_bit_reset then b1.setv AVRCP_SUPPORTED_FEATURES_POSITION
        (b1.rdv AVRCP_SUPPORTED_FEATURES_POSITION ||| AVRCP_BROWSE_SUPPORT_BITMASK) else b1)
    (e3 : b3 = if w.is_hfp_fallback then b2.setv PROFILE_VERSION_POSITION 0x06 else b2)
    (e4 : b4 = if w.is_avrcp_ca_bit_reset then b3.setv (AVRCP_SUPPORTED_FEATURES_POSITION - 1)
        (b3.rdv (AVRCP_SUPPORTED_FEATURES_POSITION - 1) ||| AVRCP_CA_SUPPORT_BITMASK) else b3) :
    (restore_attr w).p_rec = ⟨h, l.set j b4⟩ := by
  obtain ⟨xx, aseq, prsp, ci, prec, pattr, f1, f2, f3, f4, mo⟩ := w
  dsimp only at hp hr e1 e2 e3 e4
  subst hp hr e4 e3 e2 e1
  cases f1 <;> cases f2 <;> cases f3 <;> cases f4 <;>
    simp only [restore_attr, Walk.update_attr, modify_set_slot _ _ _ _ hj, Bool.false_eq_true,
      if_false, if_true]

/-- After the restore blocks all four flags are FALSE. -/
theorem restore_attr_flags (w : Walk) :
    (restore_attr w).is_avrcp_fallback = false ∧
      (restore_attr w).is_avrcp_browse_bit_reset = false ∧
      (restore_attr w).is_hfp_fallback = false ∧
      (restore_attr w).is_avrcp_ca_bit_reset = false := by
  obtain ⟨xx, aseq, prsp, ci, prec, pattr, f1, f2, f3, f4, mo⟩ := w
  cases pattr <;> cases f1 <;> cases f2 <;> cases f3 <;> cases f4 <;>
    exact ⟨rfl, rfl, rfl, rfl⟩

theorem restore_attr_beyond (w : Walk) (j : Nat)
    (hj : w.p_rec.attributes.length ≤ j) (hp : w.p_attr = some j) :
    (restore_attr w).p_rec = w.p_rec := by
  obtain ⟨xx, aseq, prsp, ci, prec, pattr, f1, f2, f3, f4, mo⟩ := w
  dsimp only at hp hj
  subst hp
  cases f1 <;> cases f2 <;> cases f3 <;> cases f4 <;>
    simp only [restore_attr, Walk.update_attr, modify_beyond _ _ _ hj, Bool.false_eq_true,
      if_false, if_true]

theorem apply_rewrites_beyond (cfg : Config) (env : Env) (addr : BD_ADDR) (w : Walk) (j : Nat)
    (hj : w.p_rec.attributes.length ≤ j) :
    (apply_rewrites cfg env addr w j).p_rec = w.p_rec ∧
      (apply_rewrites cfg env addr w j).p_attr = some j := by
  simp only [apply_rewrites, Walk.update_attr, modify_beyond _ _ _ hj, and_self]

theorem modify_const (l : List tSDP_ATTRIBUTE) (j : Nat) (c : tSDP_ATTRIBUTE) :
    l.modify (fun _ => c) j = l.set j c := by
  induction l generalizing j with
  | nil => cases j <;> rfl
  | cons a as ih =>
    cases j with
    | zero => rfl
    | succ j => simp only [List.modify_succ_cons, List.set_cons_succ, ih j]

/-- The four rewrite calls on attribute `j` of the record, in the order of the
loop body, with the attribute they leave and the flags they return. -/
theorem apply_rewrites_slot (cfg : Config) (env : Env) (addr : BD_ADDR) (w : Walk) (j : Nat)
    (hj : j < w.p_rec.attributes.length) :
    ∃ (x2 x3 : tSDP_ATTRIBUTE) (r1 r2 r3 r4 : tSDP_ATTRIBUTE × Bool),
      r1 = sdp_fallback_avrcp_version cfg env (w.p_rec.attr j) addr ∧
      r2 = sdp_reset_avrcp_browsing_bit cfg env x2 r1.1 addr ∧
      r3 = sdp_reset_avrcp_cover_art_bit cfg env x3 r2.1 addr ∧
      r4 = sdp_change_hfp_version cfg env r3.1 addr ∧
      (apply_rewrites cfg env addr w j).p_rec =
        ⟨w.p_rec.record_handle, w.p_rec.attributes.set j r4.1⟩ ∧
      (apply_rewrites cfg env addr w j).p_attr = some j ∧
      (apply_rewrites cfg env addr w j).is_avrcp_fallback = r1.2 ∧
      (apply_rewrites cfg env addr w j).is_avrcp_browse_bit_reset = r2.2 ∧
      (apply_rewrites cfg env addr w j).is_avrcp_ca_bit_reset = r3.2 ∧
      (apply_rewrites cfg env addr w j).is_hfp_fallback = r4.2 := by
  obtain ⟨xx, aseq, prsp, ci, ⟨h, l⟩, pattr, f1, f2, f3, f4, mo⟩ := w
  dsimp only at hj
  refine ⟨(l.set j (sdp_fallback_avrcp_version cfg env (l.getD j tSDP_ATTRIBUTE.zero)
      addr).1).getD 1 tSDP_ATTRIBUTE.zero,
    (l.set j (sdp_reset_avrcp_browsing_bit cfg env
      ((l.set j (sdp_fallback_avrcp_version cfg env (l.getD j tSDP_ATTRIBUTE.zero)
        addr).1).getD 1 tSDP_ATTRIBUTE.zero)
      (sdp_fallback_avrcp_version cfg env (l.getD j tSDP_ATTRIBUTE.zero) addr).1
      addr).1).getD 1 tSDP_ATTRIBUTE.zero,
    _, _, _, _, rfl, rfl, rfl, rfl, ?_⟩
  simp only [apply_rewrites, Walk.update_attr, tSDP_RECORD.attr, modify_const, List.set_set,
    getD_set_slot _ _ _ hj, and_self]

/-- C38: for an attribute of the record that, if it is a profile descriptor
list, has the version byte 0x06 at position 7 and, if it is a supported
features attribute, has the browsing bit 0x40 of byte 1 and the cover-art bit
0x01 of byte 0 set, the four rewrite calls at the head of the loop body
followed by the restore blocks the returned flags select leave the record as
it was before, for every peer, every stored peer version and every
environment, and all four flags are FALSE afterwards (AVRCP 1.6 build:
`AVRC_REV_1_6` is 0x0106 and the restore writes 0x06). -/
theorem C38_rewrites_restored (cfg : Config) (env : Env) (addr : BD_ADDR) (w : Walk) (j : Nat)
    (hrev : cfg.AVRC_REV_1_6 = 0x0106)
    (hids : cfg.ATTR_ID_BT_PROFILE_DESC_LIST ≠ cfg.ATTR_ID_SUPPORTED_FEATURES)
    (hbytes : ∀ b ∈ (w.p_rec.attr j).value_ptr, b < 256)
    (hver : (w.p_rec.attr j).id = cfg.ATTR_ID_BT_PROFILE_DESC_LIST →
      (w.p_rec.attr j).rdv PROFILE_VERSION_POSITION = 0x06)
    (hfeat : (w.p_rec.attr j).id = cfg.ATTR_ID_SUPPORTED_FEATURES →
      (w.p_rec.attr j).rdv AVRCP_SUPPORTED_FEATURES_POSITION &&& AVRCP_BROWSE_SUPPORT_BITMASK =
          AVRCP_BROWSE_SUPPORT_BITMASK ∧
        (w.p_rec.attr j).rdv (AVRCP_SUPPORTED_FEATURES_POSITION - 1) &&&
            AVRCP_CA_SUPPORT_BITMASK = AVRCP_CA_SUPPORT_BITMASK) :
    (restore_attr (apply_rewrites cfg env addr w j)).p_rec = w.p_rec ∧
      (restore_attr (apply_rewrites cfg env addr w j)).is_avrcp_fallback = false ∧
      (restore_attr (apply_rewrites cfg env addr w j)).is_avrcp_browse_bit_reset = false ∧
      (restore_attr (apply_rewrites cfg env addr w j)).is_hfp_fallback = false ∧
      (restore_attr (apply_rewrites cfg env addr w j)).is_avrcp_ca_bit_reset = false := by
  refine ⟨?_, restore_attr_flags _⟩
  by_cases hj : j < w.p_rec.attributes.length
  · obtain ⟨x2, x3, r1, r2, r3, r4, h1, h2, h3, h4, hp, ha, f1, f2, f3, f4⟩ :=
      apply_rewrites_slot cfg env addr w j hj
    rw [restore_attr_slot _ j _ _ r4.1 _ _ _ _ hj ha hp rfl rfl rfl rfl, f1, f2, f3, f4,
      attr_round_trip cfg env addr x2 x3 (w.p_rec.attr j) hrev hids hbytes hver hfeat
        r1 r2 r3 r4 _ _ _ _ h1 h2 h3 h4 rfl rfl rfl rfl,
      tSDP_RECORD.attr, set_attr_self]
  · have hb := apply_rewrites_beyond cfg env addr w j (Nat.le_of_not_lt hj)
    rw [restore_attr_beyond _ j (by rw [hb.1]; exact Nat.le_of_not_lt hj) hb.2, hb.1]

set_option maxRecDepth 1000000 in
/-- C38 at `rec_avrcp` and at `rec_avrcp_target` for a blacklisted peer: the
rewrite calls change the version byte to 0x03 and clear both feature bits, the
restore blocks give the records back. -/
theorem C38_rewrites_restored_witness :
    (bt_config.AVRC_REV_1_6 = 0x0106 ∧
      bt_config.ATTR_ID_BT_PROFILE_DESC_LIST ≠ bt_config.ATTR_ID_SUPPORTED_FEATURES ∧
      (∀ b ∈ ((walk_on rec_avrcp peer_blacklisted).p_rec.attr 2).value_ptr, b < 256) ∧
      ((walk_on rec_avrcp peer_blacklisted).p_rec.attr 2).id =
        bt_config.ATTR_ID_BT_PROFILE_DESC_LIST ∧
      ((walk_on rec_avrcp peer_blacklisted).p_rec.attr 2).rdv PROFILE_VERSION_POSITION = 0x06 ∧
      ((apply_rewrites bt_config bt_env peer_blacklisted
        (walk_on rec_avrcp peer_blacklisted) 2).p_rec.attr 2).rdv PROFILE_VERSION_POSITION
          = 0x03 ∧
      ((restore_attr (apply_rewrites bt_config bt_env peer_blacklisted
          (walk_on rec_avrcp peer_blacklisted) 2)).p_rec =
          (walk_on rec_avrcp peer_blacklisted).p_rec ∧
        (restore_attr (apply_rewrites bt_config bt_env peer_blacklisted
          (walk_on rec_avrcp peer_blacklisted) 2)).is_avrcp_fallback = false ∧
        (restore_attr (apply_rewrites bt_config bt_env peer_blacklisted
          (walk_on rec_avrcp peer_blacklisted) 2)).is_avrcp_browse_bit_reset = false ∧
        (restore_attr (apply_rewrites bt_config bt_env peer_blacklisted
          (walk_on rec_avrcp peer_blacklisted) 2)).is_hfp_fallback = false ∧
        (restore_attr (apply_rewrites bt_config bt_env peer_blacklisted
          (walk_on rec_avrcp peer_blacklisted) 2)).is_avrcp_ca_bit_reset = false)) ∧
    ((∀ b ∈ ((walk_on rec_avrcp_target peer_blacklisted).p_rec.attr 2).value_ptr, b < 256) ∧
      ((walk_on rec_avrcp_target peer_blacklisted).p_rec.attr 2).id =
        bt_config.ATTR_ID_SUPPORTED_FEATURES ∧
      ((walk_on rec_avrcp_target peer_blacklisted).p_rec.attr 2).value_ptr = [0x01, 0x41] ∧
      ((apply_rewrites bt_config bt_env peer_blacklisted
        (walk_on rec_avrcp_target peer_blacklisted) 2).p_rec.attr 2).value_ptr = [0x00, 0x01] ∧
      ((restore_attr (apply_rewrites bt_config bt_env peer_blacklisted
          (walk_on rec_avrcp_target peer_blacklisted) 2)).p_rec =
          (walk_on rec_avrcp_target peer_blacklisted).p_rec ∧
        (restore_attr (apply_rewrites bt_config bt_env peer_blacklisted
          (walk_on rec_avrcp_target peer_blacklisted) 2)).is_avrcp_fallback = false ∧
        (restore_attr (apply_rewrites bt_config bt_env peer_blacklisted
          (walk_on rec_avrcp_target peer_blacklisted) 2)).is_avrcp_browse_bit_reset = false ∧
        (restore_attr (apply_rewrites bt_config bt_env peer_blacklisted
          (walk_on rec_avrcp_target peer_blacklisted) 2)).is_hfp_fallback = false ∧
        (restore_attr (apply_rewrites bt_config bt_env peer_blacklisted
          (walk_on rec_avrcp_target peer_blacklisted) 2)).is_avrcp_ca_bit_reset = false)) :=
  ⟨⟨by decide, by decide, by decide!, by decide!, by decide!, by decide!,
      C38_rewrites_restored bt_config bt_env peer_blacklisted
        (walk_on rec_avrcp peer_blacklisted) 2 (by decide) (by decide) (by decide!)
        (fun _ => by decide!) (fun h => absurd h (by decide!))⟩,
    ⟨by decide!, by decide!, by decide!, by decide!,
      C38_rewrites_restored bt_config bt_env peer_blacklisted
        (walk_on rec_avrcp_target peer_blacklisted) 2 (by decide) (by decide) (by decide!)
        (fun h => absurd h (by decide!)) (fun _ => by decide!)⟩⟩

end SdpServer
